import Mathlib

/-!
# Anisotropic metric recovery in `CTurbSASolver`

A shallow embedding of the four routines of `SU2_CFD/src/solvers/CTurbSASolver.cpp`
that recover nodal gradients and Hessians of the convective and viscous sensors

* `CTurbSASolver::SetTurbGradient_L2Proj2` / `SetTurbGradient_L2Proj3`
* `CTurbSASolver::SetHessian_L2Proj2` / `SetHessian_L2Proj3`

The type `su2double` is embedded as an arbitrary linearly ordered field `K`
(exact arithmetic); every statement therefore holds over the reals, and the
definitions can be evaluated over the rationals.  C++ arrays indexed by a loop
variable become functions on `Fin n`; the per-vertex accumulator arrays of the
node container become functions `Nat → Nat → K` (vertex index, slot index).

The comparison `> 0.` of the orientation check is the one place where rounding can
change the control flow.  For it the embedding also has the geometry step with the
outcomes of the comparisons as a parameter (`orientedNormalsWith2`,
`orientedNormalsWith3`), the element steps for arbitrary stored normals (`gradElemN2`,
`gradElemN3`, `hessElemN2`, `hessElemN3`), and the 2D geometry and gradient element step
with every operation rounded (`orientedNormalsRnd2`, `gradElemRnd2`), evaluated in
binary64 with `fl64`.
-/

namespace SU2

/-! ## Data model -/

/-- The part of `CGeometry` read by the sweeps: `GetnPoint`, `GetnPointDomain`,
`node[k]->GetCoord(iDim)`, `node[k]->GetVolume()`, and the element list with
`elem[iElem]->GetNode(iNode)`. -/
structure CGeometry (K : Type) (nDim nNode : Nat) where
  nPoint : Nat
  nPointDomain : Nat
  GetCoord : Nat → Fin nDim → K
  GetVolume : Nat → K
  elem : List (Fin nNode → Nat)

/-- The part of the flow solver's node container read by the sensor evaluation:
`GetDensity(k)`, `GetVelocity(k, iDim)`, `GetLaminarViscosity(k)`. -/
structure CFlowVariable (K : Type) (nDim : Nat) where
  GetDensity : Nat → K
  GetVelocity : Nat → Fin nDim → K
  GetLaminarViscosity : Nat → K

/-- The node container `nodes` of the turbulence solver: `GetSolution(k, 0)`,
`GetGradient(k, 0, iDim)` and the four anisotropic accumulator arrays. -/
structure CTurbSAVariable (K : Type) (nDim : Nat) where
  GetSolution : Nat → K
  GetGradient : Nat → Fin nDim → K
  AnisoGrad : Nat → Nat → K
  AnisoViscGrad : Nat → Nat → K
  AnisoHess : Nat → Nat → K
  AnisoViscHess : Nat → Nat → K

section Accessors

variable {K : Type} [Add K] {nDim : Nat}

/-- Modelled from the spec: the accessor bodies `AddAniso*` / `SetAniso*` of the
node container are declared outside the two source files; an `Add` accessor
adds `v` to slot `i` of vertex `k` of the running accumulator (spec 4.2,
"add ... to that vertex's running gradient accumulator"). -/
def addAt (f : Nat → Nat → K) (k i : Nat) (v : K) : Nat → Nat → K :=
  fun k' i' => if k' = k ∧ i' = i then f k' i' + v else f k' i'

/-- Modelled from the spec: a `Set` accessor overwrites slot `i` of vertex `k`. -/
def setAt (f : Nat → Nat → K) (k i : Nat) (v : K) : Nat → Nat → K :=
  fun k' i' => if k' = k ∧ i' = i then v else f k' i'

/-- `nodes->AddAnisoGrad(kNode, i, v)`. -/
def CTurbSAVariable.AddAnisoGrad (nodes : CTurbSAVariable K nDim) (k i : Nat) (v : K) :
    CTurbSAVariable K nDim :=
  { nodes with AnisoGrad := addAt nodes.AnisoGrad k i v }

/-- `nodes->AddAnisoViscGrad(kNode, i, v)`. -/
def CTurbSAVariable.AddAnisoViscGrad (nodes : CTurbSAVariable K nDim) (k i : Nat) (v : K) :
    CTurbSAVariable K nDim :=
  { nodes with AnisoViscGrad := addAt nodes.AnisoViscGrad k i v }

/-- `nodes->AddAnisoHess(kNode, i, v)`. -/
def CTurbSAVariable.AddAnisoHess (nodes : CTurbSAVariable K nDim) (k i : Nat) (v : K) :
    CTurbSAVariable K nDim :=
  { nodes with AnisoHess := addAt nodes.AnisoHess k i v }

/-- `nodes->AddAnisoViscHess(kNode, i, v)`. -/
def CTurbSAVariable.AddAnisoViscHess (nodes : CTurbSAVariable K nDim) (k i : Nat) (v : K) :
    CTurbSAVariable K nDim :=
  { nodes with AnisoViscHess := addAt nodes.AnisoViscHess k i v }

/-- `nodes->SetAnisoHess(iPoint, i, v)`. -/
def CTurbSAVariable.SetAnisoHess (nodes : CTurbSAVariable K nDim) (k i : Nat) (v : K) :
    CTurbSAVariable K nDim :=
  { nodes with AnisoHess := setAt nodes.AnisoHess k i v }

/-- `nodes->SetAnisoViscHess(iPoint, i, v)`. -/
def CTurbSAVariable.SetAnisoViscHess (nodes : CTurbSAVariable K nDim) (k i : Nat) (v : K) :
    CTurbSAVariable K nDim :=
  { nodes with AnisoViscHess := setAt nodes.AnisoViscHess k i v }

end Accessors

section Defs

variable {K : Type} [LinearOrderedField K]

/-! ## Sensors (lines 2380-2396 and 2669-2688) -/

/-- `Sens[iNode][0][iFlux] = density*velocity[iFlux]*nu_tilde` at vertex `kNode`. -/
def Sens {nDim : Nat} (solver_flow : CFlowVariable K nDim) (nodes : CTurbSAVariable K nDim)
    (kNode : Nat) (iFlux : Fin nDim) : K :=
  solver_flow.GetDensity kNode * solver_flow.GetVelocity kNode iFlux * nodes.GetSolution kNode

/-- `SensVisc[iNode][0][iFlux] = 1.5*(laminar_viscosity+density*nu_tilde)*dnu_tilde[iFlux]`
at vertex `kNode` (the literal `1.5` is the field element `3/2`). -/
def SensVisc {nDim : Nat} (solver_flow : CFlowVariable K nDim) (nodes : CTurbSAVariable K nDim)
    (kNode : Nat) (iFlux : Fin nDim) : K :=
  (3 / 2) * (solver_flow.GetLaminarViscosity kNode
      + solver_flow.GetDensity kNode * nodes.GetSolution kNode) * nodes.GetGradient kNode iFlux

/-! ## 2D geometry step (lines 2398-2425, repeated at 2506-2533) -/

/-- Edge normals of a triangle: the arrays `vnx[3]`, `vny[3]`. -/
structure Normals2 (K : Type) where
  vnx : Fin 3 → K
  vny : Fin 3 → K

/-- The raw edge normals, `edg[0]=P1P2, edg[1]=P2P0, edg[2]=P0P1`. -/
def rawNormals2 (Crd : Fin 3 → Fin 2 → K) : Normals2 K where
  vnx := ![Crd 1 1 - Crd 2 1, Crd 2 1 - Crd 0 1, Crd 0 1 - Crd 1 1]
  vny := ![Crd 2 0 - Crd 1 0, Crd 0 0 - Crd 2 0, Crd 1 0 - Crd 0 0]

/-- The accumulation loop over `jNode` that builds `CrdAvg` for vertex `iNode`,
followed by `CrdAvg[d] /= 2.`. -/
def CrdAvg2 (Crd : Fin 3 → Fin 2 → K) (iNode : Fin 3) : Fin 2 → K :=
  let s := ([0, 1, 2] : List (Fin 3)).foldl
    (fun (acc : Fin 2 → K) jNode =>
      if iNode ≠ jNode then ![acc 0 + Crd jNode 0, acc 1 + Crd jNode 1] else acc)
    ![0, 0]
  ![s 0 / 2, s 1 / 2]

/-- One iteration of the "check if inward normal" loop for vertex `iNode`.  The comparison
`> 0.` is decided over the exact ordered field `K`; `checkInwardWith2` takes its outcome as a
parameter and `checkInwardRnd2` evaluates it in rounded arithmetic. -/
def checkInward2 (Crd : Fin 3 → Fin 2 → K) (vn : Normals2 K) (iNode : Fin 3) : Normals2 K :=
  let CrdAvg := CrdAvg2 Crd iNode
  let u : Fin 2 → K := ![CrdAvg 0 - Crd iNode 0, CrdAvg 1 - Crd iNode 1]
  if vn.vnx iNode * u 0 + vn.vny iNode * u 1 > 0 then
    { vnx := Function.update vn.vnx iNode (vn.vnx iNode * (-1))
      vny := Function.update vn.vny iNode (vn.vny iNode * (-1)) }
  else vn

/-- The geometry step of the 2D sweeps: raw normals, then the orientation loop. -/
def orientedNormals2 (Crd : Fin 3 → Fin 2 → K) : Normals2 K :=
  ([0, 1, 2] : List (Fin 3)).foldl (checkInward2 Crd) (rawNormals2 Crd)

/-- `Crd[iNode][iDim] = geometry->node[kNode]->GetCoord(iDim)` for an element. -/
def elemCrd {nDim nNode : Nat} (geometry : CGeometry K nDim nNode) (GetNode : Fin nNode → Nat) :
    Fin nNode → Fin nDim → K :=
  fun iNode iDim => geometry.GetCoord (GetNode iNode) iDim

/-! ## 2D gradient sweep (lines 2373-2454) -/

/-- The raw element gradient `graTri` for nodal values `S` (lines 2436-2437). -/
def graTri (vn : Normals2 K) (S : Fin 3 → K) : Fin 2 → K :=
  ![S 0 * vn.vnx 0 + S 1 * vn.vnx 1 + S 2 * vn.vnx 2,
    S 0 * vn.vny 0 + S 1 * vn.vny 1 + S 2 * vn.vny 2]

/-- The "assembling" loop over the three element vertices (lines 2443-2451). -/
def assembleGrad2 (geometry : CGeometry K 2 3) (GetNode : Fin 3 → Nat) (i : Nat)
    (gra graVisc : Fin 2 → K) (nodes : CTurbSAVariable K 2) : CTurbSAVariable K 2 :=
  ([0, 1, 2] : List (Fin 3)).foldl
    (fun nodes iNode =>
      let kNode := GetNode iNode
      let Area := geometry.GetVolume kNode
      let rap := 1 / (Area * 6)
      let nodes := nodes.AddAnisoGrad kNode (i + 0) (gra 0 * rap)
      let nodes := nodes.AddAnisoGrad kNode (i + 1) (gra 1 * rap)
      let nodes := nodes.AddAnisoViscGrad kNode (i + 0) (graVisc 0 * rap)
      nodes.AddAnisoViscGrad kNode (i + 1) (graVisc 1 * rap))
    nodes

/-- The body of the element loop of `SetTurbGradient_L2Proj2` for one element:
sensors, geometry, then for `iVar = 0` (`nVarMetr = 1`) and every `iFlux < 2`
the element gradients and the assembly, with `i = iFlux*nVarMetr*nDim + iVar*nDim`. -/
def gradElem2 (geometry : CGeometry K 2 3) (solver_flow : CFlowVariable K 2)
    (nodes : CTurbSAVariable K 2) (GetNode : Fin 3 → Nat) : CTurbSAVariable K 2 :=
  let Crd := elemCrd geometry GetNode
  let S : Fin 3 → Fin 2 → K := fun iNode iFlux => Sens solver_flow nodes (GetNode iNode) iFlux
  let SV : Fin 3 → Fin 2 → K := fun iNode iFlux => SensVisc solver_flow nodes (GetNode iNode) iFlux
  let vn := orientedNormals2 Crd
  ([0, 1] : List (Fin 2)).foldl
    (fun nodes iFlux =>
      let gra := graTri vn (fun iNode => S iNode iFlux)
      let graVisc := graTri vn (fun iNode => SV iNode iFlux)
      let i := iFlux.val * 1 * 2 + 0 * 2
      assembleGrad2 geometry GetNode i gra graVisc nodes)
    nodes

/-- The element sweep of `SetTurbGradient_L2Proj2` (the loop over `iElem`, lines 2373-2454). -/
def gradSweep2 (geometry : CGeometry K 2 3) (solver_flow : CFlowVariable K 2)
    (nodes : CTurbSAVariable K 2) : CTurbSAVariable K 2 :=
  geometry.elem.foldl (gradElem2 geometry solver_flow) nodes

/-! ## 3D geometry step (lines 2691-2729, repeated at 2807-2845) -/

/-- Face normals of a tetrahedron: the arrays `vnx[4]`, `vny[4]`, `vnz[4]`. -/
structure Normals3 (K : Type) where
  vnx : Fin 4 → K
  vny : Fin 4 → K
  vnz : Fin 4 → K

/-- The raw face normals,
`fac[0]=P1P2P3, fac[1]=P2P3P0, fac[2]=P3P0P1, fac[3]=P0P1P2`. -/
def rawNormals3 (Crd : Fin 4 → Fin 3 → K) : Normals3 K where
  vnx := ![(Crd 2 1 - Crd 1 1) * (Crd 3 2 - Crd 1 2) - (Crd 2 2 - Crd 1 2) * (Crd 3 1 - Crd 1 1),
           (Crd 3 1 - Crd 2 1) * (Crd 0 2 - Crd 2 2) - (Crd 3 2 - Crd 2 2) * (Crd 0 1 - Crd 2 1),
           (Crd 0 1 - Crd 3 1) * (Crd 1 2 - Crd 3 2) - (Crd 0 2 - Crd 3 2) * (Crd 1 1 - Crd 3 1),
           (Crd 1 1 - Crd 0 1) * (Crd 2 2 - Crd 0 2) - (Crd 1 2 - Crd 0 2) * (Crd 2 1 - Crd 0 1)]
  vny := ![(Crd 2 2 - Crd 1 2) * (Crd 3 0 - Crd 1 0) - (Crd 2 0 - Crd 1 0) * (Crd 3 2 - Crd 1 2),
           (Crd 3 2 - Crd 2 2) * (Crd 0 0 - Crd 2 0) - (Crd 3 0 - Crd 2 0) * (Crd 0 2 - Crd 2 2),
           (Crd 0 2 - Crd 3 2) * (Crd 1 0 - Crd 3 0) - (Crd 0 0 - Crd 3 0) * (Crd 1 2 - Crd 3 2),
           (Crd 1 2 - Crd 0 2) * (Crd 2 0 - Crd 0 0) - (Crd 1 0 - Crd 0 0) * (Crd 2 2 - Crd 0 2)]
  vnz := ![(Crd 2 0 - Crd 1 0) * (Crd 3 1 - Crd 1 1) - (Crd 2 1 - Crd 1 1) * (Crd 3 0 - Crd 1 0),
           (Crd 3 0 - Crd 2 0) * (Crd 0 1 - Crd 2 1) - (Crd 3 1 - Crd 2 1) * (Crd 0 0 - Crd 2 0),
           (Crd 0 0 - Crd 3 0) * (Crd 1 1 - Crd 3 1) - (Crd 0 1 - Crd 3 1) * (Crd 1 0 - Crd 3 0),
           (Crd 1 0 - Crd 0 0) * (Crd 2 1 - Crd 0 1) - (Crd 1 1 - Crd 0 1) * (Crd 2 0 - Crd 0 0)]

/-- The accumulation loop over `jNode` that builds `CrdAvg` for vertex `iNode`,
followed by `CrdAvg[d] /= 3.`. -/
def CrdAvg3 (Crd : Fin 4 → Fin 3 → K) (iNode : Fin 4) : Fin 3 → K :=
  let s := ([0, 1, 2, 3] : List (Fin 4)).foldl
    (fun (acc : Fin 3 → K) jNode =>
      if iNode ≠ jNode then ![acc 0 + Crd jNode 0, acc 1 + Crd jNode 1, acc 2 + Crd jNode 2]
      else acc)
    ![0, 0, 0]
  ![s 0 / 3, s 1 / 3, s 2 / 3]

/-- One iteration of the "check if inward normal" loop for vertex `iNode`.  The comparison
`> 0.` is decided over the exact ordered field `K`; `checkInwardWith3` takes its outcome as a
parameter. -/
def checkInward3 (Crd : Fin 4 → Fin 3 → K) (vn : Normals3 K) (iNode : Fin 4) : Normals3 K :=
  let CrdAvg := CrdAvg3 Crd iNode
  let u : Fin 3 → K := ![CrdAvg 0 - Crd iNode 0, CrdAvg 1 - Crd iNode 1, CrdAvg 2 - Crd iNode 2]
  if vn.vnx iNode * u 0 + vn.vny iNode * u 1 + vn.vnz iNode * u 2 > 0 then
    { vnx := Function.update vn.vnx iNode (vn.vnx iNode * (-1))
      vny := Function.update vn.vny iNode (vn.vny iNode * (-1))
      vnz := Function.update vn.vnz iNode (vn.vnz iNode * (-1)) }
  else vn

/-- The geometry step of the 3D sweeps: raw normals, then the orientation loop. -/
def orientedNormals3 (Crd : Fin 4 → Fin 3 → K) : Normals3 K :=
  ([0, 1, 2, 3] : List (Fin 4)).foldl (checkInward3 Crd) (rawNormals3 Crd)

/-! ## 3D gradient sweep (lines 2662-2762) -/

/-- The raw element gradient `graTet` for nodal values `S` (lines 2738-2740). -/
def graTet (vn : Normals3 K) (S : Fin 4 → K) : Fin 3 → K :=
  ![S 0 * vn.vnx 0 + S 1 * vn.vnx 1 + S 2 * vn.vnx 2 + S 3 * vn.vnx 3,
    S 0 * vn.vny 0 + S 1 * vn.vny 1 + S 2 * vn.vny 2 + S 3 * vn.vny 3,
    S 0 * vn.vnz 0 + S 1 * vn.vnz 1 + S 2 * vn.vnz 2 + S 3 * vn.vnz 3]

/-- The "assembling" loop over the four element vertices (lines 2748-2759). -/
def assembleGrad3 (geometry : CGeometry K 3 4) (GetNode : Fin 4 → Nat) (i : Nat)
    (gra graVisc : Fin 3 → K) (nodes : CTurbSAVariable K 3) : CTurbSAVariable K 3 :=
  ([0, 1, 2, 3] : List (Fin 4)).foldl
    (fun nodes iNode =>
      let kNode := GetNode iNode
      let Vol := geometry.GetVolume kNode
      let rap := 1 / (Vol * 24)
      let nodes := nodes.AddAnisoGrad kNode (i + 0) (gra 0 * rap)
      let nodes := nodes.AddAnisoGrad kNode (i + 1) (gra 1 * rap)
      let nodes := nodes.AddAnisoGrad kNode (i + 2) (gra 2 * rap)
      let nodes := nodes.AddAnisoViscGrad kNode (i + 0) (graVisc 0 * rap)
      let nodes := nodes.AddAnisoViscGrad kNode (i + 1) (graVisc 1 * rap)
      nodes.AddAnisoViscGrad kNode (i + 2) (graVisc 2 * rap))
    nodes

/-- The body of the element loop of `SetTurbGradient_L2Proj3` for one element, with
`nVarMetr = 1`, `nFluxMetr = 3` and `i = iFlux*nVarMetr*nDim + iVar*nDim`. -/
def gradElem3 (geometry : CGeometry K 3 4) (solver_flow : CFlowVariable K 3)
    (nodes : CTurbSAVariable K 3) (GetNode : Fin 4 → Nat) : CTurbSAVariable K 3 :=
  let Crd := elemCrd geometry GetNode
  let S : Fin 4 → Fin 3 → K := fun iNode iFlux => Sens solver_flow nodes (GetNode iNode) iFlux
  let SV : Fin 4 → Fin 3 → K := fun iNode iFlux => SensVisc solver_flow nodes (GetNode iNode) iFlux
  let vn := orientedNormals3 Crd
  ([0, 1, 2] : List (Fin 3)).foldl
    (fun nodes iFlux =>
      let gra := graTet vn (fun iNode => S iNode iFlux)
      let graVisc := graTet vn (fun iNode => SV iNode iFlux)
      let i := iFlux.val * 1 * 3 + 0 * 3
      assembleGrad3 geometry GetNode i gra graVisc nodes)
    nodes

/-- The element sweep of `SetTurbGradient_L2Proj3` (the loop over `iElem`, lines 2662-2762). -/
def gradSweep3 (geometry : CGeometry K 3 4) (solver_flow : CFlowVariable K 3)
    (nodes : CTurbSAVariable K 3) : CTurbSAVariable K 3 :=
  geometry.elem.foldl (gradElem3 geometry solver_flow) nodes

/-! ## 2D Hessian sweep (lines 2486-2584) -/

/-- The raw element Hessian `hesTri` for the nodal gradient `G` (`G iNode d` is
`Grad[iNode][d][iVar][iFlux]`), lines 2542-2553; the literal `0.5` is `1/2`. -/
def hesTri (vn : Normals2 K) (G : Fin 3 → Fin 2 → K) : Fin 3 → K :=
  ![G 0 0 * vn.vnx 0 + G 1 0 * vn.vnx 1 + G 2 0 * vn.vnx 2,
    (1 / 2) * (G 0 0 * vn.vny 0 + G 1 0 * vn.vny 1 + G 2 0 * vn.vny 2
      + G 0 1 * vn.vnx 0 + G 1 1 * vn.vnx 1 + G 2 1 * vn.vnx 2),
    G 0 1 * vn.vny 0 + G 1 1 * vn.vny 1 + G 2 1 * vn.vny 2]

/-- The "assembling" loop of the 2D Hessian sweep (lines 2570-2581). -/
def assembleHess2 (geometry : CGeometry K 2 3) (GetNode : Fin 3 → Nat) (i : Nat)
    (hes hesVisc : Fin 3 → K) (nodes : CTurbSAVariable K 2) : CTurbSAVariable K 2 :=
  ([0, 1, 2] : List (Fin 3)).foldl
    (fun nodes iNode =>
      let kNode := GetNode iNode
      let Area := geometry.GetVolume kNode
      let rap := 1 / (Area * 6)
      let nodes := nodes.AddAnisoHess kNode (i + 0) (hes 0 * rap)
      let nodes := nodes.AddAnisoHess kNode (i + 1) (hes 1 * rap)
      let nodes := nodes.AddAnisoHess kNode (i + 2) (hes 2 * rap)
      let nodes := nodes.AddAnisoViscHess kNode (i + 0) (hesVisc 0 * rap)
      let nodes := nodes.AddAnisoViscHess kNode (i + 1) (hesVisc 1 * rap)
      nodes.AddAnisoViscHess kNode (i + 2) (hesVisc 2 * rap))
    nodes

/-- The body of the element loop of `SetHessian_L2Proj2`: the stored gradients are read with
`i = iFlux*nVarMetr*nDim + iVar*nDim`, the Hessians written with
`i = iFlux*nVarMetr*nMetr + iVar*nMetr` (`nVarMetr = 1`, `nDim = 2`, `nMetr = 3`). -/
def hessElem2 (geometry : CGeometry K 2 3) (nodes : CTurbSAVariable K 2)
    (GetNode : Fin 3 → Nat) : CTurbSAVariable K 2 :=
  let Crd := elemCrd geometry GetNode
  let Grad : Fin 3 → Fin 2 → Fin 2 → K := fun iNode d iFlux =>
    nodes.AnisoGrad (GetNode iNode) (iFlux.val * 1 * 2 + 0 * 2 + d.val)
  let GradVisc : Fin 3 → Fin 2 → Fin 2 → K := fun iNode d iFlux =>
    nodes.AnisoViscGrad (GetNode iNode) (iFlux.val * 1 * 2 + 0 * 2 + d.val)
  let vn := orientedNormals2 Crd
  ([0, 1] : List (Fin 2)).foldl
    (fun nodes iFlux =>
      let hes := hesTri vn (fun iNode d => Grad iNode d iFlux)
      let hesVisc := hesTri vn (fun iNode d => GradVisc iNode d iFlux)
      let i := iFlux.val * 1 * 3 + 0 * 3
      assembleHess2 geometry GetNode i hes hesVisc nodes)
    nodes

/-- The element sweep of `SetHessian_L2Proj2` (lines 2486-2584). -/
def hessSweep2 (geometry : CGeometry K 2 3) (nodes : CTurbSAVariable K 2) :
    CTurbSAVariable K 2 :=
  geometry.elem.foldl (hessElem2 geometry) nodes

/-! ## 3D Hessian sweep (lines 2785-2960) -/

/-- The raw element Hessian `hesTet` for the nodal gradient `G`, lines 2854-2894. -/
def hesTet (vn : Normals3 K) (G : Fin 4 → Fin 3 → K) : Fin 6 → K :=
  ![G 0 0 * vn.vnx 0 + G 1 0 * vn.vnx 1 + G 2 0 * vn.vnx 2 + G 3 0 * vn.vnx 3,
    (1 / 2) * (G 0 0 * vn.vny 0 + G 1 0 * vn.vny 1 + G 2 0 * vn.vny 2 + G 3 0 * vn.vny 3
      + G 0 1 * vn.vnx 0 + G 1 1 * vn.vnx 1 + G 2 1 * vn.vnx 2 + G 3 1 * vn.vnx 3),
    (1 / 2) * (G 0 0 * vn.vnz 0 + G 1 0 * vn.vnz 1 + G 2 0 * vn.vnz 2 + G 3 0 * vn.vnz 3
      + G 0 2 * vn.vnx 0 + G 1 2 * vn.vnx 1 + G 2 2 * vn.vnx 2 + G 3 2 * vn.vnx 3),
    G 0 1 * vn.vny 0 + G 1 1 * vn.vny 1 + G 2 1 * vn.vny 2 + G 3 1 * vn.vny 3,
    (1 / 2) * (G 0 1 * vn.vnz 0 + G 1 1 * vn.vnz 1 + G 2 1 * vn.vnz 2 + G 3 1 * vn.vnz 3
      + G 0 2 * vn.vny 0 + G 1 2 * vn.vny 1 + G 2 2 * vn.vny 2 + G 3 2 * vn.vny 3),
    G 0 2 * vn.vnz 0 + G 1 2 * vn.vnz 1 + G 2 2 * vn.vnz 2 + G 3 2 * vn.vnz 3]

/-- The "assembling" loop of the 3D Hessian sweep (lines 2940-2957). -/
def assembleHess3 (geometry : CGeometry K 3 4) (GetNode : Fin 4 → Nat) (i : Nat)
    (hes hesVisc : Fin 6 → K) (nodes : CTurbSAVariable K 3) : CTurbSAVariable K 3 :=
  ([0, 1, 2, 3] : List (Fin 4)).foldl
    (fun nodes iNode =>
      let kNode := GetNode iNode
      let Vol := geometry.GetVolume kNode
      let rap := 1 / (Vol * 24)
      let nodes := nodes.AddAnisoHess kNode (i + 0) (hes 0 * rap)
      let nodes := nodes.AddAnisoHess kNode (i + 1) (hes 1 * rap)
      let nodes := nodes.AddAnisoHess kNode (i + 2) (hes 2 * rap)
      let nodes := nodes.AddAnisoHess kNode (i + 3) (hes 3 * rap)
      let nodes := nodes.AddAnisoHess kNode (i + 4) (hes 4 * rap)
      let nodes := nodes.AddAnisoHess kNode (i + 5) (hes 5 * rap)
      let nodes := nodes.AddAnisoViscHess kNode (i + 0) (hesVisc 0 * rap)
      let nodes := nodes.AddAnisoViscHess kNode (i + 1) (hesVisc 1 * rap)
      let nodes := nodes.AddAnisoViscHess kNode (i + 2) (hesVisc 2 * rap)
      let nodes := nodes.AddAnisoViscHess kNode (i + 3) (hesVisc 3 * rap)
      let nodes := nodes.AddAnisoViscHess kNode (i + 4) (hesVisc 4 * rap)
      nodes.AddAnisoViscHess kNode (i + 5) (hesVisc 5 * rap))
    nodes

/-- The body of the element loop of `SetHessian_L2Proj3`
(`nVarMetr = 1`, `nDim = 3`, `nMetr = 6`). -/
def hessElem3 (geometry : CGeometry K 3 4) (nodes : CTurbSAVariable K 3)
    (GetNode : Fin 4 → Nat) : CTurbSAVariable K 3 :=
  let Crd := elemCrd geometry GetNode
  let Grad : Fin 4 → Fin 3 → Fin 3 → K := fun iNode d iFlux =>
    nodes.AnisoGrad (GetNode iNode) (iFlux.val * 1 * 3 + 0 * 3 + d.val)
  let GradVisc : Fin 4 → Fin 3 → Fin 3 → K := fun iNode d iFlux =>
    nodes.AnisoViscGrad (GetNode iNode) (iFlux.val * 1 * 3 + 0 * 3 + d.val)
  let vn := orientedNormals3 Crd
  ([0, 1, 2] : List (Fin 3)).foldl
    (fun nodes iFlux =>
      let hes := hesTet vn (fun iNode d => Grad iNode d iFlux)
      let hesVisc := hesTet vn (fun iNode d => GradVisc iNode d iFlux)
      let i := iFlux.val * 1 * 6 + 0 * 6
      assembleHess3 geometry GetNode i hes hesVisc nodes)
    nodes

/-- The element sweep of `SetHessian_L2Proj3` (lines 2785-2960). -/
def hessSweep3 (geometry : CGeometry K 3 4) (nodes : CTurbSAVariable K 3) :
    CTurbSAVariable K 3 :=
  geometry.elem.foldl (hessElem3 geometry) nodes

/-! ## Metric regularization (lines 2595-2644 and 2981-3043) -/

/-- Modelled from the spec: `CNumerics::EigenRecomposition` is defined outside the two source
files; by spec 4.4 and 9 it is `recompose(eigenvectors, eigenvalues) -> M` with
`M = V · diag(λ) · Vᵗ`. -/
def EigenRecomposition {n : Nat} (EigVec : Matrix (Fin n) (Fin n) K) (EigVal : Fin n → K) :
    Matrix (Fin n) (Fin n) K :=
  EigVec * Matrix.diagonal EigVal * EigVec.transpose

/-- The signature of `CNumerics::EigenDecomposition(A, EigVec, EigVal, nDim)`, which is
defined outside the two source files and is a parameter of the regularizer. -/
abbrev EigenSolver (K : Type) (n : Nat) : Type :=
  Matrix (Fin n) (Fin n) K → Matrix (Fin n) (Fin n) K × (Fin n → K)

/-- The dense matrix built from packed slots `a, b, c` (lines 2605-2606). -/
def unpack2 (p : Fin 3 → K) : Matrix (Fin 2) (Fin 2) K :=
  !![p 0, p 1; p 1, p 2]

/-- The packed slots stored from the dense matrix (lines 2614-2616). -/
def pack2 (A : Matrix (Fin 2) (Fin 2) K) : Fin 3 → K :=
  ![A 0 0, A 0 1, A 1 1]

/-- The dense matrix built from packed slots `a..f` (lines 2993-2995). -/
def unpack3 (p : Fin 6 → K) : Matrix (Fin 3) (Fin 3) K :=
  !![p 0, p 1, p 2; p 1, p 3, p 4; p 2, p 4, p 5]

/-- The packed slots stored from the dense matrix (lines 3003-3008). -/
def pack3 (A : Matrix (Fin 3) (Fin 3) K) : Fin 6 → K :=
  ![A 0 0, A 0 1, A 0 2, A 1 1, A 1 2, A 2 2]

/-- The dense part of one regularization step: decompose, take `abs` of every eigenvalue,
recompose (lines 2608-2612). -/
def regularizeDense {n : Nat} (EigenDecomposition : EigenSolver K n)
    (A : Matrix (Fin n) (Fin n) K) : Matrix (Fin n) (Fin n) K :=
  let EigVec := (EigenDecomposition A).1
  let EigVal := (EigenDecomposition A).2
  let EigVal := fun iDim => |EigVal iDim|
  EigenRecomposition EigVec EigVal

/-- One 2D regularization step on a packed Hessian (lines 2601-2616). -/
def regularize2 (EigenDecomposition : EigenSolver K 2) (p : Fin 3 → K) : Fin 3 → K :=
  pack2 (regularizeDense EigenDecomposition (unpack2 p))

/-- One 3D regularization step on a packed Hessian (lines 2986-3008). -/
def regularize3 (EigenDecomposition : EigenSolver K 3) (p : Fin 6 → K) : Fin 6 → K :=
  pack3 (regularizeDense EigenDecomposition (unpack3 p))

/-- The innermost body of the convective regularization loop of `SetHessian_L2Proj2` for one
`iPoint` and one `iFlux` (lines 2601-2616), with `iVar = 0` and
`i = iFlux*nVarMetr*nMetr + iVar*nMetr`. -/
def regularizeHessFlux2 (EigenDecomposition : EigenSolver K 2) (iPoint : Nat)
    (nodes : CTurbSAVariable K 2) (iFlux : Fin 2) : CTurbSAVariable K 2 :=
  let i := iFlux.val * 1 * 3 + 0 * 3
  let r := regularize2 EigenDecomposition
    ![nodes.AnisoHess iPoint (i + 0), nodes.AnisoHess iPoint (i + 1),
      nodes.AnisoHess iPoint (i + 2)]
  let nodes := nodes.SetAnisoHess iPoint (i + 0) (r 0)
  let nodes := nodes.SetAnisoHess iPoint (i + 1) (r 1)
  nodes.SetAnisoHess iPoint (i + 2) (r 2)

/-- The body of the convective regularization loop of `SetHessian_L2Proj2` for one `iPoint`
(lines 2597-2618): the loops over `iVar < 1` and `iFlux < 2`. -/
def regularizeHessPoint2 (EigenDecomposition : EigenSolver K 2)
    (nodes : CTurbSAVariable K 2) (iPoint : Nat) : CTurbSAVariable K 2 :=
  ([0, 1] : List (Fin 2)).foldl (regularizeHessFlux2 EigenDecomposition iPoint) nodes

/-- The convective regularization loop of `SetHessian_L2Proj2` (lines 2596-2619): every
`iPoint < nPointDomain`. -/
def regularizeHess2 (EigenDecomposition : EigenSolver K 2) (nPointDomain : Nat)
    (nodes : CTurbSAVariable K 2) : CTurbSAVariable K 2 :=
  (List.range nPointDomain).foldl (regularizeHessPoint2 EigenDecomposition) nodes

/-- The innermost body of the viscous regularization loop of `SetHessian_L2Proj2` for one
`iPoint` and one `iFlux` (lines 2626-2641), with `iVar = 0` and
`i = iFlux*nVarMetr*nMetr + iVar*nMetr`. -/
def regularizeViscHessFlux2 (EigenDecomposition : EigenSolver K 2) (iPoint : Nat)
    (nodes : CTurbSAVariable K 2) (iFlux : Fin 2) : CTurbSAVariable K 2 :=
  let i := iFlux.val * 1 * 3 + 0 * 3
  let r := regularize2 EigenDecomposition
    ![nodes.AnisoViscHess iPoint (i + 0), nodes.AnisoViscHess iPoint (i + 1),
      nodes.AnisoViscHess iPoint (i + 2)]
  let nodes := nodes.SetAnisoViscHess iPoint (i + 0) (r 0)
  let nodes := nodes.SetAnisoViscHess iPoint (i + 1) (r 1)
  nodes.SetAnisoViscHess iPoint (i + 2) (r 2)

/-- The body of the viscous regularization loop of `SetHessian_L2Proj2` for one `iPoint`
(lines 2622-2643): the loops over `iVar < 1` and `iFlux < 2`. -/
def regularizeViscHessPoint2 (EigenDecomposition : EigenSolver K 2)
    (nodes : CTurbSAVariable K 2) (iPoint : Nat) : CTurbSAVariable K 2 :=
  ([0, 1] : List (Fin 2)).foldl (regularizeViscHessFlux2 EigenDecomposition iPoint) nodes

/-- The viscous regularization loop of `SetHessian_L2Proj2` (lines 2621-2644): every
`iPoint < nPointDomain`. -/
def regularizeViscHess2 (EigenDecomposition : EigenSolver K 2) (nPointDomain : Nat)
    (nodes : CTurbSAVariable K 2) : CTurbSAVariable K 2 :=
  (List.range nPointDomain).foldl (regularizeViscHessPoint2 EigenDecomposition) nodes

/-- The innermost body of the convective regularization loop of `SetHessian_L2Proj3` for one
`iPoint` and one `iFlux` (lines 2986-3008), with `iVar = 0` and
`i = iFlux*nVarMetr*nMetr + iVar*nMetr`. -/
def regularizeHessFlux3 (EigenDecomposition : EigenSolver K 3) (iPoint : Nat)
    (nodes : CTurbSAVariable K 3) (iFlux : Fin 3) : CTurbSAVariable K 3 :=
  let i := iFlux.val * 1 * 6 + 0 * 6
  let r := regularize3 EigenDecomposition
    ![nodes.AnisoHess iPoint (i + 0), nodes.AnisoHess iPoint (i + 1),
      nodes.AnisoHess iPoint (i + 2), nodes.AnisoHess iPoint (i + 3),
      nodes.AnisoHess iPoint (i + 4), nodes.AnisoHess iPoint (i + 5)]
  let nodes := nodes.SetAnisoHess iPoint (i + 0) (r 0)
  let nodes := nodes.SetAnisoHess iPoint (i + 1) (r 1)
  let nodes := nodes.SetAnisoHess iPoint (i + 2) (r 2)
  let nodes := nodes.SetAnisoHess iPoint (i + 3) (r 3)
  let nodes := nodes.SetAnisoHess iPoint (i + 4) (r 4)
  nodes.SetAnisoHess iPoint (i + 5) (r 5)

/-- The body of the convective regularization loop of `SetHessian_L2Proj3` for one `iPoint`
(lines 2982-3010): the loops over `iVar < 1` and `iFlux < 3`. -/
def regularizeHessPoint3 (EigenDecomposition : EigenSolver K 3)
    (nodes : CTurbSAVariable K 3) (iPoint : Nat) : CTurbSAVariable K 3 :=
  ([0, 1, 2] : List (Fin 3)).foldl (regularizeHessFlux3 EigenDecomposition iPoint) nodes

/-- The convective regularization loop of `SetHessian_L2Proj3` (lines 2981-3011): every
`iPoint < nPointDomain`. -/
def regularizeHess3 (EigenDecomposition : EigenSolver K 3) (nPointDomain : Nat)
    (nodes : CTurbSAVariable K 3) : CTurbSAVariable K 3 :=
  (List.range nPointDomain).foldl (regularizeHessPoint3 EigenDecomposition) nodes

/-- The innermost body of the viscous regularization loop of `SetHessian_L2Proj3` for one
`iPoint` and one `iFlux` (lines 3018-3040), with `iVar = 0` and
`i = iFlux*nVarMetr*nMetr + iVar*nMetr`. -/
def regularizeViscHessFlux3 (EigenDecomposition : EigenSolver K 3) (iPoint : Nat)
    (nodes : CTurbSAVariable K 3) (iFlux : Fin 3) : CTurbSAVariable K 3 :=
  let i := iFlux.val * 1 * 6 + 0 * 6
  let r := regularize3 EigenDecomposition
    ![nodes.AnisoViscHess iPoint (i + 0), nodes.AnisoViscHess iPoint (i + 1),
      nodes.AnisoViscHess iPoint (i + 2), nodes.AnisoViscHess iPoint (i + 3),
      nodes.AnisoViscHess iPoint (i + 4), nodes.AnisoViscHess iPoint (i + 5)]
  let nodes := nodes.SetAnisoViscHess iPoint (i + 0) (r 0)
  let nodes := nodes.SetAnisoViscHess iPoint (i + 1) (r 1)
  let nodes := nodes.SetAnisoViscHess iPoint (i + 2) (r 2)
  let nodes := nodes.SetAnisoViscHess iPoint (i + 3) (r 3)
  let nodes := nodes.SetAnisoViscHess iPoint (i + 4) (r 4)
  nodes.SetAnisoViscHess iPoint (i + 5) (r 5)

/-- The body of the viscous regularization loop of `SetHessian_L2Proj3` for one `iPoint`
(lines 3014-3042): the loops over `iVar < 1` and `iFlux < 3`. -/
def regularizeViscHessPoint3 (EigenDecomposition : EigenSolver K 3)
    (nodes : CTurbSAVariable K 3) (iPoint : Nat) : CTurbSAVariable K 3 :=
  ([0, 1, 2] : List (Fin 3)).foldl (regularizeViscHessFlux3 EigenDecomposition iPoint) nodes

/-- The viscous regularization loop of `SetHessian_L2Proj3` (lines 3013-3043): every
`iPoint < nPointDomain`. -/
def regularizeViscHess3 (EigenDecomposition : EigenSolver K 3) (nPointDomain : Nat)
    (nodes : CTurbSAVariable K 3) : CTurbSAVariable K 3 :=
  (List.range nPointDomain).foldl (regularizeViscHessPoint3 EigenDecomposition) nodes

/-- The communication tags used by the four routines. -/
inductive CommTag where
  | ANISO_GRADIENT
  | ANISO_GRADIENT_VISC
  | ANISO_HESSIAN
  | ANISO_HESSIAN_VISC

/-- `SetTurbGradient_L2Proj2`: the element sweep followed by `InitiateComms`/`CompleteComms`
for the two gradient fields. -/
def SetTurbGradient_L2Proj2 (Comms : CommTag → CTurbSAVariable K 2 → CTurbSAVariable K 2)
    (geometry : CGeometry K 2 3) (solver_flow : CFlowVariable K 2)
    (nodes : CTurbSAVariable K 2) : CTurbSAVariable K 2 :=
  let nodes := gradSweep2 geometry solver_flow nodes
  let nodes := Comms CommTag.ANISO_GRADIENT nodes
  Comms CommTag.ANISO_GRADIENT_VISC nodes

/-- `SetTurbGradient_L2Proj3`: the element sweep followed by the two gradient exchanges. -/
def SetTurbGradient_L2Proj3 (Comms : CommTag → CTurbSAVariable K 3 → CTurbSAVariable K 3)
    (geometry : CGeometry K 3 4) (solver_flow : CFlowVariable K 3)
    (nodes : CTurbSAVariable K 3) : CTurbSAVariable K 3 :=
  let nodes := gradSweep3 geometry solver_flow nodes
  let nodes := Comms CommTag.ANISO_GRADIENT nodes
  Comms CommTag.ANISO_GRADIENT_VISC nodes

/-- `SetHessian_L2Proj2`: element sweep, `InitiateComms`/`CompleteComms` for the two Hessian
fields, `CorrectBoundAnisoHess`, then the two regularization loops.  The halo exchange and
the boundary correction are external and enter as state transformers. -/
def SetHessian_L2Proj2 (Comms : CommTag → CTurbSAVariable K 2 → CTurbSAVariable K 2)
    (CorrectBoundAnisoHess : CTurbSAVariable K 2 → CTurbSAVariable K 2)
    (EigenDecomposition : EigenSolver K 2)
    (geometry : CGeometry K 2 3) (nodes : CTurbSAVariable K 2) : CTurbSAVariable K 2 :=
  let nodes := hessSweep2 geometry nodes
  let nodes := Comms CommTag.ANISO_HESSIAN nodes
  let nodes := Comms CommTag.ANISO_HESSIAN_VISC nodes
  let nodes := CorrectBoundAnisoHess nodes
  let nodes := regularizeHess2 EigenDecomposition geometry.nPointDomain nodes
  regularizeViscHess2 EigenDecomposition geometry.nPointDomain nodes

/-- `SetHessian_L2Proj3`, with the same external collaborators. -/
def SetHessian_L2Proj3 (Comms : CommTag → CTurbSAVariable K 3 → CTurbSAVariable K 3)
    (CorrectBoundAnisoHess : CTurbSAVariable K 3 → CTurbSAVariable K 3)
    (EigenDecomposition : EigenSolver K 3)
    (geometry : CGeometry K 3 4) (nodes : CTurbSAVariable K 3) : CTurbSAVariable K 3 :=
  let nodes := hessSweep3 geometry nodes
  let nodes := Comms CommTag.ANISO_HESSIAN nodes
  let nodes := Comms CommTag.ANISO_HESSIAN_VISC nodes
  let nodes := CorrectBoundAnisoHess nodes
  let nodes := regularizeHess3 EigenDecomposition geometry.nPointDomain nodes
  regularizeViscHess3 EigenDecomposition geometry.nPointDomain nodes

/-! ## Reference quantities used in the statements -/

/-- Twice the signed area of the triangle `P0 P1 P2`. -/
def det2 (Crd : Fin 3 → Fin 2 → K) : K :=
  (Crd 1 0 - Crd 0 0) * (Crd 2 1 - Crd 0 1) - (Crd 2 0 - Crd 0 0) * (Crd 1 1 - Crd 0 1)

/-- Unsigned area of the triangle with vertex coordinates `Crd`. -/
def triArea (Crd : Fin 3 → Fin 2 → K) : K := |det2 Crd| / 2

/-- Total area of the triangles of the mesh that have `k` among their vertices. -/
def incidentArea2 (geometry : CGeometry K 2 3) (k : Nat) : K :=
  (geometry.elem.map
    (fun e => if ∃ iNode, e iNode = k then triArea (elemCrd geometry e) else 0)).sum

/-- Six times the signed volume of the tetrahedron `P0 P1 P2 P3`:
the determinant of the edge vectors `P1-P0`, `P2-P0`, `P3-P0`. -/
def det3 (Crd : Fin 4 → Fin 3 → K) : K :=
  (Crd 1 0 - Crd 0 0) * ((Crd 2 1 - Crd 0 1) * (Crd 3 2 - Crd 0 2)
      - (Crd 2 2 - Crd 0 2) * (Crd 3 1 - Crd 0 1))
  - (Crd 1 1 - Crd 0 1) * ((Crd 2 0 - Crd 0 0) * (Crd 3 2 - Crd 0 2)
      - (Crd 2 2 - Crd 0 2) * (Crd 3 0 - Crd 0 0))
  + (Crd 1 2 - Crd 0 2) * ((Crd 2 0 - Crd 0 0) * (Crd 3 1 - Crd 0 1)
      - (Crd 2 1 - Crd 0 1) * (Crd 3 0 - Crd 0 0))

/-- Sign with which the raw normal of face `i` enters the orientation test. -/
def faceSign : Fin 4 → K := ![1, -1, 1, -1]

/-- Unsigned volume of the tetrahedron with vertex coordinates `Crd`. -/
def tetVolume (Crd : Fin 4 → Fin 3 → K) : K := |det3 Crd| / 6

/-- Total volume of the tetrahedra of the mesh that have `k` among their vertices. -/
def incidentVolume3 (geometry : CGeometry K 3 4) (k : Nat) : K :=
  (geometry.elem.map
    (fun e => if ∃ iNode, e iNode = k then tetVolume (elemCrd geometry e) else 0)).sum

/-- Contribution of one assembly loop to slot `s` of vertex `k`. -/
def nodeSum2 (geometry : CGeometry K 2 3) (GetNode : Fin 3 → Nat) (i : Nat) (gra : Fin 2 → K)
    (k s : Nat) : K :=
  ∑ iNode : Fin 3,
    ((if k = GetNode iNode ∧ s = i + 0 then gra 0 * (1 / (geometry.GetVolume (GetNode iNode) * 6)) else 0)
      + (if k = GetNode iNode ∧ s = i + 1 then gra 1 * (1 / (geometry.GetVolume (GetNode iNode) * 6)) else 0))

/-- Contribution of one element to slot `s` of vertex `k` in the 2D gradient sweep, for
the nodal sensor `S`. -/
def gradContrib2 (geometry : CGeometry K 2 3) (S : Nat → Fin 2 → K) (GetNode : Fin 3 → Nat)
    (k s : Nat) : K :=
  ∑ iFlux : Fin 2, nodeSum2 geometry GetNode (iFlux.val * 1 * 2 + 0 * 2)
    (graTri (orientedNormals2 (elemCrd geometry GetNode)) (fun iNode => S (GetNode iNode) iFlux)) k s

/-- Contribution of one 3D assembly loop to slot `s` of vertex `k`. -/
def nodeSum3 (geometry : CGeometry K 3 4) (GetNode : Fin 4 → Nat) (i : Nat) (gra : Fin 3 → K)
    (k s : Nat) : K :=
  ∑ iNode : Fin 4,
    ((if k = GetNode iNode ∧ s = i + 0
        then gra 0 * (1 / (geometry.GetVolume (GetNode iNode) * 24)) else 0)
      + (if k = GetNode iNode ∧ s = i + 1
        then gra 1 * (1 / (geometry.GetVolume (GetNode iNode) * 24)) else 0)
      + (if k = GetNode iNode ∧ s = i + 2
        then gra 2 * (1 / (geometry.GetVolume (GetNode iNode) * 24)) else 0))

/-- Contribution of one element to slot `s` of vertex `k` in the 3D gradient sweep, for
the nodal sensor `S`. -/
def gradContrib3 (geometry : CGeometry K 3 4) (S : Nat → Fin 3 → K) (GetNode : Fin 4 → Nat)
    (k s : Nat) : K :=
  ∑ iFlux : Fin 3, nodeSum3 geometry GetNode (iFlux.val * 1 * 3 + 0 * 3)
    (graTet (orientedNormals3 (elemCrd geometry GetNode)) (fun iNode => S (GetNode iNode) iFlux)) k s

/-- The eigensolver is exact at `A`: the returned eigenvectors are orthonormal and
`A = V · diag(λ) · Vᵗ`. -/
def ExactAt {n : Nat} (EigenDecomposition : EigenSolver K n) (A : Matrix (Fin n) (Fin n) K) :
    Prop :=
  (EigenDecomposition A).1.transpose * (EigenDecomposition A).1 = 1 ∧
    A = (EigenDecomposition A).1 * Matrix.diagonal (EigenDecomposition A).2
          * (EigenDecomposition A).1.transpose

/-- Positive semi-definiteness of a dense matrix: `xᵗ M x ≥ 0` for every `x`. -/
def IsPSD {n : Nat} (M : Matrix (Fin n) (Fin n) K) : Prop :=
  ∀ x : Fin n → K, 0 ≤ Matrix.dotProduct x (Matrix.mulVec M x)

/-- All eigenvalues of `M` are non-negative: every `μ` with `M v = μ v` for some `v ≠ 0`
satisfies `0 ≤ μ`. -/
def EigenvaluesNonneg {n : Nat} (M : Matrix (Fin n) (Fin n) K) : Prop :=
  ∀ (μ : K) (v : Fin n → K), v ≠ 0 → Matrix.mulVec M v = μ • v → 0 ≤ μ

/-- An eigen-solver that works in a fixed basis `V`: it returns `V` and the diagonal of
`Vᵗ A V`.  It is exact on every matrix that `V` diagonalises. -/
def fixedBasisSolver {n : Nat} (V : Matrix (Fin n) (Fin n) K) : EigenSolver K n :=
  fun A => (V, fun i => (V.transpose * A * V) i i)

/-- The effect of the regularization step for flux `f` on the slot array `h` of one vertex
(2D): slots `f*3 .. f*3+2` are replaced by the regularized packed matrix. -/
def rowStep2 (ED : EigenSolver K 2) (f : Nat) (h : Nat → K) : Nat → K :=
  fun s =>
    if s = f * 3 + 0 then regularize2 ED ![h (f * 3 + 0), h (f * 3 + 1), h (f * 3 + 2)] 0
    else if s = f * 3 + 1 then regularize2 ED ![h (f * 3 + 0), h (f * 3 + 1), h (f * 3 + 2)] 1
    else if s = f * 3 + 2 then regularize2 ED ![h (f * 3 + 0), h (f * 3 + 1), h (f * 3 + 2)] 2
    else h s

/-- The effect of one `iPoint` iteration of a 2D regularization loop on the slot array of
that vertex. -/
def regSlots2 (ED : EigenSolver K 2) (h : Nat → K) : Nat → K :=
  rowStep2 ED 1 (rowStep2 ED 0 h)

/-- The six slots of flux `f` in the slot array `h` of one vertex (3D). -/
def block3 (f : Nat) (h : Nat → K) : Fin 6 → K :=
  ![h (f * 6 + 0), h (f * 6 + 1), h (f * 6 + 2), h (f * 6 + 3), h (f * 6 + 4), h (f * 6 + 5)]

/-- The effect of the regularization step for flux `f` on the slot array `h` of one vertex
(3D): slots `f*6 .. f*6+5` are replaced by the regularized packed matrix. -/
def rowStep3 (ED : EigenSolver K 3) (f : Nat) (h : Nat → K) : Nat → K :=
  fun s =>
    if s = f * 6 + 0 then regularize3 ED (block3 f h) 0
    else if s = f * 6 + 1 then regularize3 ED (block3 f h) 1
    else if s = f * 6 + 2 then regularize3 ED (block3 f h) 2
    else if s = f * 6 + 3 then regularize3 ED (block3 f h) 3
    else if s = f * 6 + 4 then regularize3 ED (block3 f h) 4
    else if s = f * 6 + 5 then regularize3 ED (block3 f h) 5
    else h s

/-- The effect of one `iPoint` iteration of a 3D regularization loop on the slot array of
that vertex. -/
def regSlots3 (ED : EigenSolver K 3) (h : Nat → K) : Nat → K :=
  rowStep3 ED 2 (rowStep3 ED 1 (rowStep3 ED 0 h))

/-- The three slots of flux `f` in the slot array `h` of one vertex (2D). -/
def block2 (f : Nat) (h : Nat → K) : Fin 3 → K :=
  ![h (f * 3 + 0), h (f * 3 + 1), h (f * 3 + 2)]

/-- Contribution of one assembly loop of the 2D Hessian sweep to slot `s` of vertex `k`. -/
def hessNodeSum2 (geometry : CGeometry K 2 3) (GetNode : Fin 3 → Nat) (i : Nat)
    (hes : Fin 3 → K) (k s : Nat) : K :=
  ∑ iNode : Fin 3,
    ((if k = GetNode iNode ∧ s = i + 0
        then hes 0 * (1 / (geometry.GetVolume (GetNode iNode) * 6)) else 0)
      + (if k = GetNode iNode ∧ s = i + 1
        then hes 1 * (1 / (geometry.GetVolume (GetNode iNode) * 6)) else 0)
      + (if k = GetNode iNode ∧ s = i + 2
        then hes 2 * (1 / (geometry.GetVolume (GetNode iNode) * 6)) else 0))

/-- The nodal gradient read by the 2D Hessian sweep from an accumulator array `A`:
component `d` of flux `iFlux` at vertex `v` is slot `iFlux*nVarMetr*nDim + iVar*nDim + d`. -/
def storedGrad2 (A : Nat → Nat → K) (v : Nat) (d iFlux : Fin 2) : K :=
  A v (iFlux.val * 1 * 2 + 0 * 2 + d.val)

/-- Contribution of one element to slot `s` of vertex `k` in the 2D Hessian sweep, for the
stored nodal gradient `G`. -/
def hessContrib2 (geometry : CGeometry K 2 3) (G : Nat → Fin 2 → Fin 2 → K)
    (GetNode : Fin 3 → Nat) (k s : Nat) : K :=
  ∑ iFlux : Fin 2, hessNodeSum2 geometry GetNode (iFlux.val * 1 * 3 + 0 * 3)
    (hesTri (orientedNormals2 (elemCrd geometry GetNode))
      (fun iNode d => G (GetNode iNode) d iFlux)) k s

/-- Contribution of one assembly loop of the 3D Hessian sweep to slot `s` of vertex `k`. -/
def hessNodeSum3 (geometry : CGeometry K 3 4) (GetNode : Fin 4 → Nat) (i : Nat)
    (hes : Fin 6 → K) (k s : Nat) : K :=
  ∑ iNode : Fin 4,
    ((if k = GetNode iNode ∧ s = i + 0
        then hes 0 * (1 / (geometry.GetVolume (GetNode iNode) * 24)) else 0)
      + (if k = GetNode iNode ∧ s = i + 1
        then hes 1 * (1 / (geometry.GetVolume (GetNode iNode) * 24)) else 0)
      + (if k = GetNode iNode ∧ s = i + 2
        then hes 2 * (1 / (geometry.GetVolume (GetNode iNode) * 24)) else 0)
      + (if k = GetNode iNode ∧ s = i + 3
        then hes 3 * (1 / (geometry.GetVolume (GetNode iNode) * 24)) else 0)
      + (if k = GetNode iNode ∧ s = i + 4
        then hes 4 * (1 / (geometry.GetVolume (GetNode iNode) * 24)) else 0)
      + (if k = GetNode iNode ∧ s = i + 5
        then hes 5 * (1 / (geometry.GetVolume (GetNode iNode) * 24)) else 0))

/-- The nodal gradient read by the 3D Hessian sweep from an accumulator array `A`. -/
def storedGrad3 (A : Nat → Nat → K) (v : Nat) (d iFlux : Fin 3) : K :=
  A v (iFlux.val * 1 * 3 + 0 * 3 + d.val)

/-- Contribution of one element to slot `s` of vertex `k` in the 3D Hessian sweep, for the
stored nodal gradient `G`. -/
def hessContrib3 (geometry : CGeometry K 3 4) (G : Nat → Fin 3 → Fin 3 → K)
    (GetNode : Fin 4 → Nat) (k s : Nat) : K :=
  ∑ iFlux : Fin 3, hessNodeSum3 geometry GetNode (iFlux.val * 1 * 6 + 0 * 6)
    (hesTet (orientedNormals3 (elemCrd geometry GetNode))
      (fun iNode d => G (GetNode iNode) d iFlux)) k s

/-- The normals of a triangle with the local vertex numbering changed by `σ`. -/
def Normals2.reindex (vn : Normals2 K) (σ : Fin 3 → Fin 3) : Normals2 K where
  vnx := fun i => vn.vnx (σ i)
  vny := fun i => vn.vny (σ i)

/-- The normals of a tetrahedron with the local vertex numbering changed by `σ`. -/
def Normals3.reindex (vn : Normals3 K) (σ : Fin 4 → Fin 4) : Normals3 K where
  vnx := fun i => vn.vnx (σ i)
  vny := fun i => vn.vny (σ i)
  vnz := fun i => vn.vnz (σ i)

/-- Gradient of the linear shape function of vertex `i` of a non-degenerate triangle. -/
def shapeGrad2 (Crd : Fin 3 → Fin 2 → K) (i : Fin 3) : Fin 2 → K :=
  ![(rawNormals2 Crd).vnx i / det2 Crd, (rawNormals2 Crd).vny i / det2 Crd]

/-- The linear shape function of vertex `i` of a triangle, evaluated at the point `P`. -/
def shapeFn2 (Crd : Fin 3 → Fin 2 → K) (i : Fin 3) (P : Fin 2 → K) : K :=
  1 + (shapeGrad2 Crd i 0 * (P 0 - Crd i 0) + shapeGrad2 Crd i 1 * (P 1 - Crd i 1))

/-- A flow state whose convective sensor is the scalar vertex field `s` for every flux
(density 1, velocity `s`, and `nu_tilde = 1` in `unitNodes`). -/
def scalarFlow {nDim : Nat} (s : Nat → K) : CFlowVariable K nDim where
  GetDensity := fun _ => 1
  GetVelocity := fun k _ => s k
  GetLaminarViscosity := fun _ => 0

/-- A turbulence state with `nu_tilde = 1`, zero solution gradient and zero accumulators. -/
def unitNodes {nDim : Nat} : CTurbSAVariable K nDim where
  GetSolution := fun _ => 1
  GetGradient := fun _ _ => 0
  AnisoGrad := fun _ _ => 0
  AnisoViscGrad := fun _ _ => 0
  AnisoHess := fun _ _ => 0
  AnisoViscHess := fun _ _ => 0

/-- The 2D gradient projector `D_q[s]`: component `q` of the gradient that the element sweep
of `SetTurbGradient_L2Proj2` recovers at vertex `k` for the scalar vertex field `s`
(run from zero accumulators with `s` as the convective sensor of flux 0). -/
def gradProjector2 (geometry : CGeometry K 2 3) (s : Nat → K) (k : Nat) (q : Fin 2) : K :=
  (gradSweep2 geometry (scalarFlow s) unitNodes).AnisoGrad k ((0 : Fin 2).val * 2 + q.val)

/-- The 3D gradient projector `D_q[s]`, defined in the same way from the element sweep of
`SetTurbGradient_L2Proj3`. -/
def gradProjector3 (geometry : CGeometry K 3 4) (s : Nat → K) (k : Nat) (q : Fin 3) : K :=
  (gradSweep3 geometry (scalarFlow s) unitNodes).AnisoGrad k ((0 : Fin 3).val * 3 + q.val)

/-- Packed slot of the entry `(p, q)` of a symmetric 2x2 matrix: `xx, xy, yy`. -/
def symIndex2 (p q : Fin 2) : Fin 3 :=
  (!![0, 1; 1, 2] : Matrix (Fin 2) (Fin 2) (Fin 3)) p q

/-- Packed slot of the entry `(p, q)` of a symmetric 3x3 matrix: `xx, xy, xz, yy, yz, zz`. -/
def symIndex3 (p q : Fin 3) : Fin 6 :=
  (!![0, 1, 2; 1, 3, 4; 2, 4, 5] : Matrix (Fin 3) (Fin 3) (Fin 6)) p q

/-- Contribution of one element to `D_q[s]` at vertex `k` (2D). -/
def elemProj2 (geometry : CGeometry K 2 3) (s : Nat → K) (q : Fin 2) (k : Nat)
    (e : Fin 3 → Nat) : K :=
  ∑ iNode : Fin 3, if k = e iNode then
    graTri (orientedNormals2 (elemCrd geometry e)) (fun iNode => s (e iNode)) q
      * (1 / (geometry.GetVolume (e iNode) * 6)) else 0

/-- Contribution of one element to `D_q[s]` at vertex `k` (3D). -/
def elemProj3 (geometry : CGeometry K 3 4) (s : Nat → K) (q : Fin 3) (k : Nat)
    (e : Fin 4 → Nat) : K :=
  ∑ iNode : Fin 4, if k = e iNode then
    graTet (orientedNormals3 (elemCrd geometry e)) (fun iNode => s (e iNode)) q
      * (1 / (geometry.GetVolume (e iNode) * 24)) else 0

/-- One component of the cross product `(P_b - P_a) × (P_c - P_a)`: the component that pairs
the coordinates `u` and `v`. -/
def crossC (Crd : Fin 4 → Fin 3 → K) (u v : Fin 3) (a b c : Fin 4) : K :=
  (Crd b u - Crd a u) * (Crd c v - Crd a v) - (Crd b v - Crd a v) * (Crd c u - Crd a u)

/-- A quadratic field `f(P) = f0 + b · P + (1/2) Pᵗ H P` of two variables. -/
def quadField (f0 : K) (b : Fin 2 → K) (H : Matrix (Fin 2) (Fin 2) K) (P : Fin 2 → K) : K :=
  f0 + Matrix.dotProduct b P + (1 / 2) * Matrix.dotProduct P (Matrix.mulVec H P)

/-! ## The orientation test outside exact arithmetic

`checkInward2` and `checkInward3` decide the comparison `> 0.` over the exact ordered field.
In binary64 the compared value carries rounding errors; on an element of zero measure its
exact value is zero, so there its sign, and with it the decision to flip a normal, is the
sign of a rounding error.  The definitions below restate the geometry step and the element
steps with the parts that depend on the arithmetic as parameters: the outcomes of the
orientation tests (`orientedNormalsWith2`, `orientedNormalsWith3`), the stored normals
(`gradElemN2`, `gradElemN3`, `hessElemN2`, `hessElemN3`) and the rounding of every single
operation (`orientedNormalsRnd2`, `gradElemRnd2`). -/

/-- The value that the orientation check of vertex `iNode` compares with `0.`
(lines 2410-2421). -/
def inwardTest2 (Crd : Fin 3 → Fin 2 → K) (vn : Normals2 K) (iNode : Fin 3) : K :=
  let CrdAvg := CrdAvg2 Crd iNode
  let u : Fin 2 → K := ![CrdAvg 0 - Crd iNode 0, CrdAvg 1 - Crd iNode 1]
  vn.vnx iNode * u 0 + vn.vny iNode * u 1

/-- One iteration of the "check if inward normal" loop when the outcome of the comparison
for vertex `iNode` is `flip iNode`. -/
def checkInwardWith2 (flip : Fin 3 → Bool) (vn : Normals2 K) (iNode : Fin 3) : Normals2 K :=
  if flip iNode then
    { vnx := Function.update vn.vnx iNode (vn.vnx iNode * (-1))
      vny := Function.update vn.vny iNode (vn.vny iNode * (-1)) }
  else vn

/-- The 2D geometry step when the three comparisons of the orientation loop come out as
`flip`. -/
def orientedNormalsWith2 (flip : Fin 3 → Bool) (Crd : Fin 3 → Fin 2 → K) : Normals2 K :=
  ([0, 1, 2] : List (Fin 3)).foldl (checkInwardWith2 flip) (rawNormals2 Crd)

/-- The value that the orientation check of vertex `iNode` compares with `0.`
(lines 2710-2724). -/
def inwardTest3 (Crd : Fin 4 → Fin 3 → K) (vn : Normals3 K) (iNode : Fin 4) : K :=
  let CrdAvg := CrdAvg3 Crd iNode
  let u : Fin 3 → K := ![CrdAvg 0 - Crd iNode 0, CrdAvg 1 - Crd iNode 1, CrdAvg 2 - Crd iNode 2]
  vn.vnx iNode * u 0 + vn.vny iNode * u 1 + vn.vnz iNode * u 2

/-- One iteration of the 3D "check if inward normal" loop when the outcome of the
comparison for vertex `iNode` is `flip iNode`. -/
def checkInwardWith3 (flip : Fin 4 → Bool) (vn : Normals3 K) (iNode : Fin 4) : Normals3 K :=
  if flip iNode then
    { vnx := Function.update vn.vnx iNode (vn.vnx iNode * (-1))
      vny := Function.update vn.vny iNode (vn.vny iNode * (-1))
      vnz := Function.update vn.vnz iNode (vn.vnz iNode * (-1)) }
  else vn

/-- The 3D geometry step when the four comparisons of the orientation loop come out as
`flip`. -/
def orientedNormalsWith3 (flip : Fin 4 → Bool) (Crd : Fin 4 → Fin 3 → K) : Normals3 K :=
  ([0, 1, 2, 3] : List (Fin 4)).foldl (checkInwardWith3 flip) (rawNormals3 Crd)

/-- The body of the element loop of `SetTurbGradient_L2Proj2` after the geometry step, for
the normals `vn` that the geometry step left in `vnx`, `vny` (lines 2427-2453);
`gradElem2` is this step for `vn = orientedNormals2 Crd`. -/
def gradElemN2 (geometry : CGeometry K 2 3) (solver_flow : CFlowVariable K 2)
    (nodes : CTurbSAVariable K 2) (vn : Normals2 K) (GetNode : Fin 3 → Nat) :
    CTurbSAVariable K 2 :=
  let S : Fin 3 → Fin 2 → K := fun iNode iFlux => Sens solver_flow nodes (GetNode iNode) iFlux
  let SV : Fin 3 → Fin 2 → K := fun iNode iFlux => SensVisc solver_flow nodes (GetNode iNode) iFlux
  ([0, 1] : List (Fin 2)).foldl
    (fun nodes iFlux =>
      let gra := graTri vn (fun iNode => S iNode iFlux)
      let graVisc := graTri vn (fun iNode => SV iNode iFlux)
      let i := iFlux.val * 1 * 2 + 0 * 2
      assembleGrad2 geometry GetNode i gra graVisc nodes)
    nodes

/-- The body of the element loop of `SetTurbGradient_L2Proj3` after the geometry step, for
the stored normals `vn` (lines 2731-2761). -/
def gradElemN3 (geometry : CGeometry K 3 4) (solver_flow : CFlowVariable K 3)
    (nodes : CTurbSAVariable K 3) (vn : Normals3 K) (GetNode : Fin 4 → Nat) :
    CTurbSAVariable K 3 :=
  let S : Fin 4 → Fin 3 → K := fun iNode iFlux => Sens solver_flow nodes (GetNode iNode) iFlux
  let SV : Fin 4 → Fin 3 → K := fun iNode iFlux => SensVisc solver_flow nodes (GetNode iNode) iFlux
  ([0, 1, 2] : List (Fin 3)).foldl
    (fun nodes iFlux =>
      let gra := graTet vn (fun iNode => S iNode iFlux)
      let graVisc := graTet vn (fun iNode => SV iNode iFlux)
      let i := iFlux.val * 1 * 3 + 0 * 3
      assembleGrad3 geometry GetNode i gra graVisc nodes)
    nodes

/-- The body of the element loop of `SetHessian_L2Proj2` after the geometry step, for the
stored normals `vn` (lines 2535-2583). -/
def hessElemN2 (geometry : CGeometry K 2 3) (nodes : CTurbSAVariable K 2) (vn : Normals2 K)
    (GetNode : Fin 3 → Nat) : CTurbSAVariable K 2 :=
  let Grad : Fin 3 → Fin 2 → Fin 2 → K := fun iNode d iFlux =>
    nodes.AnisoGrad (GetNode iNode) (iFlux.val * 1 * 2 + 0 * 2 + d.val)
  let GradVisc : Fin 3 → Fin 2 → Fin 2 → K := fun iNode d iFlux =>
    nodes.AnisoViscGrad (GetNode iNode) (iFlux.val * 1 * 2 + 0 * 2 + d.val)
  ([0, 1] : List (Fin 2)).foldl
    (fun nodes iFlux =>
      let hes := hesTri vn (fun iNode d => Grad iNode d iFlux)
      let hesVisc := hesTri vn (fun iNode d => GradVisc iNode d iFlux)
      let i := iFlux.val * 1 * 3 + 0 * 3
      assembleHess2 geometry GetNode i hes hesVisc nodes)
    nodes

/-- The body of the element loop of `SetHessian_L2Proj3` after the geometry step, for the
stored normals `vn` (lines 2847-2959). -/
def hessElemN3 (geometry : CGeometry K 3 4) (nodes : CTurbSAVariable K 3) (vn : Normals3 K)
    (GetNode : Fin 4 → Nat) : CTurbSAVariable K 3 :=
  let Grad : Fin 4 → Fin 3 → Fin 3 → K := fun iNode d iFlux =>
    nodes.AnisoGrad (GetNode iNode) (iFlux.val * 1 * 3 + 0 * 3 + d.val)
  let GradVisc : Fin 4 → Fin 3 → Fin 3 → K := fun iNode d iFlux =>
    nodes.AnisoViscGrad (GetNode iNode) (iFlux.val * 1 * 3 + 0 * 3 + d.val)
  ([0, 1, 2] : List (Fin 3)).foldl
    (fun nodes iFlux =>
      let hes := hesTet vn (fun iNode d => Grad iNode d iFlux)
      let hesVisc := hesTet vn (fun iNode d => GradVisc iNode d iFlux)
      let i := iFlux.val * 1 * 6 + 0 * 6
      assembleHess3 geometry GetNode i hes hesVisc nodes)
    nodes

/-! ### Rounded arithmetic

`su2double` is `double`.  The definitions below repeat the 2D geometry step and the 2D
gradient element step with the result of every single arithmetic operation passed through
a rounding function `rnd`, in the order in which the source evaluates them (no fused
operations); `rnd = id` gives back the exact definitions above, `rnd = fl64` is
binary64. -/

/-- Rounding of a rational to the nearest integer, ties to the even integer. -/
def roundHalfEven (x : ℚ) : ℤ :=
  if x - ⌊x⌋ < 1 / 2 then ⌊x⌋
  else if 1 / 2 < x - ⌊x⌋ then ⌊x⌋ + 1
  else if ⌊x⌋ % 2 = 0 then ⌊x⌋ else ⌊x⌋ + 1

/-- IEEE 754 binary64 rounding of a rational (round to nearest, ties to even): with
`e = ⌊log2 |x|⌋` the result is the multiple of `2^(e-52)` nearest to `x`, so that the
significand has 53 bits.  The exponent is not bounded: overflow and subnormal numbers are
not modelled. -/
def fl64 (x : ℚ) : ℚ :=
  if x = 0 then 0
  else (roundHalfEven (x / 2 ^ (Int.log 2 |x| - 52)) : ℚ) * 2 ^ (Int.log 2 |x| - 52)

/-- The raw edge normals (lines 2399-2406), every subtraction rounded. -/
def rawNormalsRnd2 (rnd : K → K) (Crd : Fin 3 → Fin 2 → K) : Normals2 K where
  vnx := ![rnd (Crd 1 1 - Crd 2 1), rnd (Crd 2 1 - Crd 0 1), rnd (Crd 0 1 - Crd 1 1)]
  vny := ![rnd (Crd 2 0 - Crd 1 0), rnd (Crd 0 0 - Crd 2 0), rnd (Crd 1 0 - Crd 0 0)]

/-- The array `CrdAvg` of the orientation check for vertex `iNode` (lines 2410-2418), every
`+=` and `/=` rounded. -/
def CrdAvgRnd2 (rnd : K → K) (Crd : Fin 3 → Fin 2 → K) (iNode : Fin 3) : Fin 2 → K :=
  let s := ([0, 1, 2] : List (Fin 3)).foldl
    (fun (acc : Fin 2 → K) jNode =>
      if iNode ≠ jNode then ![rnd (acc 0 + Crd jNode 0), rnd (acc 1 + Crd jNode 1)] else acc)
    ![0, 0]
  ![rnd (s 0 / 2), rnd (s 1 / 2)]

/-- The value that the orientation check of vertex `iNode` compares with `0.`
(lines 2419-2421), every operation rounded. -/
def inwardTestRnd2 (rnd : K → K) (Crd : Fin 3 → Fin 2 → K) (vn : Normals2 K)
    (iNode : Fin 3) : K :=
  let CrdAvg := CrdAvgRnd2 rnd Crd iNode
  let u : Fin 2 → K := ![rnd (CrdAvg 0 - Crd iNode 0), rnd (CrdAvg 1 - Crd iNode 1)]
  rnd (rnd (vn.vnx iNode * u 0) + rnd (vn.vny iNode * u 1))

/-- One iteration of the "check if inward normal" loop (lines 2409-2425) in rounded
arithmetic. -/
def checkInwardRnd2 (rnd : K → K) (Crd : Fin 3 → Fin 2 → K) (vn : Normals2 K)
    (iNode : Fin 3) : Normals2 K :=
  if inwardTestRnd2 rnd Crd vn iNode > 0 then
    { vnx := Function.update vn.vnx iNode (rnd (vn.vnx iNode * (-1)))
      vny := Function.update vn.vny iNode (rnd (vn.vny iNode * (-1))) }
  else vn

/-- The geometry step of the 2D sweeps (lines 2399-2425) in rounded arithmetic. -/
def orientedNormalsRnd2 (rnd : K → K) (Crd : Fin 3 → Fin 2 → K) : Normals2 K :=
  ([0, 1, 2] : List (Fin 3)).foldl (checkInwardRnd2 rnd Crd) (rawNormalsRnd2 rnd Crd)

/-- The sensor `Sens[iNode][0][iFlux]` (lines 2391-2392) in rounded arithmetic. -/
def SensRnd {nDim : Nat} (rnd : K → K) (solver_flow : CFlowVariable K nDim)
    (nodes : CTurbSAVariable K nDim) (kNode : Nat) (iFlux : Fin nDim) : K :=
  rnd (rnd (solver_flow.GetDensity kNode * solver_flow.GetVelocity kNode iFlux)
    * nodes.GetSolution kNode)

/-- The sensor `SensVisc[iNode][0][iFlux]` (lines 2394-2395) in rounded arithmetic. -/
def SensViscRnd {nDim : Nat} (rnd : K → K) (solver_flow : CFlowVariable K nDim)
    (nodes : CTurbSAVariable K nDim) (kNode : Nat) (iFlux : Fin nDim) : K :=
  rnd (rnd ((3 / 2) * rnd (solver_flow.GetLaminarViscosity kNode
      + rnd (solver_flow.GetDensity kNode * nodes.GetSolution kNode)))
    * nodes.GetGradient kNode iFlux)

/-- The raw element gradient `graTri` (lines 2434-2438) in rounded arithmetic. -/
def graTriRnd (rnd : K → K) (vn : Normals2 K) (S : Fin 3 → K) : Fin 2 → K :=
  ![rnd (rnd (rnd (S 0 * vn.vnx 0) + rnd (S 1 * vn.vnx 1)) + rnd (S 2 * vn.vnx 2)),
    rnd (rnd (rnd (S 0 * vn.vny 0) + rnd (S 1 * vn.vny 1)) + rnd (S 2 * vn.vny 2))]

/-- Modelled from the spec: an `Add` accessor in rounded arithmetic, the sum of the running
accumulator and `v` is rounded (see `addAt`). -/
def addAtRnd (rnd : K → K) (f : Nat → Nat → K) (k i : Nat) (v : K) : Nat → Nat → K :=
  fun k' i' => if k' = k ∧ i' = i then rnd (f k' i' + v) else f k' i'

/-- Modelled from the spec: `nodes->AddAnisoGrad(kNode, i, v)` in rounded arithmetic. -/
def CTurbSAVariable.AddAnisoGradRnd {nDim : Nat} (rnd : K → K) (nodes : CTurbSAVariable K nDim)
    (k i : Nat) (v : K) : CTurbSAVariable K nDim :=
  { nodes with AnisoGrad := addAtRnd rnd nodes.AnisoGrad k i v }

/-- Modelled from the spec: `nodes->AddAnisoViscGrad(kNode, i, v)` in rounded arithmetic. -/
def CTurbSAVariable.AddAnisoViscGradRnd {nDim : Nat} (rnd : K → K)
    (nodes : CTurbSAVariable K nDim) (k i : Nat) (v : K) : CTurbSAVariable K nDim :=
  { nodes with AnisoViscGrad := addAtRnd rnd nodes.AnisoViscGrad k i v }

/-- The "assembling" loop over the three element vertices (lines 2440-2452) in rounded
arithmetic. -/
def assembleGradRnd2 (rnd : K → K) (geometry : CGeometry K 2 3) (GetNode : Fin 3 → Nat)
    (i : Nat) (gra graVisc : Fin 2 → K) (nodes : CTurbSAVariable K 2) : CTurbSAVariable K 2 :=
  ([0, 1, 2] : List (Fin 3)).foldl
    (fun nodes iNode =>
      let kNode := GetNode iNode
      let Area := geometry.GetVolume kNode
      let rap := rnd (1 / rnd (Area * 6))
      let nodes := nodes.AddAnisoGradRnd rnd kNode (i + 0) (rnd (gra 0 * rap))
      let nodes := nodes.AddAnisoGradRnd rnd kNode (i + 1) (rnd (gra 1 * rap))
      let nodes := nodes.AddAnisoViscGradRnd rnd kNode (i + 0) (rnd (graVisc 0 * rap))
      nodes.AddAnisoViscGradRnd rnd kNode (i + 1) (rnd (graVisc 1 * rap)))
    nodes

/-- The body of the element loop of `SetTurbGradient_L2Proj2` for one element (lines
2374-2453) in rounded arithmetic: sensors, geometry step, element gradients, assembly. -/
def gradElemRnd2 (rnd : K → K) (geometry : CGeometry K 2 3) (solver_flow : CFlowVariable K 2)
    (nodes : CTurbSAVariable K 2) (GetNode : Fin 3 → Nat) : CTurbSAVariable K 2 :=
  let Crd := elemCrd geometry GetNode
  let S : Fin 3 → Fin 2 → K := fun iNode iFlux =>
    SensRnd rnd solver_flow nodes (GetNode iNode) iFlux
  let SV : Fin 3 → Fin 2 → K := fun iNode iFlux =>
    SensViscRnd rnd solver_flow nodes (GetNode iNode) iFlux
  let vn := orientedNormalsRnd2 rnd Crd
  ([0, 1] : List (Fin 2)).foldl
    (fun nodes iFlux =>
      let gra := graTriRnd rnd vn (fun iNode => S iNode iFlux)
      let graVisc := graTriRnd rnd vn (fun iNode => SV iNode iFlux)
      let i := iFlux.val * 1 * 2 + 0 * 2
      assembleGradRnd2 rnd geometry GetNode i gra graVisc nodes)
    nodes

end Defs

section Concrete

/-! ## Concrete meshes and states used as test inputs -/

/-- The unit square split into the triangles `0 1 2` (counter-clockwise) and `0 3 2`
(clockwise), with median-dual volumes. -/
def squareMesh : CGeometry ℚ 2 3 where
  nPoint := 4
  nPointDomain := 4
  GetCoord := fun k => if k = 0 then ![0, 0] else if k = 1 then ![1, 0]
    else if k = 2 then ![1, 1] else ![0, 1]
  GetVolume := fun k => if k = 0 then 1 / 3 else if k = 1 then 1 / 6
    else if k = 2 then 1 / 3 else 1 / 6
  elem := [![0, 1, 2], ![0, 3, 2]]

/-- A flow state whose sensors for flux 0 are affine on `squareMesh`. -/
def squareFlow : CFlowVariable ℚ 2 where
  GetDensity := fun _ => 1
  GetVelocity := fun k j =>
    if j = 0 then 1 + 2 * squareMesh.GetCoord k 0 + 3 * squareMesh.GetCoord k 1
    else 4 - squareMesh.GetCoord k 0
  GetLaminarViscosity := fun _ => 1

/-- A turbulence state on `squareMesh` with zero accumulators. -/
def squareNodes : CTurbSAVariable ℚ 2 where
  GetSolution := fun _ => 1
  GetGradient := fun k j =>
    if j = 0 then 5 + 7 * squareMesh.GetCoord k 0 - squareMesh.GetCoord k 1
    else 2
  AnisoGrad := fun _ _ => 0
  AnisoViscGrad := fun _ _ => 0
  AnisoHess := fun _ _ => 0
  AnisoViscHess := fun _ _ => 0

/-- The unit right triangle `(0,0), (1,0), (0,1)` with dual volume `1/6` at every vertex. -/
def unitTriangle : CGeometry ℚ 2 3 where
  nPoint := 3
  nPointDomain := 3
  GetCoord := fun k => if k = 0 then ![0, 0] else if k = 1 then ![1, 0] else ![0, 1]
  GetVolume := fun _ => 1 / 6
  elem := [![0, 1, 2]]

/-- A flow state whose convective sensor for flux 0 takes the samples `0, 2, 1` at the
vertices `0, 1, 2`, and whose viscous sensor takes the same samples. -/
def exampleFlow : CFlowVariable ℚ 2 where
  GetDensity := fun _ => 1
  GetVelocity := fun k j => if j = 0 then (if k = 0 then 0 else if k = 1 then 2 else 1) else 0
  GetLaminarViscosity := fun _ => 1

/-- A turbulence state with zero accumulators for the unit-triangle example. -/
def exampleNodes : CTurbSAVariable ℚ 2 where
  GetSolution := fun _ => 1
  GetGradient := fun k j =>
    if j = 0 then (if k = 0 then 0 else if k = 1 then 2 / 3 else 1 / 3) else 0
  AnisoGrad := fun _ _ => 0
  AnisoViscGrad := fun _ _ => 0
  AnisoHess := fun _ _ => 0
  AnisoViscHess := fun _ _ => 0

/-- Two unit tetrahedra glued along the face `0 1 2`, one of each orientation, with
dual volumes one quarter of the incident volume. -/
def doubleTet : CGeometry ℚ 3 4 where
  nPoint := 5
  nPointDomain := 5
  GetCoord := fun k => if k = 0 then ![0, 0, 0] else if k = 1 then ![1, 0, 0]
    else if k = 2 then ![0, 1, 0] else if k = 3 then ![0, 0, 1] else ![0, 0, -1]
  GetVolume := fun k => if k = 3 then 1 / 24 else if k = 4 then 1 / 24 else 1 / 12
  elem := [![0, 1, 2, 3], ![0, 1, 2, 4]]

/-- A flow state whose sensors for flux 1 are affine on `doubleTet`. -/
def tetFlow : CFlowVariable ℚ 3 where
  GetDensity := fun _ => 2
  GetVelocity := fun k j =>
    if j = 1 then 1 + 2 * doubleTet.GetCoord k 0 + 3 * doubleTet.GetCoord k 1
      - 5 * doubleTet.GetCoord k 2
    else 0
  GetLaminarViscosity := fun _ => 0

/-- A turbulence state on `doubleTet` with zero accumulators. -/
def tetNodes : CTurbSAVariable ℚ 3 where
  GetSolution := fun _ => 1
  GetGradient := fun k j =>
    if j = 1 then doubleTet.GetCoord k 0 - doubleTet.GetCoord k 2 else 0
  AnisoGrad := fun _ _ => 0
  AnisoViscGrad := fun _ _ => 0
  AnisoHess := fun _ _ => 0
  AnisoViscHess := fun _ _ => 0

/-- The rotation with cosine `3/5` and sine `4/5`. -/
def rot345 : Matrix (Fin 2) (Fin 2) ℚ := !![3 / 5, -4 / 5; 4 / 5, 3 / 5]

/-- The unit right triangle as a partition with two owned vertices and the halo vertex 2. -/
def haloMesh : CGeometry ℚ 2 3 where
  nPoint := 3
  nPointDomain := 2
  GetCoord := fun k => if k = 0 then ![0, 0] else if k = 1 then ![1, 0] else ![0, 1]
  GetVolume := fun _ => 1 / 6
  elem := [![0, 1, 2]]

/-- A halo exchange that delivers the packed Hessian `(-1, 0, -3)` (for both fluxes) to the
halo vertex 2 of the convective Hessian field and leaves everything else alone. -/
def haloComms (tag : CommTag) (nodes : CTurbSAVariable ℚ 2) : CTurbSAVariable ℚ 2 :=
  match tag with
  | CommTag.ANISO_HESSIAN =>
    { nodes with
      AnisoHess := fun k s =>
        if k = 2 then (if s = 0 ∨ s = 3 then -1 else if s = 2 ∨ s = 5 then -3 else 0)
        else nodes.AnisoHess k s }
  | _ => nodes

/-- A collinear (zero-area) triangle `(0,0), (1,0), (2,0)` with unit dual volumes. -/
def flatTriangle : CGeometry ℚ 2 3 where
  nPoint := 3
  nPointDomain := 3
  GetCoord := fun k => if k = 0 then ![0, 0] else if k = 1 then ![1, 0] else ![2, 0]
  GetVolume := fun _ => 1
  elem := [![0, 1, 2]]

/-- A flow state whose convective sensor for flux 0 takes the samples `0, 1, 0`. -/
def flatFlow : CFlowVariable ℚ 2 where
  GetDensity := fun _ => 1
  GetVelocity := fun k j => if j = 0 then (if k = 1 then 1 else 0) else 0
  GetLaminarViscosity := fun _ => 0

/-- A coplanar (zero-volume) tetrahedron `(0,0,0), (1,0,0), (0,1,0), (1,1,0)` with unit dual
volumes. -/
def flatTet : CGeometry ℚ 3 4 where
  nPoint := 4
  nPointDomain := 4
  GetCoord := fun k => if k = 0 then ![0, 0, 0] else if k = 1 then ![1, 0, 0]
    else if k = 2 then ![0, 1, 0] else ![1, 1, 0]
  GetVolume := fun _ => 1
  elem := [![0, 1, 2, 3]]

/-- The state `exampleNodes` with every gradient and Hessian accumulator slot preset to 1
instead of 0. -/
def presetNodes : CTurbSAVariable ℚ 2 :=
  { exampleNodes with
    AnisoGrad := fun _ _ => 1
    AnisoViscGrad := fun _ _ => 1
    AnisoHess := fun _ _ => 1
    AnisoViscHess := fun _ _ => 1 }

/-- A 2D turbulence state on `squareMesh` with stored nodal gradients and zero Hessian
accumulators. -/
def gradNodes2 : CTurbSAVariable ℚ 2 :=
  { squareNodes with
    AnisoGrad := fun k s =>
      if s = 0 then squareMesh.GetCoord k 0 * squareMesh.GetCoord k 1
      else 3 * squareMesh.GetCoord k 0 - squareMesh.GetCoord k 1
    AnisoViscGrad := fun k _ => 2 * squareMesh.GetCoord k 1 }

/-- A 3D turbulence state on `doubleTet` with stored nodal gradients and zero Hessian
accumulators. -/
def gradNodes3 : CTurbSAVariable ℚ 3 :=
  { tetNodes with
    AnisoGrad := fun k s =>
      if s = 3 then doubleTet.GetCoord k 0 + 2 * doubleTet.GetCoord k 2
      else doubleTet.GetCoord k 1 * doubleTet.GetCoord k 2
    AnisoViscGrad := fun k _ => 1 - doubleTet.GetCoord k 0 }

/-- A flow state on `squareMesh` with density 2 and half the velocity of `squareFlow`: the
convective sensor is the same as for `squareFlow`, the viscous sensor is not. -/
def denseFlow : CFlowVariable ℚ 2 where
  GetDensity := fun _ => 2
  GetVelocity := fun k j => squareFlow.GetVelocity k j / 2
  GetLaminarViscosity := fun _ => 5

/-- A coplanar (zero-volume) tetrahedron whose fourth vertex lies inside the triangle of the
other three: `(0,0,0), (1,0,0), (0,1,0), (1/4,1/4,0)`, with unit dual volumes. -/
def sliverTet : CGeometry ℚ 3 4 where
  nPoint := 4
  nPointDomain := 4
  GetCoord := fun k => if k = 0 then ![0, 0, 0] else if k = 1 then ![1, 0, 0]
    else if k = 2 then ![0, 1, 0] else ![1 / 4, 1 / 4, 0]
  GetVolume := fun _ => 1
  elem := [![0, 1, 2, 3]]

/-- The permutation matrix `[[0, 1], [1, 0]]` that exchanges the two coordinate axes. -/
def swapBasis : Matrix (Fin 2) (Fin 2) ℚ := Matrix.of (fun i j => if i = j then 0 else 1)

/-- Three vertices on the line `y = 3 x`: `(0, 0)`, `(1.1, 3.3000000000000003)` and
`(2.2, 6.6000000000000005)`, written with the exact values of these binary64 numbers
(`1.1 = 2476979795053773 / 2^51`, `3.3000000000000003 = 7430939385161319 / 2^51`, the
third vertex is twice the second), with unit dual volumes.  The triangle has area 0. -/
def slantedLine : CGeometry ℚ 2 3 where
  nPoint := 3
  nPointDomain := 3
  GetCoord := fun k =>
    if k = 0 then ![0, 0]
    else if k = 1 then ![2476979795053773 / 2251799813685248, 7430939385161319 / 2251799813685248]
    else ![2476979795053773 / 1125899906842624, 7430939385161319 / 1125899906842624]
  GetVolume := fun _ => 1
  elem := [![0, 1, 2]]

end Concrete

section Lemmas

variable {K : Type} [LinearOrderedField K]

/-! ## Auxiliary lemmas -/

theorem addAt_apply (f : Nat → Nat → K) (k i : Nat) (v : K) (k' i' : Nat) :
    addAt f k i v k' i' = f k' i' + (if k' = k ∧ i' = i then v else 0) := by
  unfold addAt
  split_ifs <;> simp


theorem assembleGrad2_AnisoGrad (geometry : CGeometry K 2 3) (GetNode : Fin 3 → Nat) (i : Nat)
    (gra graVisc : Fin 2 → K) (nodes : CTurbSAVariable K 2) (k s : Nat) :
    (assembleGrad2 geometry GetNode i gra graVisc nodes).AnisoGrad k s
      = nodes.AnisoGrad k s + nodeSum2 geometry GetNode i gra k s := by
  simp only [assembleGrad2, List.foldl, CTurbSAVariable.AddAnisoGrad,
    CTurbSAVariable.AddAnisoViscGrad, addAt_apply, nodeSum2, Fin.sum_univ_three]
  ring

theorem assembleGrad2_AnisoViscGrad (geometry : CGeometry K 2 3) (GetNode : Fin 3 → Nat) (i : Nat)
    (gra graVisc : Fin 2 → K) (nodes : CTurbSAVariable K 2) (k s : Nat) :
    (assembleGrad2 geometry GetNode i gra graVisc nodes).AnisoViscGrad k s
      = nodes.AnisoViscGrad k s + nodeSum2 geometry GetNode i graVisc k s := by
  simp only [assembleGrad2, List.foldl, CTurbSAVariable.AddAnisoGrad,
    CTurbSAVariable.AddAnisoViscGrad, addAt_apply, nodeSum2, Fin.sum_univ_three]
  ring

theorem assembleGrad2_frame (geometry : CGeometry K 2 3) (GetNode : Fin 3 → Nat) (i : Nat)
    (gra graVisc : Fin 2 → K) (nodes : CTurbSAVariable K 2) :
    (assembleGrad2 geometry GetNode i gra graVisc nodes).GetSolution = nodes.GetSolution ∧
    (assembleGrad2 geometry GetNode i gra graVisc nodes).GetGradient = nodes.GetGradient ∧
    (assembleGrad2 geometry GetNode i gra graVisc nodes).AnisoHess = nodes.AnisoHess ∧
    (assembleGrad2 geometry GetNode i gra graVisc nodes).AnisoViscHess = nodes.AnisoViscHess := by
  simp only [assembleGrad2, List.foldl, CTurbSAVariable.AddAnisoGrad,
    CTurbSAVariable.AddAnisoViscGrad, and_self]


theorem inwardTest2_raw (Crd : Fin 3 → Fin 2 → K) (i : Fin 3) :
    (rawNormals2 Crd).vnx i * ((![CrdAvg2 Crd i 0 - Crd i 0, CrdAvg2 Crd i 1 - Crd i 1] : Fin 2 → K) 0)
      + (rawNormals2 Crd).vny i * ((![CrdAvg2 Crd i 0 - Crd i 0, CrdAvg2 Crd i 1 - Crd i 1] : Fin 2 → K) 1)
      = - det2 Crd := by
  fin_cases i <;> simp [CrdAvg2, rawNormals2, det2] <;> ring

theorem checkInward2_of_raw (Crd : Fin 3 → Fin 2 → K) (vn : Normals2 K) (i : Fin 3)
    (hx : vn.vnx i = (rawNormals2 Crd).vnx i) (hy : vn.vny i = (rawNormals2 Crd).vny i) :
    checkInward2 Crd vn i =
      if det2 Crd < 0 then
        { vnx := Function.update vn.vnx i (- (rawNormals2 Crd).vnx i)
          vny := Function.update vn.vny i (- (rawNormals2 Crd).vny i) }
      else vn := by
  unfold checkInward2
  simp only [hx, hy, inwardTest2_raw, gt_iff_lt, Left.neg_pos_iff, mul_neg, mul_one]

theorem orientedNormals2_eq (Crd : Fin 3 → Fin 2 → K) :
    orientedNormals2 Crd =
      if det2 Crd < 0 then
        { vnx := fun i => - (rawNormals2 Crd).vnx i, vny := fun i => - (rawNormals2 Crd).vny i }
      else rawNormals2 Crd := by
  unfold orientedNormals2
  simp only [List.foldl]
  by_cases h : det2 Crd < 0
  · rw [checkInward2_of_raw Crd _ 0 rfl rfl, if_pos h,
      checkInward2_of_raw Crd _ 1 (by simp) (by simp), if_pos h,
      checkInward2_of_raw Crd _ 2 (by simp) (by simp), if_pos h, if_pos h]
    congr 1 <;> funext i <;> fin_cases i <;> simp [Function.update]
  · rw [checkInward2_of_raw Crd _ 0 rfl rfl, if_neg h,
      checkInward2_of_raw Crd _ 1 rfl rfl, if_neg h,
      checkInward2_of_raw Crd _ 2 rfl rfl, if_neg h, if_neg h]

theorem graTri_affine (Crd : Fin 3 → Fin 2 → K) (S : Fin 3 → K) (a bx b_y : K)
    (hS : ∀ i, S i = a + bx * Crd i 0 + b_y * Crd i 1) :
    graTri (orientedNormals2 Crd) S = ![|det2 Crd| * bx, |det2 Crd| * b_y] := by
  rw [orientedNormals2_eq]
  by_cases h : det2 Crd < 0
  · rw [if_pos h, abs_of_neg h]
    simp only [graTri, rawNormals2, hS, det2]
    funext i
    fin_cases i <;> simp <;> ring
  · rw [if_neg h, abs_of_nonneg (not_lt.mp h)]
    simp only [graTri, rawNormals2, hS, det2]
    funext i
    fin_cases i <;> simp <;> ring


theorem gradElem2_frame (geometry : CGeometry K 2 3) (solver_flow : CFlowVariable K 2)
    (nodes : CTurbSAVariable K 2) (GetNode : Fin 3 → Nat) :
    (gradElem2 geometry solver_flow nodes GetNode).GetSolution = nodes.GetSolution ∧
    (gradElem2 geometry solver_flow nodes GetNode).GetGradient = nodes.GetGradient ∧
    (gradElem2 geometry solver_flow nodes GetNode).AnisoHess = nodes.AnisoHess ∧
    (gradElem2 geometry solver_flow nodes GetNode).AnisoViscHess = nodes.AnisoViscHess := by
  simp only [gradElem2, List.foldl, assembleGrad2_frame, and_self]

theorem gradElem2_AnisoGrad (geometry : CGeometry K 2 3) (solver_flow : CFlowVariable K 2)
    (nodes : CTurbSAVariable K 2) (GetNode : Fin 3 → Nat) (k s : Nat) :
    (gradElem2 geometry solver_flow nodes GetNode).AnisoGrad k s
      = nodes.AnisoGrad k s + gradContrib2 geometry (Sens solver_flow nodes) GetNode k s := by
  simp only [gradElem2, List.foldl, assembleGrad2_AnisoGrad, gradContrib2, Fin.sum_univ_two]
  simp only [Fin.val_zero, Fin.val_one]
  ring

theorem gradElem2_AnisoViscGrad (geometry : CGeometry K 2 3) (solver_flow : CFlowVariable K 2)
    (nodes : CTurbSAVariable K 2) (GetNode : Fin 3 → Nat) (k s : Nat) :
    (gradElem2 geometry solver_flow nodes GetNode).AnisoViscGrad k s
      = nodes.AnisoViscGrad k s + gradContrib2 geometry (SensVisc solver_flow nodes) GetNode k s := by
  simp only [gradElem2, List.foldl, assembleGrad2_AnisoViscGrad, gradContrib2, Fin.sum_univ_two]
  simp only [Fin.val_zero, Fin.val_one]
  ring

theorem Sens_congr {nDim : Nat} (solver_flow : CFlowVariable K nDim) (n m : CTurbSAVariable K nDim)
    (h : n.GetSolution = m.GetSolution) : Sens solver_flow n = Sens solver_flow m := by
  funext k j; simp only [Sens, h]

theorem SensVisc_congr {nDim : Nat} (solver_flow : CFlowVariable K nDim)
    (n m : CTurbSAVariable K nDim)
    (h : n.GetSolution = m.GetSolution) (hg : n.GetGradient = m.GetGradient) :
    SensVisc solver_flow n = SensVisc solver_flow m := by
  funext k j; simp only [SensVisc, h, hg]

/-- Accumulation formula of the 2D gradient sweep, for an arbitrary element list. -/
theorem gradSweep2_fold (geometry : CGeometry K 2 3) (solver_flow : CFlowVariable K 2)
    (es : List (Fin 3 → Nat)) (nodes : CTurbSAVariable K 2) :
    (∀ k s, (es.foldl (gradElem2 geometry solver_flow) nodes).AnisoGrad k s
      = nodes.AnisoGrad k s
        + (es.map (fun e => gradContrib2 geometry (Sens solver_flow nodes) e k s)).sum) ∧
    (∀ k s, (es.foldl (gradElem2 geometry solver_flow) nodes).AnisoViscGrad k s
      = nodes.AnisoViscGrad k s
        + (es.map (fun e => gradContrib2 geometry (SensVisc solver_flow nodes) e k s)).sum) ∧
    (es.foldl (gradElem2 geometry solver_flow) nodes).GetSolution = nodes.GetSolution ∧
    (es.foldl (gradElem2 geometry solver_flow) nodes).GetGradient = nodes.GetGradient ∧
    (es.foldl (gradElem2 geometry solver_flow) nodes).AnisoHess = nodes.AnisoHess ∧
    (es.foldl (gradElem2 geometry solver_flow) nodes).AnisoViscHess = nodes.AnisoViscHess := by
  induction es generalizing nodes with
  | nil => simp
  | cons e es ih =>
    obtain ⟨h1, h2, h3, h4, h5, h6⟩ := ih (gradElem2 geometry solver_flow nodes e)
    obtain ⟨f1, f2, f3, f4⟩ := gradElem2_frame geometry solver_flow nodes e
    have hS := Sens_congr solver_flow _ _ f1
    have hSV := SensVisc_congr solver_flow _ _ f1 f2
    refine ⟨?_, ?_, ?_, ?_, ?_, ?_⟩
    · intro k s
      simp only [List.foldl_cons, List.map_cons, List.sum_cons, h1, gradElem2_AnisoGrad, hS]
      ring
    · intro k s
      simp only [List.foldl_cons, List.map_cons, List.sum_cons, h2, gradElem2_AnisoViscGrad, hSV]
      ring
    · simp only [List.foldl_cons, h3, f1]
    · simp only [List.foldl_cons, h4, f2]
    · simp only [List.foldl_cons, h5, f3]
    · simp only [List.foldl_cons, h6, f4]



theorem inwardTest3_raw (Crd : Fin 4 → Fin 3 → K) (i : Fin 4) :
    (rawNormals3 Crd).vnx i
        * ((![CrdAvg3 Crd i 0 - Crd i 0, CrdAvg3 Crd i 1 - Crd i 1,
              CrdAvg3 Crd i 2 - Crd i 2] : Fin 3 → K) 0)
      + (rawNormals3 Crd).vny i
        * ((![CrdAvg3 Crd i 0 - Crd i 0, CrdAvg3 Crd i 1 - Crd i 1,
              CrdAvg3 Crd i 2 - Crd i 2] : Fin 3 → K) 1)
      + (rawNormals3 Crd).vnz i
        * ((![CrdAvg3 Crd i 0 - Crd i 0, CrdAvg3 Crd i 1 - Crd i 1,
              CrdAvg3 Crd i 2 - Crd i 2] : Fin 3 → K) 2)
      = faceSign i * det3 Crd := by
  fin_cases i <;> simp [CrdAvg3, rawNormals3, det3, faceSign] <;> ring

theorem checkInward3_of_raw (Crd : Fin 4 → Fin 3 → K) (vn : Normals3 K) (i : Fin 4)
    (hx : vn.vnx i = (rawNormals3 Crd).vnx i) (hy : vn.vny i = (rawNormals3 Crd).vny i)
    (hz : vn.vnz i = (rawNormals3 Crd).vnz i) :
    checkInward3 Crd vn i =
      if 0 < faceSign i * det3 Crd then
        { vnx := Function.update vn.vnx i (- (rawNormals3 Crd).vnx i)
          vny := Function.update vn.vny i (- (rawNormals3 Crd).vny i)
          vnz := Function.update vn.vnz i (- (rawNormals3 Crd).vnz i) }
      else vn := by
  unfold checkInward3
  simp only [hx, hy, hz, inwardTest3_raw, gt_iff_lt, mul_neg, mul_one]

/-- The orientation loop flips exactly the raw normals whose test value is positive. -/
theorem orientedNormals3_eq (Crd : Fin 4 → Fin 3 → K) :
    orientedNormals3 Crd =
      { vnx := fun i => if 0 < faceSign i * det3 Crd then - (rawNormals3 Crd).vnx i
                        else (rawNormals3 Crd).vnx i
        vny := fun i => if 0 < faceSign i * det3 Crd then - (rawNormals3 Crd).vny i
                        else (rawNormals3 Crd).vny i
        vnz := fun i => if 0 < faceSign i * det3 Crd then - (rawNormals3 Crd).vnz i
                        else (rawNormals3 Crd).vnz i } := by
  unfold orientedNormals3
  simp only [List.foldl]
  have e0 : (faceSign 0 : K) = 1 := by simp [faceSign]
  have e1 : (faceSign 1 : K) = -1 := by simp [faceSign]
  have e2 : (faceSign 2 : K) = 1 := by simp [faceSign]
  have e3 : (faceSign 3 : K) = -1 := by simp [faceSign]
  rcases lt_trichotomy (det3 Crd) 0 with h | h | h
  · have p0 : ¬ 0 < faceSign 0 * det3 Crd := by rw [e0]; linarith
    have p1 : 0 < faceSign 1 * det3 Crd := by rw [e1]; linarith
    have p2 : ¬ 0 < faceSign 2 * det3 Crd := by rw [e2]; linarith
    have p3 : 0 < faceSign 3 * det3 Crd := by rw [e3]; linarith
    rw [checkInward3_of_raw Crd _ 0 rfl rfl rfl, if_neg p0,
      checkInward3_of_raw Crd _ 1 rfl rfl rfl, if_pos p1,
      checkInward3_of_raw Crd _ 2 (by simp) (by simp) (by simp), if_neg p2,
      checkInward3_of_raw Crd _ 3 (by simp) (by simp) (by simp), if_pos p3]
    congr 1 <;> funext i <;> fin_cases i <;> simp [Function.update, p0, p1, p2, p3]
  · have p : ∀ i, ¬ 0 < faceSign i * det3 Crd := by intro i; simp [h]
    rw [checkInward3_of_raw Crd _ 0 rfl rfl rfl, if_neg (p 0),
      checkInward3_of_raw Crd _ 1 rfl rfl rfl, if_neg (p 1),
      checkInward3_of_raw Crd _ 2 rfl rfl rfl, if_neg (p 2),
      checkInward3_of_raw Crd _ 3 rfl rfl rfl, if_neg (p 3)]
    simp only [p, if_false]
  · have p0 : 0 < faceSign 0 * det3 Crd := by rw [e0]; linarith
    have p1 : ¬ 0 < faceSign 1 * det3 Crd := by rw [e1]; linarith
    have p2 : 0 < faceSign 2 * det3 Crd := by rw [e2]; linarith
    have p3 : ¬ 0 < faceSign 3 * det3 Crd := by rw [e3]; linarith
    rw [checkInward3_of_raw Crd _ 0 rfl rfl rfl, if_pos p0,
      checkInward3_of_raw Crd _ 1 (by simp) (by simp) (by simp), if_neg p1,
      checkInward3_of_raw Crd _ 2 (by simp) (by simp) (by simp), if_pos p2,
      checkInward3_of_raw Crd _ 3 (by simp) (by simp) (by simp), if_neg p3]
    congr 1 <;> funext i <;> fin_cases i <;> simp [Function.update, p0, p1, p2, p3]

theorem graTet_affine (Crd : Fin 4 → Fin 3 → K) (S : Fin 4 → K) (a : K) (b : Fin 3 → K)
    (hnd : det3 Crd ≠ 0)
    (hS : ∀ i, S i = a + b 0 * Crd i 0 + b 1 * Crd i 1 + b 2 * Crd i 2) (d : Fin 3) :
    graTet (orientedNormals3 Crd) S d = |det3 Crd| * b d := by
  rw [orientedNormals3_eq]
  have e0 : (faceSign 0 : K) = 1 := by simp [faceSign]
  have e1 : (faceSign 1 : K) = -1 := by simp [faceSign]
  have e2 : (faceSign 2 : K) = 1 := by simp [faceSign]
  have e3 : (faceSign 3 : K) = -1 := by simp [faceSign]
  rcases lt_trichotomy (det3 Crd) 0 with h | h | h
  · have p0 : ¬ 0 < faceSign 0 * det3 Crd := by rw [e0]; linarith
    have p1 : 0 < faceSign 1 * det3 Crd := by rw [e1]; linarith
    have p2 : ¬ 0 < faceSign 2 * det3 Crd := by rw [e2]; linarith
    have p3 : 0 < faceSign 3 * det3 Crd := by rw [e3]; linarith
    rw [abs_of_neg h]
    simp only [graTet, p0, p1, p2, p3, if_true, if_false, hS]
    fin_cases d <;> simp [rawNormals3, det3] <;> ring
  · exact absurd h hnd
  · have p0 : 0 < faceSign 0 * det3 Crd := by rw [e0]; linarith
    have p1 : ¬ 0 < faceSign 1 * det3 Crd := by rw [e1]; linarith
    have p2 : 0 < faceSign 2 * det3 Crd := by rw [e2]; linarith
    have p3 : ¬ 0 < faceSign 3 * det3 Crd := by rw [e3]; linarith
    rw [abs_of_pos h]
    simp only [graTet, p0, p1, p2, p3, if_true, if_false, hS]
    fin_cases d <;> simp [rawNormals3, det3] <;> ring

/-! ### List sums -/

theorem sum_map_mul_const {α : Type} (l : List α) (f : α → K) (c : K) :
    (l.map (fun x => f x * c)).sum = (l.map f).sum * c := by
  induction l with
  | nil => simp
  | cons x xs ih => simp only [List.map_cons, List.sum_cons, ih]; ring

theorem sum_map_congr {α : Type} (l : List α) (f g : α → K) (h : ∀ x ∈ l, f x = g x) :
    (l.map f).sum = (l.map g).sum := by
  rw [List.map_congr_left h]

/-- Summing over the local slots of an element with pairwise distinct vertices picks
at most one slot. -/
theorem sum_ite_of_injective {n : Nat} (e : Fin n → Nat) (he : Function.Injective e) (k : Nat)
    (F : Nat → K) :
    (∑ iNode : Fin n, if k = e iNode then F (e iNode) else 0)
      = if ∃ iNode, e iNode = k then F k else 0 := by
  by_cases hex : ∃ iNode, e iNode = k
  · obtain ⟨i0, hi0⟩ := hex
    rw [if_pos ⟨i0, hi0⟩, Finset.sum_eq_single i0]
    · rw [if_pos hi0.symm, hi0]
    · intro j _ hj
      rw [if_neg]
      intro hk
      exact hj (he (hk.symm.trans hi0.symm))
    · intro h; exact absurd (Finset.mem_univ i0) h
  · rw [if_neg hex]
    apply Finset.sum_eq_zero
    intro j _
    rw [if_neg]
    intro hk
    exact hex ⟨j, hk.symm⟩

/-! ### 2D: from the element gradient to the nodal gradient -/

theorem nodes_injective2 (geometry : CGeometry K 2 3) (e : Fin 3 → Nat)
    (h : det2 (elemCrd geometry e) ≠ 0) : Function.Injective e := by
  have key : ∀ i j : Fin 3, i ≠ j → e i ≠ e j := by
    intro i j hij he
    apply h
    fin_cases i <;> fin_cases j <;> first
      | exact absurd rfl hij
      | (simp only [Fin.zero_eta, Fin.mk_one, Fin.reduceFinMk] at he
         simp only [det2, elemCrd, he]; ring)
  intro i j hij
  by_contra hne
  exact key i j hne hij

theorem gradContrib2_slot (geometry : CGeometry K 2 3) (S : Nat → Fin 2 → K) (e : Fin 3 → Nat)
    (k : Nat) (iFlux d : Fin 2) :
    gradContrib2 geometry S e k (iFlux.val * 2 + d.val)
      = ∑ iNode : Fin 3, if k = e iNode then
          graTri (orientedNormals2 (elemCrd geometry e)) (fun iNode => S (e iNode) iFlux) d
            * (1 / (geometry.GetVolume (e iNode) * 6)) else 0 := by
  fin_cases iFlux <;> fin_cases d <;>
    simp [gradContrib2, nodeSum2, Fin.sum_univ_two, Fin.sum_univ_three]

theorem gradContrib2_affine (geometry : CGeometry K 2 3) (S : Nat → Fin 2 → K) (e : Fin 3 → Nat)
    (k : Nat) (iFlux d : Fin 2) (a : K) (b : Fin 2 → K)
    (hnd : det2 (elemCrd geometry e) ≠ 0)
    (hS : ∀ iNode, S (e iNode) iFlux
      = a + b 0 * geometry.GetCoord (e iNode) 0 + b 1 * geometry.GetCoord (e iNode) 1) :
    gradContrib2 geometry S e k (iFlux.val * 2 + d.val)
      = (if ∃ iNode, e iNode = k then triArea (elemCrd geometry e) else 0)
          * (b d / (3 * geometry.GetVolume k)) := by
  rw [gradContrib2_slot, graTri_affine (elemCrd geometry e) _ a (b 0) (b 1) hS]
  have hd : (![|det2 (elemCrd geometry e)| * b 0, |det2 (elemCrd geometry e)| * b 1] : Fin 2 → K) d
      = |det2 (elemCrd geometry e)| * b d := by
    fin_cases d <;> simp
  rw [hd, sum_ite_of_injective e (nodes_injective2 geometry e hnd) k
    (fun v => |det2 (elemCrd geometry e)| * b d * (1 / (geometry.GetVolume v * 6)))]
  by_cases hex : ∃ iNode, e iNode = k
  · rw [if_pos hex, if_pos hex, triArea]; ring
  · rw [if_neg hex, if_neg hex, zero_mul]

/-! ### 3D: from the element gradient to the nodal gradient -/

theorem assembleGrad3_AnisoGrad (geometry : CGeometry K 3 4) (GetNode : Fin 4 → Nat) (i : Nat)
    (gra graVisc : Fin 3 → K) (nodes : CTurbSAVariable K 3) (k s : Nat) :
    (assembleGrad3 geometry GetNode i gra graVisc nodes).AnisoGrad k s
      = nodes.AnisoGrad k s + nodeSum3 geometry GetNode i gra k s := by
  simp only [assembleGrad3, List.foldl, CTurbSAVariable.AddAnisoGrad,
    CTurbSAVariable.AddAnisoViscGrad, addAt_apply, nodeSum3, Fin.sum_univ_four]
  ring

theorem assembleGrad3_AnisoViscGrad (geometry : CGeometry K 3 4) (GetNode : Fin 4 → Nat) (i : Nat)
    (gra graVisc : Fin 3 → K) (nodes : CTurbSAVariable K 3) (k s : Nat) :
    (assembleGrad3 geometry GetNode i gra graVisc nodes).AnisoViscGrad k s
      = nodes.AnisoViscGrad k s + nodeSum3 geometry GetNode i graVisc k s := by
  simp only [assembleGrad3, List.foldl, CTurbSAVariable.AddAnisoGrad,
    CTurbSAVariable.AddAnisoViscGrad, addAt_apply, nodeSum3, Fin.sum_univ_four]
  ring

theorem assembleGrad3_frame (geometry : CGeometry K 3 4) (GetNode : Fin 4 → Nat) (i : Nat)
    (gra graVisc : Fin 3 → K) (nodes : CTurbSAVariable K 3) :
    (assembleGrad3 geometry GetNode i gra graVisc nodes).GetSolution = nodes.GetSolution ∧
    (assembleGrad3 geometry GetNode i gra graVisc nodes).GetGradient = nodes.GetGradient ∧
    (assembleGrad3 geometry GetNode i gra graVisc nodes).AnisoHess = nodes.AnisoHess ∧
    (assembleGrad3 geometry GetNode i gra graVisc nodes).AnisoViscHess = nodes.AnisoViscHess := by
  simp only [assembleGrad3, List.foldl, CTurbSAVariable.AddAnisoGrad,
    CTurbSAVariable.AddAnisoViscGrad, and_self]

theorem gradElem3_frame (geometry : CGeometry K 3 4) (solver_flow : CFlowVariable K 3)
    (nodes : CTurbSAVariable K 3) (GetNode : Fin 4 → Nat) :
    (gradElem3 geometry solver_flow nodes GetNode).GetSolution = nodes.GetSolution ∧
    (gradElem3 geometry solver_flow nodes GetNode).GetGradient = nodes.GetGradient ∧
    (gradElem3 geometry solver_flow nodes GetNode).AnisoHess = nodes.AnisoHess ∧
    (gradElem3 geometry solver_flow nodes GetNode).AnisoViscHess = nodes.AnisoViscHess := by
  simp only [gradElem3, List.foldl, assembleGrad3_frame, and_self]

theorem gradElem3_AnisoGrad (geometry : CGeometry K 3 4) (solver_flow : CFlowVariable K 3)
    (nodes : CTurbSAVariable K 3) (GetNode : Fin 4 → Nat) (k s : Nat) :
    (gradElem3 geometry solver_flow nodes GetNode).AnisoGrad k s
      = nodes.AnisoGrad k s + gradContrib3 geometry (Sens solver_flow nodes) GetNode k s := by
  simp only [gradElem3, List.foldl, assembleGrad3_AnisoGrad, gradContrib3, Fin.sum_univ_three]
  simp only [Fin.val_zero, Fin.val_one, Fin.val_two]
  ring

theorem gradElem3_AnisoViscGrad (geometry : CGeometry K 3 4) (solver_flow : CFlowVariable K 3)
    (nodes : CTurbSAVariable K 3) (GetNode : Fin 4 → Nat) (k s : Nat) :
    (gradElem3 geometry solver_flow nodes GetNode).AnisoViscGrad k s
      = nodes.AnisoViscGrad k s + gradContrib3 geometry (SensVisc solver_flow nodes) GetNode k s := by
  simp only [gradElem3, List.foldl, assembleGrad3_AnisoViscGrad, gradContrib3,
    Fin.sum_univ_three]
  simp only [Fin.val_zero, Fin.val_one, Fin.val_two]
  ring

/-- Accumulation formula of the 3D gradient sweep, for an arbitrary element list. -/
theorem gradSweep3_fold (geometry : CGeometry K 3 4) (solver_flow : CFlowVariable K 3)
    (es : List (Fin 4 → Nat)) (nodes : CTurbSAVariable K 3) :
    (∀ k s, (es.foldl (gradElem3 geometry solver_flow) nodes).AnisoGrad k s
      = nodes.AnisoGrad k s
        + (es.map (fun e => gradContrib3 geometry (Sens solver_flow nodes) e k s)).sum) ∧
    (∀ k s, (es.foldl (gradElem3 geometry solver_flow) nodes).AnisoViscGrad k s
      = nodes.AnisoViscGrad k s
        + (es.map (fun e => gradContrib3 geometry (SensVisc solver_flow nodes) e k s)).sum) ∧
    (es.foldl (gradElem3 geometry solver_flow) nodes).GetSolution = nodes.GetSolution ∧
    (es.foldl (gradElem3 geometry solver_flow) nodes).GetGradient = nodes.GetGradient ∧
    (es.foldl (gradElem3 geometry solver_flow) nodes).AnisoHess = nodes.AnisoHess ∧
    (es.foldl (gradElem3 geometry solver_flow) nodes).AnisoViscHess = nodes.AnisoViscHess := by
  induction es generalizing nodes with
  | nil => simp
  | cons e es ih =>
    obtain ⟨h1, h2, h3, h4, h5, h6⟩ := ih (gradElem3 geometry solver_flow nodes e)
    obtain ⟨f1, f2, f3, f4⟩ := gradElem3_frame geometry solver_flow nodes e
    have hS := Sens_congr solver_flow _ _ f1
    have hSV := SensVisc_congr solver_flow _ _ f1 f2
    refine ⟨?_, ?_, ?_, ?_, ?_, ?_⟩
    · intro k s
      simp only [List.foldl_cons, List.map_cons, List.sum_cons, h1, gradElem3_AnisoGrad, hS]
      ring
    · intro k s
      simp only [List.foldl_cons, List.map_cons, List.sum_cons, h2, gradElem3_AnisoViscGrad, hSV]
      ring
    · simp only [List.foldl_cons, h3, f1]
    · simp only [List.foldl_cons, h4, f2]
    · simp only [List.foldl_cons, h5, f3]
    · simp only [List.foldl_cons, h6, f4]

theorem nodes_injective3 (geometry : CGeometry K 3 4) (e : Fin 4 → Nat)
    (h : det3 (elemCrd geometry e) ≠ 0) : Function.Injective e := by
  have key : ∀ i j : Fin 4, i ≠ j → e i ≠ e j := by
    intro i j hij he
    apply h
    fin_cases i <;> fin_cases j <;> first
      | exact absurd rfl hij
      | (simp only [Fin.zero_eta, Fin.mk_one, Fin.reduceFinMk] at he
         simp only [det3, elemCrd, he]; ring)
  intro i j hij
  by_contra hne
  exact key i j hne hij

theorem nodeSum3_slot (geometry : CGeometry K 3 4) (GetNode : Fin 4 → Nat) (f g : Nat)
    (gra : Fin 3 → K) (k : Nat) (m : Fin 3) :
    nodeSum3 geometry GetNode (f * 1 * 3 + 0 * 3) gra k (g * 3 + m.val)
      = if f = g then ∑ iNode : Fin 4, (if k = GetNode iNode then
          gra m * (1 / (geometry.GetVolume (GetNode iNode) * 24)) else 0) else 0 := by
  by_cases hfg : f = g
  · subst hfg
    rw [if_pos rfl]
    simp only [nodeSum3]
    apply Finset.sum_congr rfl
    intro iNode _
    by_cases hk : k = GetNode iNode
    · simp only [if_pos hk, hk, true_and, Nat.mul_one, Nat.zero_mul, Nat.add_zero,
        Nat.add_left_cancel_iff]
      fin_cases m <;> simp
    · simp only [hk, false_and, if_false, add_zero]
  · rw [if_neg hfg]
    simp only [nodeSum3]
    apply Finset.sum_eq_zero
    intro iNode _
    have hm := m.isLt
    have h0 : ¬ (g * 3 + m.val = f * 1 * 3 + 0 * 3 + 0) := by omega
    have h1 : ¬ (g * 3 + m.val = f * 1 * 3 + 0 * 3 + 1) := by omega
    have h2 : ¬ (g * 3 + m.val = f * 1 * 3 + 0 * 3 + 2) := by omega
    simp only [h0, h1, h2, and_false, if_false, add_zero]

theorem gradContrib3_slot (geometry : CGeometry K 3 4) (S : Nat → Fin 3 → K) (e : Fin 4 → Nat)
    (k : Nat) (iFlux d : Fin 3) :
    gradContrib3 geometry S e k (iFlux.val * 3 + d.val)
      = ∑ iNode : Fin 4, if k = e iNode then
          graTet (orientedNormals3 (elemCrd geometry e)) (fun iNode => S (e iNode) iFlux) d
            * (1 / (geometry.GetVolume (e iNode) * 24)) else 0 := by
  simp only [gradContrib3, nodeSum3_slot geometry e _ iFlux.val]
  simp only [Fin.val_inj]
  rw [Finset.sum_ite_eq' Finset.univ iFlux]
  simp

theorem gradContrib3_affine (geometry : CGeometry K 3 4) (S : Nat → Fin 3 → K) (e : Fin 4 → Nat)
    (k : Nat) (iFlux d : Fin 3) (a : K) (b : Fin 3 → K)
    (hnd : det3 (elemCrd geometry e) ≠ 0)
    (hS : ∀ iNode, S (e iNode) iFlux = a + b 0 * geometry.GetCoord (e iNode) 0
      + b 1 * geometry.GetCoord (e iNode) 1 + b 2 * geometry.GetCoord (e iNode) 2) :
    gradContrib3 geometry S e k (iFlux.val * 3 + d.val)
      = (if ∃ iNode, e iNode = k then tetVolume (elemCrd geometry e) else 0)
          * (b d / (4 * geometry.GetVolume k)) := by
  rw [gradContrib3_slot, graTet_affine (elemCrd geometry e) _ a b hnd hS,
    sum_ite_of_injective e (nodes_injective3 geometry e hnd) k
      (fun v => |det3 (elemCrd geometry e)| * b d * (1 / (geometry.GetVolume v * 24)))]
  by_cases hex : ∃ iNode, e iNode = k
  · rw [if_pos hex, if_pos hex, tetVolume]; ring
  · rw [if_neg hex, if_neg hex, zero_mul]

/-- For an affine nodal field on non-degenerate triangles, the element contributions to a
vertex whose dual volume is a third of the incident area add up to the slope. -/
theorem sum_gradContrib2_affine (geometry : CGeometry K 2 3) (S : Nat → Fin 2 → K)
    (iFlux d : Fin 2) (a : K) (b : Fin 2 → K) (k : Nat)
    (hnd : ∀ e ∈ geometry.elem, triArea (elemCrd geometry e) ≠ 0)
    (hS : ∀ e ∈ geometry.elem, ∀ iNode, S (e iNode) iFlux
      = a + b 0 * geometry.GetCoord (e iNode) 0 + b 1 * geometry.GetCoord (e iNode) 1)
    (hvol : geometry.GetVolume k = incidentArea2 geometry k / 3)
    (hpos : 0 < geometry.GetVolume k) :
    (geometry.elem.map (fun e => gradContrib2 geometry S e k (iFlux.val * 2 + d.val))).sum
      = b d := by
  have hnd' : ∀ e ∈ geometry.elem, det2 (elemCrd geometry e) ≠ 0 := by
    intro e he h0
    exact hnd e he (by simp [triArea, h0])
  have hinc : incidentArea2 geometry k = 3 * geometry.GetVolume k := by rw [hvol]; ring
  have hne : geometry.GetVolume k ≠ 0 := ne_of_gt hpos
  rw [sum_map_congr _ _ _
      (fun e he => gradContrib2_affine geometry S e k iFlux d a b (hnd' e he) (hS e he)),
    sum_map_mul_const]
  show incidentArea2 geometry k * _ = _
  rw [hinc]; field_simp

/-- For an affine nodal field on non-degenerate tetrahedra, the element contributions to a
vertex whose dual volume is a quarter of the incident volume add up to the slope. -/
theorem sum_gradContrib3_affine (geometry : CGeometry K 3 4) (S : Nat → Fin 3 → K)
    (iFlux d : Fin 3) (a : K) (b : Fin 3 → K) (k : Nat)
    (hnd : ∀ e ∈ geometry.elem, tetVolume (elemCrd geometry e) ≠ 0)
    (hS : ∀ e ∈ geometry.elem, ∀ iNode, S (e iNode) iFlux
      = a + b 0 * geometry.GetCoord (e iNode) 0 + b 1 * geometry.GetCoord (e iNode) 1
        + b 2 * geometry.GetCoord (e iNode) 2)
    (hvol : geometry.GetVolume k = incidentVolume3 geometry k / 4)
    (hpos : 0 < geometry.GetVolume k) :
    (geometry.elem.map (fun e => gradContrib3 geometry S e k (iFlux.val * 3 + d.val))).sum
      = b d := by
  have hnd' : ∀ e ∈ geometry.elem, det3 (elemCrd geometry e) ≠ 0 := by
    intro e he h0
    exact hnd e he (by simp [tetVolume, h0])
  have hinc : incidentVolume3 geometry k = 4 * geometry.GetVolume k := by rw [hvol]; ring
  have hne : geometry.GetVolume k ≠ 0 := ne_of_gt hpos
  rw [sum_map_congr _ _ _
      (fun e he => gradContrib3_affine geometry S e k iFlux d a b (hnd' e he) (hS e he)),
    sum_map_mul_const]
  show incidentVolume3 geometry k * _ = _
  rw [hinc]; field_simp

/-- On the single unit right triangle with dual volumes `1/6`, nodal samples `0, 2, 1`
give the total contribution `(2, 1)` at each of the three vertices. -/
theorem unitTriangle_sum (geometry : CGeometry K 2 3) (S : Nat → Fin 2 → K) (e : Fin 3 → Nat)
    (iFlux : Fin 2) (helem : geometry.elem = [e])
    (h0 : geometry.GetCoord (e 0) = ![0, 0]) (h1 : geometry.GetCoord (e 1) = ![1, 0])
    (h2 : geometry.GetCoord (e 2) = ![0, 1])
    (hvol : ∀ iNode, geometry.GetVolume (e iNode) = 1 / 6)
    (hS0 : S (e 0) iFlux = 0) (hS1 : S (e 1) iFlux = 2) (hS2 : S (e 2) iFlux = 1)
    (iNode : Fin 3) (d : Fin 2) :
    (geometry.elem.map
      (fun e' => gradContrib2 geometry S e' (e iNode) (iFlux.val * 2 + d.val))).sum
      = (![2, 1] : Fin 2 → K) d := by
  have hdet : det2 (elemCrd geometry e) = 1 := by
    simp [det2, elemCrd, h0, h1, h2]
  apply sum_gradContrib2_affine geometry S iFlux d 0 ![2, 1] (e iNode)
  · intro e' he'
    rw [helem, List.mem_singleton] at he'
    subst he'
    rw [triArea, hdet]; norm_num
  · intro e' he' j
    rw [helem, List.mem_singleton] at he'
    subst he'
    fin_cases j <;> simp [h0, h1, h2, hS0, hS1, hS2]
  · rw [hvol, incidentArea2, helem]
    simp only [List.map_cons, List.map_nil, List.sum_cons, List.sum_nil, add_zero]
    rw [if_pos ⟨iNode, rfl⟩, triArea, hdet]; norm_num
  · rw [hvol]; norm_num

/-! ### Regularization -/

theorem quadForm_recomposition {n : Nat} (V : Matrix (Fin n) (Fin n) K) (l : Fin n → K)
    (x : Fin n → K) :
    Matrix.dotProduct x (Matrix.mulVec (EigenRecomposition V l) x)
      = ∑ i, l i * (Matrix.vecMul x V i) ^ 2 := by
  unfold EigenRecomposition
  rw [← Matrix.mulVec_mulVec, ← Matrix.mulVec_mulVec, Matrix.dotProduct_mulVec,
    Matrix.mulVec_transpose]
  simp only [Matrix.dotProduct, Matrix.mulVec_diagonal]
  apply Finset.sum_congr rfl
  intro i _
  ring

theorem EigenRecomposition_isSymm {n : Nat} (V : Matrix (Fin n) (Fin n) K) (l : Fin n → K) :
    (EigenRecomposition V l).IsSymm := by
  unfold EigenRecomposition Matrix.IsSymm
  rw [Matrix.transpose_mul, Matrix.transpose_mul, Matrix.transpose_transpose,
    Matrix.diagonal_transpose, Matrix.mul_assoc]

theorem regularizeDense_isSymm {n : Nat} (ED : EigenSolver K n) (A : Matrix (Fin n) (Fin n) K) :
    (regularizeDense ED A).IsSymm :=
  EigenRecomposition_isSymm _ _

theorem regularizeDense_isPSD {n : Nat} (ED : EigenSolver K n) (A : Matrix (Fin n) (Fin n) K) :
    IsPSD (regularizeDense ED A) := by
  intro x
  unfold regularizeDense
  rw [quadForm_recomposition]
  apply Finset.sum_nonneg
  intro i _
  exact mul_nonneg (abs_nonneg _) (sq_nonneg _)

omit [LinearOrderedField K] in
theorem unpack2_pack2 (M : Matrix (Fin 2) (Fin 2) K) (h : M.IsSymm) : unpack2 (pack2 M) = M := by
  ext i j
  have h10 : M 1 0 = M 0 1 := h.apply 0 1
  fin_cases i <;> fin_cases j <;> simp [unpack2, pack2, h10]

omit [LinearOrderedField K] in
theorem pack2_unpack2 (p : Fin 3 → K) : pack2 (unpack2 p) = p := by
  funext i
  fin_cases i <;> simp [unpack2, pack2]

omit [LinearOrderedField K] in
theorem unpack3_pack3 (M : Matrix (Fin 3) (Fin 3) K) (h : M.IsSymm) : unpack3 (pack3 M) = M := by
  ext i j
  have h10 : M 1 0 = M 0 1 := h.apply 0 1
  have h20 : M 2 0 = M 0 2 := h.apply 0 2
  have h21 : M 2 1 = M 1 2 := h.apply 1 2
  fin_cases i <;> fin_cases j <;> (simp [unpack3, pack3, h10, h20, h21]; try rfl)

omit [LinearOrderedField K] in
theorem pack3_unpack3 (p : Fin 6 → K) : pack3 (unpack3 p) = p := by
  funext i
  fin_cases i <;> (simp [unpack3, pack3]; try rfl)

/-- Under an exact decomposition the eigenvalues are the diagonal of `Vᵗ A V`. -/
theorem eigval_eq_quadForm {n : Nat} (A V : Matrix (Fin n) (Fin n) K) (l : Fin n → K)
    (hV : V.transpose * V = 1) (hA : A = V * Matrix.diagonal l * V.transpose) (i : Fin n) :
    l i = Matrix.dotProduct (fun j => V j i) (Matrix.mulVec A (fun j => V j i)) := by
  rw [hA, ← EigenRecomposition, quadForm_recomposition]
  have hcol : ∀ k, Matrix.vecMul (fun j => V j i) V k = if i = k then 1 else 0 := by
    intro k
    have := congrFun (congrFun hV i) k
    simp only [Matrix.mul_apply, Matrix.transpose_apply, Matrix.one_apply] at this
    simpa [Matrix.vecMul, Matrix.dotProduct] using this
  simp [hcol]

/-- A PSD matrix has only non-negative eigenvalues. -/
theorem eigenvaluesNonneg_of_isPSD {n : Nat} (M : Matrix (Fin n) (Fin n) K) (h : IsPSD M) :
    EigenvaluesNonneg M := by
  intro μ v hv hMv
  have h1 := h v
  rw [hMv, Matrix.dotProduct_smul, smul_eq_mul] at h1
  have hvv : 0 < Matrix.dotProduct v v := by
    have hnn : 0 ≤ Matrix.dotProduct v v :=
      Finset.sum_nonneg (fun i _ => mul_self_nonneg (v i))
    rcases hnn.lt_or_eq with hlt | heq
    · exact hlt
    · exfalso
      apply hv
      funext i
      have := (Finset.sum_eq_zero_iff_of_nonneg (fun i _ => mul_self_nonneg (v i))).mp heq.symm i
        (Finset.mem_univ i)
      simpa using this
  by_contra hneg
  push_neg at hneg
  have := mul_neg_of_neg_of_pos hneg hvv
  linarith

/-- Exact decomposition of a PSD matrix: taking `abs` of the eigenvalues changes nothing. -/
theorem regularizeDense_of_isPSD {n : Nat} (ED : EigenSolver K n) (A : Matrix (Fin n) (Fin n) K)
    (hex : ExactAt ED A) (hpsd : IsPSD A) : regularizeDense ED A = A := by
  obtain ⟨hV, hA⟩ := hex
  have hl : (fun iDim => |(ED A).2 iDim|) = (ED A).2 := by
    funext i
    rw [abs_of_nonneg]
    rw [eigval_eq_quadForm A _ _ hV hA i]
    exact hpsd _
  unfold regularizeDense
  simp only [hl]
  exact hA.symm

/-- Exact decomposition of a negative semi-definite matrix: the regularizer negates it. -/
theorem regularizeDense_of_nsd {n : Nat} (ED : EigenSolver K n) (A : Matrix (Fin n) (Fin n) K)
    (hex : ExactAt ED A) (hnsd : ∀ x : Fin n → K, Matrix.dotProduct x (Matrix.mulVec A x) ≤ 0) :
    regularizeDense ED A = -A := by
  obtain ⟨hV, hA⟩ := hex
  have hl : (fun iDim => |(ED A).2 iDim|) = -(ED A).2 := by
    funext i
    rw [Pi.neg_apply, abs_of_nonpos]
    rw [eigval_eq_quadForm A _ _ hV hA i]
    exact hnsd _
  unfold regularizeDense
  simp only [hl]
  unfold EigenRecomposition
  have hd : Matrix.diagonal (-(ED A).2) = -Matrix.diagonal (ED A).2 := by
    ext i j
    by_cases hij : i = j
    · subst hij; simp
    · simp [Matrix.diagonal_apply_ne _ hij]
  rw [hd, Matrix.mul_neg, Matrix.neg_mul, ← hA]

theorem unpack2_regularize2 (ED : EigenSolver K 2) (p : Fin 3 → K) :
    unpack2 (regularize2 ED p) = regularizeDense ED (unpack2 p) :=
  unpack2_pack2 _ (regularizeDense_isSymm ED _)

theorem unpack3_regularize3 (ED : EigenSolver K 3) (p : Fin 6 → K) :
    unpack3 (regularize3 ED p) = regularizeDense ED (unpack3 p) :=
  unpack3_pack3 _ (regularizeDense_isSymm ED _)

theorem fixedBasisSolver_one_exactAt_diagonal {n : Nat} (l : Fin n → K) :
    ExactAt (fixedBasisSolver (1 : Matrix (Fin n) (Fin n) K)) (Matrix.diagonal l) := by
  constructor
  · simp [fixedBasisSolver]
  · simp [fixedBasisSolver]

/-- In the standard basis the regularizer takes the absolute value of the diagonal. -/
theorem regularizeDense_fixedBasis_one {n : Nat} (A : Matrix (Fin n) (Fin n) K) :
    regularizeDense (fixedBasisSolver 1) A = Matrix.diagonal (fun i => |A i i|) := by
  simp [regularizeDense, fixedBasisSolver, EigenRecomposition]

theorem rot345_entries : rot345 0 0 = 3 / 5 ∧ rot345 0 1 = -4 / 5 ∧ rot345 1 0 = 4 / 5 ∧
    rot345 1 1 = 3 / 5 := ⟨rfl, rfl, rfl, rfl⟩

theorem rot345_orthonormal : rot345.transpose * rot345 = 1 := by
  obtain ⟨h00, h01, h10, h11⟩ := rot345_entries
  ext i j
  fin_cases i <;> fin_cases j <;>
    simp only [Matrix.mul_apply, Matrix.transpose_apply, Fin.sum_univ_two, Fin.zero_eta,
      Fin.mk_one, h00, h01, h10, h11, Matrix.one_apply_eq, Matrix.one_apply_ne, ne_eq,
      zero_ne_one, one_ne_zero, not_false_eq_true] <;> norm_num

theorem regularize2_rot345_example :
    regularize2 (fixedBasisSolver rot345) ![-7 / 25, 24 / 25, 7 / 25] = ![1, 0, 1] := by
  obtain ⟨h00, h01, h10, h11⟩ := rot345_entries
  have u00 : unpack2 (![-7 / 25, 24 / 25, 7 / 25] : Fin 3 → ℚ) 0 0 = -7 / 25 := rfl
  have u01 : unpack2 (![-7 / 25, 24 / 25, 7 / 25] : Fin 3 → ℚ) 0 1 = 24 / 25 := rfl
  have u10 : unpack2 (![-7 / 25, 24 / 25, 7 / 25] : Fin 3 → ℚ) 1 0 = 24 / 25 := rfl
  have u11 : unpack2 (![-7 / 25, 24 / 25, 7 / 25] : Fin 3 → ℚ) 1 1 = 7 / 25 := rfl
  funext i
  fin_cases i <;>
    simp only [regularize2, regularizeDense, fixedBasisSolver, EigenRecomposition, pack2,
      Matrix.mul_apply, Matrix.transpose_apply, Fin.sum_univ_two, Matrix.diagonal_apply,
      Fin.zero_eta, Fin.mk_one, Fin.reduceFinMk, Matrix.cons_val_zero, Matrix.cons_val_one,
      Matrix.cons_val_two, Matrix.head_cons, Matrix.tail_cons,
      h00, h01, h10, h11, u00, u01, u10, u11] <;> norm_num

theorem rot345_exactAt_one : ExactAt (fixedBasisSolver rot345) (unpack2 ![1, 0, 1]) := by
  obtain ⟨h00, h01, h10, h11⟩ := rot345_entries
  have u00 : unpack2 (![1, 0, 1] : Fin 3 → ℚ) 0 0 = 1 := rfl
  have u01 : unpack2 (![1, 0, 1] : Fin 3 → ℚ) 0 1 = 0 := rfl
  have u10 : unpack2 (![1, 0, 1] : Fin 3 → ℚ) 1 0 = 0 := rfl
  have u11 : unpack2 (![1, 0, 1] : Fin 3 → ℚ) 1 1 = 1 := rfl
  refine ⟨rot345_orthonormal, ?_⟩
  ext i j
  fin_cases i <;> fin_cases j <;>
    simp only [fixedBasisSolver, Matrix.mul_apply, Matrix.transpose_apply, Fin.sum_univ_two,
      Matrix.diagonal_apply, Fin.zero_eta, Fin.mk_one, Fin.reduceFinMk,
      h00, h01, h10, h11, u00, u01, u10, u11] <;> norm_num

theorem rot345_exactAt_psd_example :
    ExactAt (fixedBasisSolver rot345) (unpack2 ![41 / 25, -12 / 25, 34 / 25]) := by
  obtain ⟨h00, h01, h10, h11⟩ := rot345_entries
  have u00 : unpack2 (![41 / 25, -12 / 25, 34 / 25] : Fin 3 → ℚ) 0 0 = 41 / 25 := rfl
  have u01 : unpack2 (![41 / 25, -12 / 25, 34 / 25] : Fin 3 → ℚ) 0 1 = -12 / 25 := rfl
  have u10 : unpack2 (![41 / 25, -12 / 25, 34 / 25] : Fin 3 → ℚ) 1 0 = -12 / 25 := rfl
  have u11 : unpack2 (![41 / 25, -12 / 25, 34 / 25] : Fin 3 → ℚ) 1 1 = 34 / 25 := rfl
  refine ⟨rot345_orthonormal, ?_⟩
  ext i j
  fin_cases i <;> fin_cases j <;>
    simp only [fixedBasisSolver, Matrix.mul_apply, Matrix.transpose_apply, Fin.sum_univ_two,
      Matrix.diagonal_apply, Fin.zero_eta, Fin.mk_one, Fin.reduceFinMk,
      h00, h01, h10, h11, u00, u01, u10, u11] <;> norm_num

theorem unpack2_diag_example :
    unpack2 (![-1, 0, -3] : Fin 3 → ℚ) = Matrix.diagonal ![-1, -3] := by
  ext i j
  fin_cases i <;> fin_cases j <;> simp [unpack2]

theorem unpack3_diag_example :
    unpack3 (![1, 0, 0, 2, 0, 3] : Fin 6 → ℚ) = Matrix.diagonal ![1, 2, 3] := by
  ext i j
  fin_cases i <;> fin_cases j <;> simp [unpack3] <;> rfl

/-! ### The regularization loops -/

/-- A loop over `iPoint < N` whose body rewrites only the data of vertex `iPoint`, as a
function `g` of that vertex's data, rewrites exactly the vertices below `N`. -/
theorem foldl_range_pointwise {S α : Type} (step : S → Nat → S) (proj : S → Nat → α)
    (g : α → α)
    (hne : ∀ X n k, k ≠ n → proj (step X n) k = proj X k)
    (hat : ∀ X n, proj (step X n) n = g (proj X n)) (X : S) (N k : Nat) :
    proj ((List.range N).foldl step X) k = if k < N then g (proj X k) else proj X k := by
  induction N with
  | zero => simp
  | succ N ih =>
    rw [List.range_succ, List.foldl_append, List.foldl_cons, List.foldl_nil]
    by_cases hk : k = N
    · subst hk
      rw [hat, ih, if_neg (lt_irrefl _), if_pos (Nat.lt_succ_self _)]
    · rw [hne _ _ _ hk, ih]
      by_cases hlt : k < N
      · rw [if_pos hlt, if_pos (Nat.lt_succ_of_lt hlt)]
      · rw [if_neg hlt, if_neg (by omega)]

omit [LinearOrderedField K] in
theorem setAt_apply (f : Nat → Nat → K) (k i : Nat) (v : K) (k' i' : Nat) :
    setAt f k i v k' i' = if k' = k ∧ i' = i then v else f k' i' := rfl


theorem regularizeHessFlux2_AnisoHess (ED : EigenSolver K 2) (iPoint : Nat)
    (nodes : CTurbSAVariable K 2) (iFlux : Fin 2) (k : Nat) :
    (regularizeHessFlux2 ED iPoint nodes iFlux).AnisoHess k
      = if k = iPoint then rowStep2 ED iFlux.val (nodes.AnisoHess iPoint)
        else nodes.AnisoHess k := by
  funext s
  by_cases hk : k = iPoint
  · subst hk
    simp only [regularizeHessFlux2, CTurbSAVariable.SetAnisoHess, setAt_apply,
      rowStep2, if_true, true_and, Nat.mul_one, Nat.zero_mul, Nat.add_zero]
    split_ifs <;> first | (exfalso; omega) | rfl
  · simp only [regularizeHessFlux2, CTurbSAVariable.SetAnisoHess, setAt_apply,
      hk, false_and, if_false]

theorem regularizeHessFlux2_frame (ED : EigenSolver K 2) (iPoint : Nat)
    (nodes : CTurbSAVariable K 2) (iFlux : Fin 2) :
    (regularizeHessFlux2 ED iPoint nodes iFlux).AnisoViscHess = nodes.AnisoViscHess ∧
    (regularizeHessFlux2 ED iPoint nodes iFlux).AnisoGrad = nodes.AnisoGrad ∧
    (regularizeHessFlux2 ED iPoint nodes iFlux).AnisoViscGrad = nodes.AnisoViscGrad := by
  simp only [regularizeHessFlux2, CTurbSAVariable.SetAnisoHess, and_self]

theorem regularizeHessPoint2_AnisoHess (ED : EigenSolver K 2)
    (nodes : CTurbSAVariable K 2) (iPoint k : Nat) :
    (regularizeHessPoint2 ED nodes iPoint).AnisoHess k
      = if k = iPoint then regSlots2 ED (nodes.AnisoHess iPoint) else nodes.AnisoHess k := by
  by_cases hk : k = iPoint
  · subst hk
    simp only [regularizeHessPoint2, List.foldl, regularizeHessFlux2_AnisoHess,
      if_true, regSlots2, Fin.val_zero, Fin.val_one]
  · simp only [regularizeHessPoint2, List.foldl, regularizeHessFlux2_AnisoHess,
      if_neg hk]

theorem regularizeHessPoint2_frame (ED : EigenSolver K 2)
    (nodes : CTurbSAVariable K 2) (iPoint : Nat) :
    (regularizeHessPoint2 ED nodes iPoint).AnisoViscHess = nodes.AnisoViscHess ∧
    (regularizeHessPoint2 ED nodes iPoint).AnisoGrad = nodes.AnisoGrad ∧
    (regularizeHessPoint2 ED nodes iPoint).AnisoViscGrad = nodes.AnisoViscGrad := by
  simp only [regularizeHessPoint2, List.foldl, regularizeHessFlux2_frame, and_self]

/-- The convective regularization loop (2D) rewrites exactly the vertices below `nPointDomain`. -/
theorem regularizeHess2_AnisoHess (ED : EigenSolver K 2) (nPointDomain : Nat)
    (nodes : CTurbSAVariable K 2) (k : Nat) :
    (regularizeHess2 ED nPointDomain nodes).AnisoHess k
      = if k < nPointDomain then regSlots2 ED (nodes.AnisoHess k) else nodes.AnisoHess k :=
  foldl_range_pointwise (regularizeHessPoint2 ED) (fun X k => X.AnisoHess k)
    (regSlots2 ED)
    (fun X n k hk => by
      show (regularizeHessPoint2 ED X n).AnisoHess k = X.AnisoHess k
      rw [regularizeHessPoint2_AnisoHess, if_neg hk])
    (fun X n => by
      show (regularizeHessPoint2 ED X n).AnisoHess n = regSlots2 ED (X.AnisoHess n)
      rw [regularizeHessPoint2_AnisoHess, if_pos rfl])
    nodes nPointDomain k

theorem regularizeHess2_frame (ED : EigenSolver K 2) (nPointDomain : Nat)
    (nodes : CTurbSAVariable K 2) :
    (regularizeHess2 ED nPointDomain nodes).AnisoViscHess = nodes.AnisoViscHess ∧
    (regularizeHess2 ED nPointDomain nodes).AnisoGrad = nodes.AnisoGrad ∧
    (regularizeHess2 ED nPointDomain nodes).AnisoViscGrad = nodes.AnisoViscGrad := by
  unfold regularizeHess2
  induction nPointDomain with
  | zero => simp
  | succ N ih =>
    rw [List.range_succ, List.foldl_append, List.foldl_cons, List.foldl_nil]
    obtain ⟨h1, h2, h3⟩ := regularizeHessPoint2_frame ED
      ((List.range N).foldl (regularizeHessPoint2 ED) nodes) N
    exact ⟨h1.trans ih.1, h2.trans ih.2.1, h3.trans ih.2.2⟩

theorem regularizeViscHessFlux2_AnisoViscHess (ED : EigenSolver K 2) (iPoint : Nat)
    (nodes : CTurbSAVariable K 2) (iFlux : Fin 2) (k : Nat) :
    (regularizeViscHessFlux2 ED iPoint nodes iFlux).AnisoViscHess k
      = if k = iPoint then rowStep2 ED iFlux.val (nodes.AnisoViscHess iPoint)
        else nodes.AnisoViscHess k := by
  funext s
  by_cases hk : k = iPoint
  · subst hk
    simp only [regularizeViscHessFlux2, CTurbSAVariable.SetAnisoViscHess, setAt_apply,
      rowStep2, if_true, true_and, Nat.mul_one, Nat.zero_mul, Nat.add_zero]
    split_ifs <;> first | (exfalso; omega) | rfl
  · simp only [regularizeViscHessFlux2, CTurbSAVariable.SetAnisoViscHess, setAt_apply,
      hk, false_and, if_false]

theorem regularizeViscHessFlux2_frame (ED : EigenSolver K 2) (iPoint : Nat)
    (nodes : CTurbSAVariable K 2) (iFlux : Fin 2) :
    (regularizeViscHessFlux2 ED iPoint nodes iFlux).AnisoHess = nodes.AnisoHess ∧
    (regularizeViscHessFlux2 ED iPoint nodes iFlux).AnisoGrad = nodes.AnisoGrad ∧
    (regularizeViscHessFlux2 ED iPoint nodes iFlux).AnisoViscGrad = nodes.AnisoViscGrad := by
  simp only [regularizeViscHessFlux2, CTurbSAVariable.SetAnisoViscHess, and_self]

theorem regularizeViscHessPoint2_AnisoViscHess (ED : EigenSolver K 2)
    (nodes : CTurbSAVariable K 2) (iPoint k : Nat) :
    (regularizeViscHessPoint2 ED nodes iPoint).AnisoViscHess k
      = if k = iPoint then regSlots2 ED (nodes.AnisoViscHess iPoint) else nodes.AnisoViscHess k := by
  by_cases hk : k = iPoint
  · subst hk
    simp only [regularizeViscHessPoint2, List.foldl, regularizeViscHessFlux2_AnisoViscHess,
      if_true, regSlots2, Fin.val_zero, Fin.val_one]
  · simp only [regularizeViscHessPoint2, List.foldl, regularizeViscHessFlux2_AnisoViscHess,
      if_neg hk]

theorem regularizeViscHessPoint2_frame (ED : EigenSolver K 2)
    (nodes : CTurbSAVariable K 2) (iPoint : Nat) :
    (regularizeViscHessPoint2 ED nodes iPoint).AnisoHess = nodes.AnisoHess ∧
    (regularizeViscHessPoint2 ED nodes iPoint).AnisoGrad = nodes.AnisoGrad ∧
    (regularizeViscHessPoint2 ED nodes iPoint).AnisoViscGrad = nodes.AnisoViscGrad := by
  simp only [regularizeViscHessPoint2, List.foldl, regularizeViscHessFlux2_frame, and_self]

/-- The viscous regularization loop (2D) rewrites exactly the vertices below `nPointDomain`. -/
theorem regularizeViscHess2_AnisoViscHess (ED : EigenSolver K 2) (nPointDomain : Nat)
    (nodes : CTurbSAVariable K 2) (k : Nat) :
    (regularizeViscHess2 ED nPointDomain nodes).AnisoViscHess k
      = if k < nPointDomain then regSlots2 ED (nodes.AnisoViscHess k) else nodes.AnisoViscHess k :=
  foldl_range_pointwise (regularizeViscHessPoint2 ED) (fun X k => X.AnisoViscHess k)
    (regSlots2 ED)
    (fun X n k hk => by
      show (regularizeViscHessPoint2 ED X n).AnisoViscHess k = X.AnisoViscHess k
      rw [regularizeViscHessPoint2_AnisoViscHess, if_neg hk])
    (fun X n => by
      show (regularizeViscHessPoint2 ED X n).AnisoViscHess n = regSlots2 ED (X.AnisoViscHess n)
      rw [regularizeViscHessPoint2_AnisoViscHess, if_pos rfl])
    nodes nPointDomain k

theorem regularizeViscHess2_frame (ED : EigenSolver K 2) (nPointDomain : Nat)
    (nodes : CTurbSAVariable K 2) :
    (regularizeViscHess2 ED nPointDomain nodes).AnisoHess = nodes.AnisoHess ∧
    (regularizeViscHess2 ED nPointDomain nodes).AnisoGrad = nodes.AnisoGrad ∧
    (regularizeViscHess2 ED nPointDomain nodes).AnisoViscGrad = nodes.AnisoViscGrad := by
  unfold regularizeViscHess2
  induction nPointDomain with
  | zero => simp
  | succ N ih =>
    rw [List.range_succ, List.foldl_append, List.foldl_cons, List.foldl_nil]
    obtain ⟨h1, h2, h3⟩ := regularizeViscHessPoint2_frame ED
      ((List.range N).foldl (regularizeViscHessPoint2 ED) nodes) N
    exact ⟨h1.trans ih.1, h2.trans ih.2.1, h3.trans ih.2.2⟩

theorem regularizeHessFlux3_AnisoHess (ED : EigenSolver K 3) (iPoint : Nat)
    (nodes : CTurbSAVariable K 3) (iFlux : Fin 3) (k : Nat) :
    (regularizeHessFlux3 ED iPoint nodes iFlux).AnisoHess k
      = if k = iPoint then rowStep3 ED iFlux.val (nodes.AnisoHess iPoint)
        else nodes.AnisoHess k := by
  funext s
  by_cases hk : k = iPoint
  · subst hk
    simp only [regularizeHessFlux3, CTurbSAVariable.SetAnisoHess, setAt_apply,
      rowStep3, block3, if_true, true_and, Nat.mul_one, Nat.zero_mul, Nat.add_zero]
    split_ifs <;> first | (exfalso; omega) | rfl
  · simp only [regularizeHessFlux3, CTurbSAVariable.SetAnisoHess, setAt_apply,
      hk, false_and, if_false]

theorem regularizeHessFlux3_frame (ED : EigenSolver K 3) (iPoint : Nat)
    (nodes : CTurbSAVariable K 3) (iFlux : Fin 3) :
    (regularizeHessFlux3 ED iPoint nodes iFlux).AnisoViscHess = nodes.AnisoViscHess ∧
    (regularizeHessFlux3 ED iPoint nodes iFlux).AnisoGrad = nodes.AnisoGrad ∧
    (regularizeHessFlux3 ED iPoint nodes iFlux).AnisoViscGrad = nodes.AnisoViscGrad := by
  simp only [regularizeHessFlux3, CTurbSAVariable.SetAnisoHess, and_self]

theorem regularizeHessPoint3_AnisoHess (ED : EigenSolver K 3)
    (nodes : CTurbSAVariable K 3) (iPoint k : Nat) :
    (regularizeHessPoint3 ED nodes iPoint).AnisoHess k
      = if k = iPoint then regSlots3 ED (nodes.AnisoHess iPoint) else nodes.AnisoHess k := by
  by_cases hk : k = iPoint
  · subst hk
    simp only [regularizeHessPoint3, List.foldl, regularizeHessFlux3_AnisoHess,
      if_true, regSlots3, Fin.val_zero, Fin.val_one, Fin.val_two]
  · simp only [regularizeHessPoint3, List.foldl, regularizeHessFlux3_AnisoHess,
      if_neg hk]

theorem regularizeHessPoint3_frame (ED : EigenSolver K 3)
    (nodes : CTurbSAVariable K 3) (iPoint : Nat) :
    (regularizeHessPoint3 ED nodes iPoint).AnisoViscHess = nodes.AnisoViscHess ∧
    (regularizeHessPoint3 ED nodes iPoint).AnisoGrad = nodes.AnisoGrad ∧
    (regularizeHessPoint3 ED nodes iPoint).AnisoViscGrad = nodes.AnisoViscGrad := by
  simp only [regularizeHessPoint3, List.foldl, regularizeHessFlux3_frame, and_self]

/-- The convective regularization loop (3D) rewrites exactly the vertices below `nPointDomain`. -/
theorem regularizeHess3_AnisoHess (ED : EigenSolver K 3) (nPointDomain : Nat)
    (nodes : CTurbSAVariable K 3) (k : Nat) :
    (regularizeHess3 ED nPointDomain nodes).AnisoHess k
      = if k < nPointDomain then regSlots3 ED (nodes.AnisoHess k) else nodes.AnisoHess k :=
  foldl_range_pointwise (regularizeHessPoint3 ED) (fun X k => X.AnisoHess k)
    (regSlots3 ED)
    (fun X n k hk => by
      show (regularizeHessPoint3 ED X n).AnisoHess k = X.AnisoHess k
      rw [regularizeHessPoint3_AnisoHess, if_neg hk])
    (fun X n => by
      show (regularizeHessPoint3 ED X n).AnisoHess n = regSlots3 ED (X.AnisoHess n)
      rw [regularizeHessPoint3_AnisoHess, if_pos rfl])
    nodes nPointDomain k

theorem regularizeHess3_frame (ED : EigenSolver K 3) (nPointDomain : Nat)
    (nodes : CTurbSAVariable K 3) :
    (regularizeHess3 ED nPointDomain nodes).AnisoViscHess = nodes.AnisoViscHess ∧
    (regularizeHess3 ED nPointDomain nodes).AnisoGrad = nodes.AnisoGrad ∧
    (regularizeHess3 ED nPointDomain nodes).AnisoViscGrad = nodes.AnisoViscGrad := by
  unfold regularizeHess3
  induction nPointDomain with
  | zero => simp
  | succ N ih =>
    rw [List.range_succ, List.foldl_append, List.foldl_cons, List.foldl_nil]
    obtain ⟨h1, h2, h3⟩ := regularizeHessPoint3_frame ED
      ((List.range N).foldl (regularizeHessPoint3 ED) nodes) N
    exact ⟨h1.trans ih.1, h2.trans ih.2.1, h3.trans ih.2.2⟩

theorem regularizeViscHessFlux3_AnisoViscHess (ED : EigenSolver K 3) (iPoint : Nat)
    (nodes : CTurbSAVariable K 3) (iFlux : Fin 3) (k : Nat) :
    (regularizeViscHessFlux3 ED iPoint nodes iFlux).AnisoViscHess k
      = if k = iPoint then rowStep3 ED iFlux.val (nodes.AnisoViscHess iPoint)
        else nodes.AnisoViscHess k := by
  funext s
  by_cases hk : k = iPoint
  · subst hk
    simp only [regularizeViscHessFlux3, CTurbSAVariable.SetAnisoViscHess, setAt_apply,
      rowStep3, block3, if_true, true_and, Nat.mul_one, Nat.zero_mul, Nat.add_zero]
    split_ifs <;> first | (exfalso; omega) | rfl
  · simp only [regularizeViscHessFlux3, CTurbSAVariable.SetAnisoViscHess, setAt_apply,
      hk, false_and, if_false]

theorem regularizeViscHessFlux3_frame (ED : EigenSolver K 3) (iPoint : Nat)
    (nodes : CTurbSAVariable K 3) (iFlux : Fin 3) :
    (regularizeViscHessFlux3 ED iPoint nodes iFlux).AnisoHess = nodes.AnisoHess ∧
    (regularizeViscHessFlux3 ED iPoint nodes iFlux).AnisoGrad = nodes.AnisoGrad ∧
    (regularizeViscHessFlux3 ED iPoint nodes iFlux).AnisoViscGrad = nodes.AnisoViscGrad := by
  simp only [regularizeViscHessFlux3, CTurbSAVariable.SetAnisoViscHess, and_self]

theorem regularizeViscHessPoint3_AnisoViscHess (ED : EigenSolver K 3)
    (nodes : CTurbSAVariable K 3) (iPoint k : Nat) :
    (regularizeViscHessPoint3 ED nodes iPoint).AnisoViscHess k
      = if k = iPoint then regSlots3 ED (nodes.AnisoViscHess iPoint) else nodes.AnisoViscHess k := by
  by_cases hk : k = iPoint
  · subst hk
    simp only [regularizeViscHessPoint3, List.foldl, regularizeViscHessFlux3_AnisoViscHess,
      if_true, regSlots3, Fin.val_zero, Fin.val_one, Fin.val_two]
  · simp only [regularizeViscHessPoint3, List.foldl, regularizeViscHessFlux3_AnisoViscHess,
      if_neg hk]

theorem regularizeViscHessPoint3_frame (ED : EigenSolver K 3)
    (nodes : CTurbSAVariable K 3) (iPoint : Nat) :
    (regularizeViscHessPoint3 ED nodes iPoint).AnisoHess = nodes.AnisoHess ∧
    (regularizeViscHessPoint3 ED nodes iPoint).AnisoGrad = nodes.AnisoGrad ∧
    (regularizeViscHessPoint3 ED nodes iPoint).AnisoViscGrad = nodes.AnisoViscGrad := by
  simp only [regularizeViscHessPoint3, List.foldl, regularizeViscHessFlux3_frame, and_self]

/-- The viscous regularization loop (3D) rewrites exactly the vertices below `nPointDomain`. -/
theorem regularizeViscHess3_AnisoViscHess (ED : EigenSolver K 3) (nPointDomain : Nat)
    (nodes : CTurbSAVariable K 3) (k : Nat) :
    (regularizeViscHess3 ED nPointDomain nodes).AnisoViscHess k
      = if k < nPointDomain then regSlots3 ED (nodes.AnisoViscHess k) else nodes.AnisoViscHess k :=
  foldl_range_pointwise (regularizeViscHessPoint3 ED) (fun X k => X.AnisoViscHess k)
    (regSlots3 ED)
    (fun X n k hk => by
      show (regularizeViscHessPoint3 ED X n).AnisoViscHess k = X.AnisoViscHess k
      rw [regularizeViscHessPoint3_AnisoViscHess, if_neg hk])
    (fun X n => by
      show (regularizeViscHessPoint3 ED X n).AnisoViscHess n = regSlots3 ED (X.AnisoViscHess n)
      rw [regularizeViscHessPoint3_AnisoViscHess, if_pos rfl])
    nodes nPointDomain k

theorem regularizeViscHess3_frame (ED : EigenSolver K 3) (nPointDomain : Nat)
    (nodes : CTurbSAVariable K 3) :
    (regularizeViscHess3 ED nPointDomain nodes).AnisoHess = nodes.AnisoHess ∧
    (regularizeViscHess3 ED nPointDomain nodes).AnisoGrad = nodes.AnisoGrad ∧
    (regularizeViscHess3 ED nPointDomain nodes).AnisoViscGrad = nodes.AnisoViscGrad := by
  unfold regularizeViscHess3
  induction nPointDomain with
  | zero => simp
  | succ N ih =>
    rw [List.range_succ, List.foldl_append, List.foldl_cons, List.foldl_nil]
    obtain ⟨h1, h2, h3⟩ := regularizeViscHessPoint3_frame ED
      ((List.range N).foldl (regularizeViscHessPoint3 ED) nodes) N
    exact ⟨h1.trans ih.1, h2.trans ih.2.1, h3.trans ih.2.2⟩

theorem regSlots2_apply (ED : EigenSolver K 2) (h : Nat → K) (iFlux : Fin 2) (m : Fin 3) :
    regSlots2 ED h (iFlux.val * 3 + m.val)
      = regularize2 ED ![h (iFlux.val * 3 + 0), h (iFlux.val * 3 + 1), h (iFlux.val * 3 + 2)]
          m := by
  fin_cases iFlux <;> fin_cases m <;> simp [regSlots2, rowStep2]

theorem regSlots3_apply (ED : EigenSolver K 3) (h : Nat → K) (iFlux : Fin 3) (m : Fin 6) :
    regSlots3 ED h (iFlux.val * 6 + m.val) = regularize3 ED (block3 iFlux.val h) m := by
  fin_cases iFlux <;> fin_cases m <;> simp [regSlots3, rowStep3, block3]

theorem block2_regSlots2 (ED : EigenSolver K 2) (h : Nat → K) (iFlux : Fin 2) :
    block2 iFlux.val (regSlots2 ED h) = regularize2 ED (block2 iFlux.val h) := by
  funext m
  fin_cases m
  · exact regSlots2_apply ED h iFlux 0
  · exact regSlots2_apply ED h iFlux 1
  · exact regSlots2_apply ED h iFlux 2

theorem block3_regSlots3 (ED : EigenSolver K 3) (h : Nat → K) (iFlux : Fin 3) :
    block3 iFlux.val (regSlots3 ED h) = regularize3 ED (block3 iFlux.val h) := by
  funext m
  fin_cases m
  · exact regSlots3_apply ED h iFlux 0
  · exact regSlots3_apply ED h iFlux 1
  · exact regSlots3_apply ED h iFlux 2
  · exact regSlots3_apply ED h iFlux 3
  · exact regSlots3_apply ED h iFlux 4
  · exact regSlots3_apply ED h iFlux 5

/-- The Hessian fields returned by `SetHessian_L2Proj2`, in terms of the state `X` left by
the boundary correction. -/
theorem SetHessian_L2Proj2_fields (Comms : CommTag → CTurbSAVariable K 2 → CTurbSAVariable K 2)
    (CorrectBoundAnisoHess : CTurbSAVariable K 2 → CTurbSAVariable K 2)
    (ED : EigenSolver K 2) (geometry : CGeometry K 2 3) (nodes : CTurbSAVariable K 2) (k : Nat) :
    (SetHessian_L2Proj2 Comms CorrectBoundAnisoHess ED geometry nodes).AnisoHess k
      = (if k < geometry.nPointDomain then
          regSlots2 ED ((CorrectBoundAnisoHess (Comms CommTag.ANISO_HESSIAN_VISC
            (Comms CommTag.ANISO_HESSIAN (hessSweep2 geometry nodes)))).AnisoHess k)
        else (CorrectBoundAnisoHess (Comms CommTag.ANISO_HESSIAN_VISC
            (Comms CommTag.ANISO_HESSIAN (hessSweep2 geometry nodes)))).AnisoHess k) ∧
    (SetHessian_L2Proj2 Comms CorrectBoundAnisoHess ED geometry nodes).AnisoViscHess k
      = (if k < geometry.nPointDomain then
          regSlots2 ED ((CorrectBoundAnisoHess (Comms CommTag.ANISO_HESSIAN_VISC
            (Comms CommTag.ANISO_HESSIAN (hessSweep2 geometry nodes)))).AnisoViscHess k)
        else (CorrectBoundAnisoHess (Comms CommTag.ANISO_HESSIAN_VISC
            (Comms CommTag.ANISO_HESSIAN (hessSweep2 geometry nodes)))).AnisoViscHess k) := by
  unfold SetHessian_L2Proj2
  constructor
  · simp only [(regularizeViscHess2_frame ED _ _).1, regularizeHess2_AnisoHess]
  · simp only [regularizeViscHess2_AnisoViscHess, (regularizeHess2_frame ED _ _).1]

/-- The Hessian fields returned by `SetHessian_L2Proj3`, in terms of the state left by the
boundary correction. -/
theorem SetHessian_L2Proj3_fields (Comms : CommTag → CTurbSAVariable K 3 → CTurbSAVariable K 3)
    (CorrectBoundAnisoHess : CTurbSAVariable K 3 → CTurbSAVariable K 3)
    (ED : EigenSolver K 3) (geometry : CGeometry K 3 4) (nodes : CTurbSAVariable K 3) (k : Nat) :
    (SetHessian_L2Proj3 Comms CorrectBoundAnisoHess ED geometry nodes).AnisoHess k
      = (if k < geometry.nPointDomain then
          regSlots3 ED ((CorrectBoundAnisoHess (Comms CommTag.ANISO_HESSIAN_VISC
            (Comms CommTag.ANISO_HESSIAN (hessSweep3 geometry nodes)))).AnisoHess k)
        else (CorrectBoundAnisoHess (Comms CommTag.ANISO_HESSIAN_VISC
            (Comms CommTag.ANISO_HESSIAN (hessSweep3 geometry nodes)))).AnisoHess k) ∧
    (SetHessian_L2Proj3 Comms CorrectBoundAnisoHess ED geometry nodes).AnisoViscHess k
      = (if k < geometry.nPointDomain then
          regSlots3 ED ((CorrectBoundAnisoHess (Comms CommTag.ANISO_HESSIAN_VISC
            (Comms CommTag.ANISO_HESSIAN (hessSweep3 geometry nodes)))).AnisoViscHess k)
        else (CorrectBoundAnisoHess (Comms CommTag.ANISO_HESSIAN_VISC
            (Comms CommTag.ANISO_HESSIAN (hessSweep3 geometry nodes)))).AnisoViscHess k) := by
  unfold SetHessian_L2Proj3
  constructor
  · simp only [(regularizeViscHess3_frame ED _ _).1, regularizeHess3_AnisoHess]
  · simp only [regularizeViscHess3_AnisoViscHess, (regularizeHess3_frame ED _ _).1]

theorem regularize2_psd_eigen (ED : EigenSolver K 2) (p : Fin 3 → K) :
    IsPSD (unpack2 (regularize2 ED p)) ∧ EigenvaluesNonneg (unpack2 (regularize2 ED p)) := by
  have h : IsPSD (unpack2 (regularize2 ED p)) := by
    rw [unpack2_regularize2]; exact regularizeDense_isPSD ED _
  exact ⟨h, eigenvaluesNonneg_of_isPSD _ h⟩

theorem regularize3_psd_eigen (ED : EigenSolver K 3) (p : Fin 6 → K) :
    IsPSD (unpack3 (regularize3 ED p)) ∧ EigenvaluesNonneg (unpack3 (regularize3 ED p)) := by
  have h : IsPSD (unpack3 (regularize3 ED p)) := by
    rw [unpack3_regularize3]; exact regularizeDense_isPSD ED _
  exact ⟨h, eigenvaluesNonneg_of_isPSD _ h⟩

/-- Over the exact field the orientation check flips nothing on a zero-area triangle: the
compared values are exactly zero. -/
theorem orientedNormals2_of_degenerate (Crd : Fin 3 → Fin 2 → K) (h : det2 Crd = 0) :
    orientedNormals2 Crd = rawNormals2 Crd := by
  rw [orientedNormals2_eq, if_neg (by rw [h]; exact lt_irrefl 0)]

/-- Over the exact field the orientation check flips nothing on a zero-volume tetrahedron:
the compared values are exactly zero. -/
theorem orientedNormals3_of_degenerate (Crd : Fin 4 → Fin 3 → K) (h : det3 Crd = 0) :
    orientedNormals3 Crd = rawNormals3 Crd := by
  rw [orientedNormals3_eq]
  have p : ∀ i, ¬ 0 < faceSign i * det3 Crd := by intro i; simp [h]
  simp only [p, if_false]

theorem det2_eq_zero_of_triArea (Crd : Fin 3 → Fin 2 → K)
    (h : triArea Crd = 0) : det2 Crd = 0 := by
  unfold triArea at h
  have h2 : |det2 Crd| = 0 := by linarith
  exact abs_eq_zero.mp h2

theorem det3_eq_zero_of_tetVolume (Crd : Fin 4 → Fin 3 → K)
    (h : tetVolume Crd = 0) : det3 Crd = 0 := by
  unfold tetVolume at h
  have h2 : |det3 Crd| = 0 := by linarith
  exact abs_eq_zero.mp h2

/-! ### The 2D Hessian sweep -/

theorem assembleHess2_AnisoHess (geometry : CGeometry K 2 3) (GetNode : Fin 3 → Nat)
    (i : Nat) (hes hesVisc : Fin 3 → K) (nodes : CTurbSAVariable K 2) (k s : Nat) :
    (assembleHess2 geometry GetNode i hes hesVisc nodes).AnisoHess k s
      = nodes.AnisoHess k s + hessNodeSum2 geometry GetNode i hes k s := by
  simp only [assembleHess2, List.foldl, CTurbSAVariable.AddAnisoHess,
    CTurbSAVariable.AddAnisoViscHess, addAt_apply, hessNodeSum2, Fin.sum_univ_three]
  ring

theorem assembleHess2_AnisoViscHess (geometry : CGeometry K 2 3)
    (GetNode : Fin 3 → Nat) (i : Nat) (hes hesVisc : Fin 3 → K)
    (nodes : CTurbSAVariable K 2) (k s : Nat) :
    (assembleHess2 geometry GetNode i hes hesVisc nodes).AnisoViscHess k s
      = nodes.AnisoViscHess k s + hessNodeSum2 geometry GetNode i hesVisc k s := by
  simp only [assembleHess2, List.foldl, CTurbSAVariable.AddAnisoHess,
    CTurbSAVariable.AddAnisoViscHess, addAt_apply, hessNodeSum2, Fin.sum_univ_three]
  ring

theorem assembleHess2_frame (geometry : CGeometry K 2 3) (GetNode : Fin 3 → Nat)
    (i : Nat) (hes hesVisc : Fin 3 → K) (nodes : CTurbSAVariable K 2) :
    (assembleHess2 geometry GetNode i hes hesVisc nodes).GetSolution = nodes.GetSolution ∧
    (assembleHess2 geometry GetNode i hes hesVisc nodes).GetGradient = nodes.GetGradient ∧
    (assembleHess2 geometry GetNode i hes hesVisc nodes).AnisoGrad = nodes.AnisoGrad ∧
    (assembleHess2 geometry GetNode i hes hesVisc nodes).AnisoViscGrad
      = nodes.AnisoViscGrad := by
  simp only [assembleHess2, List.foldl, CTurbSAVariable.AddAnisoHess,
    CTurbSAVariable.AddAnisoViscHess, and_self]

theorem hessElem2_frame (geometry : CGeometry K 2 3) (nodes : CTurbSAVariable K 2)
    (GetNode : Fin 3 → Nat) :
    (hessElem2 geometry nodes GetNode).GetSolution = nodes.GetSolution ∧
    (hessElem2 geometry nodes GetNode).GetGradient = nodes.GetGradient ∧
    (hessElem2 geometry nodes GetNode).AnisoGrad = nodes.AnisoGrad ∧
    (hessElem2 geometry nodes GetNode).AnisoViscGrad = nodes.AnisoViscGrad := by
  simp only [hessElem2, List.foldl, assembleHess2_frame, and_self]

theorem hessElem2_AnisoHess (geometry : CGeometry K 2 3) (nodes : CTurbSAVariable K 2)
    (GetNode : Fin 3 → Nat) (k s : Nat) :
    (hessElem2 geometry nodes GetNode).AnisoHess k s
      = nodes.AnisoHess k s
        + hessContrib2 geometry (storedGrad2 nodes.AnisoGrad) GetNode k s := by
  simp only [hessElem2, List.foldl, assembleHess2_AnisoHess, hessContrib2,
    storedGrad2, Fin.sum_univ_two]
  simp only [Fin.val_zero, Fin.val_one]
  ring

theorem hessElem2_AnisoViscHess (geometry : CGeometry K 2 3)
    (nodes : CTurbSAVariable K 2) (GetNode : Fin 3 → Nat) (k s : Nat) :
    (hessElem2 geometry nodes GetNode).AnisoViscHess k s
      = nodes.AnisoViscHess k s
        + hessContrib2 geometry (storedGrad2 nodes.AnisoViscGrad) GetNode k s := by
  simp only [hessElem2, List.foldl, assembleHess2_AnisoViscHess, hessContrib2,
    storedGrad2, Fin.sum_univ_two]
  simp only [Fin.val_zero, Fin.val_one]
  ring

/-- Accumulation formula of the 2D Hessian sweep, for an arbitrary element list. -/
theorem hessSweep2_fold (geometry : CGeometry K 2 3) (es : List (Fin 3 → Nat))
    (nodes : CTurbSAVariable K 2) :
    (∀ k s, (es.foldl (hessElem2 geometry) nodes).AnisoHess k s
      = nodes.AnisoHess k s
        + (es.map (fun e => hessContrib2 geometry (storedGrad2 nodes.AnisoGrad)
            e k s)).sum) ∧
    (∀ k s, (es.foldl (hessElem2 geometry) nodes).AnisoViscHess k s
      = nodes.AnisoViscHess k s
        + (es.map (fun e => hessContrib2 geometry (storedGrad2 nodes.AnisoViscGrad)
            e k s)).sum) ∧
    (es.foldl (hessElem2 geometry) nodes).GetSolution = nodes.GetSolution ∧
    (es.foldl (hessElem2 geometry) nodes).GetGradient = nodes.GetGradient ∧
    (es.foldl (hessElem2 geometry) nodes).AnisoGrad = nodes.AnisoGrad ∧
    (es.foldl (hessElem2 geometry) nodes).AnisoViscGrad = nodes.AnisoViscGrad := by
  induction es generalizing nodes with
  | nil => simp
  | cons e es ih =>
    obtain ⟨h1, h2, h3, h4, h5, h6⟩ := ih (hessElem2 geometry nodes e)
    obtain ⟨f1, f2, f3, f4⟩ := hessElem2_frame geometry nodes e
    refine ⟨?_, ?_, ?_, ?_, ?_, ?_⟩
    · intro k s
      simp only [List.foldl_cons, List.map_cons, List.sum_cons, h1, hessElem2_AnisoHess, f3]
      ring
    · intro k s
      simp only [List.foldl_cons, List.map_cons, List.sum_cons, h2, hessElem2_AnisoViscHess,
        f4]
      ring
    · simp only [List.foldl_cons, h3, f1]
    · simp only [List.foldl_cons, h4, f2]
    · simp only [List.foldl_cons, h5, f3]
    · simp only [List.foldl_cons, h6, f4]

theorem hessContrib2_slot (geometry : CGeometry K 2 3) (G : Nat → Fin 2 → Fin 2 → K)
    (e : Fin 3 → Nat) (k : Nat) (iFlux : Fin 2) (m : Fin 3) :
    hessContrib2 geometry G e k (iFlux.val * 3 + m.val)
      = ∑ iNode : Fin 3, if k = e iNode then
          hesTri (orientedNormals2 (elemCrd geometry e))
              (fun iNode d => G (e iNode) d iFlux) m
            * (1 / (geometry.GetVolume (e iNode) * 6)) else 0 := by
  fin_cases iFlux <;> fin_cases m <;>
    simp [hessContrib2, hessNodeSum2, Fin.sum_univ_two, Fin.sum_univ_three]

/-! ### The 3D Hessian sweep -/

theorem assembleHess3_AnisoHess (geometry : CGeometry K 3 4) (GetNode : Fin 4 → Nat)
    (i : Nat) (hes hesVisc : Fin 6 → K) (nodes : CTurbSAVariable K 3) (k s : Nat) :
    (assembleHess3 geometry GetNode i hes hesVisc nodes).AnisoHess k s
      = nodes.AnisoHess k s + hessNodeSum3 geometry GetNode i hes k s := by
  simp only [assembleHess3, List.foldl, CTurbSAVariable.AddAnisoHess,
    CTurbSAVariable.AddAnisoViscHess, addAt_apply, hessNodeSum3, Fin.sum_univ_four]
  ring

theorem assembleHess3_AnisoViscHess (geometry : CGeometry K 3 4)
    (GetNode : Fin 4 → Nat) (i : Nat) (hes hesVisc : Fin 6 → K)
    (nodes : CTurbSAVariable K 3) (k s : Nat) :
    (assembleHess3 geometry GetNode i hes hesVisc nodes).AnisoViscHess k s
      = nodes.AnisoViscHess k s + hessNodeSum3 geometry GetNode i hesVisc k s := by
  simp only [assembleHess3, List.foldl, CTurbSAVariable.AddAnisoHess,
    CTurbSAVariable.AddAnisoViscHess, addAt_apply, hessNodeSum3, Fin.sum_univ_four]
  ring

theorem assembleHess3_frame (geometry : CGeometry K 3 4) (GetNode : Fin 4 → Nat)
    (i : Nat) (hes hesVisc : Fin 6 → K) (nodes : CTurbSAVariable K 3) :
    (assembleHess3 geometry GetNode i hes hesVisc nodes).GetSolution = nodes.GetSolution ∧
    (assembleHess3 geometry GetNode i hes hesVisc nodes).GetGradient = nodes.GetGradient ∧
    (assembleHess3 geometry GetNode i hes hesVisc nodes).AnisoGrad = nodes.AnisoGrad ∧
    (assembleHess3 geometry GetNode i hes hesVisc nodes).AnisoViscGrad
      = nodes.AnisoViscGrad := by
  simp only [assembleHess3, List.foldl, CTurbSAVariable.AddAnisoHess,
    CTurbSAVariable.AddAnisoViscHess, and_self]

theorem hessElem3_frame (geometry : CGeometry K 3 4) (nodes : CTurbSAVariable K 3)
    (GetNode : Fin 4 → Nat) :
    (hessElem3 geometry nodes GetNode).GetSolution = nodes.GetSolution ∧
    (hessElem3 geometry nodes GetNode).GetGradient = nodes.GetGradient ∧
    (hessElem3 geometry nodes GetNode).AnisoGrad = nodes.AnisoGrad ∧
    (hessElem3 geometry nodes GetNode).AnisoViscGrad = nodes.AnisoViscGrad := by
  simp only [hessElem3, List.foldl, assembleHess3_frame, and_self]

theorem hessElem3_AnisoHess (geometry : CGeometry K 3 4) (nodes : CTurbSAVariable K 3)
    (GetNode : Fin 4 → Nat) (k s : Nat) :
    (hessElem3 geometry nodes GetNode).AnisoHess k s
      = nodes.AnisoHess k s
        + hessContrib3 geometry (storedGrad3 nodes.AnisoGrad) GetNode k s := by
  simp only [hessElem3, List.foldl, assembleHess3_AnisoHess, hessContrib3,
    storedGrad3, Fin.sum_univ_three]
  simp only [Fin.val_zero, Fin.val_one, Fin.val_two]
  ring

theorem hessElem3_AnisoViscHess (geometry : CGeometry K 3 4)
    (nodes : CTurbSAVariable K 3) (GetNode : Fin 4 → Nat) (k s : Nat) :
    (hessElem3 geometry nodes GetNode).AnisoViscHess k s
      = nodes.AnisoViscHess k s
        + hessContrib3 geometry (storedGrad3 nodes.AnisoViscGrad) GetNode k s := by
  simp only [hessElem3, List.foldl, assembleHess3_AnisoViscHess, hessContrib3,
    storedGrad3, Fin.sum_univ_three]
  simp only [Fin.val_zero, Fin.val_one, Fin.val_two]
  ring

/-- Accumulation formula of the 3D Hessian sweep, for an arbitrary element list. -/
theorem hessSweep3_fold (geometry : CGeometry K 3 4) (es : List (Fin 4 → Nat))
    (nodes : CTurbSAVariable K 3) :
    (∀ k s, (es.foldl (hessElem3 geometry) nodes).AnisoHess k s
      = nodes.AnisoHess k s
        + (es.map (fun e => hessContrib3 geometry (storedGrad3 nodes.AnisoGrad)
            e k s)).sum) ∧
    (∀ k s, (es.foldl (hessElem3 geometry) nodes).AnisoViscHess k s
      = nodes.AnisoViscHess k s
        + (es.map (fun e => hessContrib3 geometry (storedGrad3 nodes.AnisoViscGrad)
            e k s)).sum) ∧
    (es.foldl (hessElem3 geometry) nodes).GetSolution = nodes.GetSolution ∧
    (es.foldl (hessElem3 geometry) nodes).GetGradient = nodes.GetGradient ∧
    (es.foldl (hessElem3 geometry) nodes).AnisoGrad = nodes.AnisoGrad ∧
    (es.foldl (hessElem3 geometry) nodes).AnisoViscGrad = nodes.AnisoViscGrad := by
  induction es generalizing nodes with
  | nil => simp
  | cons e es ih =>
    obtain ⟨h1, h2, h3, h4, h5, h6⟩ := ih (hessElem3 geometry nodes e)
    obtain ⟨f1, f2, f3, f4⟩ := hessElem3_frame geometry nodes e
    refine ⟨?_, ?_, ?_, ?_, ?_, ?_⟩
    · intro k s
      simp only [List.foldl_cons, List.map_cons, List.sum_cons, h1, hessElem3_AnisoHess, f3]
      ring
    · intro k s
      simp only [List.foldl_cons, List.map_cons, List.sum_cons, h2, hessElem3_AnisoViscHess,
        f4]
      ring
    · simp only [List.foldl_cons, h3, f1]
    · simp only [List.foldl_cons, h4, f2]
    · simp only [List.foldl_cons, h5, f3]
    · simp only [List.foldl_cons, h6, f4]

theorem hessNodeSum3_slot (geometry : CGeometry K 3 4) (GetNode : Fin 4 → Nat) (f g : Nat)
    (hes : Fin 6 → K) (k : Nat) (m : Fin 6) :
    hessNodeSum3 geometry GetNode (f * 1 * 6 + 0 * 6) hes k (g * 6 + m.val)
      = if f = g then ∑ iNode : Fin 4, (if k = GetNode iNode then
          hes m * (1 / (geometry.GetVolume (GetNode iNode) * 24)) else 0) else 0 := by
  by_cases hfg : f = g
  · subst hfg
    rw [if_pos rfl]
    simp only [hessNodeSum3]
    apply Finset.sum_congr rfl
    intro iNode _
    by_cases hk : k = GetNode iNode
    · simp only [if_pos hk, hk, true_and, Nat.mul_one, Nat.zero_mul, Nat.add_zero,
        Nat.add_left_cancel_iff]
      fin_cases m <;> simp
    · simp only [hk, false_and, if_false, add_zero]
  · rw [if_neg hfg]
    simp only [hessNodeSum3]
    apply Finset.sum_eq_zero
    intro iNode _
    have hm := m.isLt
    have h0 : ¬ (g * 6 + m.val = f * 1 * 6 + 0 * 6 + 0) := by omega
    have h1 : ¬ (g * 6 + m.val = f * 1 * 6 + 0 * 6 + 1) := by omega
    have h2 : ¬ (g * 6 + m.val = f * 1 * 6 + 0 * 6 + 2) := by omega
    have h3 : ¬ (g * 6 + m.val = f * 1 * 6 + 0 * 6 + 3) := by omega
    have h4 : ¬ (g * 6 + m.val = f * 1 * 6 + 0 * 6 + 4) := by omega
    have h5 : ¬ (g * 6 + m.val = f * 1 * 6 + 0 * 6 + 5) := by omega
    simp only [h0, h1, h2, h3, h4, h5, and_false, if_false, add_zero]

theorem hessContrib3_slot (geometry : CGeometry K 3 4) (G : Nat → Fin 3 → Fin 3 → K)
    (e : Fin 4 → Nat) (k : Nat) (iFlux : Fin 3) (m : Fin 6) :
    hessContrib3 geometry G e k (iFlux.val * 6 + m.val)
      = ∑ iNode : Fin 4, if k = e iNode then
          hesTet (orientedNormals3 (elemCrd geometry e))
              (fun iNode d => G (e iNode) d iFlux) m
            * (1 / (geometry.GetVolume (e iNode) * 24)) else 0 := by
  simp only [hessContrib3, hessNodeSum3_slot geometry e _ iFlux.val]
  simp only [Fin.val_inj]
  rw [Finset.sum_ite_eq' Finset.univ iFlux]
  simp

/-! ### Accumulation formula, order independence and dependence on the initial contents -/

theorem ite_rap_eq (k v : Nat) (x : K) (Vol : Nat → K) (c : K) :
    (if k = v then x * (1 / (Vol v * c)) else 0) = if v = k then x / (c * Vol k) else 0 := by
  by_cases h : k = v
  · subst h; rw [if_pos rfl, if_pos rfl]; ring
  · rw [if_neg h, if_neg (fun h' => h h'.symm)]

theorem sum_gradContrib2_div (geometry : CGeometry K 2 3) (S : Nat → Fin 2 → K) (k : Nat)
    (iFlux d : Fin 2) (es : List (Fin 3 → Nat)) :
    (es.map (fun e => gradContrib2 geometry S e k (iFlux.val * 2 + d.val))).sum
      = (es.map (fun e => ∑ m : Fin 3, if e m = k then
          graTri (orientedNormals2 (elemCrd geometry e)) (fun iNode => S (e iNode) iFlux) d
            / (6 * geometry.GetVolume k) else 0)).sum := by
  apply sum_map_congr
  intro e _
  rw [gradContrib2_slot]
  exact Finset.sum_congr rfl (fun m _ => ite_rap_eq k (e m) _ geometry.GetVolume 6)

theorem sum_gradContrib3_div (geometry : CGeometry K 3 4) (S : Nat → Fin 3 → K) (k : Nat)
    (iFlux d : Fin 3) (es : List (Fin 4 → Nat)) :
    (es.map (fun e => gradContrib3 geometry S e k (iFlux.val * 3 + d.val))).sum
      = (es.map (fun e => ∑ m : Fin 4, if e m = k then
          graTet (orientedNormals3 (elemCrd geometry e)) (fun iNode => S (e iNode) iFlux) d
            / (24 * geometry.GetVolume k) else 0)).sum := by
  apply sum_map_congr
  intro e _
  rw [gradContrib3_slot]
  exact Finset.sum_congr rfl (fun m _ => ite_rap_eq k (e m) _ geometry.GetVolume 24)

theorem graTri_eq_sum (vn : Normals2 K) (S : Fin 3 → K) :
    graTri vn S = ![∑ i, S i * vn.vnx i, ∑ i, S i * vn.vny i] := by
  simp only [graTri, Fin.sum_univ_three]

theorem graTet_eq_sum (vn : Normals3 K) (S : Fin 4 → K) :
    graTet vn S = ![∑ i, S i * vn.vnx i, ∑ i, S i * vn.vny i, ∑ i, S i * vn.vnz i] := by
  simp only [graTet, Fin.sum_univ_four]

/-! ### Vertex reordering, 2D -/

omit [LinearOrderedField K] in
theorem normals2_ext_fields (a b : Normals2 K) (hx : a.vnx = b.vnx) (hy : a.vny = b.vny) :
    a = b := by
  cases a; cases b; simp_all

omit [LinearOrderedField K] in
theorem normals3_ext_fields (a b : Normals3 K) (hx : a.vnx = b.vnx) (hy : a.vny = b.vny)
    (hz : a.vnz = b.vnz) : a = b := by
  cases a; cases b; simp_all

theorem det2_swap (Crd : Fin 3 → Fin 2 → K) (x y : Fin 3) (hxy : x ≠ y) :
    det2 (fun i => Crd (Equiv.swap x y i)) = - det2 Crd := by
  fin_cases x <;> fin_cases y <;> first
    | exact absurd rfl hxy
    | (simp [det2, Equiv.swap_apply_def]; try ring)

theorem rawNormals2_swap_lt (Crd : Fin 3 → Fin 2 → K) (x y : Fin 3) (hxy : x < y) (i : Fin 3) :
    (rawNormals2 (fun i => Crd (Equiv.swap x y i))).vnx i
        = -(rawNormals2 Crd).vnx (Equiv.swap x y i) ∧
      (rawNormals2 (fun i => Crd (Equiv.swap x y i))).vny i
        = -(rawNormals2 Crd).vny (Equiv.swap x y i) := by
  fin_cases x <;> fin_cases y <;> first
    | exact absurd hxy (by decide)
    | (fin_cases i <;> simp [rawNormals2, Equiv.swap_apply_def])

theorem rawNormals2_swap (Crd : Fin 3 → Fin 2 → K) (x y : Fin 3) (hxy : x ≠ y) (i : Fin 3) :
    (rawNormals2 (fun i => Crd (Equiv.swap x y i))).vnx i
        = -(rawNormals2 Crd).vnx (Equiv.swap x y i) ∧
      (rawNormals2 (fun i => Crd (Equiv.swap x y i))).vny i
        = -(rawNormals2 Crd).vny (Equiv.swap x y i) := by
  rcases lt_or_gt_of_ne hxy with h | h
  · exact rawNormals2_swap_lt Crd x y h i
  · rw [Equiv.swap_comm x y]
    exact rawNormals2_swap_lt Crd y x h i

theorem orientedNormals2_swap (Crd : Fin 3 → Fin 2 → K) (x y : Fin 3) (hxy : x ≠ y)
    (hnd : det2 Crd ≠ 0) :
    orientedNormals2 (fun i => Crd (Equiv.swap x y i))
      = (orientedNormals2 Crd).reindex (Equiv.swap x y) := by
  rw [orientedNormals2_eq, orientedNormals2_eq, det2_swap Crd x y hxy]
  rcases lt_or_gt_of_ne hnd with h | h
  · rw [if_neg (by linarith), if_pos h]
    apply normals2_ext_fields <;> funext i
    · simp only [Normals2.reindex, (rawNormals2_swap Crd x y hxy i).1]
    · simp only [Normals2.reindex, (rawNormals2_swap Crd x y hxy i).2]
  · rw [if_pos (by linarith), if_neg (by linarith)]
    apply normals2_ext_fields <;> funext i
    · simp only [Normals2.reindex, (rawNormals2_swap Crd x y hxy i).1, neg_neg]
    · simp only [Normals2.reindex, (rawNormals2_swap Crd x y hxy i).2, neg_neg]

/-- Reordering the vertex list of a non-degenerate triangle reorders the oriented normals
in the same way: the normal belongs to the physical vertex. -/
theorem orientedNormals2_perm (σ : Equiv.Perm (Fin 3)) :
    ∀ Crd : Fin 3 → Fin 2 → K, det2 Crd ≠ 0 →
      det2 (fun i => Crd (σ i)) ≠ 0 ∧
      orientedNormals2 (fun i => Crd (σ i)) = (orientedNormals2 Crd).reindex σ := by
  refine Equiv.Perm.swap_induction_on σ ?_ ?_
  · intro Crd hnd
    exact ⟨hnd, rfl⟩
  · intro f x y hxy ih Crd hnd
    have hsw : det2 (fun i => Crd (Equiv.swap x y i)) ≠ 0 := by
      rw [det2_swap Crd x y hxy]; exact neg_ne_zero.mpr hnd
    obtain ⟨h1, h2⟩ := ih (fun i => Crd (Equiv.swap x y i)) hsw
    refine ⟨h1, ?_⟩
    show orientedNormals2 (fun i => (fun j => Crd (Equiv.swap x y j)) (f i)) = _
    rw [h2, orientedNormals2_swap Crd x y hxy hnd]
    rfl

theorem graTri_perm (σ : Equiv.Perm (Fin 3)) (Crd : Fin 3 → Fin 2 → K) (S : Fin 3 → K)
    (hnd : det2 Crd ≠ 0) :
    graTri (orientedNormals2 (fun i => Crd (σ i))) (fun i => S (σ i))
      = graTri (orientedNormals2 Crd) S := by
  have hx := Equiv.sum_comp σ (fun i => S i * (orientedNormals2 Crd).vnx i)
  have hy := Equiv.sum_comp σ (fun i => S i * (orientedNormals2 Crd).vny i)
  rw [(orientedNormals2_perm σ Crd hnd).2, graTri_eq_sum, graTri_eq_sum]
  simp only [Normals2.reindex]
  rw [hx, hy]

/-! ### Vertex reordering, 3D -/

theorem det3_swap_lt (Crd : Fin 4 → Fin 3 → K) (x y : Fin 4) (hxy : x < y) :
    det3 (fun i => Crd (Equiv.swap x y i)) = - det3 Crd := by
  fin_cases x <;> fin_cases y <;> first
    | exact absurd hxy (by decide)
    | (simp [det3, Equiv.swap_apply_def]; try ring)

theorem det3_swap (Crd : Fin 4 → Fin 3 → K) (x y : Fin 4) (hxy : x ≠ y) :
    det3 (fun i => Crd (Equiv.swap x y i)) = - det3 Crd := by
  rcases lt_or_gt_of_ne hxy with h | h
  · exact det3_swap_lt Crd x y h
  · rw [Equiv.swap_comm x y]
    exact det3_swap_lt Crd y x h

theorem faceSign_cases (i : Fin 4) : (faceSign i : K) = 1 ∨ (faceSign i : K) = -1 := by
  fin_cases i <;> simp [faceSign]

theorem rawNormals3_vnx_crossC (Crd : Fin 4 → Fin 3 → K) (i : Fin 4) :
    (rawNormals3 Crd).vnx i = crossC Crd 1 2 (i + 1) (i + 2) (i + 3) := by
  fin_cases i <;> rfl

theorem rawNormals3_vny_crossC (Crd : Fin 4 → Fin 3 → K) (i : Fin 4) :
    (rawNormals3 Crd).vny i = crossC Crd 2 0 (i + 1) (i + 2) (i + 3) := by
  fin_cases i <;> rfl

theorem rawNormals3_vnz_crossC (Crd : Fin 4 → Fin 3 → K) (i : Fin 4) :
    (rawNormals3 Crd).vnz i = crossC Crd 0 1 (i + 1) (i + 2) (i + 3) := by
  fin_cases i <;> rfl

theorem crossC_swap_lt (Crd : Fin 4 → Fin 3 → K) (u v : Fin 3) (x y : Fin 4) (hxy : x < y)
    (i : Fin 4) :
    crossC (fun i => Crd (Equiv.swap x y i)) u v (i + 1) (i + 2) (i + 3)
      = -(faceSign i * faceSign (Equiv.swap x y i)
          * crossC Crd u v (Equiv.swap x y i + 1) (Equiv.swap x y i + 2)
              (Equiv.swap x y i + 3)) := by
  fin_cases x <;> fin_cases y <;> first
    | exact absurd hxy (by decide)
    | (fin_cases i <;> simp [crossC, faceSign, Equiv.swap_apply_def] <;> ring)

/-- Exchanging two vertices of a tetrahedron moves the raw normals with their vertices, up
to the alternating face sign. -/
theorem crossC_swap (Crd : Fin 4 → Fin 3 → K) (u v : Fin 3) (x y : Fin 4) (hxy : x ≠ y)
    (i : Fin 4) :
    crossC (fun i => Crd (Equiv.swap x y i)) u v (i + 1) (i + 2) (i + 3)
      = -(faceSign i * faceSign (Equiv.swap x y i)
          * crossC Crd u v (Equiv.swap x y i + 1) (Equiv.swap x y i + 2)
              (Equiv.swap x y i + 3)) := by
  rcases lt_or_gt_of_ne hxy with h | h
  · exact crossC_swap_lt Crd u v x y h i
  · rw [Equiv.swap_comm x y]
    exact crossC_swap_lt Crd u v y x h i

theorem rawNormals3_swap_vnx (Crd : Fin 4 → Fin 3 → K) (x y : Fin 4) (hxy : x ≠ y) (i : Fin 4) :
    (rawNormals3 (fun i => Crd (Equiv.swap x y i))).vnx i
      = -(faceSign i * faceSign (Equiv.swap x y i)
          * (rawNormals3 Crd).vnx (Equiv.swap x y i)) := by
  rw [rawNormals3_vnx_crossC, rawNormals3_vnx_crossC, crossC_swap Crd 1 2 x y hxy i]

theorem rawNormals3_swap_vny (Crd : Fin 4 → Fin 3 → K) (x y : Fin 4) (hxy : x ≠ y) (i : Fin 4) :
    (rawNormals3 (fun i => Crd (Equiv.swap x y i))).vny i
      = -(faceSign i * faceSign (Equiv.swap x y i)
          * (rawNormals3 Crd).vny (Equiv.swap x y i)) := by
  rw [rawNormals3_vny_crossC, rawNormals3_vny_crossC, crossC_swap Crd 2 0 x y hxy i]

theorem rawNormals3_swap_vnz (Crd : Fin 4 → Fin 3 → K) (x y : Fin 4) (hxy : x ≠ y) (i : Fin 4) :
    (rawNormals3 (fun i => Crd (Equiv.swap x y i))).vnz i
      = -(faceSign i * faceSign (Equiv.swap x y i)
          * (rawNormals3 Crd).vnz (Equiv.swap x y i)) := by
  rw [rawNormals3_vnz_crossC, rawNormals3_vnz_crossC, crossC_swap Crd 0 1 x y hxy i]

/-- A flip rule that depends on the sign of `a * D` commutes with an orientation-reversing
renumbering: `a`, `b` are the face signs of the new and the old slot. -/
theorem flip_swap (a b D r : K) (ha : a = 1 ∨ a = -1) (hb : b = 1 ∨ b = -1) (hD : D ≠ 0) :
    (if 0 < a * -D then - -(a * b * r) else -(a * b * r))
      = if 0 < b * D then -r else r := by
  rcases ha with rfl | rfl <;> rcases hb with rfl | rfl <;>
    rcases lt_or_gt_of_ne hD with h | h <;>
    simp [h, not_lt.mpr h.le]

theorem orientedNormals3_swap (Crd : Fin 4 → Fin 3 → K) (x y : Fin 4) (hxy : x ≠ y)
    (hnd : det3 Crd ≠ 0) :
    orientedNormals3 (fun i => Crd (Equiv.swap x y i))
      = (orientedNormals3 Crd).reindex (Equiv.swap x y) := by
  rw [orientedNormals3_eq, orientedNormals3_eq, det3_swap Crd x y hxy]
  apply normals3_ext_fields <;> funext i
  · simp only [Normals3.reindex, rawNormals3_swap_vnx Crd x y hxy]
    exact flip_swap _ _ _ _ (faceSign_cases i) (faceSign_cases _) hnd
  · simp only [Normals3.reindex, rawNormals3_swap_vny Crd x y hxy]
    exact flip_swap _ _ _ _ (faceSign_cases i) (faceSign_cases _) hnd
  · simp only [Normals3.reindex, rawNormals3_swap_vnz Crd x y hxy]
    exact flip_swap _ _ _ _ (faceSign_cases i) (faceSign_cases _) hnd

/-- Reordering the vertex list of a non-degenerate tetrahedron reorders the oriented normals
in the same way: the normal belongs to the physical vertex. -/
theorem orientedNormals3_perm (σ : Equiv.Perm (Fin 4)) :
    ∀ Crd : Fin 4 → Fin 3 → K, det3 Crd ≠ 0 →
      det3 (fun i => Crd (σ i)) ≠ 0 ∧
      orientedNormals3 (fun i => Crd (σ i)) = (orientedNormals3 Crd).reindex σ := by
  refine Equiv.Perm.swap_induction_on σ ?_ ?_
  · intro Crd hnd
    exact ⟨hnd, rfl⟩
  · intro f x y hxy ih Crd hnd
    have hsw : det3 (fun i => Crd (Equiv.swap x y i)) ≠ 0 := by
      rw [det3_swap Crd x y hxy]; exact neg_ne_zero.mpr hnd
    obtain ⟨h1, h2⟩ := ih (fun i => Crd (Equiv.swap x y i)) hsw
    refine ⟨h1, ?_⟩
    show orientedNormals3 (fun i => (fun j => Crd (Equiv.swap x y j)) (f i)) = _
    rw [h2, orientedNormals3_swap Crd x y hxy hnd]
    rfl

theorem graTet_perm (σ : Equiv.Perm (Fin 4)) (Crd : Fin 4 → Fin 3 → K) (S : Fin 4 → K)
    (hnd : det3 Crd ≠ 0) :
    graTet (orientedNormals3 (fun i => Crd (σ i))) (fun i => S (σ i))
      = graTet (orientedNormals3 Crd) S := by
  have hx := Equiv.sum_comp σ (fun i => S i * (orientedNormals3 Crd).vnx i)
  have hy := Equiv.sum_comp σ (fun i => S i * (orientedNormals3 Crd).vny i)
  have hz := Equiv.sum_comp σ (fun i => S i * (orientedNormals3 Crd).vnz i)
  rw [(orientedNormals3_perm σ Crd hnd).2, graTet_eq_sum, graTet_eq_sum]
  simp only [Normals3.reindex]
  rw [hx, hy, hz]

/-! ### Orientation and scaling of the normals -/

theorem rawNormals2_dot (Crd : Fin 3 → Fin 2 → K) (i j : Fin 3) (hij : j ≠ i) :
    (rawNormals2 Crd).vnx i * (Crd i 0 - Crd j 0) + (rawNormals2 Crd).vny i * (Crd i 1 - Crd j 1)
      = det2 Crd := by
  fin_cases i <;> fin_cases j <;> first
    | exact absurd rfl hij
    | (simp [rawNormals2, det2]; ring)

theorem orientedNormals2_dot (Crd : Fin 3 → Fin 2 → K) (i j : Fin 3) (hij : j ≠ i) :
    (orientedNormals2 Crd).vnx i * (Crd i 0 - Crd j 0)
        + (orientedNormals2 Crd).vny i * (Crd i 1 - Crd j 1)
      = |det2 Crd| := by
  have hraw := rawNormals2_dot Crd i j hij
  rw [orientedNormals2_eq]
  by_cases h : det2 Crd < 0
  · rw [if_pos h, abs_of_neg h]
    simp only
    linarith
  · rw [if_neg h, abs_of_nonneg (not_lt.mp h)]
    exact hraw

theorem orientedNormals2_scaled (Crd : Fin 3 → Fin 2 → K) (hnd : det2 Crd ≠ 0) (i : Fin 3) :
    (orientedNormals2 Crd).vnx i = 2 * triArea Crd * shapeGrad2 Crd i 0 ∧
    (orientedNormals2 Crd).vny i = 2 * triArea Crd * shapeGrad2 Crd i 1 := by
  rw [orientedNormals2_eq]
  by_cases h : det2 Crd < 0
  · rw [if_pos h, triArea, abs_of_neg h]
    simp only [shapeGrad2, Matrix.cons_val_zero, Matrix.cons_val_one, Matrix.head_cons]
    constructor <;> (field_simp; try ring)
  · rw [if_neg h, triArea, abs_of_nonneg (not_lt.mp h)]
    simp only [shapeGrad2, Matrix.cons_val_zero, Matrix.cons_val_one, Matrix.head_cons]
    constructor <;> (field_simp; try ring)

theorem shapeFn2_vertex (Crd : Fin 3 → Fin 2 → K) (hnd : det2 Crd ≠ 0) (i j : Fin 3) :
    shapeFn2 Crd i (Crd j) = if i = j then 1 else 0 := by
  by_cases hij : i = j
  · subst hij
    simp [shapeFn2]
  · rw [if_neg hij]
    have hraw := rawNormals2_dot Crd i j (fun h => hij h.symm)
    simp only [shapeFn2, shapeGrad2, Matrix.cons_val_zero, Matrix.cons_val_one,
      Matrix.head_cons]
    field_simp
    linarith

theorem rawNormals3_dot (Crd : Fin 4 → Fin 3 → K) (i j : Fin 4) (hij : j ≠ i) :
    (rawNormals3 Crd).vnx i * (Crd i 0 - Crd j 0) + (rawNormals3 Crd).vny i * (Crd i 1 - Crd j 1)
        + (rawNormals3 Crd).vnz i * (Crd i 2 - Crd j 2)
      = -(faceSign i * det3 Crd) := by
  fin_cases i <;> fin_cases j <;> first
    | exact absurd rfl hij
    | (simp [rawNormals3, det3, faceSign]; ring)

theorem orientedNormals3_dot (Crd : Fin 4 → Fin 3 → K) (i j : Fin 4) (hij : j ≠ i) :
    (orientedNormals3 Crd).vnx i * (Crd i 0 - Crd j 0)
        + (orientedNormals3 Crd).vny i * (Crd i 1 - Crd j 1)
        + (orientedNormals3 Crd).vnz i * (Crd i 2 - Crd j 2)
      = |det3 Crd| := by
  have hraw := rawNormals3_dot Crd i j hij
  rw [orientedNormals3_eq]
  simp only
  rcases (faceSign_cases i : (faceSign i : K) = 1 ∨ (faceSign i : K) = -1) with hs | hs
  · rw [hs, one_mul] at hraw ⊢
    by_cases h : 0 < det3 Crd
    · rw [if_pos h, if_pos h, if_pos h, abs_of_pos h]; linarith
    · rw [if_neg h, if_neg h, if_neg h, abs_of_nonpos (not_lt.mp h)]; linarith
  · rw [hs] at hraw ⊢
    by_cases h : 0 < -1 * det3 Crd
    · rw [if_pos h, if_pos h, if_pos h, abs_of_neg (by linarith)]; linarith
    · rw [if_neg h, if_neg h, if_neg h, abs_of_nonneg (by linarith)]; linarith

theorem nodeSum2_perm (σ : Equiv.Perm (Fin 3)) (geometry : CGeometry K 2 3) (e : Fin 3 → Nat)
    (i : Nat) (gra : Fin 2 → K) (k s : Nat) :
    nodeSum2 geometry (fun iNode => e (σ iNode)) i gra k s = nodeSum2 geometry e i gra k s := by
  unfold nodeSum2
  exact Equiv.sum_comp σ (fun iNode =>
    (if k = e iNode ∧ s = i + 0
        then gra 0 * (1 / (geometry.GetVolume (e iNode) * 6)) else 0)
      + (if k = e iNode ∧ s = i + 1
        then gra 1 * (1 / (geometry.GetVolume (e iNode) * 6)) else 0))

theorem gradContrib2_perm (σ : Equiv.Perm (Fin 3)) (geometry : CGeometry K 2 3)
    (S : Nat → Fin 2 → K) (e : Fin 3 → Nat) (hnd : det2 (elemCrd geometry e) ≠ 0) (k s : Nat) :
    gradContrib2 geometry S (fun iNode => e (σ iNode)) k s = gradContrib2 geometry S e k s := by
  unfold gradContrib2
  apply Finset.sum_congr rfl
  intro iFlux _
  rw [nodeSum2_perm]
  congr 1
  exact graTri_perm σ (elemCrd geometry e) (fun iNode => S (e iNode) iFlux) hnd

theorem nodeSum3_perm (σ : Equiv.Perm (Fin 4)) (geometry : CGeometry K 3 4) (e : Fin 4 → Nat)
    (i : Nat) (gra : Fin 3 → K) (k s : Nat) :
    nodeSum3 geometry (fun iNode => e (σ iNode)) i gra k s = nodeSum3 geometry e i gra k s := by
  unfold nodeSum3
  exact Equiv.sum_comp σ (fun iNode =>
    (if k = e iNode ∧ s = i + 0
        then gra 0 * (1 / (geometry.GetVolume (e iNode) * 24)) else 0)
      + (if k = e iNode ∧ s = i + 1
        then gra 1 * (1 / (geometry.GetVolume (e iNode) * 24)) else 0)
      + (if k = e iNode ∧ s = i + 2
        then gra 2 * (1 / (geometry.GetVolume (e iNode) * 24)) else 0))

theorem gradContrib3_perm (σ : Equiv.Perm (Fin 4)) (geometry : CGeometry K 3 4)
    (S : Nat → Fin 3 → K) (e : Fin 4 → Nat) (hnd : det3 (elemCrd geometry e) ≠ 0) (k s : Nat) :
    gradContrib3 geometry S (fun iNode => e (σ iNode)) k s = gradContrib3 geometry S e k s := by
  unfold gradContrib3
  apply Finset.sum_congr rfl
  intro iFlux _
  rw [nodeSum3_perm]
  congr 1
  exact graTet_perm σ (elemCrd geometry e) (fun iNode => S (e iNode) iFlux) hnd

theorem det2_ne_zero_of_triArea (Crd : Fin 3 → Fin 2 → K) (h : triArea Crd ≠ 0) :
    det2 Crd ≠ 0 := by
  intro h0; exact h (by simp [triArea, h0])

theorem det3_ne_zero_of_tetVolume (Crd : Fin 4 → Fin 3 → K) (h : tetVolume Crd ≠ 0) :
    det3 Crd ≠ 0 := by
  intro h0; exact h (by simp [tetVolume, h0])

/-! ### The Hessian sweep as a symmetrized gradient projection -/

theorem Sens_scalarFlow {nDim : Nat} (s : Nat → K) :
    Sens (scalarFlow s : CFlowVariable K nDim) unitNodes = fun k _ => s k := by
  funext k j
  simp [Sens, scalarFlow, unitNodes]

theorem gradProjector2_eq (geometry : CGeometry K 2 3) (s : Nat → K) (k : Nat) (q : Fin 2) :
    gradProjector2 geometry s k q = (geometry.elem.map (elemProj2 geometry s q k)).sum := by
  obtain ⟨h1, -⟩ := gradSweep2_fold geometry (scalarFlow s) geometry.elem unitNodes
  rw [gradProjector2, gradSweep2, h1, Sens_scalarFlow]
  have h0 : (unitNodes : CTurbSAVariable K 2).AnisoGrad k ((0 : Fin 2).val * 2 + q.val) = 0 := rfl
  rw [h0, zero_add]
  apply sum_map_congr
  intro e _
  rw [gradContrib2_slot]
  rfl

theorem gradProjector3_eq (geometry : CGeometry K 3 4) (s : Nat → K) (k : Nat) (q : Fin 3) :
    gradProjector3 geometry s k q = (geometry.elem.map (elemProj3 geometry s q k)).sum := by
  obtain ⟨h1, -⟩ := gradSweep3_fold geometry (scalarFlow s) geometry.elem unitNodes
  rw [gradProjector3, gradSweep3, h1, Sens_scalarFlow]
  have h0 : (unitNodes : CTurbSAVariable K 3).AnisoGrad k ((0 : Fin 3).val * 3 + q.val) = 0 := rfl
  rw [h0, zero_add]
  apply sum_map_congr
  intro e _
  rw [gradContrib3_slot]
  rfl

theorem hesTri_symIndex (vn : Normals2 K) (G : Fin 3 → Fin 2 → K) (p q : Fin 2) :
    hesTri vn G (symIndex2 p q)
      = (1 / 2) * (graTri vn (fun i => G i p) q + graTri vn (fun i => G i q) p) := by
  fin_cases p <;> fin_cases q <;> simp [hesTri, graTri, symIndex2] <;> ring

theorem hesTet_symIndex (vn : Normals3 K) (G : Fin 4 → Fin 3 → K) (p q : Fin 3) :
    hesTet vn G (symIndex3 p q)
      = (1 / 2) * (graTet vn (fun i => G i p) q + graTet vn (fun i => G i q) p) := by
  have g0 : ∀ S : Fin 4 → K, graTet vn S 0
      = S 0 * vn.vnx 0 + S 1 * vn.vnx 1 + S 2 * vn.vnx 2 + S 3 * vn.vnx 3 := fun _ => rfl
  have g1 : ∀ S : Fin 4 → K, graTet vn S 1
      = S 0 * vn.vny 0 + S 1 * vn.vny 1 + S 2 * vn.vny 2 + S 3 * vn.vny 3 := fun _ => rfl
  have g2 : ∀ S : Fin 4 → K, graTet vn S 2
      = S 0 * vn.vnz 0 + S 1 * vn.vnz 1 + S 2 * vn.vnz 2 + S 3 * vn.vnz 3 := fun _ => rfl
  have e0 : hesTet vn G 0
      = G 0 0 * vn.vnx 0 + G 1 0 * vn.vnx 1 + G 2 0 * vn.vnx 2 + G 3 0 * vn.vnx 3 := rfl
  have e1 : hesTet vn G 1
      = (1 / 2) * (G 0 0 * vn.vny 0 + G 1 0 * vn.vny 1 + G 2 0 * vn.vny 2 + G 3 0 * vn.vny 3
        + G 0 1 * vn.vnx 0 + G 1 1 * vn.vnx 1 + G 2 1 * vn.vnx 2 + G 3 1 * vn.vnx 3) := rfl
  have e2 : hesTet vn G 2
      = (1 / 2) * (G 0 0 * vn.vnz 0 + G 1 0 * vn.vnz 1 + G 2 0 * vn.vnz 2 + G 3 0 * vn.vnz 3
        + G 0 2 * vn.vnx 0 + G 1 2 * vn.vnx 1 + G 2 2 * vn.vnx 2 + G 3 2 * vn.vnx 3) := rfl
  have e3 : hesTet vn G 3
      = G 0 1 * vn.vny 0 + G 1 1 * vn.vny 1 + G 2 1 * vn.vny 2 + G 3 1 * vn.vny 3 := rfl
  have e4 : hesTet vn G 4
      = (1 / 2) * (G 0 1 * vn.vnz 0 + G 1 1 * vn.vnz 1 + G 2 1 * vn.vnz 2 + G 3 1 * vn.vnz 3
        + G 0 2 * vn.vny 0 + G 1 2 * vn.vny 1 + G 2 2 * vn.vny 2 + G 3 2 * vn.vny 3) := rfl
  have e5 : hesTet vn G 5
      = G 0 2 * vn.vnz 0 + G 1 2 * vn.vnz 1 + G 2 2 * vn.vnz 2 + G 3 2 * vn.vnz 3 := rfl
  fin_cases p <;> fin_cases q
  · show hesTet vn G 0 = (1 / 2) * (graTet vn (fun i => G i 0) 0 + graTet vn (fun i => G i 0) 0)
    rw [e0, g0]; ring
  · show hesTet vn G 1 = (1 / 2) * (graTet vn (fun i => G i 0) 1 + graTet vn (fun i => G i 1) 0)
    rw [e1, g0, g1]; ring
  · show hesTet vn G 2 = (1 / 2) * (graTet vn (fun i => G i 0) 2 + graTet vn (fun i => G i 2) 0)
    rw [e2, g0, g2]; ring
  · show hesTet vn G 1 = (1 / 2) * (graTet vn (fun i => G i 1) 0 + graTet vn (fun i => G i 0) 1)
    rw [e1, g0, g1]; ring
  · show hesTet vn G 3 = (1 / 2) * (graTet vn (fun i => G i 1) 1 + graTet vn (fun i => G i 1) 1)
    rw [e3, g1]; ring
  · show hesTet vn G 4 = (1 / 2) * (graTet vn (fun i => G i 1) 2 + graTet vn (fun i => G i 2) 1)
    rw [e4, g1, g2]; ring
  · show hesTet vn G 2 = (1 / 2) * (graTet vn (fun i => G i 2) 0 + graTet vn (fun i => G i 0) 2)
    rw [e2, g0, g2]; ring
  · show hesTet vn G 4 = (1 / 2) * (graTet vn (fun i => G i 2) 1 + graTet vn (fun i => G i 1) 2)
    rw [e4, g1, g2]; ring
  · show hesTet vn G 5 = (1 / 2) * (graTet vn (fun i => G i 2) 2 + graTet vn (fun i => G i 2) 2)
    rw [e5, g2]; ring

theorem sum_ite_half (n : Nat) (c : Fin n → Prop) [DecidablePred c] (a b r : Fin n → K) :
    (∑ i, if c i then (1 / 2) * (a i + b i) * r i else 0)
      = (1 / 2) * ((∑ i, if c i then a i * r i else 0) + ∑ i, if c i then b i * r i else 0) := by
  rw [← Finset.sum_add_distrib, Finset.mul_sum]
  apply Finset.sum_congr rfl
  intro i _
  split_ifs <;> ring

theorem sum_map_half {α : Type} (l : List α) (f g : α → K) :
    (l.map (fun x => (1 / 2) * (f x + g x))).sum
      = (1 / 2) * ((l.map f).sum + (l.map g).sum) := by
  induction l with
  | nil => simp
  | cons x xs ih => simp only [List.map_cons, List.sum_cons, ih]; ring

/-- Slot `(p, q)` of the 2D Hessian sweep, started from an accumulator that is zero at that
slot, is the symmetrized gradient projection of the stored gradient `A`. -/
theorem hessSlot2 (geometry : CGeometry K 2 3) (A : Nat → Nat → K) (k : Nat)
    (iFlux p q : Fin 2) :
    (geometry.elem.map (fun e => hessContrib2 geometry (storedGrad2 A) e k
        (iFlux.val * 3 + (symIndex2 p q).val))).sum
      = (1 / 2) * (gradProjector2 geometry (fun v => A v (iFlux.val * 2 + p.val)) k q
          + gradProjector2 geometry (fun v => A v (iFlux.val * 2 + q.val)) k p) := by
  rw [gradProjector2_eq, gradProjector2_eq, ← sum_map_half]
  apply sum_map_congr
  intro e _
  rw [hessContrib2_slot]
  simp only [hesTri_symIndex, elemProj2]
  rw [← sum_ite_half]
  apply Finset.sum_congr rfl
  intro i _
  simp only [storedGrad2, Nat.mul_one, Nat.zero_mul, Nat.add_zero]

/-- Slot `(p, q)` of the 3D Hessian sweep, started from an accumulator that is zero at that
slot, is the symmetrized gradient projection of the stored gradient `A`. -/
theorem hessSlot3 (geometry : CGeometry K 3 4) (A : Nat → Nat → K) (k : Nat)
    (iFlux p q : Fin 3) :
    (geometry.elem.map (fun e => hessContrib3 geometry (storedGrad3 A) e k
        (iFlux.val * 6 + (symIndex3 p q).val))).sum
      = (1 / 2) * (gradProjector3 geometry (fun v => A v (iFlux.val * 3 + p.val)) k q
          + gradProjector3 geometry (fun v => A v (iFlux.val * 3 + q.val)) k p) := by
  rw [gradProjector3_eq, gradProjector3_eq, ← sum_map_half]
  apply sum_map_congr
  intro e _
  rw [hessContrib3_slot]
  simp only [hesTet_symIndex, elemProj3]
  rw [← sum_ite_half]
  apply Finset.sum_congr rfl
  intro i _
  simp only [storedGrad3, Nat.mul_one, Nat.zero_mul, Nat.add_zero]

theorem half_double (x : K) : (1 / 2) * (x + x) = x := by ring

/-! ### The projectors in closed form; packed slots and matrix positions -/

/-- The gradient projector in closed form (2D): factor `1 / (6 * Vol_k)`. -/
theorem gradProjector2_div (geometry : CGeometry K 2 3) (s : Nat → K) (k : Nat) (q : Fin 2) :
    gradProjector2 geometry s k q
      = (geometry.elem.map (fun e => ∑ m : Fin 3, if e m = k then
          graTri (orientedNormals2 (elemCrd geometry e)) (fun iNode => s (e iNode)) q
            / (6 * geometry.GetVolume k) else 0)).sum := by
  rw [gradProjector2_eq]
  apply sum_map_congr
  intro e _
  exact Finset.sum_congr rfl (fun m _ => ite_rap_eq k (e m) _ geometry.GetVolume 6)

/-- The gradient projector in closed form (3D): factor `1 / (24 * Vol_k)`. -/
theorem gradProjector3_div (geometry : CGeometry K 3 4) (s : Nat → K) (k : Nat) (q : Fin 3) :
    gradProjector3 geometry s k q
      = (geometry.elem.map (fun e => ∑ m : Fin 4, if e m = k then
          graTet (orientedNormals3 (elemCrd geometry e)) (fun iNode => s (e iNode)) q
            / (24 * geometry.GetVolume k) else 0)).sum := by
  rw [gradProjector3_eq]
  apply sum_map_congr
  intro e _
  exact Finset.sum_congr rfl (fun m _ => ite_rap_eq k (e m) _ geometry.GetVolume 24)

omit [LinearOrderedField K] in
theorem unpack3_symIndex (h : Fin 6 → K) (p q : Fin 3) : unpack3 h p q = h (symIndex3 p q) := by
  fin_cases p <;> fin_cases q <;> rfl

omit [LinearOrderedField K] in
theorem pack3_symIndex (M : Matrix (Fin 3) (Fin 3) K) (p q : Fin 3) (hpq : p ≤ q) :
    pack3 M (symIndex3 p q) = M p q := by
  fin_cases p <;> fin_cases q <;> first | rfl | (exact absurd hpq (by decide))

omit [LinearOrderedField K] in
theorem block3_symIndex (f : Nat) (h : Nat → K) (p q : Fin 3) :
    block3 f h (symIndex3 p q) = h (f * 6 + (symIndex3 p q).val) := by
  fin_cases p <;> fin_cases q <;> rfl

theorem rowStep3_symIndex (ED : EigenSolver K 3) (f : Nat) (h : Nat → K) (p q : Fin 3) :
    rowStep3 ED f h (f * 6 + (symIndex3 p q).val)
      = regularize3 ED (block3 f h) (symIndex3 p q) := by
  have hv : ∀ m : Fin 6, rowStep3 ED f h (f * 6 + m.val) = regularize3 ED (block3 f h) m := by
    intro m
    fin_cases m <;> simp [rowStep3]
  exact hv _

/-- The regularization step of flux `f` reads slot `symIndex3 r c` as the entry `(r, c)` of
the dense matrix and stores the entry `(p, q)`, `p ≤ q`, of the result in slot
`symIndex3 p q`. -/
theorem rowStep3_entry (ED : EigenSolver K 3) (f : Nat) (h : Nat → K) (p q : Fin 3)
    (hpq : p ≤ q) :
    rowStep3 ED f h (f * 6 + (symIndex3 p q).val)
      = regularizeDense ED (Matrix.of (fun r c => h (f * 6 + (symIndex3 r c).val))) p q := by
  rw [rowStep3_symIndex, regularize3, pack3_symIndex _ p q hpq]
  congr 2
  ext r c
  rw [unpack3_symIndex, block3_symIndex]
  rfl

/-! ### Element-level identities -/

/-- The raw element Hessian of a nodal gradient field `g(P) = G · P + c`. -/
theorem hesTri_affine (Crd : Fin 3 → Fin 2 → K) (G : Matrix (Fin 2) (Fin 2) K) (c : Fin 2 → K)
    (g : Fin 3 → Fin 2 → K)
    (hg : ∀ i d, g i d = G d 0 * Crd i 0 + G d 1 * Crd i 1 + c d) :
    hesTri (orientedNormals2 Crd) g
      = ![2 * triArea Crd * G 0 0, 2 * triArea Crd * ((G 0 1 + G 1 0) / 2),
          2 * triArea Crd * G 1 1] := by
  have h0 := graTri_affine Crd (fun i => g i 0) (c 0) (G 0 0) (G 0 1)
    (fun i => by show g i 0 = _; rw [hg]; ring)
  have h1 := graTri_affine Crd (fun i => g i 1) (c 1) (G 1 0) (G 1 1)
    (fun i => by show g i 1 = _; rw [hg]; ring)
  have e00 := hesTri_symIndex (orientedNormals2 Crd) g 0 0
  have e01 := hesTri_symIndex (orientedNormals2 Crd) g 0 1
  have e11 := hesTri_symIndex (orientedNormals2 Crd) g 1 1
  rw [h0, h1] at e01
  rw [h0] at e00
  rw [h1] at e11
  funext m
  fin_cases m
  · show hesTri (orientedNormals2 Crd) g (symIndex2 0 0) = 2 * triArea Crd * G 0 0
    rw [e00, triArea]
    show (1 / 2) * (|det2 Crd| * G 0 0 + |det2 Crd| * G 0 0) = _
    ring
  · show hesTri (orientedNormals2 Crd) g (symIndex2 0 1)
      = 2 * triArea Crd * ((G 0 1 + G 1 0) / 2)
    rw [e01, triArea]
    show (1 / 2) * (|det2 Crd| * G 0 1 + |det2 Crd| * G 1 0) = _
    ring
  · show hesTri (orientedNormals2 Crd) g (symIndex2 1 1) = 2 * triArea Crd * G 1 1
    rw [e11, triArea]
    show (1 / 2) * (|det2 Crd| * G 1 1 + |det2 Crd| * G 1 1) = _
    ring

/-- Exact second-order expansion of a quadratic field: `H P + b` is its gradient and `H`
its Hessian. -/
theorem quadField_expand (f0 : K) (b : Fin 2 → K) (H : Matrix (Fin 2) (Fin 2) K)
    (hH : H.IsSymm) (P t : Fin 2 → K) :
    quadField f0 b H (P + t)
      = quadField f0 b H P + Matrix.dotProduct (Matrix.mulVec H P + b) t
        + (1 / 2) * Matrix.dotProduct t (Matrix.mulVec H t) := by
  have h10 : H 1 0 = H 0 1 := hH.apply 0 1
  simp only [quadField, Matrix.dotProduct, Matrix.mulVec, Fin.sum_univ_two, Pi.add_apply, h10]
  ring

/-! ### Dependence of the sweeps on their inputs -/

theorem gradContrib2_congr (geometry : CGeometry K 2 3) (S T : Nat → Fin 2 → K)
    (e : Fin 3 → Nat) (h : ∀ i j, S (e i) j = T (e i) j) (k s : Nat) :
    gradContrib2 geometry S e k s = gradContrib2 geometry T e k s := by
  simp only [gradContrib2, h]

theorem gradContrib3_congr (geometry : CGeometry K 3 4) (S T : Nat → Fin 3 → K)
    (e : Fin 4 → Nat) (h : ∀ i j, S (e i) j = T (e i) j) (k s : Nat) :
    gradContrib3 geometry S e k s = gradContrib3 geometry T e k s := by
  simp only [gradContrib3, h]

/-- The gradient accumulators after the 2D sweep depend on the inputs only through the
initial accumulators and the sensor values at the element vertices. -/
theorem gradSweep2_congr (geometry : CGeometry K 2 3) (flow flow' : CFlowVariable K 2)
    (nodes nodes' : CTurbSAVariable K 2) :
    ((∀ e ∈ geometry.elem, ∀ i j, Sens flow nodes (e i) j = Sens flow' nodes' (e i) j) →
      nodes.AnisoGrad = nodes'.AnisoGrad →
      (gradSweep2 geometry flow nodes).AnisoGrad = (gradSweep2 geometry flow' nodes').AnisoGrad) ∧
    ((∀ e ∈ geometry.elem, ∀ i j,
        SensVisc flow nodes (e i) j = SensVisc flow' nodes' (e i) j) →
      nodes.AnisoViscGrad = nodes'.AnisoViscGrad →
      (gradSweep2 geometry flow nodes).AnisoViscGrad
        = (gradSweep2 geometry flow' nodes').AnisoViscGrad) := by
  obtain ⟨h1, h2, -⟩ := gradSweep2_fold geometry flow geometry.elem nodes
  obtain ⟨h1', h2', -⟩ := gradSweep2_fold geometry flow' geometry.elem nodes'
  constructor
  · intro hS hA
    funext k s
    have e1 : (gradSweep2 geometry flow nodes).AnisoGrad k s = _ := h1 k s
    have e2 : (gradSweep2 geometry flow' nodes').AnisoGrad k s = _ := h1' k s
    rw [e1, e2, hA, sum_map_congr geometry.elem _ _
      (fun e he => gradContrib2_congr geometry _ _ e (hS e he) k s)]
  · intro hS hA
    funext k s
    have e1 : (gradSweep2 geometry flow nodes).AnisoViscGrad k s = _ := h2 k s
    have e2 : (gradSweep2 geometry flow' nodes').AnisoViscGrad k s = _ := h2' k s
    rw [e1, e2, hA, sum_map_congr geometry.elem _ _
      (fun e he => gradContrib2_congr geometry _ _ e (hS e he) k s)]

/-- The gradient accumulators after the 3D sweep depend on the inputs only through the
initial accumulators and the sensor values at the element vertices. -/
theorem gradSweep3_congr (geometry : CGeometry K 3 4) (flow flow' : CFlowVariable K 3)
    (nodes nodes' : CTurbSAVariable K 3) :
    ((∀ e ∈ geometry.elem, ∀ i j, Sens flow nodes (e i) j = Sens flow' nodes' (e i) j) →
      nodes.AnisoGrad = nodes'.AnisoGrad →
      (gradSweep3 geometry flow nodes).AnisoGrad = (gradSweep3 geometry flow' nodes').AnisoGrad) ∧
    ((∀ e ∈ geometry.elem, ∀ i j,
        SensVisc flow nodes (e i) j = SensVisc flow' nodes' (e i) j) →
      nodes.AnisoViscGrad = nodes'.AnisoViscGrad →
      (gradSweep3 geometry flow nodes).AnisoViscGrad
        = (gradSweep3 geometry flow' nodes').AnisoViscGrad) := by
  obtain ⟨h1, h2, -⟩ := gradSweep3_fold geometry flow geometry.elem nodes
  obtain ⟨h1', h2', -⟩ := gradSweep3_fold geometry flow' geometry.elem nodes'
  constructor
  · intro hS hA
    funext k s
    have e1 : (gradSweep3 geometry flow nodes).AnisoGrad k s = _ := h1 k s
    have e2 : (gradSweep3 geometry flow' nodes').AnisoGrad k s = _ := h1' k s
    rw [e1, e2, hA, sum_map_congr geometry.elem _ _
      (fun e he => gradContrib3_congr geometry _ _ e (hS e he) k s)]
  · intro hS hA
    funext k s
    have e1 : (gradSweep3 geometry flow nodes).AnisoViscGrad k s = _ := h2 k s
    have e2 : (gradSweep3 geometry flow' nodes').AnisoViscGrad k s = _ := h2' k s
    rw [e1, e2, hA, sum_map_congr geometry.elem _ _
      (fun e he => gradContrib3_congr geometry _ _ e (hS e he) k s)]

/-- The Hessian accumulators after the 2D sweep depend on the input state only through the
initial Hessian accumulators and the gradient accumulators, which the sweep leaves as they
were before the call. -/
theorem hessSweep2_congr (geometry : CGeometry K 2 3) (nodes nodes' : CTurbSAVariable K 2) :
    (nodes.AnisoGrad = nodes'.AnisoGrad → nodes.AnisoHess = nodes'.AnisoHess →
      (hessSweep2 geometry nodes).AnisoHess = (hessSweep2 geometry nodes').AnisoHess) ∧
    (nodes.AnisoViscGrad = nodes'.AnisoViscGrad → nodes.AnisoViscHess = nodes'.AnisoViscHess →
      (hessSweep2 geometry nodes).AnisoViscHess = (hessSweep2 geometry nodes').AnisoViscHess) ∧
    (hessSweep2 geometry nodes).AnisoGrad = nodes.AnisoGrad ∧
    (hessSweep2 geometry nodes).AnisoViscGrad = nodes.AnisoViscGrad := by
  obtain ⟨h1, h2, -, -, h5, h6⟩ := hessSweep2_fold geometry geometry.elem nodes
  obtain ⟨h1', h2', -⟩ := hessSweep2_fold geometry geometry.elem nodes'
  refine ⟨?_, ?_, h5, h6⟩
  · intro hG hH
    funext k s
    rw [hessSweep2, hessSweep2, h1, h1', hG, hH]
  · intro hG hH
    funext k s
    rw [hessSweep2, hessSweep2, h2, h2', hG, hH]

/-- The Hessian accumulators after the 3D sweep depend on the input state only through the
initial Hessian accumulators and the gradient accumulators, which the sweep leaves as they
were before the call. -/
theorem hessSweep3_congr (geometry : CGeometry K 3 4) (nodes nodes' : CTurbSAVariable K 3) :
    (nodes.AnisoGrad = nodes'.AnisoGrad → nodes.AnisoHess = nodes'.AnisoHess →
      (hessSweep3 geometry nodes).AnisoHess = (hessSweep3 geometry nodes').AnisoHess) ∧
    (nodes.AnisoViscGrad = nodes'.AnisoViscGrad → nodes.AnisoViscHess = nodes'.AnisoViscHess →
      (hessSweep3 geometry nodes).AnisoViscHess = (hessSweep3 geometry nodes').AnisoViscHess) ∧
    (hessSweep3 geometry nodes).AnisoGrad = nodes.AnisoGrad ∧
    (hessSweep3 geometry nodes).AnisoViscGrad = nodes.AnisoViscGrad := by
  obtain ⟨h1, h2, -, -, h5, h6⟩ := hessSweep3_fold geometry geometry.elem nodes
  obtain ⟨h1', h2', -⟩ := hessSweep3_fold geometry geometry.elem nodes'
  refine ⟨?_, ?_, h5, h6⟩
  · intro hG hH
    funext k s
    rw [hessSweep3, hessSweep3, h1, h1', hG, hH]
  · intro hG hH
    funext k s
    rw [hessSweep3, hessSweep3, h2, h2', hG, hH]

/-! ### Constant fields -/

theorem nodeSum2_zero (geometry : CGeometry K 2 3) (GetNode : Fin 3 → Nat) (i : Nat)
    (gra : Fin 2 → K) (h : ∀ d, gra d = 0) (k s : Nat) :
    nodeSum2 geometry GetNode i gra k s = 0 := by
  simp only [nodeSum2, h, zero_mul, ite_self, add_zero, Finset.sum_const_zero]

/-- The four oriented normals of a non-degenerate tetrahedron sum to zero. -/
theorem orientedNormals3_sum (Crd : Fin 4 → Fin 3 → K) (hnd : det3 Crd ≠ 0) :
    (∑ i, (orientedNormals3 Crd).vnx i = 0) ∧ (∑ i, (orientedNormals3 Crd).vny i = 0) ∧
    (∑ i, (orientedNormals3 Crd).vnz i = 0) := by
  have h : ∀ d, graTet (orientedNormals3 Crd) (fun _ => 1) d = 0 := by
    intro d
    rw [graTet_affine Crd (fun _ => 1) 1 (fun _ => 0) hnd (by intro i; simp) d, mul_zero]
  have h0 := h 0
  have h1 := h 1
  have h2 := h 2
  rw [graTet_eq_sum] at h0 h1 h2
  simp only [one_mul] at h0 h1 h2
  exact ⟨h0, h1, h2⟩

theorem sliverTet_raw :
    (rawNormals3 (elemCrd sliverTet ![0, 1, 2, 3])).vnz 0 = 1 / 2 ∧
    (rawNormals3 (elemCrd sliverTet ![0, 1, 2, 3])).vnz 1 = -1 / 4 ∧
    (rawNormals3 (elemCrd sliverTet ![0, 1, 2, 3])).vnz 2 = 1 / 4 ∧
    (rawNormals3 (elemCrd sliverTet ![0, 1, 2, 3])).vnz 3 = 1 := by
  refine ⟨?_, ?_, ?_, ?_⟩
  · show (elemCrd sliverTet ![0, 1, 2, 3] 2 0 - elemCrd sliverTet ![0, 1, 2, 3] 1 0)
        * (elemCrd sliverTet ![0, 1, 2, 3] 3 1 - elemCrd sliverTet ![0, 1, 2, 3] 1 1)
      - (elemCrd sliverTet ![0, 1, 2, 3] 2 1 - elemCrd sliverTet ![0, 1, 2, 3] 1 1)
        * (elemCrd sliverTet ![0, 1, 2, 3] 3 0 - elemCrd sliverTet ![0, 1, 2, 3] 1 0) = 1 / 2
    simp [elemCrd, sliverTet]
    norm_num
  · show (elemCrd sliverTet ![0, 1, 2, 3] 3 0 - elemCrd sliverTet ![0, 1, 2, 3] 2 0)
        * (elemCrd sliverTet ![0, 1, 2, 3] 0 1 - elemCrd sliverTet ![0, 1, 2, 3] 2 1)
      - (elemCrd sliverTet ![0, 1, 2, 3] 3 1 - elemCrd sliverTet ![0, 1, 2, 3] 2 1)
        * (elemCrd sliverTet ![0, 1, 2, 3] 0 0 - elemCrd sliverTet ![0, 1, 2, 3] 2 0) = -1 / 4
    simp [elemCrd, sliverTet]
    norm_num
  · show (elemCrd sliverTet ![0, 1, 2, 3] 0 0 - elemCrd sliverTet ![0, 1, 2, 3] 3 0)
        * (elemCrd sliverTet ![0, 1, 2, 3] 1 1 - elemCrd sliverTet ![0, 1, 2, 3] 3 1)
      - (elemCrd sliverTet ![0, 1, 2, 3] 0 1 - elemCrd sliverTet ![0, 1, 2, 3] 3 1)
        * (elemCrd sliverTet ![0, 1, 2, 3] 1 0 - elemCrd sliverTet ![0, 1, 2, 3] 3 0) = 1 / 4
    simp [elemCrd, sliverTet]
    norm_num
  · show (elemCrd sliverTet ![0, 1, 2, 3] 1 0 - elemCrd sliverTet ![0, 1, 2, 3] 0 0)
        * (elemCrd sliverTet ![0, 1, 2, 3] 2 1 - elemCrd sliverTet ![0, 1, 2, 3] 0 1)
      - (elemCrd sliverTet ![0, 1, 2, 3] 1 1 - elemCrd sliverTet ![0, 1, 2, 3] 0 1)
        * (elemCrd sliverTet ![0, 1, 2, 3] 2 0 - elemCrd sliverTet ![0, 1, 2, 3] 0 0) = 1
    simp [elemCrd, sliverTet]

/-! ### Negative semi-definite inputs -/

theorem pack2_neg (M : Matrix (Fin 2) (Fin 2) K) : pack2 (-M) = fun m => -pack2 M m := by
  funext m
  fin_cases m <;> rfl

theorem pack3_neg (M : Matrix (Fin 3) (Fin 3) K) : pack3 (-M) = fun m => -pack3 M m := by
  funext m
  fin_cases m <;> rfl

/-! ### Independence of the regularized matrix from the eigen-solver -/

theorem orthonormal_mul_transpose {n : Nat} (V : Matrix (Fin n) (Fin n) K)
    (hV : V.transpose * V = 1) : V * V.transpose = 1 :=
  Matrix.mul_eq_one_comm.mp hV

/-- The square of a recomposed matrix is the recomposition of the squared eigenvalues. -/
theorem EigenRecomposition_sq {n : Nat} (V : Matrix (Fin n) (Fin n) K) (l : Fin n → K)
    (hV : V.transpose * V = 1) :
    EigenRecomposition V l * EigenRecomposition V l
      = EigenRecomposition V (fun i => l i * l i) := by
  unfold EigenRecomposition
  have h : V * Matrix.diagonal l * V.transpose * (V * Matrix.diagonal l * V.transpose)
      = V * (Matrix.diagonal l * ((V.transpose * V) * (Matrix.diagonal l * V.transpose))) := by
    simp only [Matrix.mul_assoc]
  rw [h, hV, Matrix.one_mul, ← Matrix.mul_assoc (Matrix.diagonal l),
    Matrix.diagonal_mul_diagonal, ← Matrix.mul_assoc]

theorem EigenRecomposition_abs_sq {n : Nat} (V : Matrix (Fin n) (Fin n) K) (l : Fin n → K)
    (hV : V.transpose * V = 1) :
    EigenRecomposition V (fun i => |l i|) * EigenRecomposition V (fun i => |l i|)
      = EigenRecomposition V l * EigenRecomposition V l := by
  rw [EigenRecomposition_sq V _ hV, EigenRecomposition_sq V _ hV]
  simp only [abs_mul_abs_self]

theorem EigenRecomposition_isPSD {n : Nat} (V : Matrix (Fin n) (Fin n) K) (l : Fin n → K)
    (hl : ∀ i, 0 ≤ l i) : IsPSD (EigenRecomposition V l) := by
  intro x
  rw [quadForm_recomposition]
  exact Finset.sum_nonneg (fun i _ => mul_nonneg (hl i) (sq_nonneg _))

/-- A symmetric matrix whose square is zero is zero. -/
theorem eq_zero_of_symm_sq_zero {n : Nat} (Z : Matrix (Fin n) (Fin n) K) (hZ : Z.IsSymm)
    (h : Z * Z = 0) : Z = 0 := by
  ext i k
  have hii : (Z * Z) i i = 0 := by rw [h]; rfl
  rw [Matrix.mul_apply] at hii
  have hterm : ∀ j ∈ Finset.univ, 0 ≤ Z i j * Z j i := by
    intro j _
    rw [hZ.apply i j]
    exact mul_self_nonneg _
  have := (Finset.sum_eq_zero_iff_of_nonneg hterm).mp hii k (Finset.mem_univ k)
  rw [hZ.apply i k] at this
  exact mul_self_eq_zero.mp this

/-- The only symmetric positive semi-definite square root of `diag(a_i²)`, `a_i ≥ 0`, is
`diag(a_i)`. -/
theorem psd_sqrt_diagonal_unique {n : Nat} (Y : Matrix (Fin n) (Fin n) K) (a : Fin n → K)
    (ha : ∀ i, 0 ≤ a i) (hsym : Y.IsSymm) (hpsd : IsPSD Y)
    (hsq : Y * Y = Matrix.diagonal (fun i => a i * a i)) : Y = Matrix.diagonal a := by
  have hAA : Matrix.diagonal a * Matrix.diagonal a = Y * Y := by
    rw [Matrix.diagonal_mul_diagonal, hsq]
  -- `Y` commutes with `diag(a²)`, hence with `diag(a)`
  have hcomm2 : Y * (Y * Y) = (Y * Y) * Y := (Matrix.mul_assoc Y Y Y).symm
  have hentry : ∀ i j, Y i j * a j = a i * Y i j := by
    intro i j
    have h := congrFun (congrFun hcomm2 i) j
    rw [hsq, Matrix.mul_diagonal, Matrix.diagonal_mul] at h
    by_cases h0 : Y i j = 0
    · rw [h0, zero_mul, mul_zero]
    · have h1 : a j * a j = a i * a i := by
        have h2 : Y i j * (a j * a j) = Y i j * (a i * a i) := by rw [h]; ring
        exact mul_left_cancel₀ h0 h2
      have h3 : a j = a i := (mul_self_inj (ha j) (ha i)).mp h1
      rw [h3]; ring
  have hYA : Y * Matrix.diagonal a = Matrix.diagonal a * Y := by
    ext i j
    rw [Matrix.mul_diagonal, Matrix.diagonal_mul]
    exact hentry i j
  have hZP : (Y - Matrix.diagonal a) * (Y + Matrix.diagonal a) = 0 := by
    rw [Matrix.sub_mul, Matrix.mul_add, Matrix.mul_add, hAA, hYA]
    abel
  have hPsym : (Y + Matrix.diagonal a).IsSymm := hsym.add (Matrix.isSymm_diagonal a)
  -- every row of `Z = Y - diag(a)` is annihilated by `diag(a)`
  have hZA : (Y - Matrix.diagonal a) * Matrix.diagonal a = 0 := by
    ext i k
    rw [Matrix.mul_diagonal]
    have hP0 : Matrix.mulVec (Y + Matrix.diagonal a) ((Y - Matrix.diagonal a) i) = 0 := by
      funext m
      have h := congrFun (congrFun hZP i) m
      rw [Matrix.mul_apply] at h
      have h' : ∑ j, (Y - Matrix.diagonal a) i j * (Y + Matrix.diagonal a) j m = 0 := h
      show ∑ j, (Y + Matrix.diagonal a) m j * (Y - Matrix.diagonal a) i j = 0
      rw [← h']
      apply Finset.sum_congr rfl
      intro l _
      rw [hPsym.apply l m]
      ring
    have hq : Matrix.dotProduct ((Y - Matrix.diagonal a) i)
          (Matrix.mulVec Y ((Y - Matrix.diagonal a) i))
        + Matrix.dotProduct ((Y - Matrix.diagonal a) i)
          (Matrix.mulVec (Matrix.diagonal a) ((Y - Matrix.diagonal a) i)) = 0 := by
      rw [← Matrix.dotProduct_add, ← Matrix.add_mulVec, hP0, Matrix.dotProduct_zero]
    have hqY := hpsd ((Y - Matrix.diagonal a) i)
    have hterm : ∀ m ∈ Finset.univ,
        0 ≤ (Y - Matrix.diagonal a) i m
          * Matrix.mulVec (Matrix.diagonal a) ((Y - Matrix.diagonal a) i) m := by
      intro m _
      rw [Matrix.mulVec_diagonal]
      have : (Y - Matrix.diagonal a) i m * (a m * (Y - Matrix.diagonal a) i m)
          = a m * ((Y - Matrix.diagonal a) i m * (Y - Matrix.diagonal a) i m) := by ring
      rw [this]
      exact mul_nonneg (ha m) (mul_self_nonneg _)
    have hqA : 0 ≤ Matrix.dotProduct ((Y - Matrix.diagonal a) i)
        (Matrix.mulVec (Matrix.diagonal a) ((Y - Matrix.diagonal a) i)) :=
      Finset.sum_nonneg hterm
    have hqA0 : Matrix.dotProduct ((Y - Matrix.diagonal a) i)
        (Matrix.mulVec (Matrix.diagonal a) ((Y - Matrix.diagonal a) i)) = 0 := by linarith
    have hk := (Finset.sum_eq_zero_iff_of_nonneg hterm).mp hqA0 k (Finset.mem_univ k)
    rw [Matrix.mulVec_diagonal] at hk
    rcases mul_eq_zero.mp hk with h1 | h1
    · rw [h1, zero_mul]; rfl
    · rcases mul_eq_zero.mp h1 with h2 | h2
      · rw [h2, mul_zero]; rfl
      · rw [h2, zero_mul]; rfl
  have hZY : (Y - Matrix.diagonal a) * Y = 0 := by
    have h := hZP
    rw [Matrix.mul_add, hZA, add_zero] at h
    exact h
  have hZZ : (Y - Matrix.diagonal a) * (Y - Matrix.diagonal a) = 0 := by
    rw [Matrix.mul_sub, hZY, hZA, sub_zero]
  have hZ := eq_zero_of_symm_sq_zero _ (hsym.sub (Matrix.isSymm_diagonal a)) hZZ
  exact sub_eq_zero.mp hZ

/-- Uniqueness of the positive semi-definite square root: if `M = V diag(λ) Vᵗ` with `V`
orthonormal, every symmetric positive semi-definite `X` with `X X = M M` is
`V diag(|λ|) Vᵗ`. -/
theorem psd_sqrt_unique {n : Nat} (M V X : Matrix (Fin n) (Fin n) K) (l : Fin n → K)
    (hV : V.transpose * V = 1) (hM : M = V * Matrix.diagonal l * V.transpose)
    (hsym : X.IsSymm) (hpsd : IsPSD X) (hsq : X * X = M * M) :
    X = EigenRecomposition V (fun i => |l i|) := by
  have hV' := orthonormal_mul_transpose V hV
  have hMM : M * M = EigenRecomposition V (fun i => |l i| * |l i|) := by
    rw [hM, ← EigenRecomposition, ← EigenRecomposition_abs_sq V l hV,
      EigenRecomposition_sq V _ hV]
  have hYsym : (V.transpose * X * V).IsSymm := by
    unfold Matrix.IsSymm
    rw [Matrix.transpose_mul, Matrix.transpose_mul, Matrix.transpose_transpose, hsym.eq,
      Matrix.mul_assoc]
  have hYpsd : IsPSD (V.transpose * X * V) := by
    intro z
    have h := hpsd (Matrix.mulVec V z)
    rw [← Matrix.mulVec_mulVec, ← Matrix.mulVec_mulVec, Matrix.dotProduct_mulVec,
      Matrix.vecMul_transpose]
    exact h
  have hYsq : (V.transpose * X * V) * (V.transpose * X * V)
      = Matrix.diagonal (fun i => |l i| * |l i|) := by
    have h1 : (V.transpose * X * V) * (V.transpose * X * V)
        = V.transpose * (X * ((V * V.transpose) * (X * V))) := by
      simp only [Matrix.mul_assoc]
    have h2 : V.transpose * (V * Matrix.diagonal (fun i => |l i| * |l i|) * V.transpose) * V
        = (V.transpose * V) * Matrix.diagonal (fun i => |l i| * |l i|)
          * (V.transpose * V) := by
      simp only [Matrix.mul_assoc]
    rw [h1, hV', Matrix.one_mul, ← Matrix.mul_assoc X, hsq, hMM, EigenRecomposition,
      ← Matrix.mul_assoc, h2, hV, Matrix.one_mul, Matrix.mul_one]
  have hY := psd_sqrt_diagonal_unique _ (fun i => |l i|) (fun i => abs_nonneg _) hYsym hYpsd hYsq
  have hX : X = (V * V.transpose) * X * (V * V.transpose) := by
    rw [hV', Matrix.one_mul, Matrix.mul_one]
  have hX' : (V * V.transpose) * X * (V * V.transpose)
      = V * (V.transpose * X * V) * V.transpose := by
    simp only [Matrix.mul_assoc]
  rw [hX, hX', hY, EigenRecomposition]

/-- Two orthonormal eigen-decompositions of the same matrix recompose, after `abs`, to the
same matrix. -/
theorem recomposition_abs_unique {n : Nat} (M V W : Matrix (Fin n) (Fin n) K)
    (l m : Fin n → K)
    (hV : V.transpose * V = 1) (hM : M = V * Matrix.diagonal l * V.transpose)
    (hW : W.transpose * W = 1) (hM' : M = W * Matrix.diagonal m * W.transpose) :
    EigenRecomposition V (fun i => |l i|) = EigenRecomposition W (fun i => |m i|) := by
  symm
  apply psd_sqrt_unique M V _ l hV hM (EigenRecomposition_isSymm _ _)
    (EigenRecomposition_isPSD _ _ (fun i => abs_nonneg _))
  rw [EigenRecomposition_abs_sq W m hW]
  unfold EigenRecomposition
  rw [← hM']

theorem swapBasis_orthonormal : swapBasis.transpose * swapBasis = 1 := by
  ext i j
  fin_cases i <;> fin_cases j <;>
    simp [swapBasis, Matrix.mul_apply, Fin.sum_univ_two, Matrix.one_apply]

theorem swapBasis_decomposition :
    (Matrix.diagonal ![-1, -3] : Matrix (Fin 2) (Fin 2) ℚ)
      = swapBasis * Matrix.diagonal ![-3, -1] * swapBasis.transpose := by
  ext i j
  fin_cases i <;> fin_cases j <;>
    simp [swapBasis, Matrix.mul_apply, Fin.sum_univ_two, Matrix.diagonal_apply]

/-! ### Frame of the element sweeps -/

theorem sum_map_eq_zero {α : Type} (l : List α) (f : α → K) (h : ∀ x ∈ l, f x = 0) :
    (l.map f).sum = 0 := by
  apply List.sum_eq_zero
  intro y hy
  obtain ⟨x, hx, rfl⟩ := List.mem_map.mp hy
  exact h x hx

theorem nodeSum2_eq_zero (geometry : CGeometry K 2 3) (GetNode : Fin 3 → Nat) (i : Nat)
    (gra : Fin 2 → K) (k s : Nat)
    (h : (∀ iNode, GetNode iNode ≠ k) ∨ (s ≠ i + 0 ∧ s ≠ i + 1)) :
    nodeSum2 geometry GetNode i gra k s = 0 := by
  unfold nodeSum2
  apply Finset.sum_eq_zero
  intro iNode _
  rcases h with h | ⟨h0, h1⟩
  · have hk : ¬ k = GetNode iNode := fun hh => h iNode hh.symm
    simp only [hk, false_and, if_false, add_zero]
  · have h0' : s ≠ i := h0
    simp only [h0', h1, and_false, if_false, add_zero]

theorem nodeSum3_eq_zero (geometry : CGeometry K 3 4) (GetNode : Fin 4 → Nat) (i : Nat)
    (gra : Fin 3 → K) (k s : Nat)
    (h : (∀ iNode, GetNode iNode ≠ k) ∨ (s ≠ i + 0 ∧ s ≠ i + 1 ∧ s ≠ i + 2)) :
    nodeSum3 geometry GetNode i gra k s = 0 := by
  unfold nodeSum3
  apply Finset.sum_eq_zero
  intro iNode _
  rcases h with h | ⟨h0, h1, h2⟩
  · have hk : ¬ k = GetNode iNode := fun hh => h iNode hh.symm
    simp only [hk, false_and, if_false, add_zero]
  · have h0' : s ≠ i := h0
    simp only [h0', h1, h2, and_false, if_false, add_zero]

theorem hessNodeSum2_eq_zero (geometry : CGeometry K 2 3) (GetNode : Fin 3 → Nat) (i : Nat)
    (hes : Fin 3 → K) (k s : Nat)
    (h : (∀ iNode, GetNode iNode ≠ k) ∨ (s ≠ i + 0 ∧ s ≠ i + 1 ∧ s ≠ i + 2)) :
    hessNodeSum2 geometry GetNode i hes k s = 0 := by
  unfold hessNodeSum2
  apply Finset.sum_eq_zero
  intro iNode _
  rcases h with h | ⟨h0, h1, h2⟩
  · have hk : ¬ k = GetNode iNode := fun hh => h iNode hh.symm
    simp only [hk, false_and, if_false, add_zero]
  · have h0' : s ≠ i := h0
    simp only [h0', h1, h2, and_false, if_false, add_zero]

theorem hessNodeSum3_eq_zero (geometry : CGeometry K 3 4) (GetNode : Fin 4 → Nat) (i : Nat)
    (hes : Fin 6 → K) (k s : Nat)
    (h : (∀ iNode, GetNode iNode ≠ k)
      ∨ (s ≠ i + 0 ∧ s ≠ i + 1 ∧ s ≠ i + 2 ∧ s ≠ i + 3 ∧ s ≠ i + 4 ∧ s ≠ i + 5)) :
    hessNodeSum3 geometry GetNode i hes k s = 0 := by
  unfold hessNodeSum3
  apply Finset.sum_eq_zero
  intro iNode _
  rcases h with h | ⟨h0, h1, h2, h3, h4, h5⟩
  · have hk : ¬ k = GetNode iNode := fun hh => h iNode hh.symm
    simp only [hk, false_and, if_false, add_zero]
  · have h0' : s ≠ i := h0
    simp only [h0', h1, h2, h3, h4, h5, and_false, if_false, add_zero]

/-- An element contributes nothing to a vertex it does not reference, nor to a slot that is
not of the form `iFlux*2 + d` with `iFlux < 2`, `d < 2`. -/
theorem gradContrib2_eq_zero (geometry : CGeometry K 2 3) (S : Nat → Fin 2 → K)
    (e : Fin 3 → Nat) (k s : Nat)
    (h : (∀ iNode, e iNode ≠ k) ∨ (∀ iFlux d, iFlux < 2 → d < 2 → s ≠ iFlux * 2 + d)) :
    gradContrib2 geometry S e k s = 0 := by
  unfold gradContrib2
  apply Finset.sum_eq_zero
  intro iFlux _
  apply nodeSum2_eq_zero
  rcases h with h | h
  · exact Or.inl h
  · right
    have a := h iFlux.val 0 iFlux.isLt (by norm_num)
    have b := h iFlux.val 1 iFlux.isLt (by norm_num)
    constructor <;> omega

theorem gradContrib3_eq_zero (geometry : CGeometry K 3 4) (S : Nat → Fin 3 → K)
    (e : Fin 4 → Nat) (k s : Nat)
    (h : (∀ iNode, e iNode ≠ k) ∨ (∀ iFlux d, iFlux < 3 → d < 3 → s ≠ iFlux * 3 + d)) :
    gradContrib3 geometry S e k s = 0 := by
  unfold gradContrib3
  apply Finset.sum_eq_zero
  intro iFlux _
  apply nodeSum3_eq_zero
  rcases h with h | h
  · exact Or.inl h
  · right
    have a := h iFlux.val 0 iFlux.isLt (by norm_num)
    have b := h iFlux.val 1 iFlux.isLt (by norm_num)
    have c := h iFlux.val 2 iFlux.isLt (by norm_num)
    refine ⟨?_, ?_, ?_⟩ <;> omega

theorem hessContrib2_eq_zero (geometry : CGeometry K 2 3) (G : Nat → Fin 2 → Fin 2 → K)
    (e : Fin 3 → Nat) (k s : Nat)
    (h : (∀ iNode, e iNode ≠ k) ∨ (∀ iFlux m, iFlux < 2 → m < 3 → s ≠ iFlux * 3 + m)) :
    hessContrib2 geometry G e k s = 0 := by
  unfold hessContrib2
  apply Finset.sum_eq_zero
  intro iFlux _
  apply hessNodeSum2_eq_zero
  rcases h with h | h
  · exact Or.inl h
  · right
    have a := h iFlux.val 0 iFlux.isLt (by norm_num)
    have b := h iFlux.val 1 iFlux.isLt (by norm_num)
    have c := h iFlux.val 2 iFlux.isLt (by norm_num)
    refine ⟨?_, ?_, ?_⟩ <;> omega

theorem hessContrib3_eq_zero (geometry : CGeometry K 3 4) (G : Nat → Fin 3 → Fin 3 → K)
    (e : Fin 4 → Nat) (k s : Nat)
    (h : (∀ iNode, e iNode ≠ k) ∨ (∀ iFlux m, iFlux < 3 → m < 6 → s ≠ iFlux * 6 + m)) :
    hessContrib3 geometry G e k s = 0 := by
  unfold hessContrib3
  apply Finset.sum_eq_zero
  intro iFlux _
  apply hessNodeSum3_eq_zero
  rcases h with h | h
  · exact Or.inl h
  · right
    have a := h iFlux.val 0 iFlux.isLt (by norm_num)
    have b := h iFlux.val 1 iFlux.isLt (by norm_num)
    have c := h iFlux.val 2 iFlux.isLt (by norm_num)
    have d := h iFlux.val 3 iFlux.isLt (by norm_num)
    have e' := h iFlux.val 4 iFlux.isLt (by norm_num)
    have f := h iFlux.val 5 iFlux.isLt (by norm_num)
    refine ⟨?_, ?_, ?_, ?_, ?_, ?_⟩ <;> omega

/-- Frame of the 2D gradient sweep. -/
theorem gradSweep2_frame (geometry : CGeometry K 2 3) (solver_flow : CFlowVariable K 2)
    (nodes : CTurbSAVariable K 2) :
    ((gradSweep2 geometry solver_flow nodes).GetSolution = nodes.GetSolution ∧
      (gradSweep2 geometry solver_flow nodes).GetGradient = nodes.GetGradient ∧
      (gradSweep2 geometry solver_flow nodes).AnisoHess = nodes.AnisoHess ∧
      (gradSweep2 geometry solver_flow nodes).AnisoViscHess = nodes.AnisoViscHess) ∧
    (∀ k s, ((∀ e ∈ geometry.elem, ∀ iNode, e iNode ≠ k)
        ∨ (∀ iFlux d, iFlux < 2 → d < 2 → s ≠ iFlux * 2 + d)) →
      (gradSweep2 geometry solver_flow nodes).AnisoGrad k s = nodes.AnisoGrad k s ∧
      (gradSweep2 geometry solver_flow nodes).AnisoViscGrad k s = nodes.AnisoViscGrad k s) := by
  obtain ⟨h1, h2, h3, h4, h5, h6⟩ := gradSweep2_fold geometry solver_flow geometry.elem nodes
  refine ⟨⟨h3, h4, h5, h6⟩, ?_⟩
  intro k s h
  have hz : ∀ S : Nat → Fin 2 → K, ∀ e ∈ geometry.elem, gradContrib2 geometry S e k s = 0 := by
    intro S e he
    apply gradContrib2_eq_zero
    rcases h with h | h
    · exact Or.inl (h e he)
    · exact Or.inr h
  have e1 : (gradSweep2 geometry solver_flow nodes).AnisoGrad k s = _ := h1 k s
  have e2 : (gradSweep2 geometry solver_flow nodes).AnisoViscGrad k s = _ := h2 k s
  rw [e1, e2, sum_map_eq_zero _ _ (hz _), sum_map_eq_zero _ _ (hz _), add_zero, add_zero]
  exact ⟨rfl, rfl⟩

/-- Frame of the 3D gradient sweep. -/
theorem gradSweep3_frame (geometry : CGeometry K 3 4) (solver_flow : CFlowVariable K 3)
    (nodes : CTurbSAVariable K 3) :
    ((gradSweep3 geometry solver_flow nodes).GetSolution = nodes.GetSolution ∧
      (gradSweep3 geometry solver_flow nodes).GetGradient = nodes.GetGradient ∧
      (gradSweep3 geometry solver_flow nodes).AnisoHess = nodes.AnisoHess ∧
      (gradSweep3 geometry solver_flow nodes).AnisoViscHess = nodes.AnisoViscHess) ∧
    (∀ k s, ((∀ e ∈ geometry.elem, ∀ iNode, e iNode ≠ k)
        ∨ (∀ iFlux d, iFlux < 3 → d < 3 → s ≠ iFlux * 3 + d)) →
      (gradSweep3 geometry solver_flow nodes).AnisoGrad k s = nodes.AnisoGrad k s ∧
      (gradSweep3 geometry solver_flow nodes).AnisoViscGrad k s = nodes.AnisoViscGrad k s) := by
  obtain ⟨h1, h2, h3, h4, h5, h6⟩ := gradSweep3_fold geometry solver_flow geometry.elem nodes
  refine ⟨⟨h3, h4, h5, h6⟩, ?_⟩
  intro k s h
  have hz : ∀ S : Nat → Fin 3 → K, ∀ e ∈ geometry.elem, gradContrib3 geometry S e k s = 0 := by
    intro S e he
    apply gradContrib3_eq_zero
    rcases h with h | h
    · exact Or.inl (h e he)
    · exact Or.inr h
  have e1 : (gradSweep3 geometry solver_flow nodes).AnisoGrad k s = _ := h1 k s
  have e2 : (gradSweep3 geometry solver_flow nodes).AnisoViscGrad k s = _ := h2 k s
  rw [e1, e2, sum_map_eq_zero _ _ (hz _), sum_map_eq_zero _ _ (hz _), add_zero, add_zero]
  exact ⟨rfl, rfl⟩

/-- Frame of the 2D Hessian sweep. -/
theorem hessSweep2_frame (geometry : CGeometry K 2 3) (nodes : CTurbSAVariable K 2) :
    ((hessSweep2 geometry nodes).GetSolution = nodes.GetSolution ∧
      (hessSweep2 geometry nodes).GetGradient = nodes.GetGradient ∧
      (hessSweep2 geometry nodes).AnisoGrad = nodes.AnisoGrad ∧
      (hessSweep2 geometry nodes).AnisoViscGrad = nodes.AnisoViscGrad) ∧
    (∀ k s, ((∀ e ∈ geometry.elem, ∀ iNode, e iNode ≠ k)
        ∨ (∀ iFlux m, iFlux < 2 → m < 3 → s ≠ iFlux * 3 + m)) →
      (hessSweep2 geometry nodes).AnisoHess k s = nodes.AnisoHess k s ∧
      (hessSweep2 geometry nodes).AnisoViscHess k s = nodes.AnisoViscHess k s) := by
  obtain ⟨h1, h2, h3, h4, h5, h6⟩ := hessSweep2_fold geometry geometry.elem nodes
  refine ⟨⟨h3, h4, h5, h6⟩, ?_⟩
  intro k s h
  have hz : ∀ G : Nat → Fin 2 → Fin 2 → K, ∀ e ∈ geometry.elem,
      hessContrib2 geometry G e k s = 0 := by
    intro G e he
    apply hessContrib2_eq_zero
    rcases h with h | h
    · exact Or.inl (h e he)
    · exact Or.inr h
  have e1 : (hessSweep2 geometry nodes).AnisoHess k s = _ := h1 k s
  have e2 : (hessSweep2 geometry nodes).AnisoViscHess k s = _ := h2 k s
  rw [e1, e2, sum_map_eq_zero _ _ (hz _), sum_map_eq_zero _ _ (hz _), add_zero, add_zero]
  exact ⟨rfl, rfl⟩

/-- Frame of the 3D Hessian sweep. -/
theorem hessSweep3_frame (geometry : CGeometry K 3 4) (nodes : CTurbSAVariable K 3) :
    ((hessSweep3 geometry nodes).GetSolution = nodes.GetSolution ∧
      (hessSweep3 geometry nodes).GetGradient = nodes.GetGradient ∧
      (hessSweep3 geometry nodes).AnisoGrad = nodes.AnisoGrad ∧
      (hessSweep3 geometry nodes).AnisoViscGrad = nodes.AnisoViscGrad) ∧
    (∀ k s, ((∀ e ∈ geometry.elem, ∀ iNode, e iNode ≠ k)
        ∨ (∀ iFlux m, iFlux < 3 → m < 6 → s ≠ iFlux * 6 + m)) →
      (hessSweep3 geometry nodes).AnisoHess k s = nodes.AnisoHess k s ∧
      (hessSweep3 geometry nodes).AnisoViscHess k s = nodes.AnisoViscHess k s) := by
  obtain ⟨h1, h2, h3, h4, h5, h6⟩ := hessSweep3_fold geometry geometry.elem nodes
  refine ⟨⟨h3, h4, h5, h6⟩, ?_⟩
  intro k s h
  have hz : ∀ G : Nat → Fin 3 → Fin 3 → K, ∀ e ∈ geometry.elem,
      hessContrib3 geometry G e k s = 0 := by
    intro G e he
    apply hessContrib3_eq_zero
    rcases h with h | h
    · exact Or.inl (h e he)
    · exact Or.inr h
  have e1 : (hessSweep3 geometry nodes).AnisoHess k s = _ := h1 k s
  have e2 : (hessSweep3 geometry nodes).AnisoViscHess k s = _ := h2 k s
  rw [e1, e2, sum_map_eq_zero _ _ (hz _), sum_map_eq_zero _ _ (hz _), add_zero, add_zero]
  exact ⟨rfl, rfl⟩

/-! ### The geometry step for prescribed test outcomes and the element steps for given normals -/

theorem checkInward2_eq_with (Crd : Fin 3 → Fin 2 → K) (vn : Normals2 K) (i : Fin 3) :
    checkInward2 Crd vn i
      = checkInwardWith2 (fun j => decide (inwardTest2 Crd vn j > 0)) vn i := by
  simp only [checkInward2, checkInwardWith2, inwardTest2, decide_eq_true_eq]

theorem checkInward3_eq_with (Crd : Fin 4 → Fin 3 → K) (vn : Normals3 K) (i : Fin 4) :
    checkInward3 Crd vn i
      = checkInwardWith3 (fun j => decide (inwardTest3 Crd vn j > 0)) vn i := by
  simp only [checkInward3, checkInwardWith3, inwardTest3, decide_eq_true_eq]

theorem checkInwardWith2_apply (flip : Fin 3 → Bool) (vn : Normals2 K) (i j : Fin 3) :
    (checkInwardWith2 flip vn i).vnx j = (if j = i ∧ flip i then - vn.vnx j else vn.vnx j) ∧
    (checkInwardWith2 flip vn i).vny j = (if j = i ∧ flip i then - vn.vny j else vn.vny j) := by
  unfold checkInwardWith2
  by_cases hf : flip i = true
  · by_cases hj : j = i
    · subst hj
      simp only [hf, if_true, Function.update_same, and_self, mul_neg, mul_one]
    · simp only [hf, if_true, Function.update_noteq hj, hj, false_and, if_false, and_self]
  · simp only [hf, if_false, and_false, and_self, Bool.false_eq_true]

theorem checkInwardWith3_apply (flip : Fin 4 → Bool) (vn : Normals3 K) (i j : Fin 4) :
    (checkInwardWith3 flip vn i).vnx j = (if j = i ∧ flip i then - vn.vnx j else vn.vnx j) ∧
    (checkInwardWith3 flip vn i).vny j = (if j = i ∧ flip i then - vn.vny j else vn.vny j) ∧
    (checkInwardWith3 flip vn i).vnz j = (if j = i ∧ flip i then - vn.vnz j else vn.vnz j) := by
  unfold checkInwardWith3
  by_cases hf : flip i = true
  · by_cases hj : j = i
    · subst hj
      simp only [hf, if_true, Function.update_same, and_self, mul_neg, mul_one]
    · simp only [hf, if_true, Function.update_noteq hj, hj, false_and, if_false, and_self]
  · simp only [hf, if_false, and_false, and_self, Bool.false_eq_true]

/-- For prescribed test outcomes the geometry step stores, for each vertex, the raw normal
or its negative. -/
theorem orientedNormalsWith2_eq (flip : Fin 3 → Bool) (Crd : Fin 3 → Fin 2 → K) :
    orientedNormalsWith2 flip Crd =
      { vnx := fun i => if flip i then - (rawNormals2 Crd).vnx i else (rawNormals2 Crd).vnx i
        vny := fun i => if flip i then - (rawNormals2 Crd).vny i else (rawNormals2 Crd).vny i } := by
  unfold orientedNormalsWith2
  generalize rawNormals2 Crd = vn
  simp only [List.foldl]
  apply normals2_ext_fields <;> funext j
  · simp only [(checkInwardWith2_apply flip _ _ _).1]
    fin_cases j <;> simp
  · simp only [(checkInwardWith2_apply flip _ _ _).2]
    fin_cases j <;> simp

/-- For prescribed test outcomes the 3D geometry step stores, for each vertex, the raw
normal or its negative. -/
theorem orientedNormalsWith3_eq (flip : Fin 4 → Bool) (Crd : Fin 4 → Fin 3 → K) :
    orientedNormalsWith3 flip Crd =
      { vnx := fun i => if flip i then - (rawNormals3 Crd).vnx i else (rawNormals3 Crd).vnx i
        vny := fun i => if flip i then - (rawNormals3 Crd).vny i else (rawNormals3 Crd).vny i
        vnz := fun i => if flip i then - (rawNormals3 Crd).vnz i else (rawNormals3 Crd).vnz i } := by
  unfold orientedNormalsWith3
  generalize rawNormals3 Crd = vn
  simp only [List.foldl]
  apply normals3_ext_fields <;> funext j
  · simp only [(checkInwardWith3_apply flip _ _ _).1]
    fin_cases j <;> simp
  · simp only [(checkInwardWith3_apply flip _ _ _).2.1]
    fin_cases j <;> simp
  · simp only [(checkInwardWith3_apply flip _ _ _).2.2]
    fin_cases j <;> simp

/-- The geometry step over the exact field is the geometry step whose three test outcomes
are all `det2 Crd < 0`. -/
theorem orientedNormals2_eq_with (Crd : Fin 3 → Fin 2 → K) :
    orientedNormals2 Crd = orientedNormalsWith2 (fun _ => decide (det2 Crd < 0)) Crd := by
  rw [orientedNormals2_eq, orientedNormalsWith2_eq]
  by_cases h : det2 Crd < 0
  · simp only [h, if_true, decide_True]
  · simp only [h, if_false, decide_False, Bool.false_eq_true]

/-- The 3D geometry step over the exact field is the geometry step whose test outcome for
vertex `i` is `0 < faceSign i * det3 Crd`. -/
theorem orientedNormals3_eq_with (Crd : Fin 4 → Fin 3 → K) :
    orientedNormals3 Crd
      = orientedNormalsWith3 (fun i => decide (0 < faceSign i * det3 Crd)) Crd := by
  rw [orientedNormals3_eq, orientedNormalsWith3_eq]
  simp only [decide_eq_true_eq]

theorem gradElem2_eq_N (geometry : CGeometry K 2 3) (solver_flow : CFlowVariable K 2)
    (nodes : CTurbSAVariable K 2) (GetNode : Fin 3 → Nat) :
    gradElem2 geometry solver_flow nodes GetNode
      = gradElemN2 geometry solver_flow nodes (orientedNormals2 (elemCrd geometry GetNode))
          GetNode := rfl

theorem gradElem3_eq_N (geometry : CGeometry K 3 4) (solver_flow : CFlowVariable K 3)
    (nodes : CTurbSAVariable K 3) (GetNode : Fin 4 → Nat) :
    gradElem3 geometry solver_flow nodes GetNode
      = gradElemN3 geometry solver_flow nodes (orientedNormals3 (elemCrd geometry GetNode))
          GetNode := rfl

theorem hessElem2_eq_N (geometry : CGeometry K 2 3) (nodes : CTurbSAVariable K 2)
    (GetNode : Fin 3 → Nat) :
    hessElem2 geometry nodes GetNode
      = hessElemN2 geometry nodes (orientedNormals2 (elemCrd geometry GetNode)) GetNode := rfl

theorem hessElem3_eq_N (geometry : CGeometry K 3 4) (nodes : CTurbSAVariable K 3)
    (GetNode : Fin 4 → Nat) :
    hessElem3 geometry nodes GetNode
      = hessElemN3 geometry nodes (orientedNormals3 (elemCrd geometry GetNode)) GetNode := rfl

theorem nodeSum2_slot (geometry : CGeometry K 2 3) (GetNode : Fin 3 → Nat) (f g : Nat)
    (gra : Fin 2 → K) (k : Nat) (m : Fin 2) :
    nodeSum2 geometry GetNode (f * 1 * 2 + 0 * 2) gra k (g * 2 + m.val)
      = if f = g then ∑ iNode : Fin 3, (if k = GetNode iNode then
          gra m * (1 / (geometry.GetVolume (GetNode iNode) * 6)) else 0) else 0 := by
  by_cases hfg : f = g
  · subst hfg
    rw [if_pos rfl]
    simp only [nodeSum2]
    apply Finset.sum_congr rfl
    intro iNode _
    by_cases hk : k = GetNode iNode
    · simp only [if_pos hk, hk, true_and, Nat.mul_one, Nat.zero_mul, Nat.add_zero,
        Nat.add_left_cancel_iff]
      fin_cases m <;> simp
    · simp only [hk, false_and, if_false, add_zero]
  · rw [if_neg hfg]
    simp only [nodeSum2]
    apply Finset.sum_eq_zero
    intro iNode _
    have hm := m.isLt
    have h0 : ¬ (g * 2 + m.val = f * 1 * 2 + 0 * 2 + 0) := by omega
    have h1 : ¬ (g * 2 + m.val = f * 1 * 2 + 0 * 2 + 1) := by omega
    simp only [h0, h1, and_false, if_false, add_zero]

theorem hessNodeSum2_slot (geometry : CGeometry K 2 3) (GetNode : Fin 3 → Nat) (f g : Nat)
    (hes : Fin 3 → K) (k : Nat) (m : Fin 3) :
    hessNodeSum2 geometry GetNode (f * 1 * 3 + 0 * 3) hes k (g * 3 + m.val)
      = if f = g then ∑ iNode : Fin 3, (if k = GetNode iNode then
          hes m * (1 / (geometry.GetVolume (GetNode iNode) * 6)) else 0) else 0 := by
  by_cases hfg : f = g
  · subst hfg
    rw [if_pos rfl]
    simp only [hessNodeSum2]
    apply Finset.sum_congr rfl
    intro iNode _
    by_cases hk : k = GetNode iNode
    · simp only [if_pos hk, hk, true_and, Nat.mul_one, Nat.zero_mul, Nat.add_zero,
        Nat.add_left_cancel_iff]
      fin_cases m <;> simp
    · simp only [hk, false_and, if_false, add_zero]
  · rw [if_neg hfg]
    simp only [hessNodeSum2]
    apply Finset.sum_eq_zero
    intro iNode _
    have hm := m.isLt
    have h0 : ¬ (g * 3 + m.val = f * 1 * 3 + 0 * 3 + 0) := by omega
    have h1 : ¬ (g * 3 + m.val = f * 1 * 3 + 0 * 3 + 1) := by omega
    have h2 : ¬ (g * 3 + m.val = f * 1 * 3 + 0 * 3 + 2) := by omega
    simp only [h0, h1, h2, and_false, if_false, add_zero]

/-- Whatever normals the geometry step stored, the 2D gradient element step adds
`graTri * rap` to the convective and the viscous accumulator of each vertex of the
element. -/
theorem gradElemN2_slot (geometry : CGeometry K 2 3) (solver_flow : CFlowVariable K 2)
    (nodes : CTurbSAVariable K 2) (vn : Normals2 K) (e : Fin 3 → Nat) (k : Nat)
    (iFlux d : Fin 2) :
    (gradElemN2 geometry solver_flow nodes vn e).AnisoGrad k (iFlux.val * 2 + d.val)
        = nodes.AnisoGrad k (iFlux.val * 2 + d.val)
          + ∑ iNode : Fin 3, (if k = e iNode then
              graTri vn (fun iNode => Sens solver_flow nodes (e iNode) iFlux) d
                * (1 / (geometry.GetVolume (e iNode) * 6)) else 0) ∧
    (gradElemN2 geometry solver_flow nodes vn e).AnisoViscGrad k (iFlux.val * 2 + d.val)
        = nodes.AnisoViscGrad k (iFlux.val * 2 + d.val)
          + ∑ iNode : Fin 3, (if k = e iNode then
              graTri vn (fun iNode => SensVisc solver_flow nodes (e iNode) iFlux) d
                * (1 / (geometry.GetVolume (e iNode) * 6)) else 0) := by
  constructor
  · simp only [gradElemN2, List.foldl, assembleGrad2_AnisoGrad, Fin.val_zero, Fin.val_one,
      nodeSum2_slot geometry e _ iFlux.val]
    fin_cases iFlux <;> simp
  · simp only [gradElemN2, List.foldl, assembleGrad2_AnisoViscGrad, Fin.val_zero, Fin.val_one,
      nodeSum2_slot geometry e _ iFlux.val]
    fin_cases iFlux <;> simp

/-- Whatever normals the geometry step stored, the 3D gradient element step adds
`graTet * rap` to the convective and the viscous accumulator of each vertex of the
element. -/
theorem gradElemN3_slot (geometry : CGeometry K 3 4) (solver_flow : CFlowVariable K 3)
    (nodes : CTurbSAVariable K 3) (vn : Normals3 K) (e : Fin 4 → Nat) (k : Nat)
    (iFlux d : Fin 3) :
    (gradElemN3 geometry solver_flow nodes vn e).AnisoGrad k (iFlux.val * 3 + d.val)
        = nodes.AnisoGrad k (iFlux.val * 3 + d.val)
          + ∑ iNode : Fin 4, (if k = e iNode then
              graTet vn (fun iNode => Sens solver_flow nodes (e iNode) iFlux) d
                * (1 / (geometry.GetVolume (e iNode) * 24)) else 0) ∧
    (gradElemN3 geometry solver_flow nodes vn e).AnisoViscGrad k (iFlux.val * 3 + d.val)
        = nodes.AnisoViscGrad k (iFlux.val * 3 + d.val)
          + ∑ iNode : Fin 4, (if k = e iNode then
              graTet vn (fun iNode => SensVisc solver_flow nodes (e iNode) iFlux) d
                * (1 / (geometry.GetVolume (e iNode) * 24)) else 0) := by
  constructor
  · simp only [gradElemN3, List.foldl, assembleGrad3_AnisoGrad, Fin.val_zero, Fin.val_one,
      Fin.val_two, nodeSum3_slot geometry e _ iFlux.val]
    fin_cases iFlux <;> simp
  · simp only [gradElemN3, List.foldl, assembleGrad3_AnisoViscGrad, Fin.val_zero, Fin.val_one,
      Fin.val_two, nodeSum3_slot geometry e _ iFlux.val]
    fin_cases iFlux <;> simp

/-- Whatever normals the geometry step stored, the 2D Hessian element step adds
`hesTri * rap` to the convective and the viscous Hessian accumulator of each vertex of the
element. -/
theorem hessElemN2_slot (geometry : CGeometry K 2 3) (nodes : CTurbSAVariable K 2)
    (vn : Normals2 K) (e : Fin 3 → Nat) (k : Nat) (iFlux : Fin 2) (m : Fin 3) :
    (hessElemN2 geometry nodes vn e).AnisoHess k (iFlux.val * 3 + m.val)
        = nodes.AnisoHess k (iFlux.val * 3 + m.val)
          + ∑ iNode : Fin 3, (if k = e iNode then
              hesTri vn (fun iNode d => storedGrad2 nodes.AnisoGrad (e iNode) d iFlux) m
                * (1 / (geometry.GetVolume (e iNode) * 6)) else 0) ∧
    (hessElemN2 geometry nodes vn e).AnisoViscHess k (iFlux.val * 3 + m.val)
        = nodes.AnisoViscHess k (iFlux.val * 3 + m.val)
          + ∑ iNode : Fin 3, (if k = e iNode then
              hesTri vn (fun iNode d => storedGrad2 nodes.AnisoViscGrad (e iNode) d iFlux) m
                * (1 / (geometry.GetVolume (e iNode) * 6)) else 0) := by
  constructor
  · simp only [hessElemN2, List.foldl, assembleHess2_AnisoHess, Fin.val_zero, Fin.val_one,
      hessNodeSum2_slot geometry e _ iFlux.val, storedGrad2]
    fin_cases iFlux <;> simp
  · simp only [hessElemN2, List.foldl, assembleHess2_AnisoViscHess, Fin.val_zero, Fin.val_one,
      hessNodeSum2_slot geometry e _ iFlux.val, storedGrad2]
    fin_cases iFlux <;> simp

/-- Whatever normals the geometry step stored, the 3D Hessian element step adds
`hesTet * rap` to the convective and the viscous Hessian accumulator of each vertex of the
element. -/
theorem hessElemN3_slot (geometry : CGeometry K 3 4) (nodes : CTurbSAVariable K 3)
    (vn : Normals3 K) (e : Fin 4 → Nat) (k : Nat) (iFlux : Fin 3) (m : Fin 6) :
    (hessElemN3 geometry nodes vn e).AnisoHess k (iFlux.val * 6 + m.val)
        = nodes.AnisoHess k (iFlux.val * 6 + m.val)
          + ∑ iNode : Fin 4, (if k = e iNode then
              hesTet vn (fun iNode d => storedGrad3 nodes.AnisoGrad (e iNode) d iFlux) m
                * (1 / (geometry.GetVolume (e iNode) * 24)) else 0) ∧
    (hessElemN3 geometry nodes vn e).AnisoViscHess k (iFlux.val * 6 + m.val)
        = nodes.AnisoViscHess k (iFlux.val * 6 + m.val)
          + ∑ iNode : Fin 4, (if k = e iNode then
              hesTet vn (fun iNode d => storedGrad3 nodes.AnisoViscGrad (e iNode) d iFlux) m
                * (1 / (geometry.GetVolume (e iNode) * 24)) else 0) := by
  constructor
  · simp only [hessElemN3, List.foldl, assembleHess3_AnisoHess, Fin.val_zero, Fin.val_one,
      Fin.val_two, hessNodeSum3_slot geometry e _ iFlux.val, storedGrad3]
    fin_cases iFlux <;> simp
  · simp only [hessElemN3, List.foldl, assembleHess3_AnisoViscHess, Fin.val_zero, Fin.val_one,
      Fin.val_two, hessNodeSum3_slot geometry e _ iFlux.val, storedGrad3]
    fin_cases iFlux <;> simp

/-- The stored normals of a triangle sum to minus twice the sum of the flipped raw normals;
the raw normals themselves sum to zero. -/
theorem orientedNormalsWith2_sum (flip : Fin 3 → Bool) (Crd : Fin 3 → Fin 2 → K) :
    (∑ i, (orientedNormalsWith2 flip Crd).vnx i
        = -2 * ∑ i, (if flip i then (rawNormals2 Crd).vnx i else 0)) ∧
    (∑ i, (orientedNormalsWith2 flip Crd).vny i
        = -2 * ∑ i, (if flip i then (rawNormals2 Crd).vny i else 0)) := by
  have hx : (rawNormals2 Crd).vnx 0 + (rawNormals2 Crd).vnx 1 + (rawNormals2 Crd).vnx 2 = 0 := by
    show (Crd 1 1 - Crd 2 1) + (Crd 2 1 - Crd 0 1) + (Crd 0 1 - Crd 1 1) = 0
    ring
  have hy : (rawNormals2 Crd).vny 0 + (rawNormals2 Crd).vny 1 + (rawNormals2 Crd).vny 2 = 0 := by
    show (Crd 2 0 - Crd 1 0) + (Crd 0 0 - Crd 2 0) + (Crd 1 0 - Crd 0 0) = 0
    ring
  rw [orientedNormalsWith2_eq]
  simp only [Fin.sum_univ_three]
  constructor
  · cases flip 0 <;> cases flip 1 <;> cases flip 2 <;>
      simp only [if_true, if_false, Bool.false_eq_true] <;> linarith
  · cases flip 0 <;> cases flip 1 <;> cases flip 2 <;>
      simp only [if_true, if_false, Bool.false_eq_true] <;> linarith

theorem gradElemN2_AnisoGrad (geometry : CGeometry K 2 3) (solver_flow : CFlowVariable K 2)
    (nodes : CTurbSAVariable K 2) (vn : Normals2 K) (e : Fin 3 → Nat) (k s : Nat) :
    (gradElemN2 geometry solver_flow nodes vn e).AnisoGrad k s
        = nodes.AnisoGrad k s + ∑ iFlux : Fin 2, nodeSum2 geometry e (iFlux.val * 1 * 2 + 0 * 2)
            (graTri vn (fun iNode => Sens solver_flow nodes (e iNode) iFlux)) k s ∧
    (gradElemN2 geometry solver_flow nodes vn e).AnisoViscGrad k s
        = nodes.AnisoViscGrad k s + ∑ iFlux : Fin 2, nodeSum2 geometry e (iFlux.val * 1 * 2 + 0 * 2)
            (graTri vn (fun iNode => SensVisc solver_flow nodes (e iNode) iFlux)) k s := by
  constructor
  · simp only [gradElemN2, List.foldl, assembleGrad2_AnisoGrad, Fin.sum_univ_two]
    simp only [Fin.val_zero, Fin.val_one]
    ring
  · simp only [gradElemN2, List.foldl, assembleGrad2_AnisoViscGrad, Fin.sum_univ_two]
    simp only [Fin.val_zero, Fin.val_one]
    ring

/-- When the three orientation tests have the same outcome, the stored normals of a triangle
sum to zero. -/
theorem orientedNormalsWith2_sum_of_agree (flip : Fin 3 → Bool) (Crd : Fin 3 → Fin 2 → K)
    (h01 : flip 0 = flip 1) (h12 : flip 1 = flip 2) :
    (∑ i, (orientedNormalsWith2 flip Crd).vnx i = 0) ∧
    (∑ i, (orientedNormalsWith2 flip Crd).vny i = 0) := by
  have hx : (rawNormals2 Crd).vnx 0 + (rawNormals2 Crd).vnx 1 + (rawNormals2 Crd).vnx 2 = 0 := by
    show (Crd 1 1 - Crd 2 1) + (Crd 2 1 - Crd 0 1) + (Crd 0 1 - Crd 1 1) = 0
    ring
  have hy : (rawNormals2 Crd).vny 0 + (rawNormals2 Crd).vny 1 + (rawNormals2 Crd).vny 2 = 0 := by
    show (Crd 2 0 - Crd 1 0) + (Crd 0 0 - Crd 2 0) + (Crd 1 0 - Crd 0 0) = 0
    ring
  obtain ⟨sx, sy⟩ := orientedNormalsWith2_sum flip Crd
  rw [sx, sy]
  simp only [Fin.sum_univ_three, ← h12, ← h01]
  cases flip 0
  · simp only [Bool.false_eq_true, if_false, add_zero, mul_zero, and_self]
  · simp only [if_true, hx, hy, mul_zero, and_self]

/-- For normals that sum to zero a sensor constant over the element has a zero raw
gradient. -/
theorem graTri_const_of_sum (vn : Normals2 K) (S : Fin 3 → K) (c : K) (hS : ∀ i, S i = c)
    (hx : ∑ i, vn.vnx i = 0) (hy : ∑ i, vn.vny i = 0) (d : Fin 2) : graTri vn S d = 0 := by
  rw [graTri_eq_sum]
  simp only [hS, ← Finset.mul_sum, hx, hy, mul_zero]
  fin_cases d <;> rfl

/-- For normals that sum to zero the 2D gradient element step leaves the accumulator of a
sensor that is constant over the element as it was. -/
theorem gradElemN2_const (geometry : CGeometry K 2 3) (solver_flow : CFlowVariable K 2)
    (nodes : CTurbSAVariable K 2) (vn : Normals2 K) (e : Fin 3 → Nat)
    (hx : ∑ i, vn.vnx i = 0) (hy : ∑ i, vn.vny i = 0) :
    ((∀ iFlux i, Sens solver_flow nodes (e i) iFlux = Sens solver_flow nodes (e 0) iFlux) →
      (gradElemN2 geometry solver_flow nodes vn e).AnisoGrad = nodes.AnisoGrad) ∧
    ((∀ iFlux i,
        SensVisc solver_flow nodes (e i) iFlux = SensVisc solver_flow nodes (e 0) iFlux) →
      (gradElemN2 geometry solver_flow nodes vn e).AnisoViscGrad = nodes.AnisoViscGrad) := by
  constructor
  · intro hS
    funext k s
    rw [(gradElemN2_AnisoGrad geometry solver_flow nodes vn e k s).1]
    rw [Finset.sum_eq_zero, add_zero]
    intro iFlux _
    exact nodeSum2_zero geometry e _ _
      (fun d => graTri_const_of_sum vn _ (Sens solver_flow nodes (e 0) iFlux)
        (fun i => hS iFlux i) hx hy d) k s
  · intro hS
    funext k s
    rw [(gradElemN2_AnisoGrad geometry solver_flow nodes vn e k s).2]
    rw [Finset.sum_eq_zero, add_zero]
    intro iFlux _
    exact nodeSum2_zero geometry e _ _
      (fun d => graTri_const_of_sum vn _ (SensVisc solver_flow nodes (e 0) iFlux)
        (fun i => hS iFlux i) hx hy d) k s

theorem inwardTest2_of_raw (Crd : Fin 3 → Fin 2 → K) (i : Fin 3) :
    inwardTest2 Crd (rawNormals2 Crd) i = - det2 Crd :=
  inwardTest2_raw Crd i

theorem inwardTest3_of_raw (Crd : Fin 4 → Fin 3 → K) (i : Fin 4) :
    inwardTest3 Crd (rawNormals3 Crd) i = faceSign i * det3 Crd :=
  inwardTest3_raw Crd i

/-! ### Binary64 rounding -/

theorem fl64_zero : fl64 0 = 0 := by simp [fl64]

theorem roundHalfEven_eq_of_lt (x : ℚ) (m : ℤ) (h1 : (m : ℚ) - 1 / 2 < x)
    (h2 : x < m + 1 / 2) : roundHalfEven x = m := by
  unfold roundHalfEven
  by_cases hm : (m : ℚ) ≤ x
  · have hf : ⌊x⌋ = m := by
      rw [Int.floor_eq_iff]
      exact ⟨hm, by linarith⟩
    rw [hf, if_pos (by linarith)]
  · push_neg at hm
    have hf : ⌊x⌋ = m - 1 := by
      rw [Int.floor_eq_iff]
      push_cast
      exact ⟨by linarith, by linarith⟩
    rw [hf]
    push_cast
    rw [if_neg (by linarith), if_pos (by linarith)]
    ring

theorem log2_eq_of_bounds (x : ℚ) (n : ℤ) (h1 : (2 : ℚ) ^ n ≤ |x|) (h2 : |x| < 2 ^ (n + 1)) :
    Int.log 2 |x| = n := by
  have hpos : 0 < |x| := lt_of_lt_of_le (by positivity) h1
  have hb : 1 < 2 := by norm_num
  have h1c : ((2 : ℕ) : ℚ) ^ n ≤ |x| := by exact_mod_cast h1
  have h2c : |x| < ((2 : ℕ) : ℚ) ^ (n + 1) := by exact_mod_cast h2
  apply le_antisymm
  · have := (Int.lt_zpow_iff_log_lt hb hpos).1 h2c
    omega
  · exact (Int.zpow_le_iff_le_log hb hpos).1 h1c

/-- Evaluation of `fl64`: if `2^n ≤ |x| < 2^(n+1)` and the integer `m` is within less than
`1/2` of `x / 2^(n-52)`, then `fl64 x = m * 2^(n-52)`. -/
theorem fl64_eq (x : ℚ) (n m : ℤ) (h1 : (2 : ℚ) ^ n ≤ |x|) (h2 : |x| < 2 ^ (n + 1))
    (h3 : (m : ℚ) - 1 / 2 < x / 2 ^ (n - 52)) (h4 : x / 2 ^ (n - 52) < m + 1 / 2) :
    fl64 x = m * 2 ^ (n - 52) := by
  have hx : x ≠ 0 := by
    intro h
    rw [h, abs_zero] at h1
    exact absurd h1 (not_le.2 (by positivity))
  rw [fl64, if_neg hx, log2_eq_of_bounds x n h1 h2, roundHalfEven_eq_of_lt _ m h3 h4]

/-- The binary64 roundings that occur when the 2D gradient element step is replayed on
`slantedLine` with the constant sensor 1: each line is `fl64 x = y` for the exact result `x`
of one operation. -/
theorem slantedLine_roundings :
    fl64 (-(7430939385161319 / 2251799813685248)) = -(7430939385161319 / 2251799813685248) ∧
    fl64 (7430939385161319 / 1125899906842624) = 7430939385161319 / 1125899906842624 ∧
    fl64 (2476979795053773 / 2251799813685248) = 2476979795053773 / 2251799813685248 ∧
    fl64 (-(2476979795053773 / 1125899906842624)) = -(2476979795053773 / 1125899906842624) ∧
    fl64 (7430939385161319 / 2251799813685248) = 7430939385161319 / 2251799813685248 ∧
    fl64 (22292818155483957 / 2251799813685248) = 5573204538870989 / 562949953421312 ∧
    fl64 (7430939385161319 / 4503599627370496) = 7430939385161319 / 4503599627370496 ∧
    fl64 (5573204538870989 / 1125899906842624) = 5573204538870989 / 1125899906842624 ∧
    fl64 (-(55218860145941681646323653819761 / 10141204801825835211973625643008)) = -(6130524992758089 / 1125899906842624) ∧
    fl64 (13804715036485419792335964691497 / 2535301200456458802993406410752) = 766315624094761 / 140737488355328 ∧
    fl64 (-(1 / 1125899906842624)) = -(1 / 1125899906842624) ∧
    fl64 (2476979795053773 / 1125899906842624) = 2476979795053773 / 1125899906842624 ∧
    fl64 (2476979795053773 / 4503599627370496) = 2476979795053773 / 4503599627370496 ∧
    fl64 (-(7430939385161319 / 4503599627370496)) = -(7430939385161319 / 4503599627370496) ∧
    fl64 (-(22292818155483957 / 4503599627370496)) = -(5573204538870989 / 1125899906842624) ∧
    fl64 (55218860145941681646323653819761 / 10141204801825835211973625643008) = 6130524992758089 / 1125899906842624 ∧
    fl64 (-(13804715036485419792335964691497 / 2535301200456458802993406410752)) = -(766315624094761 / 140737488355328) ∧
    fl64 (1 / 1125899906842624) = 1 / 1125899906842624 ∧
    fl64 (1) = 1 ∧
    fl64 (3 / 2) = 3 / 2 ∧
    fl64 (-(2476979795053773 / 2251799813685248)) = -(2476979795053773 / 2251799813685248) ∧
    fl64 (6) = 6 ∧
    fl64 (1 / 6) = 6004799503160661 / 36028797018963968 ∧
    fl64 (44621301128033676058583859671859 / 40564819207303340847894502572032) = 2476979795053773 / 2251799813685248 ∧
    fl64 (-(14873767042677892019527953223953 / 40564819207303340847894502572032)) = -(825659931684591 / 2251799813685248) ∧
    fl64 (-(825659931684591 / 2251799813685248)) = -(825659931684591 / 2251799813685248) ∧
    fl64 (-(7430939385161319 / 1125899906842624)) = -(7430939385161319 / 1125899906842624) := by
  refine ⟨?_, ?_, ?_, ?_, ?_, ?_, ?_, ?_, ?_, ?_, ?_, ?_, ?_, ?_, ?_, ?_, ?_, ?_, ?_, ?_, ?_, ?_, ?_, ?_, ?_, ?_, ?_⟩
  · rw [fl64_eq _ 1 (-7430939385161319) (by norm_num [abs_of_neg]) (by norm_num [abs_of_neg]) (by norm_num)
      (by norm_num)]
    norm_num
  · rw [fl64_eq _ 2 7430939385161319 (by norm_num [abs_of_pos]) (by norm_num [abs_of_pos]) (by norm_num)
      (by norm_num)]
    norm_num
  · rw [fl64_eq _ 0 4953959590107546 (by norm_num [abs_of_pos]) (by norm_num [abs_of_pos]) (by norm_num)
      (by norm_num)]
    norm_num
  · rw [fl64_eq _ 1 (-4953959590107546) (by norm_num [abs_of_neg]) (by norm_num [abs_of_neg]) (by norm_num)
      (by norm_num)]
    norm_num
  · rw [fl64_eq _ 1 7430939385161319 (by norm_num [abs_of_pos]) (by norm_num [abs_of_pos]) (by norm_num)
      (by norm_num)]
    norm_num
  · rw [fl64_eq _ 3 5573204538870989 (by norm_num [abs_of_pos]) (by norm_num [abs_of_pos]) (by norm_num)
      (by norm_num)]
    norm_num
  · rw [fl64_eq _ 0 7430939385161319 (by norm_num [abs_of_pos]) (by norm_num [abs_of_pos]) (by norm_num)
      (by norm_num)]
    norm_num
  · rw [fl64_eq _ 2 5573204538870989 (by norm_num [abs_of_pos]) (by norm_num [abs_of_pos]) (by norm_num)
      (by norm_num)]
    norm_num
  · rw [fl64_eq _ 2 (-6130524992758089) (by norm_num [abs_of_neg]) (by norm_num [abs_of_neg]) (by norm_num)
      (by norm_num)]
    norm_num
  · rw [fl64_eq _ 2 6130524992758088 (by norm_num [abs_of_pos]) (by norm_num [abs_of_pos]) (by norm_num)
      (by norm_num)]
    norm_num
  · rw [fl64_eq _ (-50) (-4503599627370496) (by norm_num [abs_of_neg]) (by norm_num [abs_of_neg]) (by norm_num)
      (by norm_num)]
    norm_num
  · rw [fl64_eq _ 1 4953959590107546 (by norm_num [abs_of_pos]) (by norm_num [abs_of_pos]) (by norm_num)
      (by norm_num)]
    norm_num
  · rw [fl64_eq _ (-1) 4953959590107546 (by norm_num [abs_of_pos]) (by norm_num [abs_of_pos]) (by norm_num)
      (by norm_num)]
    norm_num
  · rw [fl64_eq _ 0 (-7430939385161319) (by norm_num [abs_of_neg]) (by norm_num [abs_of_neg]) (by norm_num)
      (by norm_num)]
    norm_num
  · rw [fl64_eq _ 2 (-5573204538870989) (by norm_num [abs_of_neg]) (by norm_num [abs_of_neg]) (by norm_num)
      (by norm_num)]
    norm_num
  · rw [fl64_eq _ 2 6130524992758089 (by norm_num [abs_of_pos]) (by norm_num [abs_of_pos]) (by norm_num)
      (by norm_num)]
    norm_num
  · rw [fl64_eq _ 2 (-6130524992758088) (by norm_num [abs_of_neg]) (by norm_num [abs_of_neg]) (by norm_num)
      (by norm_num)]
    norm_num
  · rw [fl64_eq _ (-50) 4503599627370496 (by norm_num [abs_of_pos]) (by norm_num [abs_of_pos]) (by norm_num)
      (by norm_num)]
    norm_num
  · rw [fl64_eq _ 0 4503599627370496 (by norm_num [abs_of_pos]) (by norm_num [abs_of_pos]) (by norm_num)
      (by norm_num)]
    norm_num
  · rw [fl64_eq _ 0 6755399441055744 (by norm_num [abs_of_pos]) (by norm_num [abs_of_pos]) (by norm_num)
      (by norm_num)]
    norm_num
  · rw [fl64_eq _ 0 (-4953959590107546) (by norm_num [abs_of_neg]) (by norm_num [abs_of_neg]) (by norm_num)
      (by norm_num)]
    norm_num
  · rw [fl64_eq _ 2 6755399441055744 (by norm_num [abs_of_pos]) (by norm_num [abs_of_pos]) (by norm_num)
      (by norm_num)]
    norm_num
  · rw [fl64_eq _ (-3) 6004799503160661 (by norm_num [abs_of_pos]) (by norm_num [abs_of_pos]) (by norm_num)
      (by norm_num)]
    norm_num
  · rw [fl64_eq _ 0 4953959590107546 (by norm_num [abs_of_pos]) (by norm_num [abs_of_pos]) (by norm_num)
      (by norm_num)]
    norm_num
  · rw [fl64_eq _ (-2) (-6605279453476728) (by norm_num [abs_of_neg]) (by norm_num [abs_of_neg]) (by norm_num)
      (by norm_num)]
    norm_num
  · rw [fl64_eq _ (-2) (-6605279453476728) (by norm_num [abs_of_neg]) (by norm_num [abs_of_neg]) (by norm_num)
      (by norm_num)]
    norm_num
  · rw [fl64_eq _ 2 (-7430939385161319) (by norm_num [abs_of_neg]) (by norm_num [abs_of_neg]) (by norm_num)
      (by norm_num)]
    norm_num

theorem CrdAvgRnd2_zero (rnd : K → K) (Crd : Fin 3 → Fin 2 → K) :
    CrdAvgRnd2 rnd Crd 0
      = ![rnd (rnd (rnd (0 + Crd 1 0) + Crd 2 0) / 2),
          rnd (rnd (rnd (0 + Crd 1 1) + Crd 2 1) / 2)] := rfl

theorem CrdAvgRnd2_one (rnd : K → K) (Crd : Fin 3 → Fin 2 → K) :
    CrdAvgRnd2 rnd Crd 1
      = ![rnd (rnd (rnd (0 + Crd 0 0) + Crd 2 0) / 2),
          rnd (rnd (rnd (0 + Crd 0 1) + Crd 2 1) / 2)] := rfl

theorem CrdAvgRnd2_two (rnd : K → K) (Crd : Fin 3 → Fin 2 → K) :
    CrdAvgRnd2 rnd Crd 2
      = ![rnd (rnd (rnd (0 + Crd 0 0) + Crd 1 0) / 2),
          rnd (rnd (rnd (0 + Crd 0 1) + Crd 1 1) / 2)] := rfl

omit [LinearOrderedField K] in
theorem update_two (v : Fin 3 → K) (x : K) : Function.update v 2 x = ![v 0, v 1, x] := by
  funext i
  fin_cases i <;> simp [Function.update]

theorem orientedNormalsRnd2_unfold (rnd : K → K) (Crd : Fin 3 → Fin 2 → K) :
    orientedNormalsRnd2 rnd Crd
      = checkInwardRnd2 rnd Crd (checkInwardRnd2 rnd Crd
          (checkInwardRnd2 rnd Crd (rawNormalsRnd2 rnd Crd) 0) 1) 2 := rfl

/-- Without rounding the rounded geometry step is the geometry step over the exact field. -/
theorem orientedNormalsRnd2_id (Crd : Fin 3 → Fin 2 → K) :
    orientedNormalsRnd2 id Crd = orientedNormals2 Crd := rfl

/-- The coordinates of `slantedLine` are binary64 numbers. -/
theorem slantedLine_representable (k : Nat) (d : Fin 2) :
    fl64 (slantedLine.GetCoord k d) = slantedLine.GetCoord k d := by
  obtain ⟨r0, r1, r2, r3, r4, r5, r6, r7, r8, r9, r10, r11, r12, r13, r14, r15, r16, r17, r18, r19, r20, r21, r22, r23, r24, r25, r26⟩ := slantedLine_roundings
  by_cases h0 : k = 0
  · subst h0
    fin_cases d <;> norm_num [slantedLine, fl64_zero]
  · by_cases h1 : k = 1
    · subst h1
      fin_cases d <;> norm_num [slantedLine, r2, r4]
    · fin_cases d <;> norm_num [slantedLine, h0, h1, r1, r11]

theorem slantedLine_rawRnd :
    rawNormalsRnd2 fl64 (elemCrd slantedLine ![0, 1, 2])
      = { vnx := ![-(7430939385161319 / 2251799813685248), 7430939385161319 / 1125899906842624,
            -(7430939385161319 / 2251799813685248)]
          vny := ![2476979795053773 / 2251799813685248, -(2476979795053773 / 1125899906842624),
            2476979795053773 / 2251799813685248] } := by
  obtain ⟨r0, r1, r2, r3, r4, r5, r6, r7, r8, r9, r10, r11, r12, r13, r14, r15, r16, r17, r18, r19, r20, r21, r22, r23, r24, r25, r26⟩ := slantedLine_roundings
  norm_num [rawNormalsRnd2, elemCrd, slantedLine, fl64_zero, r0, r1, r2, r3, r4, r5, r6, r7, r8, r9, r10, r11, r12, r13, r14, r15, r16, r17, r18, r19, r20, r21, r22, r23, r24, r25, r26]

theorem slantedLine_tests :
    inwardTestRnd2 fl64 (elemCrd slantedLine ![0, 1, 2])
        (rawNormalsRnd2 fl64 (elemCrd slantedLine ![0, 1, 2])) 0 = -(1 / 1125899906842624) ∧
    inwardTestRnd2 fl64 (elemCrd slantedLine ![0, 1, 2])
        (rawNormalsRnd2 fl64 (elemCrd slantedLine ![0, 1, 2])) 1 = 0 ∧
    inwardTestRnd2 fl64 (elemCrd slantedLine ![0, 1, 2])
        (rawNormalsRnd2 fl64 (elemCrd slantedLine ![0, 1, 2])) 2 = 1 / 1125899906842624 := by
  obtain ⟨r0, r1, r2, r3, r4, r5, r6, r7, r8, r9, r10, r11, r12, r13, r14, r15, r16, r17, r18, r19, r20, r21, r22, r23, r24, r25, r26⟩ := slantedLine_roundings
  rw [slantedLine_rawRnd]
  refine ⟨?_, ?_, ?_⟩
  · norm_num [inwardTestRnd2, CrdAvgRnd2_zero, CrdAvgRnd2_one, CrdAvgRnd2_two, elemCrd, slantedLine, fl64_zero, r0, r1, r2, r3, r4, r5, r6, r7, r8, r9, r10, r11, r12, r13, r14, r15, r16, r17, r18, r19, r20, r21, r22, r23, r24, r25, r26]
  · norm_num [inwardTestRnd2, CrdAvgRnd2_zero, CrdAvgRnd2_one, CrdAvgRnd2_two, elemCrd, slantedLine, fl64_zero, r0, r1, r2, r3, r4, r5, r6, r7, r8, r9, r10, r11, r12, r13, r14, r15, r16, r17, r18, r19, r20, r21, r22, r23, r24, r25, r26]
  · norm_num [inwardTestRnd2, CrdAvgRnd2_zero, CrdAvgRnd2_one, CrdAvgRnd2_two, elemCrd, slantedLine, fl64_zero, r0, r1, r2, r3, r4, r5, r6, r7, r8, r9, r10, r11, r12, r13, r14, r15, r16, r17, r18, r19, r20, r21, r22, r23, r24, r25, r26]

/-- The binary64 geometry step on `slantedLine`: only the third normal is flipped. -/
theorem slantedLine_normals :
    orientedNormalsRnd2 fl64 (elemCrd slantedLine ![0, 1, 2])
      = { vnx := ![-(7430939385161319 / 2251799813685248), 7430939385161319 / 1125899906842624,
            7430939385161319 / 2251799813685248]
          vny := ![2476979795053773 / 2251799813685248, -(2476979795053773 / 1125899906842624),
            -(2476979795053773 / 2251799813685248)] } := by
  obtain ⟨r0, r1, r2, r3, r4, r5, r6, r7, r8, r9, r10, r11, r12, r13, r14, r15, r16, r17, r18, r19, r20, r21, r22, r23, r24, r25, r26⟩ := slantedLine_roundings
  obtain ⟨t0, t1, t2⟩ := slantedLine_tests
  have c0 : checkInwardRnd2 fl64 (elemCrd slantedLine ![0, 1, 2])
      (rawNormalsRnd2 fl64 (elemCrd slantedLine ![0, 1, 2])) 0
      = rawNormalsRnd2 fl64 (elemCrd slantedLine ![0, 1, 2]) := by
    rw [checkInwardRnd2, t0, if_neg (by norm_num)]
  have c1 : checkInwardRnd2 fl64 (elemCrd slantedLine ![0, 1, 2])
      (rawNormalsRnd2 fl64 (elemCrd slantedLine ![0, 1, 2])) 1
      = rawNormalsRnd2 fl64 (elemCrd slantedLine ![0, 1, 2]) := by
    rw [checkInwardRnd2, t1, if_neg (by norm_num)]
  rw [orientedNormalsRnd2_unfold, c0, c1, checkInwardRnd2, t2, if_pos (by norm_num),
    slantedLine_rawRnd, update_two, update_two]
  norm_num [r4, r20]

/-- On `slantedLine` the binary64 geometry step is the geometry step with the test outcomes
"no flip", "no flip", "flip". -/
theorem slantedLine_with :
    orientedNormalsRnd2 fl64 (elemCrd slantedLine ![0, 1, 2])
      = orientedNormalsWith2 ![false, false, true] (elemCrd slantedLine ![0, 1, 2]) := by
  rw [slantedLine_normals, orientedNormalsWith2_eq]
  apply normals2_ext_fields <;> funext i <;> fin_cases i <;>
    (simp [rawNormals2, elemCrd, slantedLine]; try norm_num)

theorem slantedLine_graTri :
    graTriRnd fl64 (orientedNormalsRnd2 fl64 (elemCrd slantedLine ![0, 1, 2])) (fun _ => 1)
      = ![7430939385161319 / 1125899906842624, -(2476979795053773 / 1125899906842624)] := by
  obtain ⟨r0, r1, r2, r3, r4, r5, r6, r7, r8, r9, r10, r11, r12, r13, r14, r15, r16, r17, r18, r19, r20, r21, r22, r23, r24, r25, r26⟩ := slantedLine_roundings
  rw [slantedLine_normals]
  funext d
  fin_cases d <;> norm_num [graTriRnd, fl64_zero, r0, r1, r2, r3, r4, r5, r6, r7, r8, r9, r10, r11, r12, r13, r14, r15, r16, r17, r18, r19, r20, r21, r22, r23, r24, r25, r26]

theorem slantedLine_sensors (k : Nat) (iFlux : Fin 2) :
    SensRnd fl64 (scalarFlow (fun _ => 1)) (unitNodes : CTurbSAVariable ℚ 2) k iFlux = 1 ∧
    SensViscRnd fl64 (scalarFlow (fun _ => 1)) (unitNodes : CTurbSAVariable ℚ 2) k iFlux = 0 := by
  obtain ⟨r0, r1, r2, r3, r4, r5, r6, r7, r8, r9, r10, r11, r12, r13, r14, r15, r16, r17, r18, r19, r20, r21, r22, r23, r24, r25, r26⟩ := slantedLine_roundings
  constructor <;> norm_num [SensRnd, SensViscRnd, scalarFlow, unitNodes, fl64_zero, r0, r1, r2, r3, r4, r5, r6, r7, r8, r9, r10, r11, r12, r13, r14, r15, r16, r17, r18, r19, r20, r21, r22, r23, r24, r25, r26]

/-- The binary64 replay of the 2D gradient element step on `slantedLine` with the constant
sensor 1, from zero accumulators. -/
theorem slantedLine_gradient (k : Nat) (hk : k < 3) :
    (gradElemRnd2 fl64 slantedLine (scalarFlow (fun _ => 1)) unitNodes ![0, 1, 2]).AnisoGrad k 0
      = 2476979795053773 / 2251799813685248 ∧
    (gradElemRnd2 fl64 slantedLine (scalarFlow (fun _ => 1)) unitNodes ![0, 1, 2]).AnisoGrad k 1
      = -(825659931684591 / 2251799813685248) := by
  obtain ⟨r0, r1, r2, r3, r4, r5, r6, r7, r8, r9, r10, r11, r12, r13, r14, r15, r16, r17, r18, r19, r20, r21, r22, r23, r24, r25, r26⟩ := slantedLine_roundings
  have hS : ∀ (k : Nat) (iFlux : Fin 2),
      SensRnd fl64 (scalarFlow (fun _ => 1)) (unitNodes : CTurbSAVariable ℚ 2) k iFlux = 1 :=
    fun k iFlux => (slantedLine_sensors k iFlux).1
  have hV : ∀ (k : Nat) (iFlux : Fin 2),
      SensViscRnd fl64 (scalarFlow (fun _ => 1)) (unitNodes : CTurbSAVariable ℚ 2) k iFlux = 0 :=
    fun k iFlux => (slantedLine_sensors k iFlux).2
  have hg := slantedLine_graTri
  have hgv : graTriRnd fl64 (orientedNormalsRnd2 fl64 (elemCrd slantedLine ![0, 1, 2]))
      (fun _ => 0) = ![0, 0] := by
    funext d
    fin_cases d <;> norm_num [graTriRnd, fl64_zero]
  simp only [gradElemRnd2, List.foldl, hS, hV, hg, hgv]
  interval_cases k <;>
    norm_num [assembleGradRnd2, CTurbSAVariable.AddAnisoGradRnd,
      CTurbSAVariable.AddAnisoViscGradRnd, addAtRnd, unitNodes, slantedLine, fl64_zero, r0, r1, r2, r3, r4, r5, r6, r7, r8, r9, r10, r11, r12, r13, r14, r15, r16, r17, r18, r19, r20, r21, r22, r23, r24, r25, r26]

/-- Without rounding the rounded gradient element step is the element step over the exact
field. -/
theorem gradElemRnd2_id (geometry : CGeometry K 2 3) (solver_flow : CFlowVariable K 2)
    (nodes : CTurbSAVariable K 2) (GetNode : Fin 3 → Nat) :
    gradElemRnd2 id geometry solver_flow nodes GetNode
      = gradElem2 geometry solver_flow nodes GetNode := rfl

end Lemmas

section Claims

variable {K : Type} [LinearOrderedField K]

/-! ## Claims -/

/-- C1 (linear exactness in 2D).  For a mesh of non-degenerate triangles and a vertex `k`
whose (positive) dual volume is one third of the total area of its incident triangles: if
the convective accumulator starts at zero and the convective sensor for flux `iFlux` is
affine in the coordinates of the mesh vertices, `f(P) = a + b·P`, then after the element
sweep of `SetTurbGradient_L2Proj2` slot `iFlux*2 + d` of the convective gradient at `k` is
exactly `b d`; likewise for the viscous sensor and the viscous accumulator. -/
theorem linear_exactness_2D (geometry : CGeometry K 2 3) (solver_flow : CFlowVariable K 2)
    (nodes : CTurbSAVariable K 2) (iFlux : Fin 2) (a : K) (b : Fin 2 → K) (k : Nat)
    (hnd : ∀ e ∈ geometry.elem, triArea (elemCrd geometry e) ≠ 0)
    (hvol : geometry.GetVolume k = incidentArea2 geometry k / 3)
    (hpos : 0 < geometry.GetVolume k) (d : Fin 2) :
    ((∀ k s, nodes.AnisoGrad k s = 0) →
      (∀ e ∈ geometry.elem, ∀ iNode, Sens solver_flow nodes (e iNode) iFlux
        = a + b 0 * geometry.GetCoord (e iNode) 0 + b 1 * geometry.GetCoord (e iNode) 1) →
      (gradSweep2 geometry solver_flow nodes).AnisoGrad k (iFlux.val * 2 + d.val) = b d) ∧
    ((∀ k s, nodes.AnisoViscGrad k s = 0) →
      (∀ e ∈ geometry.elem, ∀ iNode, SensVisc solver_flow nodes (e iNode) iFlux
        = a + b 0 * geometry.GetCoord (e iNode) 0 + b 1 * geometry.GetCoord (e iNode) 1) →
      (gradSweep2 geometry solver_flow nodes).AnisoViscGrad k (iFlux.val * 2 + d.val) = b d) := by
  obtain ⟨h1, h2, -⟩ := gradSweep2_fold geometry solver_flow geometry.elem nodes
  constructor
  · intro hzero hS
    rw [gradSweep2, h1, hzero, zero_add]
    exact sum_gradContrib2_affine geometry _ iFlux d a b k hnd hS hvol hpos
  · intro hzero hS
    rw [gradSweep2, h2, hzero, zero_add]
    exact sum_gradContrib2_affine geometry _ iFlux d a b k hnd hS hvol hpos

/-- Witness for C1: vertex 0 of the unit square split into two triangles of opposite
orientation, convective sensor `1 + 2x + 3y`, viscous sensor `15 + 21x - 3y`. -/
theorem linear_exactness_2D_witness :
    (gradSweep2 squareMesh squareFlow squareNodes).AnisoGrad 0 1 = 3 ∧
    (gradSweep2 squareMesh squareFlow squareNodes).AnisoViscGrad 0 1 = -3 := by
  have hnd : ∀ e ∈ squareMesh.elem, triArea (elemCrd squareMesh e) ≠ 0 := by
    intro e he
    simp only [squareMesh, List.mem_cons, List.mem_singleton, List.not_mem_nil, or_false] at he
    rcases he with rfl | rfl <;> simp [triArea, det2, elemCrd, squareMesh]
  have hvol : squareMesh.GetVolume 0 = incidentArea2 squareMesh 0 / 3 := by
    simp [incidentArea2, squareMesh, triArea, det2, elemCrd]
    rw [if_pos ⟨0, rfl⟩, if_pos ⟨0, rfl⟩]
    norm_num
  have hpos : 0 < squareMesh.GetVolume 0 := by simp [squareMesh]
  refine ⟨?_, ?_⟩
  · exact (linear_exactness_2D squareMesh squareFlow squareNodes 0 1 ![2, 3] 0
      hnd hvol hpos 1).1 (fun _ _ => rfl)
      (by intro e _ iNode; simp [Sens, squareFlow, squareNodes])
  · exact (linear_exactness_2D squareMesh squareFlow squareNodes 0 15 ![21, -3] 0
      hnd hvol hpos 1).2 (fun _ _ => rfl)
      (by intro e _ iNode; simp [SensVisc, squareFlow, squareNodes]; ring)

/-- C2 (linear exactness in 3D).  For a mesh of non-degenerate tetrahedra and a vertex `k`
whose (positive) dual volume is one quarter of the total volume of its incident tetrahedra:
if the convective accumulator starts at zero and the convective sensor for flux `iFlux` is
affine in the coordinates of the mesh vertices, `f(P) = a + b·P`, then after the element
sweep of `SetTurbGradient_L2Proj3` slot `iFlux*3 + d` of the convective gradient at `k` is
exactly `b d`; likewise for the viscous sensor and the viscous accumulator. -/
theorem linear_exactness_3D (geometry : CGeometry K 3 4) (solver_flow : CFlowVariable K 3)
    (nodes : CTurbSAVariable K 3) (iFlux : Fin 3) (a : K) (b : Fin 3 → K) (k : Nat)
    (hnd : ∀ e ∈ geometry.elem, tetVolume (elemCrd geometry e) ≠ 0)
    (hvol : geometry.GetVolume k = incidentVolume3 geometry k / 4)
    (hpos : 0 < geometry.GetVolume k) (d : Fin 3) :
    ((∀ k s, nodes.AnisoGrad k s = 0) →
      (∀ e ∈ geometry.elem, ∀ iNode, Sens solver_flow nodes (e iNode) iFlux
        = a + b 0 * geometry.GetCoord (e iNode) 0 + b 1 * geometry.GetCoord (e iNode) 1
          + b 2 * geometry.GetCoord (e iNode) 2) →
      (gradSweep3 geometry solver_flow nodes).AnisoGrad k (iFlux.val * 3 + d.val) = b d) ∧
    ((∀ k s, nodes.AnisoViscGrad k s = 0) →
      (∀ e ∈ geometry.elem, ∀ iNode, SensVisc solver_flow nodes (e iNode) iFlux
        = a + b 0 * geometry.GetCoord (e iNode) 0 + b 1 * geometry.GetCoord (e iNode) 1
          + b 2 * geometry.GetCoord (e iNode) 2) →
      (gradSweep3 geometry solver_flow nodes).AnisoViscGrad k (iFlux.val * 3 + d.val) = b d) := by
  obtain ⟨h1, h2, -⟩ := gradSweep3_fold geometry solver_flow geometry.elem nodes
  constructor
  · intro hzero hS
    rw [gradSweep3, h1, hzero, zero_add]
    exact sum_gradContrib3_affine geometry _ iFlux d a b k hnd hS hvol hpos
  · intro hzero hS
    rw [gradSweep3, h2, hzero, zero_add]
    exact sum_gradContrib3_affine geometry _ iFlux d a b k hnd hS hvol hpos

/-- Witness for C2: vertex 0 of two unit tetrahedra of opposite orientation glued along a
face, convective sensor `2 + 4x + 6y - 10z`, viscous sensor `3x - 3z`, flux 1. -/
theorem linear_exactness_3D_witness :
    (gradSweep3 doubleTet tetFlow tetNodes).AnisoGrad 0 5 = -10 ∧
    (gradSweep3 doubleTet tetFlow tetNodes).AnisoViscGrad 0 5 = -3 := by
  have hnd : ∀ e ∈ doubleTet.elem, tetVolume (elemCrd doubleTet e) ≠ 0 := by
    intro e he
    simp only [doubleTet, List.mem_cons, List.mem_singleton, List.not_mem_nil, or_false] at he
    rcases he with rfl | rfl <;> simp [tetVolume, det3, elemCrd, doubleTet]
  have hvol : doubleTet.GetVolume 0 = incidentVolume3 doubleTet 0 / 4 := by
    simp [incidentVolume3, doubleTet, tetVolume, det3, elemCrd]
    rw [if_pos ⟨0, rfl⟩, if_pos ⟨0, rfl⟩]
    norm_num
  have hpos : 0 < doubleTet.GetVolume 0 := by simp [doubleTet]
  refine ⟨?_, ?_⟩
  · exact (linear_exactness_3D doubleTet tetFlow tetNodes 1 2 ![4, 6, -10] 0
      hnd hvol hpos 2).1 (fun _ _ => rfl)
      (by intro e _ iNode; simp [Sens, tetFlow, tetNodes]; ring)
  · exact (linear_exactness_3D doubleTet tetFlow tetNodes 1 0 ![3, 0, -3] 0
      hnd hvol hpos 2).2 (fun _ _ => rfl)
      (by intro e _ iNode; simp [SensVisc, tetFlow, tetNodes]; ring)

/-- C3, as amended (concrete example 1).  For the single triangle with vertices
`(0,0), (1,0), (0,1)` listed in that order, each dual volume `1/6`, sensor samples
`0, 2, 1` for flux `iFlux` and a zero-initialised accumulator, the 2D gradient sweep leaves
the recovered gradient `(2, 1)` at each of the three vertices (for the convective sensor,
and likewise for the viscous one). -/
theorem example1_unit_triangle (geometry : CGeometry K 2 3) (solver_flow : CFlowVariable K 2)
    (nodes : CTurbSAVariable K 2) (e : Fin 3 → Nat) (iFlux : Fin 2)
    (helem : geometry.elem = [e])
    (h0 : geometry.GetCoord (e 0) = ![0, 0]) (h1 : geometry.GetCoord (e 1) = ![1, 0])
    (h2 : geometry.GetCoord (e 2) = ![0, 1])
    (hvol : ∀ iNode, geometry.GetVolume (e iNode) = 1 / 6) (iNode : Fin 3) :
    ((∀ k s, nodes.AnisoGrad k s = 0) →
      Sens solver_flow nodes (e 0) iFlux = 0 → Sens solver_flow nodes (e 1) iFlux = 2 →
      Sens solver_flow nodes (e 2) iFlux = 1 →
      (gradSweep2 geometry solver_flow nodes).AnisoGrad (e iNode) (iFlux.val * 2 + 0) = 2 ∧
      (gradSweep2 geometry solver_flow nodes).AnisoGrad (e iNode) (iFlux.val * 2 + 1) = 1) ∧
    ((∀ k s, nodes.AnisoViscGrad k s = 0) →
      SensVisc solver_flow nodes (e 0) iFlux = 0 → SensVisc solver_flow nodes (e 1) iFlux = 2 →
      SensVisc solver_flow nodes (e 2) iFlux = 1 →
      (gradSweep2 geometry solver_flow nodes).AnisoViscGrad (e iNode) (iFlux.val * 2 + 0) = 2 ∧
      (gradSweep2 geometry solver_flow nodes).AnisoViscGrad (e iNode) (iFlux.val * 2 + 1) = 1) := by
  obtain ⟨g1, g2, -⟩ := gradSweep2_fold geometry solver_flow geometry.elem nodes
  constructor
  · intro hzero hS0 hS1 hS2
    have key := unitTriangle_sum geometry (Sens solver_flow nodes) e iFlux helem h0 h1 h2 hvol
      hS0 hS1 hS2 iNode
    exact ⟨by rw [gradSweep2, g1, hzero, zero_add]; exact key 0,
      by rw [gradSweep2, g1, hzero, zero_add]; exact key 1⟩
  · intro hzero hS0 hS1 hS2
    have key := unitTriangle_sum geometry (SensVisc solver_flow nodes) e iFlux helem h0 h1 h2
      hvol hS0 hS1 hS2 iNode
    exact ⟨by rw [gradSweep2, g2, hzero, zero_add]; exact key 0,
      by rw [gradSweep2, g2, hzero, zero_add]; exact key 1⟩

/-- Witness for C3 (amended): the unit triangle with vertex numbers `0, 1, 2`. -/
theorem example1_unit_triangle_witness :
    ((gradSweep2 unitTriangle exampleFlow exampleNodes).AnisoGrad 2 0 = 2 ∧
      (gradSweep2 unitTriangle exampleFlow exampleNodes).AnisoGrad 2 1 = 1) ∧
    ((gradSweep2 unitTriangle exampleFlow exampleNodes).AnisoViscGrad 2 0 = 2 ∧
      (gradSweep2 unitTriangle exampleFlow exampleNodes).AnisoViscGrad 2 1 = 1) := by
  have h := example1_unit_triangle unitTriangle exampleFlow exampleNodes ![0, 1, 2] 0 rfl
    (by simp [unitTriangle]) (by simp [unitTriangle]) (by simp [unitTriangle])
    (fun _ => rfl) 2
  exact ⟨h.1 (fun _ _ => rfl) (by simp [Sens, exampleFlow, exampleNodes])
      (by simp [Sens, exampleFlow, exampleNodes]) (by simp [Sens, exampleFlow, exampleNodes]),
    h.2 (fun _ _ => rfl) (by simp [SensVisc, exampleFlow, exampleNodes])
      (by simp [SensVisc, exampleFlow, exampleNodes]; norm_num)
      (by simp [SensVisc, exampleFlow, exampleNodes]; norm_num)⟩

/-- C3 as stated fails: on the unit right triangle with samples `0, 2, 1`, dual volumes `1/6`
and zero accumulators, the gradient recovered at vertex 0 is not `(1, 2)`. -/
theorem example1_counterexample :
    unitTriangle.elem = [![0, 1, 2]] ∧
    Sens exampleFlow exampleNodes 0 0 = 0 ∧ Sens exampleFlow exampleNodes 1 0 = 2 ∧
    Sens exampleFlow exampleNodes 2 0 = 1 ∧
    ¬ ((gradSweep2 unitTriangle exampleFlow exampleNodes).AnisoGrad 0 0 = 1 ∧
       (gradSweep2 unitTriangle exampleFlow exampleNodes).AnisoGrad 0 1 = 2) := by
  refine ⟨rfl, by simp [Sens, exampleFlow, exampleNodes], by simp [Sens, exampleFlow, exampleNodes],
    by simp [Sens, exampleFlow, exampleNodes], ?_⟩
  obtain ⟨g1, -⟩ := gradSweep2_fold unitTriangle exampleFlow unitTriangle.elem exampleNodes
  have key := unitTriangle_sum unitTriangle (Sens exampleFlow exampleNodes) ![0, 1, 2] 0 rfl
    (by simp [unitTriangle]) (by simp [unitTriangle]) (by simp [unitTriangle])
    (fun _ => rfl) (by simp [Sens, exampleFlow, exampleNodes])
    (by simp [Sens, exampleFlow, exampleNodes]) (by simp [Sens, exampleFlow, exampleNodes]) 0 0
  have hval : (gradSweep2 unitTriangle exampleFlow exampleNodes).AnisoGrad 0 0 = 2 := by
    rw [gradSweep2, g1]
    simpa [exampleNodes] using key
  rintro ⟨h, -⟩
  rw [hval] at h
  norm_num at h

/-- C4 (PSD guarantee of the metric regularizer).  For every packed 2x2 input `p` and every
packed 3x3 input `q`, the matrix obtained by unpack, decompose, absolute value of every
eigenvalue, recompose, repack is symmetric and positive semi-definite, and the repacked
slots represent the recomposed dense matrix exactly.  This holds for whatever the
eigen-solver returns, in particular for an exact orthonormal decomposition. -/
theorem regularize_psd (ED2 : EigenSolver K 2) (ED3 : EigenSolver K 3) (p : Fin 3 → K)
    (q : Fin 6 → K) :
    ((unpack2 (regularize2 ED2 p)).IsSymm ∧ IsPSD (unpack2 (regularize2 ED2 p)) ∧
      unpack2 (regularize2 ED2 p) = regularizeDense ED2 (unpack2 p)) ∧
    ((unpack3 (regularize3 ED3 q)).IsSymm ∧ IsPSD (unpack3 (regularize3 ED3 q)) ∧
      unpack3 (regularize3 ED3 q) = regularizeDense ED3 (unpack3 q)) := by
  refine ⟨⟨?_, ?_, unpack2_regularize2 ED2 p⟩, ⟨?_, ?_, unpack3_regularize3 ED3 q⟩⟩
  · rw [unpack2_regularize2]; exact regularizeDense_isSymm ED2 _
  · rw [unpack2_regularize2]; exact regularizeDense_isPSD ED2 _
  · rw [unpack3_regularize3]; exact regularizeDense_isSymm ED3 _
  · rw [unpack3_regularize3]; exact regularizeDense_isPSD ED3 _

/-- C5 (idempotence of regularization).  If the eigen-solver is exact on the regularized
matrix, regularizing a second time changes nothing, in 2D and in 3D. -/
theorem regularize_idempotent (ED2 : EigenSolver K 2) (ED3 : EigenSolver K 3) (p : Fin 3 → K)
    (q : Fin 6 → K) :
    (ExactAt ED2 (unpack2 (regularize2 ED2 p)) →
      regularize2 ED2 (regularize2 ED2 p) = regularize2 ED2 p) ∧
    (ExactAt ED3 (unpack3 (regularize3 ED3 q)) →
      regularize3 ED3 (regularize3 ED3 q) = regularize3 ED3 q) := by
  constructor
  · intro hex
    have hpsd : IsPSD (unpack2 (regularize2 ED2 p)) := by
      rw [unpack2_regularize2]; exact regularizeDense_isPSD ED2 _
    show pack2 (regularizeDense ED2 (unpack2 (regularize2 ED2 p))) = regularize2 ED2 p
    rw [regularizeDense_of_isPSD ED2 _ hex hpsd, pack2_unpack2]
  · intro hex
    have hpsd : IsPSD (unpack3 (regularize3 ED3 q)) := by
      rw [unpack3_regularize3]; exact regularizeDense_isPSD ED3 _
    show pack3 (regularizeDense ED3 (unpack3 (regularize3 ED3 q))) = regularize3 ED3 q
    rw [regularizeDense_of_isPSD ED3 _ hex hpsd, pack3_unpack3]

/-- Witness for C5: the indefinite matrix `[[-7/25, 24/25], [24/25, 7/25]]` (eigenvalues
`1, -1` in the basis `rot345`) and the 3D matrix `diag(-1, 2, -3)`. -/
theorem regularize_idempotent_witness :
    regularize2 (fixedBasisSolver rot345)
        (regularize2 (fixedBasisSolver rot345) ![-7 / 25, 24 / 25, 7 / 25])
      = regularize2 (fixedBasisSolver rot345) ![-7 / 25, 24 / 25, 7 / 25] ∧
    regularize3 (fixedBasisSolver 1)
        (regularize3 (fixedBasisSolver 1) (![-1, 0, 0, 2, 0, -3] : Fin 6 → ℚ))
      = regularize3 (fixedBasisSolver 1) (![-1, 0, 0, 2, 0, -3] : Fin 6 → ℚ) :=
  ⟨(regularize_idempotent (fixedBasisSolver rot345) (fixedBasisSolver 1)
      ![-7 / 25, 24 / 25, 7 / 25] ![-1, 0, 0, 2, 0, -3]).1
      (by rw [regularize2_rot345_example]; exact rot345_exactAt_one),
    (regularize_idempotent (fixedBasisSolver rot345) (fixedBasisSolver 1)
      ![-7 / 25, 24 / 25, 7 / 25] ![-1, 0, 0, 2, 0, -3]).2
      (by
        rw [unpack3_regularize3, regularizeDense_fixedBasis_one]
        exact fixedBasisSolver_one_exactAt_diagonal _)⟩

/-- C6 (regularization fixes PSD inputs).  If the unpacked input is positive semi-definite
and the eigen-solver is exact on it, the regularized packed output equals the packed input,
in 2D and in 3D. -/
theorem regularize_fixes_psd (ED2 : EigenSolver K 2) (ED3 : EigenSolver K 3) (p : Fin 3 → K)
    (q : Fin 6 → K) :
    (IsPSD (unpack2 p) → ExactAt ED2 (unpack2 p) → regularize2 ED2 p = p) ∧
    (IsPSD (unpack3 q) → ExactAt ED3 (unpack3 q) → regularize3 ED3 q = q) := by
  constructor
  · intro hpsd hex
    show pack2 (regularizeDense ED2 (unpack2 p)) = p
    rw [regularizeDense_of_isPSD ED2 _ hex hpsd, pack2_unpack2]
  · intro hpsd hex
    show pack3 (regularizeDense ED3 (unpack3 q)) = q
    rw [regularizeDense_of_isPSD ED3 _ hex hpsd, pack3_unpack3]

/-- Witness for C6: the PSD matrices `[[41/25, -12/25], [-12/25, 34/25]]` (eigenvalues
`1, 2` in the basis `rot345`) and `diag(1, 2, 3)`. -/
theorem regularize_fixes_psd_witness :
    regularize2 (fixedBasisSolver rot345) ![41 / 25, -12 / 25, 34 / 25]
      = ![41 / 25, -12 / 25, 34 / 25] ∧
    regularize3 (fixedBasisSolver 1) (![1, 0, 0, 2, 0, 3] : Fin 6 → ℚ) = ![1, 0, 0, 2, 0, 3] :=
  ⟨(regularize_fixes_psd (fixedBasisSolver rot345) (fixedBasisSolver 1)
      ![41 / 25, -12 / 25, 34 / 25] ![1, 0, 0, 2, 0, 3]).1
      (by
        intro x
        simp only [unpack2, Matrix.dotProduct, Matrix.mulVec, Fin.sum_univ_two]
        simp
        nlinarith [sq_nonneg (3 * x 0 + 4 * x 1), sq_nonneg (-4 * x 0 + 3 * x 1)])
      rot345_exactAt_psd_example,
    (regularize_fixes_psd (fixedBasisSolver rot345) (fixedBasisSolver 1)
      ![41 / 25, -12 / 25, 34 / 25] ![1, 0, 0, 2, 0, 3]).2
      (by
        intro x
        rw [unpack3_diag_example]
        simp only [Matrix.dotProduct, Matrix.mulVec_diagonal, Fin.sum_univ_three]
        simp
        nlinarith [sq_nonneg (x 0), sq_nonneg (x 1), sq_nonneg (x 2)])
      (by
        rw [unpack3_diag_example]
        exact fixedBasisSolver_one_exactAt_diagonal _)⟩

/-- C7 (concrete example 2).  With an eigen-solver that is exact on `[[-1,0],[0,-3]]`, the
2D regularization step applied to the packed Hessian `(-1, 0, -3)` yields `(1, 0, 3)`. -/
theorem example2_regularize (ED : EigenSolver K 2)
    (hex : ExactAt ED (unpack2 (![-1, 0, -3] : Fin 3 → K))) :
    regularize2 ED (![-1, 0, -3] : Fin 3 → K) = ![1, 0, 3] := by
  have hnsd : ∀ x : Fin 2 → K,
      Matrix.dotProduct x (Matrix.mulVec (unpack2 (![-1, 0, -3] : Fin 3 → K)) x) ≤ 0 := by
    intro x
    simp only [unpack2, Matrix.dotProduct, Matrix.mulVec, Fin.sum_univ_two]
    simp
    nlinarith [mul_self_nonneg (x 0), mul_self_nonneg (x 1)]
  show pack2 (regularizeDense ED (unpack2 ![-1, 0, -3])) = ![1, 0, 3]
  rw [regularizeDense_of_nsd ED _ hex hnsd]
  funext i
  fin_cases i <;> simp [pack2, unpack2]

/-- Witness for C7: the eigen-solver working in the standard basis is exact on
`[[-1,0],[0,-3]]`. -/
theorem example2_regularize_witness :
    regularize2 (fixedBasisSolver 1) (![-1, 0, -3] : Fin 3 → ℚ) = ![1, 0, 3] :=
  example2_regularize (fixedBasisSolver 1)
    (by
      rw [unpack2_diag_example]
      exact fixedBasisSolver_one_exactAt_diagonal _)

/-- C8 (packing round trip).  In 2D and in 3D, `unpack (pack M) = M` for every symmetric
dense matrix `M`, and `pack (unpack p) = p` for every packed vector `p`. -/
theorem packing_round_trip {F : Type} :
    (∀ M : Matrix (Fin 2) (Fin 2) F, M.IsSymm → unpack2 (pack2 M) = M) ∧
    (∀ p : Fin 3 → F, pack2 (unpack2 p) = p) ∧
    (∀ M : Matrix (Fin 3) (Fin 3) F, M.IsSymm → unpack3 (pack3 M) = M) ∧
    (∀ q : Fin 6 → F, pack3 (unpack3 q) = q) :=
  ⟨unpack2_pack2, pack2_unpack2, unpack3_pack3, pack3_unpack3⟩

/-- Witness for C8: a symmetric 2x2 and a symmetric 3x3 matrix. -/
theorem packing_round_trip_witness :
    unpack2 (pack2 (!![1, 2; 2, 3] : Matrix (Fin 2) (Fin 2) ℚ)) = !![1, 2; 2, 3] ∧
    unpack3 (pack3 (!![1, 2, 3; 2, 4, 5; 3, 5, 6] : Matrix (Fin 3) (Fin 3) ℚ))
      = !![1, 2, 3; 2, 4, 5; 3, 5, 6] :=
  ⟨packing_round_trip.1 _ (by
      ext i j
      fin_cases i <;> fin_cases j <;> rfl),
    packing_round_trip.2.2.1 _ (by
      ext i j
      fin_cases i <;> fin_cases j <;> rfl)⟩

/-- C9, as amended (field-level PSD invariant).  After `SetHessian_L2Proj2` (resp.
`SetHessian_L2Proj3`) completes, for every locally owned vertex `iPoint < nPointDomain` and
every flux, both the unpacked convective Hessian and the unpacked viscous Hessian stored at
that vertex are positive semi-definite and have all eigenvalues `≥ 0`, whatever the halo
exchange, the boundary correction and the eigen-solver returned. -/
theorem hessian_psd_owned :
    (∀ (Comms : CommTag → CTurbSAVariable K 2 → CTurbSAVariable K 2)
        (CorrectBoundAnisoHess : CTurbSAVariable K 2 → CTurbSAVariable K 2)
        (ED : EigenSolver K 2) (geometry : CGeometry K 2 3) (nodes : CTurbSAVariable K 2)
        (iPoint : Nat) (iFlux : Fin 2), iPoint < geometry.nPointDomain →
      (IsPSD (unpack2 (block2 iFlux.val
          ((SetHessian_L2Proj2 Comms CorrectBoundAnisoHess ED geometry nodes).AnisoHess iPoint))) ∧
        EigenvaluesNonneg (unpack2 (block2 iFlux.val
          ((SetHessian_L2Proj2 Comms CorrectBoundAnisoHess ED geometry nodes).AnisoHess iPoint)))) ∧
      (IsPSD (unpack2 (block2 iFlux.val
          ((SetHessian_L2Proj2 Comms CorrectBoundAnisoHess ED geometry nodes).AnisoViscHess
            iPoint))) ∧
        EigenvaluesNonneg (unpack2 (block2 iFlux.val
          ((SetHessian_L2Proj2 Comms CorrectBoundAnisoHess ED geometry nodes).AnisoViscHess
            iPoint))))) ∧
    (∀ (Comms : CommTag → CTurbSAVariable K 3 → CTurbSAVariable K 3)
        (CorrectBoundAnisoHess : CTurbSAVariable K 3 → CTurbSAVariable K 3)
        (ED : EigenSolver K 3) (geometry : CGeometry K 3 4) (nodes : CTurbSAVariable K 3)
        (iPoint : Nat) (iFlux : Fin 3), iPoint < geometry.nPointDomain →
      (IsPSD (unpack3 (block3 iFlux.val
          ((SetHessian_L2Proj3 Comms CorrectBoundAnisoHess ED geometry nodes).AnisoHess iPoint))) ∧
        EigenvaluesNonneg (unpack3 (block3 iFlux.val
          ((SetHessian_L2Proj3 Comms CorrectBoundAnisoHess ED geometry nodes).AnisoHess iPoint)))) ∧
      (IsPSD (unpack3 (block3 iFlux.val
          ((SetHessian_L2Proj3 Comms CorrectBoundAnisoHess ED geometry nodes).AnisoViscHess
            iPoint))) ∧
        EigenvaluesNonneg (unpack3 (block3 iFlux.val
          ((SetHessian_L2Proj3 Comms CorrectBoundAnisoHess ED geometry nodes).AnisoViscHess
            iPoint))))) := by
  constructor
  · intro Comms CB ED geometry nodes iPoint iFlux hown
    obtain ⟨h1, h2⟩ := SetHessian_L2Proj2_fields Comms CB ED geometry nodes iPoint
    rw [h1, h2, if_pos hown, if_pos hown, block2_regSlots2, block2_regSlots2]
    exact ⟨regularize2_psd_eigen ED _, regularize2_psd_eigen ED _⟩
  · intro Comms CB ED geometry nodes iPoint iFlux hown
    obtain ⟨h1, h2⟩ := SetHessian_L2Proj3_fields Comms CB ED geometry nodes iPoint
    rw [h1, h2, if_pos hown, if_pos hown, block3_regSlots3, block3_regSlots3]
    exact ⟨regularize3_psd_eigen ED _, regularize3_psd_eigen ED _⟩

/-- Witness for C9 (amended): the owned vertex 0 of `haloMesh` (2D) and the owned vertex 4
of `doubleTet` (3D). -/
theorem hessian_psd_owned_witness :
    ((IsPSD (unpack2 (block2 (1 : Fin 2).val
        ((SetHessian_L2Proj2 haloComms id (fixedBasisSolver 1) haloMesh exampleNodes).AnisoHess
          0))) ∧
      EigenvaluesNonneg (unpack2 (block2 (1 : Fin 2).val
        ((SetHessian_L2Proj2 haloComms id (fixedBasisSolver 1) haloMesh exampleNodes).AnisoHess
          0)))) ∧
    (IsPSD (unpack2 (block2 (1 : Fin 2).val
        ((SetHessian_L2Proj2 haloComms id (fixedBasisSolver 1) haloMesh exampleNodes).AnisoViscHess
          0))) ∧
      EigenvaluesNonneg (unpack2 (block2 (1 : Fin 2).val
        ((SetHessian_L2Proj2 haloComms id (fixedBasisSolver 1) haloMesh exampleNodes).AnisoViscHess
          0))))) ∧
    ((IsPSD (unpack3 (block3 (2 : Fin 3).val
        ((SetHessian_L2Proj3 (fun _ X => X) id (fixedBasisSolver 1) doubleTet tetNodes).AnisoHess
          4))) ∧
      EigenvaluesNonneg (unpack3 (block3 (2 : Fin 3).val
        ((SetHessian_L2Proj3 (fun _ X => X) id (fixedBasisSolver 1) doubleTet tetNodes).AnisoHess
          4)))) ∧
    (IsPSD (unpack3 (block3 (2 : Fin 3).val
        ((SetHessian_L2Proj3 (fun _ X => X) id (fixedBasisSolver 1) doubleTet
          tetNodes).AnisoViscHess 4))) ∧
      EigenvaluesNonneg (unpack3 (block3 (2 : Fin 3).val
        ((SetHessian_L2Proj3 (fun _ X => X) id (fixedBasisSolver 1) doubleTet
          tetNodes).AnisoViscHess 4))))) :=
  ⟨hessian_psd_owned.1 haloComms id (fixedBasisSolver 1) haloMesh exampleNodes 0 1
      (by decide),
    hessian_psd_owned.2 (fun _ X => X) id (fixedBasisSolver 1) doubleTet tetNodes 4 2
      (by decide)⟩

/-- C9 as stated fails: on a partition whose vertex 2 is a halo copy, a halo exchange that
delivers the packed Hessian `(-1, 0, -3)` to it leaves, after `SetHessian_L2Proj2`, an
unpacked convective Hessian at that vertex with the negative eigenvalue `-1`. -/
theorem hessian_psd_counterexample :
    haloMesh.nPointDomain ≤ 2 ∧ 2 < haloMesh.nPoint ∧
    block2 0 ((SetHessian_L2Proj2 haloComms id (fixedBasisSolver 1) haloMesh
        exampleNodes).AnisoHess 2) = ![-1, 0, -3] ∧
    ¬ EigenvaluesNonneg (unpack2 (block2 0
      ((SetHessian_L2Proj2 haloComms id (fixedBasisSolver 1) haloMesh exampleNodes).AnisoHess
        2))) := by
  have hval : block2 0 ((SetHessian_L2Proj2 haloComms id (fixedBasisSolver 1) haloMesh
      exampleNodes).AnisoHess 2) = ![-1, 0, -3] := by
    rw [(SetHessian_L2Proj2_fields haloComms id (fixedBasisSolver 1) haloMesh exampleNodes 2).1,
      if_neg (by decide)]
    funext m
    fin_cases m <;> simp [block2, haloComms]
  refine ⟨by decide, by decide, hval, ?_⟩
  rw [hval]
  intro h
  have h1 := h (-1) ![1, 0] (by
    intro h0
    have := congrFun h0 0
    simp at this) (by
    funext i
    fin_cases i <;> simp [unpack2, Matrix.mulVec, Matrix.dotProduct, Fin.sum_univ_two])
  norm_num at h1

/-- C10, as amended (degenerate elements are not rejected).  The sweeps have no failure
path: the geometry step and the element steps are total functions.  For every element of
zero measure, in 2D and in 3D:
the value that the orientation check compares with `0.` is zero in exact arithmetic at
every vertex of the element, so the geometry does not determine the outcome of the
comparison; whatever the outcomes `flip` of the comparisons are, the geometry step stores
for each vertex the raw normal or its negative; and whatever normals `vn` the geometry step
stored, the gradient element step adds `raw gradient * 1/(6 Vol)` (2D) or `* 1/(24 Vol)`
(3D), computed with `vn`, to the convective and to the viscous gradient accumulator of each
vertex of the element, and the Hessian element step adds `raw Hessian * 1/(6 Vol)` or
`* 1/(24 Vol)` to the convective and to the viscous Hessian accumulator of each vertex of
the element.  The element steps of the source are these steps for the normals of the
geometry step. -/
theorem degenerate_not_rejected :
    (∀ Crd : Fin 3 → Fin 2 → K, triArea Crd = 0 →
      (∀ i, inwardTest2 Crd (rawNormals2 Crd) i = 0) ∧
      ∀ (flip : Fin 3 → Bool) (i : Fin 3),
        (orientedNormalsWith2 flip Crd).vnx i
          = (if flip i then - (rawNormals2 Crd).vnx i else (rawNormals2 Crd).vnx i) ∧
        (orientedNormalsWith2 flip Crd).vny i
          = (if flip i then - (rawNormals2 Crd).vny i else (rawNormals2 Crd).vny i)) ∧
    (∀ (geometry : CGeometry K 2 3) (solver_flow : CFlowVariable K 2)
        (nodes : CTurbSAVariable K 2) (vn : Normals2 K) (e : Fin 3 → Nat) (k : Nat)
        (iFlux d : Fin 2),
      triArea (elemCrd geometry e) = 0 →
      (gradElemN2 geometry solver_flow nodes vn e).AnisoGrad k (iFlux.val * 2 + d.val)
          = nodes.AnisoGrad k (iFlux.val * 2 + d.val)
            + ∑ iNode : Fin 3, (if k = e iNode then
                graTri vn (fun iNode => Sens solver_flow nodes (e iNode) iFlux) d
                  * (1 / (geometry.GetVolume (e iNode) * 6)) else 0) ∧
      (gradElemN2 geometry solver_flow nodes vn e).AnisoViscGrad k (iFlux.val * 2 + d.val)
          = nodes.AnisoViscGrad k (iFlux.val * 2 + d.val)
            + ∑ iNode : Fin 3, (if k = e iNode then
                graTri vn (fun iNode => SensVisc solver_flow nodes (e iNode) iFlux) d
                  * (1 / (geometry.GetVolume (e iNode) * 6)) else 0)) ∧
    (∀ (geometry : CGeometry K 2 3) (nodes : CTurbSAVariable K 2) (vn : Normals2 K)
        (e : Fin 3 → Nat) (k : Nat) (iFlux : Fin 2) (m : Fin 3),
      triArea (elemCrd geometry e) = 0 →
      (hessElemN2 geometry nodes vn e).AnisoHess k (iFlux.val * 3 + m.val)
          = nodes.AnisoHess k (iFlux.val * 3 + m.val)
            + ∑ iNode : Fin 3, (if k = e iNode then
                hesTri vn (fun iNode d => storedGrad2 nodes.AnisoGrad (e iNode) d iFlux) m
                  * (1 / (geometry.GetVolume (e iNode) * 6)) else 0) ∧
      (hessElemN2 geometry nodes vn e).AnisoViscHess k (iFlux.val * 3 + m.val)
          = nodes.AnisoViscHess k (iFlux.val * 3 + m.val)
            + ∑ iNode : Fin 3, (if k = e iNode then
                hesTri vn (fun iNode d => storedGrad2 nodes.AnisoViscGrad (e iNode) d iFlux) m
                  * (1 / (geometry.GetVolume (e iNode) * 6)) else 0)) ∧
    (∀ Crd : Fin 4 → Fin 3 → K, tetVolume Crd = 0 →
      (∀ i, inwardTest3 Crd (rawNormals3 Crd) i = 0) ∧
      ∀ (flip : Fin 4 → Bool) (i : Fin 4),
        (orientedNormalsWith3 flip Crd).vnx i
          = (if flip i then - (rawNormals3 Crd).vnx i else (rawNormals3 Crd).vnx i) ∧
        (orientedNormalsWith3 flip Crd).vny i
          = (if flip i then - (rawNormals3 Crd).vny i else (rawNormals3 Crd).vny i) ∧
        (orientedNormalsWith3 flip Crd).vnz i
          = (if flip i then - (rawNormals3 Crd).vnz i else (rawNormals3 Crd).vnz i)) ∧
    (∀ (geometry : CGeometry K 3 4) (solver_flow : CFlowVariable K 3)
        (nodes : CTurbSAVariable K 3) (vn : Normals3 K) (e : Fin 4 → Nat) (k : Nat)
        (iFlux d : Fin 3),
      tetVolume (elemCrd geometry e) = 0 →
      (gradElemN3 geometry solver_flow nodes vn e).AnisoGrad k (iFlux.val * 3 + d.val)
          = nodes.AnisoGrad k (iFlux.val * 3 + d.val)
            + ∑ iNode : Fin 4, (if k = e iNode then
                graTet vn (fun iNode => Sens solver_flow nodes (e iNode) iFlux) d
                  * (1 / (geometry.GetVolume (e iNode) * 24)) else 0) ∧
      (gradElemN3 geometry solver_flow nodes vn e).AnisoViscGrad k (iFlux.val * 3 + d.val)
          = nodes.AnisoViscGrad k (iFlux.val * 3 + d.val)
            + ∑ iNode : Fin 4, (if k = e iNode then
                graTet vn (fun iNode => SensVisc solver_flow nodes (e iNode) iFlux) d
                  * (1 / (geometry.GetVolume (e iNode) * 24)) else 0)) ∧
    (∀ (geometry : CGeometry K 3 4) (nodes : CTurbSAVariable K 3) (vn : Normals3 K)
        (e : Fin 4 → Nat) (k : Nat) (iFlux : Fin 3) (m : Fin 6),
      tetVolume (elemCrd geometry e) = 0 →
      (hessElemN3 geometry nodes vn e).AnisoHess k (iFlux.val * 6 + m.val)
          = nodes.AnisoHess k (iFlux.val * 6 + m.val)
            + ∑ iNode : Fin 4, (if k = e iNode then
                hesTet vn (fun iNode d => storedGrad3 nodes.AnisoGrad (e iNode) d iFlux) m
                  * (1 / (geometry.GetVolume (e iNode) * 24)) else 0) ∧
      (hessElemN3 geometry nodes vn e).AnisoViscHess k (iFlux.val * 6 + m.val)
          = nodes.AnisoViscHess k (iFlux.val * 6 + m.val)
            + ∑ iNode : Fin 4, (if k = e iNode then
                hesTet vn (fun iNode d => storedGrad3 nodes.AnisoViscGrad (e iNode) d iFlux) m
                  * (1 / (geometry.GetVolume (e iNode) * 24)) else 0)) ∧
    (∀ (geometry : CGeometry K 2 3) (solver_flow : CFlowVariable K 2)
        (nodes : CTurbSAVariable K 2) (e : Fin 3 → Nat),
      gradElem2 geometry solver_flow nodes e
          = gradElemN2 geometry solver_flow nodes (orientedNormals2 (elemCrd geometry e)) e ∧
      hessElem2 geometry nodes e
          = hessElemN2 geometry nodes (orientedNormals2 (elemCrd geometry e)) e) ∧
    (∀ (geometry : CGeometry K 3 4) (solver_flow : CFlowVariable K 3)
        (nodes : CTurbSAVariable K 3) (e : Fin 4 → Nat),
      gradElem3 geometry solver_flow nodes e
          = gradElemN3 geometry solver_flow nodes (orientedNormals3 (elemCrd geometry e)) e ∧
      hessElem3 geometry nodes e
          = hessElemN3 geometry nodes (orientedNormals3 (elemCrd geometry e)) e) := by
  refine ⟨?_, ?_, ?_, ?_, ?_, ?_, ?_, ?_⟩
  · intro Crd h
    refine ⟨fun i => ?_, fun flip i => ?_⟩
    · rw [inwardTest2_of_raw, det2_eq_zero_of_triArea Crd h, neg_zero]
    · rw [orientedNormalsWith2_eq]
      exact ⟨rfl, rfl⟩
  · intro geometry solver_flow nodes vn e k iFlux d _
    exact gradElemN2_slot geometry solver_flow nodes vn e k iFlux d
  · intro geometry nodes vn e k iFlux m _
    exact hessElemN2_slot geometry nodes vn e k iFlux m
  · intro Crd h
    refine ⟨fun i => ?_, fun flip i => ?_⟩
    · rw [inwardTest3_of_raw, det3_eq_zero_of_tetVolume Crd h, mul_zero]
    · rw [orientedNormalsWith3_eq]
      exact ⟨rfl, rfl, rfl⟩
  · intro geometry solver_flow nodes vn e k iFlux d _
    exact gradElemN3_slot geometry solver_flow nodes vn e k iFlux d
  · intro geometry nodes vn e k iFlux m _
    exact hessElemN3_slot geometry nodes vn e k iFlux m
  · intro geometry solver_flow nodes e
    exact ⟨rfl, rfl⟩
  · intro geometry solver_flow nodes e
    exact ⟨rfl, rfl⟩

/-- Witness for C10 (amended): the collinear triangle `flatTriangle` and the coplanar
tetrahedron `flatTet`; on both the exact test values are all zero.  The gradient element
step adds the contribution computed with the stored normals when only the second normal of
`flatTriangle` was flipped, and on the collinear triangle `slantedLine` for the normals that
the geometry step stores in binary64. -/
theorem degenerate_not_rejected_witness :
    triArea (elemCrd flatTriangle ![0, 1, 2]) = 0 ∧
    (∀ i, inwardTest2 (elemCrd flatTriangle ![0, 1, 2])
      (rawNormals2 (elemCrd flatTriangle ![0, 1, 2])) i = 0) ∧
    tetVolume (elemCrd flatTet ![0, 1, 2, 3]) = 0 ∧
    (∀ i, inwardTest3 (elemCrd flatTet ![0, 1, 2, 3])
      (rawNormals3 (elemCrd flatTet ![0, 1, 2, 3])) i = 0) ∧
    (gradElemN2 flatTriangle flatFlow exampleNodes
        (orientedNormalsWith2 ![false, true, false] (elemCrd flatTriangle ![0, 1, 2]))
        ![0, 1, 2]).AnisoGrad 0 ((0 : Fin 2).val * 2 + (1 : Fin 2).val)
      = exampleNodes.AnisoGrad 0 ((0 : Fin 2).val * 2 + (1 : Fin 2).val)
        + ∑ iNode : Fin 3, (if 0 = (![0, 1, 2] : Fin 3 → Nat) iNode then
            graTri (orientedNormalsWith2 ![false, true, false] (elemCrd flatTriangle ![0, 1, 2]))
                (fun iNode => Sens flatFlow exampleNodes ((![0, 1, 2] : Fin 3 → Nat) iNode) 0) 1
              * (1 / (flatTriangle.GetVolume ((![0, 1, 2] : Fin 3 → Nat) iNode) * 6)) else 0) ∧
    triArea (elemCrd slantedLine ![0, 1, 2]) = 0 ∧
    (gradElemN2 slantedLine (scalarFlow (fun _ => 1)) unitNodes
        (orientedNormalsRnd2 fl64 (elemCrd slantedLine ![0, 1, 2]))
        ![0, 1, 2]).AnisoGrad 0 ((0 : Fin 2).val * 2 + (0 : Fin 2).val)
      = (unitNodes : CTurbSAVariable ℚ 2).AnisoGrad 0 ((0 : Fin 2).val * 2 + (0 : Fin 2).val)
        + ∑ iNode : Fin 3, (if 0 = (![0, 1, 2] : Fin 3 → Nat) iNode then
            graTri (orientedNormalsRnd2 fl64 (elemCrd slantedLine ![0, 1, 2]))
                (fun iNode => Sens (scalarFlow (fun _ => 1)) (unitNodes : CTurbSAVariable ℚ 2)
                  ((![0, 1, 2] : Fin 3 → Nat) iNode) 0) 0
              * (1 / (slantedLine.GetVolume ((![0, 1, 2] : Fin 3 → Nat) iNode) * 6)) else 0) :=
  ⟨by simp [triArea, det2, elemCrd, flatTriangle],
    ((@degenerate_not_rejected ℚ _).1 (elemCrd flatTriangle ![0, 1, 2])
      (by simp [triArea, det2, elemCrd, flatTriangle])).1,
    by simp [tetVolume, det3, elemCrd, flatTet],
    ((@degenerate_not_rejected ℚ _).2.2.2.1 (elemCrd flatTet ![0, 1, 2, 3])
      (by simp [tetVolume, det3, elemCrd, flatTet])).1,
    ((@degenerate_not_rejected ℚ _).2.1 flatTriangle flatFlow exampleNodes
      (orientedNormalsWith2 ![false, true, false] (elemCrd flatTriangle ![0, 1, 2]))
      ![0, 1, 2] 0 0 1 (by simp [triArea, det2, elemCrd, flatTriangle])).1,
    by simp only [triArea, det2, elemCrd, slantedLine]; norm_num,
    ((@degenerate_not_rejected ℚ _).2.1 slantedLine (scalarFlow (fun _ => 1)) unitNodes
      (orientedNormalsRnd2 fl64 (elemCrd slantedLine ![0, 1, 2]))
      ![0, 1, 2] 0 0 0 (by simp only [triArea, det2, elemCrd, slantedLine]; norm_num)).1⟩

/-- C10 as stated fails: for the collinear triangle `(0,0), (1,0), (2,0)` (area 0) the
geometry step returns the normals `(0,1), (0,-2), (0,1)` and the 2D gradient sweep, instead
of failing, adds the contribution `-1/3` to the `y`-slot of the gradient accumulator of
each of the three vertices. -/
theorem degenerate_counterexample :
    triArea (elemCrd flatTriangle ![0, 1, 2]) = 0 ∧
    (orientedNormals2 (elemCrd flatTriangle ![0, 1, 2])).vnx = ![0, 0, 0] ∧
    (orientedNormals2 (elemCrd flatTriangle ![0, 1, 2])).vny = ![1, -2, 1] ∧
    (∀ k, k < 3 → exampleNodes.AnisoGrad k 1 = 0 ∧
      (gradSweep2 flatTriangle flatFlow exampleNodes).AnisoGrad k 1 = -1 / 3) := by
  have hdet : det2 (elemCrd flatTriangle ![0, 1, 2]) = 0 := by
    simp [det2, elemCrd, flatTriangle]
  have hn := orientedNormals2_of_degenerate _ hdet
  refine ⟨by simp [triArea, hdet], ?_, ?_, ?_⟩
  · rw [hn]; funext i; fin_cases i <;> simp [rawNormals2, elemCrd, flatTriangle]
  · rw [hn]; funext i; fin_cases i <;> (simp [rawNormals2, elemCrd, flatTriangle]; try norm_num)
  · intro k hk
    refine ⟨rfl, ?_⟩
    obtain ⟨g1, -⟩ := gradSweep2_fold flatTriangle flatFlow flatTriangle.elem exampleNodes
    rw [gradSweep2, g1]
    have hs := gradContrib2_slot flatTriangle (Sens flatFlow exampleNodes) ![0, 1, 2] k 0 1
    simp only [Fin.val_zero, Fin.val_one, Nat.zero_mul, Nat.zero_add] at hs
    simp only [flatTriangle, List.map_cons, List.map_nil, List.sum_cons, List.sum_nil] at hs ⊢
    rw [hs]
    have hn' : orientedNormals2 (elemCrd flatTriangle ![0, 1, 2])
        = rawNormals2 (elemCrd flatTriangle ![0, 1, 2]) := hn
    simp only [flatTriangle] at hn'
    rw [hn']
    interval_cases k <;>
      simp [Fin.sum_univ_three, graTri, rawNormals2, elemCrd, Sens, flatFlow, exampleNodes] <;>
      norm_num

/-- C11 (accumulation formula).  Starting from zero accumulators and with every dual volume
positive, after the gradient sweep the accumulator of vertex `k` for flux `iFlux` and
direction `d` is the sum, over every element `e` and every local slot `m` of `e` that
references `k`, of `raw_d(e, iFlux) / (6 * Vol_k)` in 2D and `raw_d(e, iFlux) / (24 * Vol_k)`
in 3D, where `raw` (`graTri`, `graTet`) is the sum over the element's vertices of the sensor
value times the oriented normal; the same holds for the viscous accumulator with the
viscous sensor. -/
theorem accumulation_formula :
    (∀ (geometry : CGeometry K 2 3) (solver_flow : CFlowVariable K 2)
        (nodes : CTurbSAVariable K 2) (k : Nat) (iFlux d : Fin 2),
      (∀ v, 0 < geometry.GetVolume v) →
      ((∀ v s, nodes.AnisoGrad v s = 0) →
        (gradSweep2 geometry solver_flow nodes).AnisoGrad k (iFlux.val * 2 + d.val)
          = (geometry.elem.map (fun e => ∑ m : Fin 3, if e m = k then
              graTri (orientedNormals2 (elemCrd geometry e))
                  (fun iNode => Sens solver_flow nodes (e iNode) iFlux) d
                / (6 * geometry.GetVolume k) else 0)).sum) ∧
      ((∀ v s, nodes.AnisoViscGrad v s = 0) →
        (gradSweep2 geometry solver_flow nodes).AnisoViscGrad k (iFlux.val * 2 + d.val)
          = (geometry.elem.map (fun e => ∑ m : Fin 3, if e m = k then
              graTri (orientedNormals2 (elemCrd geometry e))
                  (fun iNode => SensVisc solver_flow nodes (e iNode) iFlux) d
                / (6 * geometry.GetVolume k) else 0)).sum)) ∧
    (∀ (geometry : CGeometry K 3 4) (solver_flow : CFlowVariable K 3)
        (nodes : CTurbSAVariable K 3) (k : Nat) (iFlux d : Fin 3),
      (∀ v, 0 < geometry.GetVolume v) →
      ((∀ v s, nodes.AnisoGrad v s = 0) →
        (gradSweep3 geometry solver_flow nodes).AnisoGrad k (iFlux.val * 3 + d.val)
          = (geometry.elem.map (fun e => ∑ m : Fin 4, if e m = k then
              graTet (orientedNormals3 (elemCrd geometry e))
                  (fun iNode => Sens solver_flow nodes (e iNode) iFlux) d
                / (24 * geometry.GetVolume k) else 0)).sum) ∧
      ((∀ v s, nodes.AnisoViscGrad v s = 0) →
        (gradSweep3 geometry solver_flow nodes).AnisoViscGrad k (iFlux.val * 3 + d.val)
          = (geometry.elem.map (fun e => ∑ m : Fin 4, if e m = k then
              graTet (orientedNormals3 (elemCrd geometry e))
                  (fun iNode => SensVisc solver_flow nodes (e iNode) iFlux) d
                / (24 * geometry.GetVolume k) else 0)).sum)) ∧
    (∀ (vn : Normals2 K) (S : Fin 3 → K),
      graTri vn S = ![∑ i, S i * vn.vnx i, ∑ i, S i * vn.vny i]) ∧
    (∀ (vn : Normals3 K) (S : Fin 4 → K),
      graTet vn S = ![∑ i, S i * vn.vnx i, ∑ i, S i * vn.vny i, ∑ i, S i * vn.vnz i]) := by
  refine ⟨?_, ?_, graTri_eq_sum, graTet_eq_sum⟩
  · intro geometry solver_flow nodes k iFlux d _
    obtain ⟨h1, h2, -⟩ := gradSweep2_fold geometry solver_flow geometry.elem nodes
    constructor
    · intro hzero
      rw [gradSweep2, h1, hzero, zero_add, sum_gradContrib2_div]
    · intro hzero
      rw [gradSweep2, h2, hzero, zero_add, sum_gradContrib2_div]
  · intro geometry solver_flow nodes k iFlux d _
    obtain ⟨h1, h2, -⟩ := gradSweep3_fold geometry solver_flow geometry.elem nodes
    constructor
    · intro hzero
      rw [gradSweep3, h1, hzero, zero_add, sum_gradContrib3_div]
    · intro hzero
      rw [gradSweep3, h2, hzero, zero_add, sum_gradContrib3_div]

/-- Witness for C11: vertex 0 of `squareMesh` (2D, flux 0, direction `y`) and vertex 0 of
`doubleTet` (3D, flux 1, direction `z`). -/
theorem accumulation_formula_witness :
    (gradSweep2 squareMesh squareFlow squareNodes).AnisoGrad 0
        ((0 : Fin 2).val * 2 + (1 : Fin 2).val)
      = (squareMesh.elem.map (fun e => ∑ m : Fin 3, if e m = 0 then
          graTri (orientedNormals2 (elemCrd squareMesh e))
              (fun iNode => Sens squareFlow squareNodes (e iNode) 0) 1
            / (6 * squareMesh.GetVolume 0) else 0)).sum ∧
    (gradSweep3 doubleTet tetFlow tetNodes).AnisoViscGrad 0
        ((1 : Fin 3).val * 3 + (2 : Fin 3).val)
      = (doubleTet.elem.map (fun e => ∑ m : Fin 4, if e m = 0 then
          graTet (orientedNormals3 (elemCrd doubleTet e))
              (fun iNode => SensVisc tetFlow tetNodes (e iNode) 1) 2
            / (24 * doubleTet.GetVolume 0) else 0)).sum :=
  ⟨(accumulation_formula.1 squareMesh squareFlow squareNodes 0 0 1
      (by intro v; simp only [squareMesh]; split_ifs <;> norm_num)).1 (fun _ _ => rfl),
    (accumulation_formula.2.1 doubleTet tetFlow tetNodes 0 1 2
      (by intro v; simp only [doubleTet]; split_ifs <;> norm_num)).2 (fun _ _ => rfl)⟩

/-- C12 (element-order independence).  For every mesh, flow state and initial accumulator
state, running the gradient element sweep, or the Hessian element sweep, over any
permutation `es` of the element list yields the same per-vertex accumulator values, in 2D
and in 3D, over exact arithmetic. -/
theorem order_independence :
    (∀ (geometry : CGeometry K 2 3) (solver_flow : CFlowVariable K 2)
        (nodes : CTurbSAVariable K 2) (es : List (Fin 3 → Nat)), es.Perm geometry.elem →
      ∀ k s,
        ((gradSweep2 { geometry with elem := es } solver_flow nodes).AnisoGrad k s
          = (gradSweep2 geometry solver_flow nodes).AnisoGrad k s ∧
        (gradSweep2 { geometry with elem := es } solver_flow nodes).AnisoViscGrad k s
          = (gradSweep2 geometry solver_flow nodes).AnisoViscGrad k s) ∧
        ((hessSweep2 { geometry with elem := es } nodes).AnisoHess k s
          = (hessSweep2 geometry nodes).AnisoHess k s ∧
        (hessSweep2 { geometry with elem := es } nodes).AnisoViscHess k s
          = (hessSweep2 geometry nodes).AnisoViscHess k s)) ∧
    (∀ (geometry : CGeometry K 3 4) (solver_flow : CFlowVariable K 3)
        (nodes : CTurbSAVariable K 3) (es : List (Fin 4 → Nat)), es.Perm geometry.elem →
      ∀ k s,
        ((gradSweep3 { geometry with elem := es } solver_flow nodes).AnisoGrad k s
          = (gradSweep3 geometry solver_flow nodes).AnisoGrad k s ∧
        (gradSweep3 { geometry with elem := es } solver_flow nodes).AnisoViscGrad k s
          = (gradSweep3 geometry solver_flow nodes).AnisoViscGrad k s) ∧
        ((hessSweep3 { geometry with elem := es } nodes).AnisoHess k s
          = (hessSweep3 geometry nodes).AnisoHess k s ∧
        (hessSweep3 { geometry with elem := es } nodes).AnisoViscHess k s
          = (hessSweep3 geometry nodes).AnisoViscHess k s)) := by
  constructor
  · intro geometry solver_flow nodes es hperm k s
    obtain ⟨g1, g2, -⟩ := gradSweep2_fold geometry solver_flow geometry.elem nodes
    obtain ⟨g1', g2', -⟩ := gradSweep2_fold geometry solver_flow es nodes
    obtain ⟨h1, h2, -⟩ := hessSweep2_fold geometry geometry.elem nodes
    obtain ⟨h1', h2', -⟩ := hessSweep2_fold geometry es nodes
    refine ⟨⟨?_, ?_⟩, ⟨?_, ?_⟩⟩
    · exact (g1' k s).trans (by rw [gradSweep2, g1, (hperm.map _).sum_eq])
    · exact (g2' k s).trans (by rw [gradSweep2, g2, (hperm.map _).sum_eq])
    · exact (h1' k s).trans (by rw [hessSweep2, h1, (hperm.map _).sum_eq])
    · exact (h2' k s).trans (by rw [hessSweep2, h2, (hperm.map _).sum_eq])
  · intro geometry solver_flow nodes es hperm k s
    obtain ⟨g1, g2, -⟩ := gradSweep3_fold geometry solver_flow geometry.elem nodes
    obtain ⟨g1', g2', -⟩ := gradSweep3_fold geometry solver_flow es nodes
    obtain ⟨h1, h2, -⟩ := hessSweep3_fold geometry geometry.elem nodes
    obtain ⟨h1', h2', -⟩ := hessSweep3_fold geometry es nodes
    refine ⟨⟨?_, ?_⟩, ⟨?_, ?_⟩⟩
    · exact (g1' k s).trans (by rw [gradSweep3, g1, (hperm.map _).sum_eq])
    · exact (g2' k s).trans (by rw [gradSweep3, g2, (hperm.map _).sum_eq])
    · exact (h1' k s).trans (by rw [hessSweep3, h1, (hperm.map _).sum_eq])
    · exact (h2' k s).trans (by rw [hessSweep3, h2, (hperm.map _).sum_eq])

/-- Witness for C12: the two triangles of `squareMesh` and the two tetrahedra of `doubleTet`
in reversed order. -/
theorem order_independence_witness :
    (gradSweep2 { squareMesh with elem := [![0, 3, 2], ![0, 1, 2]] } squareFlow
        squareNodes).AnisoGrad 2 1
      = (gradSweep2 squareMesh squareFlow squareNodes).AnisoGrad 2 1 ∧
    (hessSweep3 { doubleTet with elem := [![0, 1, 2, 4], ![0, 1, 2, 3]] } tetNodes).AnisoHess 0 4
      = (hessSweep3 doubleTet tetNodes).AnisoHess 0 4 :=
  ⟨((order_independence.1 squareMesh squareFlow squareNodes [![0, 3, 2], ![0, 1, 2]]
      (List.Perm.swap _ _ _) 2 1).1).1,
    ((order_independence.2 doubleTet tetFlow tetNodes [![0, 1, 2, 4], ![0, 1, 2, 3]]
      (List.Perm.swap _ _ _) 0 4).2).1⟩

/-- C13, as amended (fields are merged, not reset).  None of the four element sweeps zeroes
its accumulators: the field a sweep produces is the accumulators' content before the call
plus the sweep's contribution, and that contribution is the same for two initial states with
the same mesh and sensors (gradient sweeps) or the same stored gradient (Hessian sweeps).
Hence the resulting fields differ exactly by the difference of the initial contents. -/
theorem accumulators_merged :
    (∀ (geometry : CGeometry K 2 3) (solver_flow : CFlowVariable K 2)
        (nodes nodes' : CTurbSAVariable K 2) (k s : Nat),
      (nodes.GetSolution = nodes'.GetSolution → nodes.GetGradient = nodes'.GetGradient →
        (gradSweep2 geometry solver_flow nodes).AnisoGrad k s - nodes.AnisoGrad k s
          = (gradSweep2 geometry solver_flow nodes').AnisoGrad k s - nodes'.AnisoGrad k s ∧
        (gradSweep2 geometry solver_flow nodes).AnisoViscGrad k s - nodes.AnisoViscGrad k s
          = (gradSweep2 geometry solver_flow nodes').AnisoViscGrad k s
            - nodes'.AnisoViscGrad k s) ∧
      (nodes.AnisoGrad = nodes'.AnisoGrad → nodes.AnisoViscGrad = nodes'.AnisoViscGrad →
        (hessSweep2 geometry nodes).AnisoHess k s - nodes.AnisoHess k s
          = (hessSweep2 geometry nodes').AnisoHess k s - nodes'.AnisoHess k s ∧
        (hessSweep2 geometry nodes).AnisoViscHess k s - nodes.AnisoViscHess k s
          = (hessSweep2 geometry nodes').AnisoViscHess k s - nodes'.AnisoViscHess k s)) ∧
    (∀ (geometry : CGeometry K 3 4) (solver_flow : CFlowVariable K 3)
        (nodes nodes' : CTurbSAVariable K 3) (k s : Nat),
      (nodes.GetSolution = nodes'.GetSolution → nodes.GetGradient = nodes'.GetGradient →
        (gradSweep3 geometry solver_flow nodes).AnisoGrad k s - nodes.AnisoGrad k s
          = (gradSweep3 geometry solver_flow nodes').AnisoGrad k s - nodes'.AnisoGrad k s ∧
        (gradSweep3 geometry solver_flow nodes).AnisoViscGrad k s - nodes.AnisoViscGrad k s
          = (gradSweep3 geometry solver_flow nodes').AnisoViscGrad k s
            - nodes'.AnisoViscGrad k s) ∧
      (nodes.AnisoGrad = nodes'.AnisoGrad → nodes.AnisoViscGrad = nodes'.AnisoViscGrad →
        (hessSweep3 geometry nodes).AnisoHess k s - nodes.AnisoHess k s
          = (hessSweep3 geometry nodes').AnisoHess k s - nodes'.AnisoHess k s ∧
        (hessSweep3 geometry nodes).AnisoViscHess k s - nodes.AnisoViscHess k s
          = (hessSweep3 geometry nodes').AnisoViscHess k s - nodes'.AnisoViscHess k s)) := by
  constructor
  · intro geometry solver_flow nodes nodes' k s
    obtain ⟨g1, g2, -⟩ := gradSweep2_fold geometry solver_flow geometry.elem nodes
    obtain ⟨g1', g2', -⟩ := gradSweep2_fold geometry solver_flow geometry.elem nodes'
    obtain ⟨h1, h2, -⟩ := hessSweep2_fold geometry geometry.elem nodes
    obtain ⟨h1', h2', -⟩ := hessSweep2_fold geometry geometry.elem nodes'
    constructor
    · intro hs hg
      rw [gradSweep2, gradSweep2, g1, g2, g1', g2', Sens_congr solver_flow _ _ hs,
        SensVisc_congr solver_flow _ _ hs hg]
      constructor <;> ring
    · intro ha hv
      rw [hessSweep2, hessSweep2, h1, h2, h1', h2', ha, hv]
      constructor <;> ring
  · intro geometry solver_flow nodes nodes' k s
    obtain ⟨g1, g2, -⟩ := gradSweep3_fold geometry solver_flow geometry.elem nodes
    obtain ⟨g1', g2', -⟩ := gradSweep3_fold geometry solver_flow geometry.elem nodes'
    obtain ⟨h1, h2, -⟩ := hessSweep3_fold geometry geometry.elem nodes
    obtain ⟨h1', h2', -⟩ := hessSweep3_fold geometry geometry.elem nodes'
    constructor
    · intro hs hg
      rw [gradSweep3, gradSweep3, g1, g2, g1', g2', Sens_congr solver_flow _ _ hs,
        SensVisc_congr solver_flow _ _ hs hg]
      constructor <;> ring
    · intro ha hv
      rw [hessSweep3, hessSweep3, h1, h2, h1', h2', ha, hv]
      constructor <;> ring

/-- Witness for C13 (amended): the zero state `exampleNodes` against the same state with
preset gradient accumulators, on the unit triangle. -/
theorem accumulators_merged_witness :
    (gradSweep2 unitTriangle exampleFlow exampleNodes).AnisoGrad 0 0 - exampleNodes.AnisoGrad 0 0
      = (gradSweep2 unitTriangle exampleFlow presetNodes).AnisoGrad 0 0
        - presetNodes.AnisoGrad 0 0 ∧
    (hessSweep2 unitTriangle exampleNodes).AnisoHess 0 0 - exampleNodes.AnisoHess 0 0
      = (hessSweep2 unitTriangle { exampleNodes with AnisoHess := fun _ _ => 1 }).AnisoHess 0 0
        - 1 :=
  ⟨((accumulators_merged.1 unitTriangle exampleFlow exampleNodes presetNodes 0 0).1 rfl rfl).1,
    ((accumulators_merged.1 unitTriangle exampleFlow exampleNodes
      { exampleNodes with AnisoHess := fun _ _ => 1 } 0 0).2 rfl rfl).1⟩

/-- C13 as stated fails: on the unit triangle, with the same mesh and the same sensors,
`SetTurbGradient_L2Proj2` (with a halo exchange that changes nothing) started from zero
accumulators and started from accumulators preset to 1 produces different gradient fields
(2 against 3 in slot 0 of vertex 0). -/
theorem accumulators_reset_counterexample :
    Sens exampleFlow exampleNodes = Sens exampleFlow presetNodes ∧
    SensVisc exampleFlow exampleNodes = SensVisc exampleFlow presetNodes ∧
    (gradSweep2 unitTriangle exampleFlow exampleNodes).AnisoGrad 0 0 = 2 ∧
    (gradSweep2 unitTriangle exampleFlow presetNodes).AnisoGrad 0 0 = 3 ∧
    (SetTurbGradient_L2Proj2 (fun _ X => X) unitTriangle exampleFlow exampleNodes).AnisoGrad 0 0
      ≠ (SetTurbGradient_L2Proj2 (fun _ X => X) unitTriangle exampleFlow
          presetNodes).AnisoGrad 0 0 := by
  obtain ⟨g1, -⟩ := gradSweep2_fold unitTriangle exampleFlow unitTriangle.elem exampleNodes
  obtain ⟨g1', -⟩ := gradSweep2_fold unitTriangle exampleFlow unitTriangle.elem presetNodes
  have key := unitTriangle_sum unitTriangle (Sens exampleFlow exampleNodes) ![0, 1, 2] 0 rfl
    (by simp [unitTriangle]) (by simp [unitTriangle]) (by simp [unitTriangle])
    (fun _ => rfl) (by simp [Sens, exampleFlow, exampleNodes])
    (by simp [Sens, exampleFlow, exampleNodes]) (by simp [Sens, exampleFlow, exampleNodes]) 0 0
  have hS : Sens exampleFlow exampleNodes = Sens exampleFlow presetNodes := rfl
  have hval : (gradSweep2 unitTriangle exampleFlow exampleNodes).AnisoGrad 0 0 = 2 := by
    rw [gradSweep2, g1]
    simpa [exampleNodes] using key
  have hval' : (gradSweep2 unitTriangle exampleFlow presetNodes).AnisoGrad 0 0 = 3 := by
    rw [gradSweep2, g1', ← hS]
    have h1 : presetNodes.AnisoGrad 0 0 = 1 := rfl
    rw [h1]
    have key' : (unitTriangle.elem.map (fun e =>
        gradContrib2 unitTriangle (Sens exampleFlow exampleNodes) e 0 0)).sum = 2 := by
      simpa using key
    rw [key']; norm_num
  refine ⟨hS, rfl, hval, hval', ?_⟩
  show (gradSweep2 unitTriangle exampleFlow exampleNodes).AnisoGrad 0 0
    ≠ (gradSweep2 unitTriangle exampleFlow presetNodes).AnisoGrad 0 0
  rw [hval, hval']; norm_num

/-- C14 (vertex-ordering invariance in 2D).  For every non-degenerate triangle, every
assignment `S` of sensor values to its vertices and every reordering `σ` of its vertex list
(sensor values and dual volumes follow their vertices), the raw element gradient `graTri`
is the same, and the element adds the same amounts to the convective and viscous gradient
accumulators of every vertex. -/
theorem vertex_order_invariance_2D (σ : Equiv.Perm (Fin 3)) :
    (∀ (Crd : Fin 3 → Fin 2 → K) (S : Fin 3 → K), triArea Crd ≠ 0 →
      graTri (orientedNormals2 (fun i => Crd (σ i))) (fun i => S (σ i))
        = graTri (orientedNormals2 Crd) S) ∧
    (∀ (geometry : CGeometry K 2 3) (solver_flow : CFlowVariable K 2)
        (nodes : CTurbSAVariable K 2) (e : Fin 3 → Nat), triArea (elemCrd geometry e) ≠ 0 →
      ∀ k s,
        (gradElem2 geometry solver_flow nodes (fun i => e (σ i))).AnisoGrad k s
          = (gradElem2 geometry solver_flow nodes e).AnisoGrad k s ∧
        (gradElem2 geometry solver_flow nodes (fun i => e (σ i))).AnisoViscGrad k s
          = (gradElem2 geometry solver_flow nodes e).AnisoViscGrad k s) := by
  constructor
  · intro Crd S hnd
    exact graTri_perm σ Crd S (det2_ne_zero_of_triArea Crd hnd)
  · intro geometry solver_flow nodes e hnd k s
    have hd := det2_ne_zero_of_triArea _ hnd
    rw [gradElem2_AnisoGrad, gradElem2_AnisoGrad, gradElem2_AnisoViscGrad,
      gradElem2_AnisoViscGrad, gradContrib2_perm σ geometry _ e hd,
      gradContrib2_perm σ geometry _ e hd]
    exact ⟨rfl, rfl⟩

/-- Witness for C14: the first triangle of `squareMesh` with its vertex list reversed
(a swap of the local vertices 0 and 2, which reverses the orientation). -/
theorem vertex_order_invariance_2D_witness :
    graTri (orientedNormals2 (fun i => elemCrd squareMesh ![0, 1, 2] (Equiv.swap 0 2 i)))
        (fun i => (![5, 7, 11] : Fin 3 → ℚ) (Equiv.swap 0 2 i))
      = graTri (orientedNormals2 (elemCrd squareMesh ![0, 1, 2])) ![5, 7, 11] ∧
    (gradElem2 squareMesh squareFlow squareNodes
        (fun i => (![0, 1, 2] : Fin 3 → Nat) (Equiv.swap 0 2 i))).AnisoGrad 1 0
      = (gradElem2 squareMesh squareFlow squareNodes ![0, 1, 2]).AnisoGrad 1 0 :=
  ⟨(vertex_order_invariance_2D (Equiv.swap 0 2)).1 (elemCrd squareMesh ![0, 1, 2]) ![5, 7, 11]
      (by simp [triArea, det2, elemCrd, squareMesh]),
    ((vertex_order_invariance_2D (Equiv.swap 0 2)).2 squareMesh squareFlow squareNodes ![0, 1, 2]
      (by simp [triArea, det2, elemCrd, squareMesh]) 1 0).1⟩

/-- C15 (vertex-ordering invariance in 3D).  For every non-degenerate tetrahedron, every
assignment `S` of sensor values to its vertices and every permutation `σ` of its four-vertex
list (orientation-reversing swaps included), the raw element gradient `graTet` is the same,
and the element adds the same amounts to the convective and viscous gradient accumulators
of every vertex. -/
theorem vertex_order_invariance_3D (σ : Equiv.Perm (Fin 4)) :
    (∀ (Crd : Fin 4 → Fin 3 → K) (S : Fin 4 → K), tetVolume Crd ≠ 0 →
      graTet (orientedNormals3 (fun i => Crd (σ i))) (fun i => S (σ i))
        = graTet (orientedNormals3 Crd) S) ∧
    (∀ (geometry : CGeometry K 3 4) (solver_flow : CFlowVariable K 3)
        (nodes : CTurbSAVariable K 3) (e : Fin 4 → Nat), tetVolume (elemCrd geometry e) ≠ 0 →
      ∀ k s,
        (gradElem3 geometry solver_flow nodes (fun i => e (σ i))).AnisoGrad k s
          = (gradElem3 geometry solver_flow nodes e).AnisoGrad k s ∧
        (gradElem3 geometry solver_flow nodes (fun i => e (σ i))).AnisoViscGrad k s
          = (gradElem3 geometry solver_flow nodes e).AnisoViscGrad k s) := by
  constructor
  · intro Crd S hnd
    exact graTet_perm σ Crd S (det3_ne_zero_of_tetVolume Crd hnd)
  · intro geometry solver_flow nodes e hnd k s
    have hd := det3_ne_zero_of_tetVolume _ hnd
    rw [gradElem3_AnisoGrad, gradElem3_AnisoGrad, gradElem3_AnisoViscGrad,
      gradElem3_AnisoViscGrad, gradContrib3_perm σ geometry _ e hd,
      gradContrib3_perm σ geometry _ e hd]
    exact ⟨rfl, rfl⟩

/-- Witness for C15: the first tetrahedron of `doubleTet` with its local vertices 1 and 3
swapped (an orientation-reversing reordering). -/
theorem vertex_order_invariance_3D_witness :
    graTet (orientedNormals3 (fun i => elemCrd doubleTet ![0, 1, 2, 3] (Equiv.swap 1 3 i)))
        (fun i => (![5, 7, 11, 13] : Fin 4 → ℚ) (Equiv.swap 1 3 i))
      = graTet (orientedNormals3 (elemCrd doubleTet ![0, 1, 2, 3])) ![5, 7, 11, 13] ∧
    (gradElem3 doubleTet tetFlow tetNodes
        (fun i => (![0, 1, 2, 3] : Fin 4 → Nat) (Equiv.swap 1 3 i))).AnisoGrad 1 4
      = (gradElem3 doubleTet tetFlow tetNodes ![0, 1, 2, 3]).AnisoGrad 1 4 :=
  ⟨(vertex_order_invariance_3D (Equiv.swap 1 3)).1 (elemCrd doubleTet ![0, 1, 2, 3])
      ![5, 7, 11, 13] (by simp [tetVolume, det3, elemCrd, doubleTet]),
    ((vertex_order_invariance_3D (Equiv.swap 1 3)).2 doubleTet tetFlow tetNodes ![0, 1, 2, 3]
      (by simp [tetVolume, det3, elemCrd, doubleTet]) 1 4).1⟩

/-- C16 (oriented, scaled edge normals in 2D).  For every triangle `P0 P1 P2`, in either
orientation and also when degenerate, the normal `n_i` stored for local vertex `i` after the
orientation check satisfies `n_i · (P_i - P_j) = |2 * signedArea|` for each `j ≠ i` and is
perpendicular to the opposite edge.  For a non-degenerate triangle it therefore points
strictly inward, and it equals twice the area times the gradient of the linear shape
function of vertex `i` (the affine function that is 1 at `P_i` and 0 at the other two
vertices). -/
theorem oriented_normals_2D (Crd : Fin 3 → Fin 2 → K) (i : Fin 3) :
    (∀ j, j ≠ i →
      (orientedNormals2 Crd).vnx i * (Crd i 0 - Crd j 0)
        + (orientedNormals2 Crd).vny i * (Crd i 1 - Crd j 1) = |det2 Crd|) ∧
    (∀ j l, j ≠ i → l ≠ i →
      (orientedNormals2 Crd).vnx i * (Crd j 0 - Crd l 0)
        + (orientedNormals2 Crd).vny i * (Crd j 1 - Crd l 1) = 0) ∧
    (det2 Crd ≠ 0 →
      (∀ j, j ≠ i →
        0 < (orientedNormals2 Crd).vnx i * (Crd i 0 - Crd j 0)
          + (orientedNormals2 Crd).vny i * (Crd i 1 - Crd j 1)) ∧
      (∀ j, shapeFn2 Crd i (Crd j) = if i = j then 1 else 0) ∧
      (orientedNormals2 Crd).vnx i = 2 * triArea Crd * shapeGrad2 Crd i 0 ∧
      (orientedNormals2 Crd).vny i = 2 * triArea Crd * shapeGrad2 Crd i 1) := by
  refine ⟨fun j hj => orientedNormals2_dot Crd i j hj, ?_, ?_⟩
  · intro j l hj hl
    have h1 := orientedNormals2_dot Crd i j hj
    have h2 := orientedNormals2_dot Crd i l hl
    linarith
  · intro hnd
    refine ⟨?_, fun j => shapeFn2_vertex Crd hnd i j, orientedNormals2_scaled Crd hnd i⟩
    intro j hj
    rw [orientedNormals2_dot Crd i j hj]
    exact abs_pos.mpr hnd

/-- Witness for C16: the clockwise triangle `0 3 2` of `squareMesh`, local vertex 1. -/
theorem oriented_normals_2D_witness :
    (∀ j, j ≠ (1 : Fin 3) →
      0 < (orientedNormals2 (elemCrd squareMesh ![0, 3, 2])).vnx 1
            * (elemCrd squareMesh ![0, 3, 2] 1 0 - elemCrd squareMesh ![0, 3, 2] j 0)
          + (orientedNormals2 (elemCrd squareMesh ![0, 3, 2])).vny 1
            * (elemCrd squareMesh ![0, 3, 2] 1 1 - elemCrd squareMesh ![0, 3, 2] j 1)) ∧
    (orientedNormals2 (elemCrd squareMesh ![0, 3, 2])).vnx 1
      = 2 * triArea (elemCrd squareMesh ![0, 3, 2])
          * shapeGrad2 (elemCrd squareMesh ![0, 3, 2]) 1 0 :=
  ⟨((oriented_normals_2D (elemCrd squareMesh ![0, 3, 2]) 1).2.2
      (by simp [det2, elemCrd, squareMesh])).1,
    ((oriented_normals_2D (elemCrd squareMesh ![0, 3, 2]) 1).2.2
      (by simp [det2, elemCrd, squareMesh])).2.2.1⟩

/-- C17 (oriented, scaled face normals in 3D).  For every tetrahedron `P0..P3`, in either
orientation and also when degenerate, the normal `n_i` stored for local vertex `i` after the
orientation check satisfies `n_i · (P_i - P_j) = |6 * signedVolume|` for each `j ≠ i` and is
orthogonal to the edge vectors of the opposite face.  For a non-degenerate tetrahedron all
four normals therefore point strictly inward, although the raw cross products alternate
between inward and outward (`raw_i · (P_i - P_j) = -faceSign i * 6 * signedVolume`). -/
theorem oriented_normals_3D (Crd : Fin 4 → Fin 3 → K) (i : Fin 4) :
    (∀ j, j ≠ i →
      (orientedNormals3 Crd).vnx i * (Crd i 0 - Crd j 0)
        + (orientedNormals3 Crd).vny i * (Crd i 1 - Crd j 1)
        + (orientedNormals3 Crd).vnz i * (Crd i 2 - Crd j 2) = |det3 Crd|) ∧
    (∀ j l, j ≠ i → l ≠ i →
      (orientedNormals3 Crd).vnx i * (Crd j 0 - Crd l 0)
        + (orientedNormals3 Crd).vny i * (Crd j 1 - Crd l 1)
        + (orientedNormals3 Crd).vnz i * (Crd j 2 - Crd l 2) = 0) ∧
    (det3 Crd ≠ 0 → ∀ j, j ≠ i →
      0 < (orientedNormals3 Crd).vnx i * (Crd i 0 - Crd j 0)
        + (orientedNormals3 Crd).vny i * (Crd i 1 - Crd j 1)
        + (orientedNormals3 Crd).vnz i * (Crd i 2 - Crd j 2)) ∧
    (∀ j, j ≠ i →
      (rawNormals3 Crd).vnx i * (Crd i 0 - Crd j 0)
        + (rawNormals3 Crd).vny i * (Crd i 1 - Crd j 1)
        + (rawNormals3 Crd).vnz i * (Crd i 2 - Crd j 2) = -(faceSign i * det3 Crd)) := by
  refine ⟨fun j hj => orientedNormals3_dot Crd i j hj, ?_, ?_,
    fun j hj => rawNormals3_dot Crd i j hj⟩
  · intro j l hj hl
    have h1 := orientedNormals3_dot Crd i j hj
    have h2 := orientedNormals3_dot Crd i l hl
    linarith
  · intro hnd j hj
    rw [orientedNormals3_dot Crd i j hj]
    exact abs_pos.mpr hnd

/-- Witness for C17: the negatively oriented tetrahedron `0 1 2 4` of `doubleTet`, local
vertex 3. -/
theorem oriented_normals_3D_witness :
    ∀ j, j ≠ (3 : Fin 4) →
      0 < (orientedNormals3 (elemCrd doubleTet ![0, 1, 2, 4])).vnx 3
            * (elemCrd doubleTet ![0, 1, 2, 4] 3 0 - elemCrd doubleTet ![0, 1, 2, 4] j 0)
          + (orientedNormals3 (elemCrd doubleTet ![0, 1, 2, 4])).vny 3
            * (elemCrd doubleTet ![0, 1, 2, 4] 3 1 - elemCrd doubleTet ![0, 1, 2, 4] j 1)
          + (orientedNormals3 (elemCrd doubleTet ![0, 1, 2, 4])).vnz 3
            * (elemCrd doubleTet ![0, 1, 2, 4] 3 2 - elemCrd doubleTet ![0, 1, 2, 4] j 2) :=
  (oriented_normals_3D (elemCrd doubleTet ![0, 1, 2, 4]) 3).2.2.1
    (by simp [det3, elemCrd, doubleTet])

/-- C18 (the 2D Hessian projector is the symmetrized gradient projector).  For every triangle
mesh and every stored nodal gradient field `g` (`g_d` at vertex `v` is slot `iFlux*2 + d` of
the gradient accumulator), the element sweep of `SetHessian_L2Proj2` run from zero Hessian
accumulators stores at vertex `k`, in slots `iFlux*3 + 0, 1, 2`, the packed triple
`(D_x[g_x], 0.5 * (D_y[g_x] + D_x[g_y]), D_y[g_y])`, where `D_q[s]` (`gradProjector2`) is
component `q` of what the element sweep of `SetTurbGradient_L2Proj2` recovers for the scalar
vertex field `s`: the sum over the elements and their local slots that reference `k` of
`graTri / (6 * Vol_k)` with the same oriented normals.  The same holds for the viscous
accumulators.  No assumption on the dual volumes is needed. -/
theorem hessian_symmetrized_gradient_2D (geometry : CGeometry K 2 3)
    (nodes : CTurbSAVariable K 2) (k : Nat) (iFlux : Fin 2) :
    ((∀ v s, nodes.AnisoHess v s = 0) →
      (hessSweep2 geometry nodes).AnisoHess k (iFlux.val * 3 + 0)
        = gradProjector2 geometry (fun v => nodes.AnisoGrad v (iFlux.val * 2 + 0)) k 0 ∧
      (hessSweep2 geometry nodes).AnisoHess k (iFlux.val * 3 + 1)
        = (1 / 2) * (gradProjector2 geometry (fun v => nodes.AnisoGrad v (iFlux.val * 2 + 0)) k 1
            + gradProjector2 geometry (fun v => nodes.AnisoGrad v (iFlux.val * 2 + 1)) k 0) ∧
      (hessSweep2 geometry nodes).AnisoHess k (iFlux.val * 3 + 2)
        = gradProjector2 geometry (fun v => nodes.AnisoGrad v (iFlux.val * 2 + 1)) k 1) ∧
    ((∀ v s, nodes.AnisoViscHess v s = 0) →
      (hessSweep2 geometry nodes).AnisoViscHess k (iFlux.val * 3 + 0)
        = gradProjector2 geometry (fun v => nodes.AnisoViscGrad v (iFlux.val * 2 + 0)) k 0 ∧
      (hessSweep2 geometry nodes).AnisoViscHess k (iFlux.val * 3 + 1)
        = (1 / 2)
          * (gradProjector2 geometry (fun v => nodes.AnisoViscGrad v (iFlux.val * 2 + 0)) k 1
            + gradProjector2 geometry (fun v => nodes.AnisoViscGrad v (iFlux.val * 2 + 1)) k 0) ∧
      (hessSweep2 geometry nodes).AnisoViscHess k (iFlux.val * 3 + 2)
        = gradProjector2 geometry (fun v => nodes.AnisoViscGrad v (iFlux.val * 2 + 1)) k 1) ∧
    (∀ (s : Nat → K) (q : Fin 2),
      gradProjector2 geometry s k q
        = (geometry.elem.map (fun e => ∑ m : Fin 3, if e m = k then
            graTri (orientedNormals2 (elemCrd geometry e)) (fun iNode => s (e iNode)) q
              / (6 * geometry.GetVolume k) else 0)).sum) := by
  obtain ⟨h1, h2, -⟩ := hessSweep2_fold geometry geometry.elem nodes
  refine ⟨fun hA => ⟨?_, ?_, ?_⟩, fun hV => ⟨?_, ?_, ?_⟩,
    fun s q => gradProjector2_div geometry s k q⟩
  · rw [hessSweep2, h1, hA, zero_add]
    exact (hessSlot2 geometry nodes.AnisoGrad k iFlux 0 0).trans (half_double _)
  · rw [hessSweep2, h1, hA, zero_add]
    exact hessSlot2 geometry nodes.AnisoGrad k iFlux 0 1
  · rw [hessSweep2, h1, hA, zero_add]
    exact (hessSlot2 geometry nodes.AnisoGrad k iFlux 1 1).trans (half_double _)
  · rw [hessSweep2, h2, hV, zero_add]
    exact (hessSlot2 geometry nodes.AnisoViscGrad k iFlux 0 0).trans (half_double _)
  · rw [hessSweep2, h2, hV, zero_add]
    exact hessSlot2 geometry nodes.AnisoViscGrad k iFlux 0 1
  · rw [hessSweep2, h2, hV, zero_add]
    exact (hessSlot2 geometry nodes.AnisoViscGrad k iFlux 1 1).trans (half_double _)

/-- Witness for C18: the off-diagonal slot of flux 0 at vertex 2 of `squareMesh`, for the
stored gradients of `gradNodes2`. -/
theorem hessian_symmetrized_gradient_2D_witness :
    (hessSweep2 squareMesh gradNodes2).AnisoHess 2 ((0 : Fin 2).val * 3 + 1)
      = (1 / 2) * (gradProjector2 squareMesh
            (fun v => gradNodes2.AnisoGrad v ((0 : Fin 2).val * 2 + 0)) 2 1
          + gradProjector2 squareMesh
            (fun v => gradNodes2.AnisoGrad v ((0 : Fin 2).val * 2 + 1)) 2 0) :=
  ((hessian_symmetrized_gradient_2D squareMesh gradNodes2 2 0).1 (fun _ _ => rfl)).2.1

/-- C19 (3D Hessian packing and formula).  For every tetrahedral mesh and every stored nodal
gradient field `g`, the element sweep of `SetHessian_L2Proj3` run from zero Hessian
accumulators stores at vertex `k`, in slot `iFlux*6 + symIndex3 p q` of the block of flux
`iFlux`, the value `0.5 * (D_q[g_p] + D_p[g_q])`, which is `D_p[g_p]` on the diagonal; the
slots `0..5` are the entries `xx, xy, xz, yy, yz, zz` in that order (`symIndex3`), and `D`
(`gradProjector3`) is the 3D gradient projector with factor `1 / (24 * Vol_k)`.  The
regularizer of the same function reads slot `symIndex3 r c` as the entry `(r, c)` of the
dense matrix (`unpack3`) and stores the entry `(p, q)`, `p ≤ q`, of the regularized matrix
back in slot `symIndex3 p q`.  The same holds for the viscous accumulators. -/
theorem hessian_packing_3D (geometry : CGeometry K 3 4) (nodes : CTurbSAVariable K 3)
    (k : Nat) (iFlux : Fin 3) :
    ((∀ v s, nodes.AnisoHess v s = 0) →
      (∀ p q : Fin 3,
        (hessSweep3 geometry nodes).AnisoHess k (iFlux.val * 6 + (symIndex3 p q).val)
          = (1 / 2)
            * (gradProjector3 geometry (fun v => nodes.AnisoGrad v (iFlux.val * 3 + p.val)) k q
              + gradProjector3 geometry
                  (fun v => nodes.AnisoGrad v (iFlux.val * 3 + q.val)) k p)) ∧
      (∀ p : Fin 3,
        (hessSweep3 geometry nodes).AnisoHess k (iFlux.val * 6 + (symIndex3 p p).val)
          = gradProjector3 geometry (fun v => nodes.AnisoGrad v (iFlux.val * 3 + p.val)) k p)) ∧
    ((∀ v s, nodes.AnisoViscHess v s = 0) →
      (∀ p q : Fin 3,
        (hessSweep3 geometry nodes).AnisoViscHess k (iFlux.val * 6 + (symIndex3 p q).val)
          = (1 / 2)
            * (gradProjector3 geometry
                  (fun v => nodes.AnisoViscGrad v (iFlux.val * 3 + p.val)) k q
              + gradProjector3 geometry
                  (fun v => nodes.AnisoViscGrad v (iFlux.val * 3 + q.val)) k p)) ∧
      (∀ p : Fin 3,
        (hessSweep3 geometry nodes).AnisoViscHess k (iFlux.val * 6 + (symIndex3 p p).val)
          = gradProjector3 geometry
              (fun v => nodes.AnisoViscGrad v (iFlux.val * 3 + p.val)) k p)) ∧
    (symIndex3 0 0 = 0 ∧ symIndex3 0 1 = 1 ∧ symIndex3 0 2 = 2 ∧ symIndex3 1 1 = 3
      ∧ symIndex3 1 2 = 4 ∧ symIndex3 2 2 = 5 ∧ ∀ p q, symIndex3 q p = symIndex3 p q) ∧
    (∀ (s : Nat → K) (q : Fin 3),
      gradProjector3 geometry s k q
        = (geometry.elem.map (fun e => ∑ m : Fin 4, if e m = k then
            graTet (orientedNormals3 (elemCrd geometry e)) (fun iNode => s (e iNode)) q
              / (24 * geometry.GetVolume k) else 0)).sum) ∧
    (∀ (h : Fin 6 → K) (p q : Fin 3), unpack3 h p q = h (symIndex3 p q)) ∧
    (∀ (EigenDecomposition : EigenSolver K 3) (iPoint : Nat) (p q : Fin 3), p ≤ q →
      (regularizeHessFlux3 EigenDecomposition iPoint nodes iFlux).AnisoHess iPoint
          (iFlux.val * 6 + (symIndex3 p q).val)
        = regularizeDense EigenDecomposition
            (Matrix.of (fun r c =>
              nodes.AnisoHess iPoint (iFlux.val * 6 + (symIndex3 r c).val))) p q ∧
      (regularizeViscHessFlux3 EigenDecomposition iPoint nodes iFlux).AnisoViscHess iPoint
          (iFlux.val * 6 + (symIndex3 p q).val)
        = regularizeDense EigenDecomposition
            (Matrix.of (fun r c =>
              nodes.AnisoViscHess iPoint (iFlux.val * 6 + (symIndex3 r c).val))) p q) := by
  obtain ⟨h1, h2, -⟩ := hessSweep3_fold geometry geometry.elem nodes
  refine ⟨fun hA => ⟨fun p q => ?_, fun p => ?_⟩, fun hV => ⟨fun p q => ?_, fun p => ?_⟩,
    ⟨rfl, rfl, rfl, rfl, rfl, rfl, by decide⟩,
    fun s q => gradProjector3_div geometry s k q, unpack3_symIndex, ?_⟩
  · rw [hessSweep3, h1, hA, zero_add]
    exact hessSlot3 geometry nodes.AnisoGrad k iFlux p q
  · rw [hessSweep3, h1, hA, zero_add]
    exact (hessSlot3 geometry nodes.AnisoGrad k iFlux p p).trans (half_double _)
  · rw [hessSweep3, h2, hV, zero_add]
    exact hessSlot3 geometry nodes.AnisoViscGrad k iFlux p q
  · rw [hessSweep3, h2, hV, zero_add]
    exact (hessSlot3 geometry nodes.AnisoViscGrad k iFlux p p).trans (half_double _)
  · intro ED iPoint p q hpq
    rw [regularizeHessFlux3_AnisoHess, regularizeViscHessFlux3_AnisoViscHess, if_pos rfl,
      if_pos rfl]
    exact ⟨rowStep3_entry ED iFlux.val _ p q hpq, rowStep3_entry ED iFlux.val _ p q hpq⟩

/-- Witness for C19: the `yz` slot (slot 4) of flux 1 at vertex 0 of `doubleTet`, for the
stored gradients of `gradNodes3`. -/
theorem hessian_packing_3D_witness :
    (hessSweep3 doubleTet gradNodes3).AnisoHess 0
        ((1 : Fin 3).val * 6 + (symIndex3 1 2).val)
      = (1 / 2)
        * (gradProjector3 doubleTet
              (fun v => gradNodes3.AnisoGrad v ((1 : Fin 3).val * 3 + (1 : Fin 3).val)) 0 2
          + gradProjector3 doubleTet
              (fun v => gradNodes3.AnisoGrad v ((1 : Fin 3).val * 3 + (2 : Fin 3).val)) 0 1) :=
  ((hessian_packing_3D doubleTet gradNodes3 0 1).1 (fun _ _ => rfl)).1 1 2

/-- C20 (element-level Green-Gauss identity in 2D).  For every triangle with vertex
coordinates `Crd`, in either vertex orientation, and every affine field
`f(x, y) = a + b_0 x + b_1 y` sampled at its vertices, the raw element gradient of the sweep
satisfies `graTri = 2 * |T| * b`, where `|T|` (`triArea`) is the unsigned area; the area is
positive when the triangle is non-degenerate (the identity also holds, as `0 = 0`, when it
is degenerate). -/
theorem green_gauss_2D (Crd : Fin 3 → Fin 2 → K) (S : Fin 3 → K) (a : K) (b : Fin 2 → K)
    (hS : ∀ i, S i = a + b 0 * Crd i 0 + b 1 * Crd i 1) :
    (∀ d, graTri (orientedNormals2 Crd) S d = 2 * triArea Crd * b d) ∧
    (det2 Crd ≠ 0 → 0 < triArea Crd) := by
  constructor
  · intro d
    rw [graTri_affine Crd S a (b 0) (b 1) hS, triArea]
    fin_cases d
    · show |det2 Crd| * b 0 = 2 * (|det2 Crd| / 2) * b 0
      ring
    · show |det2 Crd| * b 1 = 2 * (|det2 Crd| / 2) * b 1
      ring
  · intro hnd
    exact div_pos (abs_pos.mpr hnd) (by norm_num)

/-- Witness for C20: the clockwise triangle `0 3 2` of `squareMesh` and the field
`1 + 2 x + 3 y`. -/
theorem green_gauss_2D_witness :
    (∀ d, graTri (orientedNormals2 (elemCrd squareMesh ![0, 3, 2]))
        (fun i => 1 + (![2, 3] : Fin 2 → ℚ) 0 * elemCrd squareMesh ![0, 3, 2] i 0
          + (![2, 3] : Fin 2 → ℚ) 1 * elemCrd squareMesh ![0, 3, 2] i 1) d
      = 2 * triArea (elemCrd squareMesh ![0, 3, 2]) * (![2, 3] : Fin 2 → ℚ) d) ∧
    det2 (elemCrd squareMesh ![0, 3, 2]) < 0 :=
  ⟨(green_gauss_2D (elemCrd squareMesh ![0, 3, 2]) _ 1 ![2, 3] (fun _ => rfl)).1,
    by simp [det2, elemCrd, squareMesh]⟩

/-- C21 (element-level Green-Gauss identity in 3D).  For every non-degenerate tetrahedron
with vertex coordinates `Crd`, in either vertex orientation, and every affine field
`f(x, y, z) = a + b_0 x + b_1 y + b_2 z` sampled at its vertices, the raw element gradient of
the sweep satisfies `graTet = 6 * |T| * b`, where `|T|` (`tetVolume`) is the unsigned
volume, which is positive. -/
theorem green_gauss_3D (Crd : Fin 4 → Fin 3 → K) (S : Fin 4 → K) (a : K) (b : Fin 3 → K)
    (hnd : tetVolume Crd ≠ 0)
    (hS : ∀ i, S i = a + b 0 * Crd i 0 + b 1 * Crd i 1 + b 2 * Crd i 2) :
    (∀ d, graTet (orientedNormals3 Crd) S d = 6 * tetVolume Crd * b d) ∧
    0 < tetVolume Crd := by
  have hd := det3_ne_zero_of_tetVolume Crd hnd
  constructor
  · intro d
    rw [graTet_affine Crd S a b hd hS d, tetVolume]
    ring
  · exact div_pos (abs_pos.mpr hd) (by norm_num)

/-- Witness for C21: the negatively oriented tetrahedron `0 1 2 4` of `doubleTet` and the
field `1 + 2 x + 3 y - 5 z`. -/
theorem green_gauss_3D_witness :
    (∀ d, graTet (orientedNormals3 (elemCrd doubleTet ![0, 1, 2, 4]))
        (fun i => 1 + (![2, 3, -5] : Fin 3 → ℚ) 0 * elemCrd doubleTet ![0, 1, 2, 4] i 0
          + (![2, 3, -5] : Fin 3 → ℚ) 1 * elemCrd doubleTet ![0, 1, 2, 4] i 1
          + (![2, 3, -5] : Fin 3 → ℚ) 2 * elemCrd doubleTet ![0, 1, 2, 4] i 2) d
      = 6 * tetVolume (elemCrd doubleTet ![0, 1, 2, 4]) * (![2, 3, -5] : Fin 3 → ℚ) d) ∧
    det3 (elemCrd doubleTet ![0, 1, 2, 4]) < 0 :=
  ⟨(green_gauss_3D (elemCrd doubleTet ![0, 1, 2, 4]) _ 1 ![2, 3, -5]
      (by simp [tetVolume, det3, elemCrd, doubleTet]) (fun _ => rfl)).1,
    by simp [det3, elemCrd, doubleTet]⟩

/-- C22 (element-level Hessian identity in 2D).  For every triangle with vertex coordinates
`Crd`, in either orientation, and every nodal gradient field `g(P) = G · P + c` with `G` an
arbitrary 2x2 matrix, the raw element Hessian of `SetHessian_L2Proj2` is
`hesTri = 2 * |T| * (G_xx, (G_xy + G_yx) / 2, G_yy)`, with `|T|` positive when the triangle
is non-degenerate.  In particular, for a quadratic field `f0 + b · P + (1/2) Pᵗ H P`
(`H` symmetric), whose gradient is `H P + b` and whose Hessian is `H` by its exact
second-order expansion, `hesTri` is `2 |T|` times the packed Hessian `(H_xx, H_xy, H_yy)`. -/
theorem hessian_identity_2D (Crd : Fin 3 → Fin 2 → K) (G : Matrix (Fin 2) (Fin 2) K)
    (c : Fin 2 → K) (g : Fin 3 → Fin 2 → K)
    (hg : ∀ i d, g i d = G d 0 * Crd i 0 + G d 1 * Crd i 1 + c d) :
    hesTri (orientedNormals2 Crd) g
      = ![2 * triArea Crd * G 0 0, 2 * triArea Crd * ((G 0 1 + G 1 0) / 2),
          2 * triArea Crd * G 1 1] ∧
    (det2 Crd ≠ 0 → 0 < triArea Crd) ∧
    (G.IsSymm →
      (∀ (f0 : K) (P t : Fin 2 → K),
        quadField f0 c G (P + t)
          = quadField f0 c G P + Matrix.dotProduct (Matrix.mulVec G P + c) t
            + (1 / 2) * Matrix.dotProduct t (Matrix.mulVec G t)) ∧
      (∀ i, g i = Matrix.mulVec G (Crd i) + c) ∧
      hesTri (orientedNormals2 Crd) g = fun m => 2 * triArea Crd * pack2 G m) := by
  have hmain := hesTri_affine Crd G c g hg
  refine ⟨hmain, fun hnd => div_pos (abs_pos.mpr hnd) (by norm_num), fun hG => ⟨?_, ?_, ?_⟩⟩
  · intro f0 P t
    exact quadField_expand f0 c G hG P t
  · intro i
    funext d
    rw [hg]
    simp only [Pi.add_apply, Matrix.mulVec, Matrix.dotProduct, Fin.sum_univ_two]
  · have h10 : G 1 0 = G 0 1 := hG.apply 0 1
    rw [hmain]
    funext m
    fin_cases m
    · rfl
    · show 2 * triArea Crd * ((G 0 1 + G 1 0) / 2) = 2 * triArea Crd * G 0 1
      rw [h10]; ring
    · rfl

/-- Witness for C22: the clockwise triangle `0 3 2` of `squareMesh` and the gradient field
`g(x, y) = (1 + 2 x + 3 y, 4 + 5 x + 7 y)`. -/
theorem hessian_identity_2D_witness :
    hesTri (orientedNormals2 (elemCrd squareMesh ![0, 3, 2]))
        (fun i d => (!![2, 3; 5, 7] : Matrix (Fin 2) (Fin 2) ℚ) d 0
            * elemCrd squareMesh ![0, 3, 2] i 0
          + (!![2, 3; 5, 7] : Matrix (Fin 2) (Fin 2) ℚ) d 1 * elemCrd squareMesh ![0, 3, 2] i 1
          + (![1, 4] : Fin 2 → ℚ) d)
      = ![2 * triArea (elemCrd squareMesh ![0, 3, 2])
            * (!![2, 3; 5, 7] : Matrix (Fin 2) (Fin 2) ℚ) 0 0,
          2 * triArea (elemCrd squareMesh ![0, 3, 2])
            * (((!![2, 3; 5, 7] : Matrix (Fin 2) (Fin 2) ℚ) 0 1
              + (!![2, 3; 5, 7] : Matrix (Fin 2) (Fin 2) ℚ) 1 0) / 2),
          2 * triArea (elemCrd squareMesh ![0, 3, 2])
            * (!![2, 3; 5, 7] : Matrix (Fin 2) (Fin 2) ℚ) 1 1] :=
  (hessian_identity_2D (elemCrd squareMesh ![0, 3, 2]) !![2, 3; 5, 7] ![1, 4] _
    (fun _ _ => rfl)).1

/-- C23 (sensor definitions).  At every vertex the convective sensor for flux direction `j`
is `density * velocity_j * nu_tilde` and the viscous sensor is
`1.5 * (laminar_viscosity + density * nu_tilde) * (d nu_tilde / d x_j)`, for every `j` below
the dimension (2D and 3D).  The convective gradient field produced by the element sweep is a
function of the convective sensor only, and the viscous gradient field of the viscous
sensor only: two flow and turbulence states with the same convective (viscous) sensor at
the element vertices and the same initial convective (viscous) accumulators give the same
convective (viscous) gradient field. -/
theorem sensor_definitions :
    (∀ (nDim : Nat) (solver_flow : CFlowVariable K nDim) (nodes : CTurbSAVariable K nDim)
        (kNode : Nat) (j : Fin nDim),
      Sens solver_flow nodes kNode j
        = solver_flow.GetDensity kNode * solver_flow.GetVelocity kNode j
            * nodes.GetSolution kNode ∧
      SensVisc solver_flow nodes kNode j
        = 1.5 * (solver_flow.GetLaminarViscosity kNode
            + solver_flow.GetDensity kNode * nodes.GetSolution kNode)
          * nodes.GetGradient kNode j) ∧
    (∀ (geometry : CGeometry K 2 3) (flow flow' : CFlowVariable K 2)
        (nodes nodes' : CTurbSAVariable K 2),
      ((∀ e ∈ geometry.elem, ∀ i j, Sens flow nodes (e i) j = Sens flow' nodes' (e i) j) →
        nodes.AnisoGrad = nodes'.AnisoGrad →
        (gradSweep2 geometry flow nodes).AnisoGrad
          = (gradSweep2 geometry flow' nodes').AnisoGrad) ∧
      ((∀ e ∈ geometry.elem, ∀ i j,
          SensVisc flow nodes (e i) j = SensVisc flow' nodes' (e i) j) →
        nodes.AnisoViscGrad = nodes'.AnisoViscGrad →
        (gradSweep2 geometry flow nodes).AnisoViscGrad
          = (gradSweep2 geometry flow' nodes').AnisoViscGrad)) ∧
    (∀ (geometry : CGeometry K 3 4) (flow flow' : CFlowVariable K 3)
        (nodes nodes' : CTurbSAVariable K 3),
      ((∀ e ∈ geometry.elem, ∀ i j, Sens flow nodes (e i) j = Sens flow' nodes' (e i) j) →
        nodes.AnisoGrad = nodes'.AnisoGrad →
        (gradSweep3 geometry flow nodes).AnisoGrad
          = (gradSweep3 geometry flow' nodes').AnisoGrad) ∧
      ((∀ e ∈ geometry.elem, ∀ i j,
          SensVisc flow nodes (e i) j = SensVisc flow' nodes' (e i) j) →
        nodes.AnisoViscGrad = nodes'.AnisoViscGrad →
        (gradSweep3 geometry flow nodes).AnisoViscGrad
          = (gradSweep3 geometry flow' nodes').AnisoViscGrad)) := by
  refine ⟨?_, gradSweep2_congr, gradSweep3_congr⟩
  intro nDim solver_flow nodes kNode j
  refine ⟨rfl, ?_⟩
  have h : (1.5 : K) = 3 / 2 := by norm_num
  rw [h]
  rfl

/-- Witness for C23: on `squareMesh`, the flow states `squareFlow` (density 1) and
`denseFlow` (density 2, half the velocity) have the same convective sensor although
their viscous sensors differ, and give the same convective gradient field. -/
theorem sensor_definitions_witness :
    (gradSweep2 squareMesh squareFlow squareNodes).AnisoGrad
        = (gradSweep2 squareMesh denseFlow squareNodes).AnisoGrad ∧
      SensVisc squareFlow squareNodes 0 0 ≠ SensVisc denseFlow squareNodes 0 0 :=
  ⟨(sensor_definitions.2.1 squareMesh squareFlow denseFlow squareNodes squareNodes).1
      (by
        intro e _ i j
        simp only [Sens, squareFlow, denseFlow, squareNodes]
        ring)
      rfl,
    by simp [SensVisc, squareFlow, denseFlow, squareNodes, squareMesh]; norm_num⟩

/-- C24 (pipeline order of the Hessian stage).  With the halo exchange and the boundary
correction as arbitrary state transformers, the state returned by `SetHessian_L2Proj2`
(and `SetHessian_L2Proj3`) is the viscous regularization loop applied to the convective
regularization loop applied to `CorrectBoundAnisoHess` of the two exchanges of the element
sweep.  Regularization is the last step: at every locally owned vertex each packed Hessian
block of the result is `regularize` of the block the boundary correction left there.  The
element sweep reads only gradient values written before the call: its Hessian output is
determined by the incoming gradient and Hessian accumulators, and it returns the gradient
accumulators unchanged. -/
theorem hessian_pipeline_order :
    (∀ (Comms : CommTag → CTurbSAVariable K 2 → CTurbSAVariable K 2)
        (CorrectBoundAnisoHess : CTurbSAVariable K 2 → CTurbSAVariable K 2)
        (ED : EigenSolver K 2) (geometry : CGeometry K 2 3) (nodes : CTurbSAVariable K 2),
      SetHessian_L2Proj2 Comms CorrectBoundAnisoHess ED geometry nodes
        = regularizeViscHess2 ED geometry.nPointDomain
            (regularizeHess2 ED geometry.nPointDomain
              (CorrectBoundAnisoHess (Comms CommTag.ANISO_HESSIAN_VISC
                (Comms CommTag.ANISO_HESSIAN (hessSweep2 geometry nodes))))) ∧
      (∀ (iPoint : Nat) (iFlux : Fin 2), iPoint < geometry.nPointDomain →
        block2 iFlux.val
            ((SetHessian_L2Proj2 Comms CorrectBoundAnisoHess ED geometry nodes).AnisoHess iPoint)
          = regularize2 ED (block2 iFlux.val
              ((CorrectBoundAnisoHess (Comms CommTag.ANISO_HESSIAN_VISC
                (Comms CommTag.ANISO_HESSIAN (hessSweep2 geometry nodes)))).AnisoHess iPoint)) ∧
        block2 iFlux.val
            ((SetHessian_L2Proj2 Comms CorrectBoundAnisoHess ED geometry nodes).AnisoViscHess
              iPoint)
          = regularize2 ED (block2 iFlux.val
              ((CorrectBoundAnisoHess (Comms CommTag.ANISO_HESSIAN_VISC
                (Comms CommTag.ANISO_HESSIAN (hessSweep2 geometry nodes)))).AnisoViscHess
                  iPoint))) ∧
      (∀ nodes' : CTurbSAVariable K 2,
        (nodes.AnisoGrad = nodes'.AnisoGrad → nodes.AnisoHess = nodes'.AnisoHess →
          (hessSweep2 geometry nodes).AnisoHess = (hessSweep2 geometry nodes').AnisoHess) ∧
        (nodes.AnisoViscGrad = nodes'.AnisoViscGrad →
          nodes.AnisoViscHess = nodes'.AnisoViscHess →
          (hessSweep2 geometry nodes).AnisoViscHess
            = (hessSweep2 geometry nodes').AnisoViscHess)) ∧
      (hessSweep2 geometry nodes).AnisoGrad = nodes.AnisoGrad ∧
      (hessSweep2 geometry nodes).AnisoViscGrad = nodes.AnisoViscGrad) ∧
    (∀ (Comms : CommTag → CTurbSAVariable K 3 → CTurbSAVariable K 3)
        (CorrectBoundAnisoHess : CTurbSAVariable K 3 → CTurbSAVariable K 3)
        (ED : EigenSolver K 3) (geometry : CGeometry K 3 4) (nodes : CTurbSAVariable K 3),
      SetHessian_L2Proj3 Comms CorrectBoundAnisoHess ED geometry nodes
        = regularizeViscHess3 ED geometry.nPointDomain
            (regularizeHess3 ED geometry.nPointDomain
              (CorrectBoundAnisoHess (Comms CommTag.ANISO_HESSIAN_VISC
                (Comms CommTag.ANISO_HESSIAN (hessSweep3 geometry nodes))))) ∧
      (∀ (iPoint : Nat) (iFlux : Fin 3), iPoint < geometry.nPointDomain →
        block3 iFlux.val
            ((SetHessian_L2Proj3 Comms CorrectBoundAnisoHess ED geometry nodes).AnisoHess iPoint)
          = regularize3 ED (block3 iFlux.val
              ((CorrectBoundAnisoHess (Comms CommTag.ANISO_HESSIAN_VISC
                (Comms CommTag.ANISO_HESSIAN (hessSweep3 geometry nodes)))).AnisoHess iPoint)) ∧
        block3 iFlux.val
            ((SetHessian_L2Proj3 Comms CorrectBoundAnisoHess ED geometry nodes).AnisoViscHess
              iPoint)
          = regularize3 ED (block3 iFlux.val
              ((CorrectBoundAnisoHess (Comms CommTag.ANISO_HESSIAN_VISC
                (Comms CommTag.ANISO_HESSIAN (hessSweep3 geometry nodes)))).AnisoViscHess
                  iPoint))) ∧
      (∀ nodes' : CTurbSAVariable K 3,
        (nodes.AnisoGrad = nodes'.AnisoGrad → nodes.AnisoHess = nodes'.AnisoHess →
          (hessSweep3 geometry nodes).AnisoHess = (hessSweep3 geometry nodes').AnisoHess) ∧
        (nodes.AnisoViscGrad = nodes'.AnisoViscGrad →
          nodes.AnisoViscHess = nodes'.AnisoViscHess →
          (hessSweep3 geometry nodes).AnisoViscHess
            = (hessSweep3 geometry nodes').AnisoViscHess)) ∧
      (hessSweep3 geometry nodes).AnisoGrad = nodes.AnisoGrad ∧
      (hessSweep3 geometry nodes).AnisoViscGrad = nodes.AnisoViscGrad) := by
  constructor
  · intro Comms CB ED geometry nodes
    refine ⟨rfl, ?_, fun nodes' => ⟨(hessSweep2_congr geometry nodes nodes').1,
      (hessSweep2_congr geometry nodes nodes').2.1⟩,
      (hessSweep2_congr geometry nodes nodes).2.2.1,
      (hessSweep2_congr geometry nodes nodes).2.2.2⟩
    intro iPoint iFlux hown
    obtain ⟨h1, h2⟩ := SetHessian_L2Proj2_fields Comms CB ED geometry nodes iPoint
    rw [h1, h2, if_pos hown, if_pos hown, block2_regSlots2, block2_regSlots2]
    exact ⟨rfl, rfl⟩
  · intro Comms CB ED geometry nodes
    refine ⟨rfl, ?_, fun nodes' => ⟨(hessSweep3_congr geometry nodes nodes').1,
      (hessSweep3_congr geometry nodes nodes').2.1⟩,
      (hessSweep3_congr geometry nodes nodes).2.2.1,
      (hessSweep3_congr geometry nodes nodes).2.2.2⟩
    intro iPoint iFlux hown
    obtain ⟨h1, h2⟩ := SetHessian_L2Proj3_fields Comms CB ED geometry nodes iPoint
    rw [h1, h2, if_pos hown, if_pos hown, block3_regSlots3, block3_regSlots3]
    exact ⟨rfl, rfl⟩

/-- Witness for C24: the owned vertex 0 of `haloMesh`, flux 1, with the halo exchange
`haloComms` and no boundary correction; and the Hessian sweep of `squareMesh` for the
states `gradNodes2` and `gradNodes2` with another `nu_tilde`. -/
theorem hessian_pipeline_order_witness :
    block2 (1 : Fin 2).val
        ((SetHessian_L2Proj2 haloComms id (fixedBasisSolver 1) haloMesh exampleNodes).AnisoHess 0)
      = regularize2 (fixedBasisSolver 1) (block2 (1 : Fin 2).val
          ((id (haloComms CommTag.ANISO_HESSIAN_VISC
            (haloComms CommTag.ANISO_HESSIAN (hessSweep2 haloMesh exampleNodes)))).AnisoHess 0)) ∧
    (hessSweep2 squareMesh gradNodes2).AnisoHess
      = (hessSweep2 squareMesh { gradNodes2 with GetSolution := fun _ => 3 }).AnisoHess :=
  ⟨(((hessian_pipeline_order.1 haloComms id (fixedBasisSolver 1) haloMesh exampleNodes).2.1)
      0 1 (by decide)).1,
    (((hessian_pipeline_order.1 (fun _ X => X) id (fixedBasisSolver 1) squareMesh
      gradNodes2).2.2.1) { gradNodes2 with GetSolution := fun _ => 3 }).1 rfl rfl⟩

/-- C25, as amended (in 2D a constant field produces no gradient on a non-degenerate
triangle).  The three stored normals of a triangle sum to minus twice the sum of the raw
normals that the orientation check flipped, whatever the outcomes `flip` of its three
comparisons.  When the three comparisons have the same outcome the stored normals sum to
the zero vector, a sensor that takes the same value at the three vertices has a zero raw
gradient `graTri`, and the element step leaves every slot of the accumulators (convective
and viscous) as it was.  Over the exact field this is the case for every triangle of
non-zero area, inverted ones included: the three compared values are the same non-zero
number `-det2`, the comparisons therefore agree, the normals of the geometry step sum to
zero and a constant sensor contributes nothing. -/
theorem constant_field_2D :
    (∀ (flip : Fin 3 → Bool) (Crd : Fin 3 → Fin 2 → K),
      (∑ i, (orientedNormalsWith2 flip Crd).vnx i
          = -2 * ∑ i, (if flip i then (rawNormals2 Crd).vnx i else 0)) ∧
      (∑ i, (orientedNormalsWith2 flip Crd).vny i
          = -2 * ∑ i, (if flip i then (rawNormals2 Crd).vny i else 0))) ∧
    (∀ (flip : Fin 3 → Bool) (geometry : CGeometry K 2 3) (solver_flow : CFlowVariable K 2)
        (nodes : CTurbSAVariable K 2) (e : Fin 3 → Nat),
      flip 0 = flip 1 → flip 1 = flip 2 →
      (∑ i, (orientedNormalsWith2 flip (elemCrd geometry e)).vnx i = 0) ∧
      (∑ i, (orientedNormalsWith2 flip (elemCrd geometry e)).vny i = 0) ∧
      (∀ (S : Fin 3 → K) (c : K), (∀ i, S i = c) →
        ∀ d, graTri (orientedNormalsWith2 flip (elemCrd geometry e)) S d = 0) ∧
      ((∀ iFlux i, Sens solver_flow nodes (e i) iFlux = Sens solver_flow nodes (e 0) iFlux) →
        (gradElemN2 geometry solver_flow nodes
          (orientedNormalsWith2 flip (elemCrd geometry e)) e).AnisoGrad = nodes.AnisoGrad) ∧
      ((∀ iFlux i,
          SensVisc solver_flow nodes (e i) iFlux = SensVisc solver_flow nodes (e 0) iFlux) →
        (gradElemN2 geometry solver_flow nodes
          (orientedNormalsWith2 flip (elemCrd geometry e)) e).AnisoViscGrad
            = nodes.AnisoViscGrad)) ∧
    (∀ (geometry : CGeometry K 2 3) (solver_flow : CFlowVariable K 2)
        (nodes : CTurbSAVariable K 2) (e : Fin 3 → Nat),
      triArea (elemCrd geometry e) ≠ 0 →
      (∀ i, inwardTest2 (elemCrd geometry e) (rawNormals2 (elemCrd geometry e)) i
          = - det2 (elemCrd geometry e)) ∧
      det2 (elemCrd geometry e) ≠ 0 ∧
      orientedNormals2 (elemCrd geometry e)
        = orientedNormalsWith2 (fun _ => decide (det2 (elemCrd geometry e) < 0))
            (elemCrd geometry e) ∧
      (∑ i, (orientedNormals2 (elemCrd geometry e)).vnx i = 0) ∧
      (∑ i, (orientedNormals2 (elemCrd geometry e)).vny i = 0) ∧
      (∀ (S : Fin 3 → K) (c : K), (∀ i, S i = c) →
        ∀ d, graTri (orientedNormals2 (elemCrd geometry e)) S d = 0) ∧
      ((∀ iFlux i, Sens solver_flow nodes (e i) iFlux = Sens solver_flow nodes (e 0) iFlux) →
        (gradElem2 geometry solver_flow nodes e).AnisoGrad = nodes.AnisoGrad) ∧
      ((∀ iFlux i,
          SensVisc solver_flow nodes (e i) iFlux = SensVisc solver_flow nodes (e 0) iFlux) →
        (gradElem2 geometry solver_flow nodes e).AnisoViscGrad = nodes.AnisoViscGrad)) := by
  refine ⟨orientedNormalsWith2_sum, ?_, ?_⟩
  · intro flip geometry solver_flow nodes e h01 h12
    obtain ⟨hx, hy⟩ := orientedNormalsWith2_sum_of_agree flip (elemCrd geometry e) h01 h12
    exact ⟨hx, hy, fun S c hS d => graTri_const_of_sum _ S c hS hx hy d,
      gradElemN2_const geometry solver_flow nodes _ e hx hy⟩
  · intro geometry solver_flow nodes e hnd
    obtain ⟨hx, hy⟩ := orientedNormalsWith2_sum_of_agree
      (fun _ => decide (det2 (elemCrd geometry e) < 0)) (elemCrd geometry e) rfl rfl
    rw [← orientedNormals2_eq_with] at hx hy
    refine ⟨fun i => inwardTest2_of_raw _ i, det2_ne_zero_of_triArea _ hnd,
      orientedNormals2_eq_with _, hx, hy,
      fun S c hS d => graTri_const_of_sum _ S c hS hx hy d, ?_⟩
    rw [gradElem2_eq_N]
    exact gradElemN2_const geometry solver_flow nodes _ e hx hy

/-- Witness for C25 (amended): the unit right triangle (area `1/2`) with the constant
sensor 7, and the three outcomes "flip" on the collinear triangle `flatTriangle`. -/
theorem constant_field_2D_witness :
    triArea (elemCrd unitTriangle ![0, 1, 2]) ≠ 0 ∧
    (∀ d, graTri (orientedNormals2 (elemCrd unitTriangle ![0, 1, 2]))
      (fun _ => (7 : ℚ)) d = 0) ∧
    (gradElem2 unitTriangle (scalarFlow (fun _ => 7)) unitNodes ![0, 1, 2]).AnisoGrad
      = (unitNodes : CTurbSAVariable ℚ 2).AnisoGrad ∧
    (∑ i, (orientedNormalsWith2 (fun _ => true) (elemCrd flatTriangle ![0, 1, 2])).vny i = 0) :=
  ⟨by simp [triArea, det2, elemCrd, unitTriangle],
    ((@constant_field_2D ℚ _).2.2 unitTriangle (scalarFlow (fun _ => 7)) unitNodes ![0, 1, 2]
      (by simp [triArea, det2, elemCrd, unitTriangle])).2.2.2.2.2.1 (fun _ => 7) 7
      (fun _ => rfl),
    ((@constant_field_2D ℚ _).2.2 unitTriangle (scalarFlow (fun _ => 7)) unitNodes ![0, 1, 2]
      (by simp [triArea, det2, elemCrd, unitTriangle])).2.2.2.2.2.2.1 (fun _ _ => rfl),
    ((@constant_field_2D ℚ _).2.1 (fun _ => true) flatTriangle flatFlow exampleNodes ![0, 1, 2]
      rfl rfl).2.1⟩

/-- C25 as stated fails in binary64.  The vertices `(0, 0)`, `(1.1, 3.3000000000000003)`,
`(2.2, 6.6000000000000005)` of `slantedLine` are binary64 numbers and lie exactly on the line
`y = 3 x`: the triangle has area 0 and the three values that the orientation check compares
with `0.` are zero in exact arithmetic.  With every operation rounded to binary64 the three
compared values are `-2^-50`, `0` and `2^-50`, so only the third normal is flipped.  The
stored normals `(-3.3000000000000003, 1.1)`, `(6.6000000000000005, -2.2)`,
`(3.3000000000000003, -1.1)` sum to `(6.6000000000000005, -2.2)` instead of zero, the sensor
with the constant value 1 has the raw gradient `graTri = (6.6000000000000005, -2.2)`, and
the element step, started from zero accumulators, adds `1.1` to slot 0 and
`-0.3666666666666667` to slot 1 of the gradient accumulator of each of the three
vertices. -/
theorem constant_field_counterexample :
    (∀ (k : Nat) (d : Fin 2), fl64 (slantedLine.GetCoord k d) = slantedLine.GetCoord k d) ∧
    triArea (elemCrd slantedLine ![0, 1, 2]) = 0 ∧
    (∀ i, inwardTest2 (elemCrd slantedLine ![0, 1, 2])
      (rawNormals2 (elemCrd slantedLine ![0, 1, 2])) i = 0) ∧
    inwardTestRnd2 fl64 (elemCrd slantedLine ![0, 1, 2])
        (rawNormalsRnd2 fl64 (elemCrd slantedLine ![0, 1, 2])) 0 = -(1 / 2 ^ 50) ∧
    inwardTestRnd2 fl64 (elemCrd slantedLine ![0, 1, 2])
        (rawNormalsRnd2 fl64 (elemCrd slantedLine ![0, 1, 2])) 1 = 0 ∧
    inwardTestRnd2 fl64 (elemCrd slantedLine ![0, 1, 2])
        (rawNormalsRnd2 fl64 (elemCrd slantedLine ![0, 1, 2])) 2 = 1 / 2 ^ 50 ∧
    orientedNormalsRnd2 fl64 (elemCrd slantedLine ![0, 1, 2])
      = { vnx := ![-(7430939385161319 / 2251799813685248), 7430939385161319 / 1125899906842624,
            7430939385161319 / 2251799813685248]
          vny := ![2476979795053773 / 2251799813685248, -(2476979795053773 / 1125899906842624),
            -(2476979795053773 / 2251799813685248)] } ∧
    orientedNormalsRnd2 fl64 (elemCrd slantedLine ![0, 1, 2])
      = orientedNormalsWith2 ![false, false, true] (elemCrd slantedLine ![0, 1, 2]) ∧
    (∑ i, (orientedNormalsRnd2 fl64 (elemCrd slantedLine ![0, 1, 2])).vnx i
      = 7430939385161319 / 1125899906842624) ∧
    (∑ i, (orientedNormalsRnd2 fl64 (elemCrd slantedLine ![0, 1, 2])).vny i
      = -(2476979795053773 / 1125899906842624)) ∧
    (∀ (k : Nat) (iFlux : Fin 2),
      SensRnd fl64 (scalarFlow (fun _ => 1)) (unitNodes : CTurbSAVariable ℚ 2) k iFlux = 1) ∧
    graTriRnd fl64 (orientedNormalsRnd2 fl64 (elemCrd slantedLine ![0, 1, 2])) (fun _ => 1)
      = ![7430939385161319 / 1125899906842624, -(2476979795053773 / 1125899906842624)] ∧
    (∀ k, k < 3 →
      (unitNodes : CTurbSAVariable ℚ 2).AnisoGrad k 0 = 0 ∧
      (unitNodes : CTurbSAVariable ℚ 2).AnisoGrad k 1 = 0 ∧
      (gradElemRnd2 fl64 slantedLine (scalarFlow (fun _ => 1)) unitNodes
          ![0, 1, 2]).AnisoGrad k 0 = 2476979795053773 / 2251799813685248 ∧
      (gradElemRnd2 fl64 slantedLine (scalarFlow (fun _ => 1)) unitNodes
          ![0, 1, 2]).AnisoGrad k 1 = -(825659931684591 / 2251799813685248)) := by
  obtain ⟨t0, t1, t2⟩ := slantedLine_tests
  have hN := slantedLine_normals
  have hdet : det2 (elemCrd slantedLine ![0, 1, 2]) = 0 := by
    simp only [det2, elemCrd, slantedLine]
    norm_num
  refine ⟨slantedLine_representable, ?_, fun i => ?_, ?_, t1, ?_, hN, slantedLine_with, ?_, ?_,
    fun k iFlux => (slantedLine_sensors k iFlux).1,
    slantedLine_graTri, fun k hk => ⟨rfl, rfl, slantedLine_gradient k hk⟩⟩
  · simp only [triArea, hdet, abs_zero, zero_div]
  · rw [inwardTest2_of_raw, hdet, neg_zero]
  · rw [t0]; norm_num
  · rw [t2]; norm_num
  · rw [hN]
    simp only [Fin.sum_univ_three]
    norm_num
  · rw [hN]
    simp only [Fin.sum_univ_three]
    norm_num

/-- C26 (in 3D a degenerate element silently injects a spurious gradient).  For the
zero-volume tetrahedron `(0,0,0), (1,0,0), (0,1,0), (1/4,1/4,0)` the orientation check
flips no normal, the `z`-components of the four stored normals sum to `3/2` instead of 0,
and the constant sensor 1 yields the non-zero raw gradient `graTet_z = 3/2`, of which
`1/16` is added to the `z`-slot of every flux at each of the four vertices; whereas for
every non-degenerate tetrahedron the four oriented normals sum to the zero vector. -/
theorem degenerate_tet_spurious_gradient :
    (tetVolume (elemCrd sliverTet ![0, 1, 2, 3]) = 0 ∧
      orientedNormals3 (elemCrd sliverTet ![0, 1, 2, 3])
        = rawNormals3 (elemCrd sliverTet ![0, 1, 2, 3]) ∧
      ∑ i, (orientedNormals3 (elemCrd sliverTet ![0, 1, 2, 3])).vnz i = 3 / 2 ∧
      graTet (orientedNormals3 (elemCrd sliverTet ![0, 1, 2, 3])) (fun _ => 1) 2 = 3 / 2 ∧
      (∀ (iFlux : Fin 3) (iNode : Fin 4),
        Sens (scalarFlow (fun _ => 1)) (unitNodes : CTurbSAVariable ℚ 3)
          ((![0, 1, 2, 3] : Fin 4 → Nat) iNode) iFlux = 1) ∧
      (∀ (k : Nat) (iFlux : Fin 3), k < 4 →
        (gradSweep3 sliverTet (scalarFlow (fun _ => 1)) unitNodes).AnisoGrad k
          (iFlux.val * 3 + (2 : Fin 3).val) = 1 / 16)) ∧
    (∀ Crd : Fin 4 → Fin 3 → K, det3 Crd ≠ 0 →
      (∑ i, (orientedNormals3 Crd).vnx i = 0) ∧ (∑ i, (orientedNormals3 Crd).vny i = 0) ∧
      (∑ i, (orientedNormals3 Crd).vnz i = 0)) := by
  have hdet : det3 (elemCrd sliverTet ![0, 1, 2, 3]) = 0 := by
    simp [det3, elemCrd, sliverTet]
  have hor := orientedNormals3_of_degenerate _ hdet
  obtain ⟨r0, r1, r2, r3⟩ := sliverTet_raw
  have hsum : ∑ i, (orientedNormals3 (elemCrd sliverTet ![0, 1, 2, 3])).vnz i = 3 / 2 := by
    rw [hor, Fin.sum_univ_four, r0, r1, r2, r3]
    norm_num
  have hgra : graTet (orientedNormals3 (elemCrd sliverTet ![0, 1, 2, 3])) (fun _ => 1) 2
      = 3 / 2 := by
    rw [graTet_eq_sum]
    show ∑ i, (1 : ℚ) * (orientedNormals3 (elemCrd sliverTet ![0, 1, 2, 3])).vnz i = 3 / 2
    simp only [one_mul]
    exact hsum
  refine ⟨⟨by rw [tetVolume, hdet]; simp, hor, hsum, hgra, ?_, ?_⟩, orientedNormals3_sum⟩
  · intro iFlux iNode
    simp [Sens, scalarFlow, unitNodes]
  · intro k iFlux hk
    obtain ⟨h1, -⟩ := gradSweep3_fold sliverTet (scalarFlow (fun _ => 1)) sliverTet.elem
      unitNodes
    have e1 : (gradSweep3 sliverTet (scalarFlow (fun _ => 1)) unitNodes).AnisoGrad k
        (iFlux.val * 3 + (2 : Fin 3).val) = _ := h1 k _
    have helem : sliverTet.elem = [![0, 1, 2, 3]] := rfl
    rw [e1, Sens_scalarFlow, helem]
    simp only [List.map_cons, List.map_nil, List.sum_cons, List.sum_nil, add_zero]
    rw [gradContrib3_slot]
    simp only [hgra]
    have hz : (unitNodes : CTurbSAVariable ℚ 3).AnisoGrad k (iFlux.val * 3 + (2 : Fin 3).val)
        = 0 := rfl
    rw [hz, zero_add, Fin.sum_univ_four]
    have hv : ∀ v, sliverTet.GetVolume v = 1 := fun _ => rfl
    simp only [hv]
    interval_cases k
    · show (if 0 = 0 then (3 / 2 : ℚ) * (1 / (1 * 24)) else 0)
        + (if 0 = 1 then (3 / 2 : ℚ) * (1 / (1 * 24)) else 0)
        + (if 0 = 2 then (3 / 2 : ℚ) * (1 / (1 * 24)) else 0)
        + (if 0 = 3 then (3 / 2 : ℚ) * (1 / (1 * 24)) else 0) = 1 / 16
      norm_num
    · show (if 1 = 0 then (3 / 2 : ℚ) * (1 / (1 * 24)) else 0)
        + (if 1 = 1 then (3 / 2 : ℚ) * (1 / (1 * 24)) else 0)
        + (if 1 = 2 then (3 / 2 : ℚ) * (1 / (1 * 24)) else 0)
        + (if 1 = 3 then (3 / 2 : ℚ) * (1 / (1 * 24)) else 0) = 1 / 16
      norm_num
    · show (if 2 = 0 then (3 / 2 : ℚ) * (1 / (1 * 24)) else 0)
        + (if 2 = 1 then (3 / 2 : ℚ) * (1 / (1 * 24)) else 0)
        + (if 2 = 2 then (3 / 2 : ℚ) * (1 / (1 * 24)) else 0)
        + (if 2 = 3 then (3 / 2 : ℚ) * (1 / (1 * 24)) else 0) = 1 / 16
      norm_num
    · show (if 3 = 0 then (3 / 2 : ℚ) * (1 / (1 * 24)) else 0)
        + (if 3 = 1 then (3 / 2 : ℚ) * (1 / (1 * 24)) else 0)
        + (if 3 = 2 then (3 / 2 : ℚ) * (1 / (1 * 24)) else 0)
        + (if 3 = 3 then (3 / 2 : ℚ) * (1 / (1 * 24)) else 0) = 1 / 16
      norm_num

/-- Witness for C26: the non-degenerate tetrahedron `0 1 2 4` of `doubleTet`. -/
theorem degenerate_tet_spurious_gradient_witness :
    ∑ i, (orientedNormals3 (elemCrd doubleTet ![0, 1, 2, 4])).vnz i = 0 :=
  ((@degenerate_tet_spurious_gradient ℚ _).2 (elemCrd doubleTet ![0, 1, 2, 4])
    (by simp [det3, elemCrd, doubleTet])).2.2

/-- C27 (regularization negates negative semi-definite inputs).  For every symmetric
negative semi-definite matrix `M` (2x2 or 3x3) on which the eigen-solver is exact
(orthonormal eigenvectors, `M = V diag(λ) Vᵗ`), the regularized packed output for the packed
form of `M` is the packed form of `-M`, that is, every packed slot is negated. -/
theorem regularize_negates_nsd (ED2 : EigenSolver K 2) (ED3 : EigenSolver K 3)
    (M2 : Matrix (Fin 2) (Fin 2) K) (M3 : Matrix (Fin 3) (Fin 3) K) :
    (M2.IsSymm → (∀ x, Matrix.dotProduct x (Matrix.mulVec M2 x) ≤ 0) → ExactAt ED2 M2 →
      regularize2 ED2 (pack2 M2) = pack2 (-M2) ∧
      regularize2 ED2 (pack2 M2) = fun m => -pack2 M2 m) ∧
    (M3.IsSymm → (∀ x, Matrix.dotProduct x (Matrix.mulVec M3 x) ≤ 0) → ExactAt ED3 M3 →
      regularize3 ED3 (pack3 M3) = pack3 (-M3) ∧
      regularize3 ED3 (pack3 M3) = fun m => -pack3 M3 m) := by
  constructor
  · intro hsym hnsd hex
    have h : regularize2 ED2 (pack2 M2) = pack2 (-M2) := by
      show pack2 (regularizeDense ED2 (unpack2 (pack2 M2))) = pack2 (-M2)
      rw [unpack2_pack2 M2 hsym, regularizeDense_of_nsd ED2 M2 hex hnsd]
    exact ⟨h, h.trans (pack2_neg M2)⟩
  · intro hsym hnsd hex
    have h : regularize3 ED3 (pack3 M3) = pack3 (-M3) := by
      show pack3 (regularizeDense ED3 (unpack3 (pack3 M3))) = pack3 (-M3)
      rw [unpack3_pack3 M3 hsym, regularizeDense_of_nsd ED3 M3 hex hnsd]
    exact ⟨h, h.trans (pack3_neg M3)⟩

/-- Witness for C27: the negative definite matrices `diag(-1, -3)` and `diag(-1, -2, -3)`
with the eigen-solver that works in the standard basis. -/
theorem regularize_negates_nsd_witness :
    regularize2 (fixedBasisSolver 1) (pack2 (Matrix.diagonal ![-1, -3]))
      = pack2 (-(Matrix.diagonal ![-1, -3] : Matrix (Fin 2) (Fin 2) ℚ)) ∧
    regularize3 (fixedBasisSolver 1) (pack3 (Matrix.diagonal ![-1, -2, -3]))
      = pack3 (-(Matrix.diagonal ![-1, -2, -3] : Matrix (Fin 3) (Fin 3) ℚ)) :=
  ⟨((regularize_negates_nsd (fixedBasisSolver 1) (fixedBasisSolver 1)
      (Matrix.diagonal ![-1, -3]) (Matrix.diagonal ![-1, -2, -3])).1
      (Matrix.isSymm_diagonal _)
      (by
        intro x
        simp only [Matrix.dotProduct, Matrix.mulVec_diagonal, Fin.sum_univ_two]
        simp
        nlinarith [mul_self_nonneg (x 0), mul_self_nonneg (x 1)])
      (fixedBasisSolver_one_exactAt_diagonal _)).1,
    ((regularize_negates_nsd (fixedBasisSolver 1) (fixedBasisSolver 1)
      (Matrix.diagonal ![-1, -3]) (Matrix.diagonal ![-1, -2, -3])).2
      (Matrix.isSymm_diagonal _)
      (by
        intro x
        simp only [Matrix.dotProduct, Matrix.mulVec_diagonal, Fin.sum_univ_three]
        simp
        nlinarith [mul_self_nonneg (x 0), mul_self_nonneg (x 1), mul_self_nonneg (x 2)])
      (fixedBasisSolver_one_exactAt_diagonal _)).1⟩

/-- C28 (the regularized metric does not depend on the eigen-solver's choices).  For every
matrix `M` and any two orthonormal eigen-decompositions `(V1, λ1)`, `(V2, λ2)` of `M`
(whatever the eigenvector signs, the eigenvalue order or the basis chosen for a repeated
eigenvalue), `V1 diag(|λ1|) V1ᵗ = V2 diag(|λ2|) V2ᵗ`; hence two eigen-solvers that are exact
on `M` give the same regularized matrix, and the same regularized packed Hessian in 2D and
3D.  The result is symmetric, positive semi-definite, its square is `M M`, and it is the
only symmetric positive semi-definite matrix with that square. -/
theorem regularize_eigensolver_independent {n : Nat} (M : Matrix (Fin n) (Fin n) K) :
    (∀ (V1 V2 : Matrix (Fin n) (Fin n) K) (l1 l2 : Fin n → K),
      V1.transpose * V1 = 1 → M = V1 * Matrix.diagonal l1 * V1.transpose →
      V2.transpose * V2 = 1 → M = V2 * Matrix.diagonal l2 * V2.transpose →
      EigenRecomposition V1 (fun i => |l1 i|) = EigenRecomposition V2 (fun i => |l2 i|) ∧
      V1 * Matrix.diagonal (fun i => |l1 i|) * V1.transpose
        = V2 * Matrix.diagonal (fun i => |l2 i|) * V2.transpose) ∧
    (∀ ED1 ED2 : EigenSolver K n, ExactAt ED1 M → ExactAt ED2 M →
      regularizeDense ED1 M = regularizeDense ED2 M) ∧
    (∀ ED : EigenSolver K n, ExactAt ED M →
      (regularizeDense ED M).IsSymm ∧ IsPSD (regularizeDense ED M) ∧
      regularizeDense ED M * regularizeDense ED M = M * M ∧
      ∀ X : Matrix (Fin n) (Fin n) K, X.IsSymm → IsPSD X → X * X = M * M →
        X = regularizeDense ED M) ∧
    (∀ (ED1 ED2 : EigenSolver K 2) (p : Fin 3 → K),
      ExactAt ED1 (unpack2 p) → ExactAt ED2 (unpack2 p) →
      regularize2 ED1 p = regularize2 ED2 p) ∧
    (∀ (ED1 ED2 : EigenSolver K 3) (p : Fin 6 → K),
      ExactAt ED1 (unpack3 p) → ExactAt ED2 (unpack3 p) →
      regularize3 ED1 p = regularize3 ED2 p) := by
  refine ⟨?_, ?_, ?_, ?_, ?_⟩
  · intro V1 V2 l1 l2 h1 m1 h2 m2
    have h := recomposition_abs_unique M V1 V2 l1 l2 h1 m1 h2 m2
    exact ⟨h, h⟩
  · intro ED1 ED2 e1 e2
    exact recomposition_abs_unique M _ _ _ _ e1.1 e1.2 e2.1 e2.2
  · intro ED hex
    refine ⟨regularizeDense_isSymm ED M, regularizeDense_isPSD ED M, ?_, ?_⟩
    · show EigenRecomposition _ (fun i => |(ED M).2 i|)
          * EigenRecomposition _ (fun i => |(ED M).2 i|) = M * M
      rw [EigenRecomposition_abs_sq _ _ hex.1]
      unfold EigenRecomposition
      rw [← hex.2]
    · intro X hs hp hsq
      exact psd_sqrt_unique M _ X _ hex.1 hex.2 hs hp hsq
  · intro ED1 ED2 p e1 e2
    show pack2 (regularizeDense ED1 (unpack2 p)) = pack2 (regularizeDense ED2 (unpack2 p))
    have h : regularizeDense ED1 (unpack2 p) = regularizeDense ED2 (unpack2 p) :=
      recomposition_abs_unique (unpack2 p) _ _ _ _ e1.1 e1.2 e2.1 e2.2
    rw [h]
  · intro ED1 ED2 p e1 e2
    show pack3 (regularizeDense ED1 (unpack3 p)) = pack3 (regularizeDense ED2 (unpack3 p))
    have h : regularizeDense ED1 (unpack3 p) = regularizeDense ED2 (unpack3 p) :=
      recomposition_abs_unique (unpack3 p) _ _ _ _ e1.1 e1.2 e2.1 e2.2
    rw [h]

/-- Witness for C28: `diag(-1, -3)` decomposed in the standard basis with eigenvalues
`(-1, -3)` and in the basis with the axes exchanged with eigenvalues `(-3, -1)`. -/
theorem regularize_eigensolver_independent_witness :
    (1 : Matrix (Fin 2) (Fin 2) ℚ) * Matrix.diagonal (fun i => |(![-1, -3] : Fin 2 → ℚ) i|)
        * (1 : Matrix (Fin 2) (Fin 2) ℚ).transpose
      = swapBasis * Matrix.diagonal (fun i => |(![-3, -1] : Fin 2 → ℚ) i|)
        * swapBasis.transpose :=
  ((regularize_eigensolver_independent (Matrix.diagonal ![-1, -3])).1 1 swapBasis
    ![-1, -3] ![-3, -1] (by simp) (by simp) swapBasis_orthonormal swapBasis_decomposition).2

/-- C29 (regularization touches only locally owned vertices).  The regularization loops of
`SetHessian_L2Proj2` and `SetHessian_L2Proj3` rewrite the convective and viscous Hessians of
the vertices below `nPointDomain` only: at every vertex with index `nPointDomain` or above
(the halo copies) both packed Hessians after the call are the values left by the boundary
correction, and the two loops leave the gradient accumulators of every vertex as they
were. -/
theorem regularization_owned_only :
    (∀ (Comms : CommTag → CTurbSAVariable K 2 → CTurbSAVariable K 2)
        (CorrectBoundAnisoHess : CTurbSAVariable K 2 → CTurbSAVariable K 2)
        (ED : EigenSolver K 2) (geometry : CGeometry K 2 3) (nodes : CTurbSAVariable K 2),
      (∀ k, geometry.nPointDomain ≤ k →
        (SetHessian_L2Proj2 Comms CorrectBoundAnisoHess ED geometry nodes).AnisoHess k
          = (CorrectBoundAnisoHess (Comms CommTag.ANISO_HESSIAN_VISC
              (Comms CommTag.ANISO_HESSIAN (hessSweep2 geometry nodes)))).AnisoHess k ∧
        (SetHessian_L2Proj2 Comms CorrectBoundAnisoHess ED geometry nodes).AnisoViscHess k
          = (CorrectBoundAnisoHess (Comms CommTag.ANISO_HESSIAN_VISC
              (Comms CommTag.ANISO_HESSIAN (hessSweep2 geometry nodes)))).AnisoViscHess k) ∧
      (SetHessian_L2Proj2 Comms CorrectBoundAnisoHess ED geometry nodes).AnisoGrad
        = (CorrectBoundAnisoHess (Comms CommTag.ANISO_HESSIAN_VISC
            (Comms CommTag.ANISO_HESSIAN (hessSweep2 geometry nodes)))).AnisoGrad ∧
      (SetHessian_L2Proj2 Comms CorrectBoundAnisoHess ED geometry nodes).AnisoViscGrad
        = (CorrectBoundAnisoHess (Comms CommTag.ANISO_HESSIAN_VISC
            (Comms CommTag.ANISO_HESSIAN (hessSweep2 geometry nodes)))).AnisoViscGrad) ∧
    (∀ (Comms : CommTag → CTurbSAVariable K 3 → CTurbSAVariable K 3)
        (CorrectBoundAnisoHess : CTurbSAVariable K 3 → CTurbSAVariable K 3)
        (ED : EigenSolver K 3) (geometry : CGeometry K 3 4) (nodes : CTurbSAVariable K 3),
      (∀ k, geometry.nPointDomain ≤ k →
        (SetHessian_L2Proj3 Comms CorrectBoundAnisoHess ED geometry nodes).AnisoHess k
          = (CorrectBoundAnisoHess (Comms CommTag.ANISO_HESSIAN_VISC
              (Comms CommTag.ANISO_HESSIAN (hessSweep3 geometry nodes)))).AnisoHess k ∧
        (SetHessian_L2Proj3 Comms CorrectBoundAnisoHess ED geometry nodes).AnisoViscHess k
          = (CorrectBoundAnisoHess (Comms CommTag.ANISO_HESSIAN_VISC
              (Comms CommTag.ANISO_HESSIAN (hessSweep3 geometry nodes)))).AnisoViscHess k) ∧
      (SetHessian_L2Proj3 Comms CorrectBoundAnisoHess ED geometry nodes).AnisoGrad
        = (CorrectBoundAnisoHess (Comms CommTag.ANISO_HESSIAN_VISC
            (Comms CommTag.ANISO_HESSIAN (hessSweep3 geometry nodes)))).AnisoGrad ∧
      (SetHessian_L2Proj3 Comms CorrectBoundAnisoHess ED geometry nodes).AnisoViscGrad
        = (CorrectBoundAnisoHess (Comms CommTag.ANISO_HESSIAN_VISC
            (Comms CommTag.ANISO_HESSIAN (hessSweep3 geometry nodes)))).AnisoViscGrad) := by
  constructor
  · intro Comms CB ED geometry nodes
    refine ⟨?_, ?_, ?_⟩
    · intro k hk
      obtain ⟨h1, h2⟩ := SetHessian_L2Proj2_fields Comms CB ED geometry nodes k
      rw [h1, h2, if_neg (not_lt.mpr hk), if_neg (not_lt.mpr hk)]
      exact ⟨rfl, rfl⟩
    · unfold SetHessian_L2Proj2
      simp only [(regularizeViscHess2_frame ED _ _).2.1, (regularizeHess2_frame ED _ _).2.1]
    · unfold SetHessian_L2Proj2
      simp only [(regularizeViscHess2_frame ED _ _).2.2, (regularizeHess2_frame ED _ _).2.2]
  · intro Comms CB ED geometry nodes
    refine ⟨?_, ?_, ?_⟩
    · intro k hk
      obtain ⟨h1, h2⟩ := SetHessian_L2Proj3_fields Comms CB ED geometry nodes k
      rw [h1, h2, if_neg (not_lt.mpr hk), if_neg (not_lt.mpr hk)]
      exact ⟨rfl, rfl⟩
    · unfold SetHessian_L2Proj3
      simp only [(regularizeViscHess3_frame ED _ _).2.1, (regularizeHess3_frame ED _ _).2.1]
    · unfold SetHessian_L2Proj3
      simp only [(regularizeViscHess3_frame ED _ _).2.2, (regularizeHess3_frame ED _ _).2.2]

/-- Witness for C29: the halo vertex 2 of `haloMesh` (`nPointDomain = 2`, `nPoint = 3`). -/
theorem regularization_owned_only_witness :
    (SetHessian_L2Proj2 haloComms id (fixedBasisSolver 1) haloMesh exampleNodes).AnisoHess 2
      = (id (haloComms CommTag.ANISO_HESSIAN_VISC
          (haloComms CommTag.ANISO_HESSIAN (hessSweep2 haloMesh exampleNodes)))).AnisoHess 2 :=
  (((regularization_owned_only.1 haloComms id (fixedBasisSolver 1) haloMesh exampleNodes).1)
    2 (by decide)).1

/-- C30 (frame of the element sweeps).  The gradient sweep writes only the convective and
viscous gradient accumulators, and the Hessian sweep writes only the two Hessian
accumulators, leaving the gradient field it reads unchanged.  In both sweeps the
accumulators of a vertex that no element references are unchanged, and within a vertex only
the slots `iFlux*nDim + d` (gradient, `d < nDim`) or `iFlux*nMetr + m` (Hessian,
`m < nMetr`) with `iFlux < nFluxMetr` can change (`nFluxMetr = nDim`, `nMetr = 3` in 2D and
`6` in 3D); distinct pairs `(iFlux, d)` or `(iFlux, m)` map to distinct slots. -/
theorem sweep_frame :
    (∀ (geometry : CGeometry K 2 3) (solver_flow : CFlowVariable K 2)
        (nodes : CTurbSAVariable K 2),
      ((gradSweep2 geometry solver_flow nodes).GetSolution = nodes.GetSolution ∧
        (gradSweep2 geometry solver_flow nodes).GetGradient = nodes.GetGradient ∧
        (gradSweep2 geometry solver_flow nodes).AnisoHess = nodes.AnisoHess ∧
        (gradSweep2 geometry solver_flow nodes).AnisoViscHess = nodes.AnisoViscHess) ∧
      (∀ k s, ((∀ e ∈ geometry.elem, ∀ iNode, e iNode ≠ k)
          ∨ (∀ iFlux d, iFlux < 2 → d < 2 → s ≠ iFlux * 2 + d)) →
        (gradSweep2 geometry solver_flow nodes).AnisoGrad k s = nodes.AnisoGrad k s ∧
        (gradSweep2 geometry solver_flow nodes).AnisoViscGrad k s
          = nodes.AnisoViscGrad k s)) ∧
    (∀ (geometry : CGeometry K 3 4) (solver_flow : CFlowVariable K 3)
        (nodes : CTurbSAVariable K 3),
      ((gradSweep3 geometry solver_flow nodes).GetSolution = nodes.GetSolution ∧
        (gradSweep3 geometry solver_flow nodes).GetGradient = nodes.GetGradient ∧
        (gradSweep3 geometry solver_flow nodes).AnisoHess = nodes.AnisoHess ∧
        (gradSweep3 geometry solver_flow nodes).AnisoViscHess = nodes.AnisoViscHess) ∧
      (∀ k s, ((∀ e ∈ geometry.elem, ∀ iNode, e iNode ≠ k)
          ∨ (∀ iFlux d, iFlux < 3 → d < 3 → s ≠ iFlux * 3 + d)) →
        (gradSweep3 geometry solver_flow nodes).AnisoGrad k s = nodes.AnisoGrad k s ∧
        (gradSweep3 geometry solver_flow nodes).AnisoViscGrad k s
          = nodes.AnisoViscGrad k s)) ∧
    (∀ (geometry : CGeometry K 2 3) (nodes : CTurbSAVariable K 2),
      ((hessSweep2 geometry nodes).GetSolution = nodes.GetSolution ∧
        (hessSweep2 geometry nodes).GetGradient = nodes.GetGradient ∧
        (hessSweep2 geometry nodes).AnisoGrad = nodes.AnisoGrad ∧
        (hessSweep2 geometry nodes).AnisoViscGrad = nodes.AnisoViscGrad) ∧
      (∀ k s, ((∀ e ∈ geometry.elem, ∀ iNode, e iNode ≠ k)
          ∨ (∀ iFlux m, iFlux < 2 → m < 3 → s ≠ iFlux * 3 + m)) →
        (hessSweep2 geometry nodes).AnisoHess k s = nodes.AnisoHess k s ∧
        (hessSweep2 geometry nodes).AnisoViscHess k s = nodes.AnisoViscHess k s)) ∧
    (∀ (geometry : CGeometry K 3 4) (nodes : CTurbSAVariable K 3),
      ((hessSweep3 geometry nodes).GetSolution = nodes.GetSolution ∧
        (hessSweep3 geometry nodes).GetGradient = nodes.GetGradient ∧
        (hessSweep3 geometry nodes).AnisoGrad = nodes.AnisoGrad ∧
        (hessSweep3 geometry nodes).AnisoViscGrad = nodes.AnisoViscGrad) ∧
      (∀ k s, ((∀ e ∈ geometry.elem, ∀ iNode, e iNode ≠ k)
          ∨ (∀ iFlux m, iFlux < 3 → m < 6 → s ≠ iFlux * 6 + m)) →
        (hessSweep3 geometry nodes).AnisoHess k s = nodes.AnisoHess k s ∧
        (hessSweep3 geometry nodes).AnisoViscHess k s = nodes.AnisoViscHess k s)) ∧
    (∀ (nSlot iFlux m iFlux' m' : Nat), m < nSlot → m' < nSlot →
      iFlux * nSlot + m = iFlux' * nSlot + m' → iFlux = iFlux' ∧ m = m') := by
  refine ⟨gradSweep2_frame, gradSweep3_frame, hessSweep2_frame, hessSweep3_frame, ?_⟩
  intro nSlot iFlux m iFlux' m' hm hm' h
  have hq : (iFlux * nSlot + m) / nSlot = (iFlux' * nSlot + m') / nSlot := by rw [h]
  have hpos : 0 < nSlot := by omega
  rw [Nat.add_comm, Nat.add_mul_div_right _ _ hpos, Nat.div_eq_of_lt hm, Nat.zero_add,
    Nat.add_comm, Nat.add_mul_div_right _ _ hpos, Nat.div_eq_of_lt hm', Nat.zero_add] at hq
  subst hq
  exact ⟨rfl, by omega⟩

/-- Witness for C30: vertex 7 is referenced by no triangle of `squareMesh`, and slot 4 is
not a gradient slot in 2D; the slots of the pairs `(2, 1)` and `(1, 1)` differ. -/
theorem sweep_frame_witness :
    (gradSweep2 squareMesh squareFlow squareNodes).AnisoGrad 7 0 = squareNodes.AnisoGrad 7 0 ∧
    (gradSweep2 squareMesh squareFlow squareNodes).AnisoViscGrad 2 4
      = squareNodes.AnisoViscGrad 2 4 ∧
    2 * 3 + 1 ≠ 1 * 3 + 1 :=
  ⟨(((@sweep_frame ℚ _).1 squareMesh squareFlow squareNodes).2 7 0
      (Or.inl (by
        intro e he iNode
        simp only [squareMesh, List.mem_cons, List.mem_singleton, List.not_mem_nil,
          or_false] at he
        rcases he with rfl | rfl <;> fin_cases iNode <;> simp))).1,
    (((@sweep_frame ℚ _).1 squareMesh squareFlow squareNodes).2 2 4
      (Or.inr (by intro iFlux d h1 h2; omega))).2,
    fun h => absurd ((@sweep_frame ℚ _).2.2.2.2 3 2 1 1 1 (by norm_num) (by norm_num) h).1
      (by norm_num)⟩

end Claims

end SU2
